import Mathlib

/-!
# Strong-form DG residual and Jacobian assembly (PHiLiP)

A shallow embedding of `src/dg/strong_dg.cpp`:

* `ADtype` embeds `Sacado::Fad::DFad<real>` (a value and a derivative vector);
* `FEValues` embeds the view of `dealii::FEValues` / `dealii::FEFaceValues` the
  assemblers read (shape tables, quadrature weights, normals);
* `DGStrong` embeds the members of the class the assemblers read and write;
* `assemble_cell_terms_implicit`, `assemble_boundary_term_implicit` and
  `assemble_face_term_implicit` embed the three member functions.

The template parameter `real` (instantiated with `double` in the source) is
embedded by the rationals: every statement below is one of exact arithmetic.
-/

namespace PHiLiP

/-- The template parameter `real` of `DGStrong<dim,nstate,real>`, in exact arithmetic. -/
abbrev real := ℚ

/-! ## The AD scalar layer -/

/-- Embeds `Sacado::Fad::DFad<real>`: a value `val()` and the derivative vector read by `dx(k)`.
`dx(k)` of a number that carries no derivatives is `0` in Sacado, so the derivative
vector is a total function of the index. -/
@[ext]
structure ADtype where
  /-- Embeds `val()` -/
  val : real
  /-- Embeds `dx(k)` -/
  dx : ℕ → real

namespace ADtype

/-- Conversion of a passive `real` to an AD scalar (no derivative components). -/
def ofReal (x : real) : ADtype := ⟨x, fun _ => 0⟩

/-- Embeds `x.diff(k, n)`: keeps the value and makes `x` the `k`-th of `n` independent variables,
that is, sets the derivative vector to the `k`-th unit vector. -/
def diff (x : ADtype) (k : ℕ) (_n : ℕ) : ADtype := ⟨x.val, fun j => if j = k then 1 else 0⟩

instance : Zero ADtype := ⟨ofReal 0⟩
instance : One ADtype := ⟨ofReal 1⟩
instance : Add ADtype := ⟨fun a b => ⟨a.val + b.val, fun k => a.dx k + b.dx k⟩⟩
instance : Neg ADtype := ⟨fun a => ⟨-a.val, fun k => -a.dx k⟩⟩
instance : Sub ADtype := ⟨fun a b => ⟨a.val - b.val, fun k => a.dx k - b.dx k⟩⟩
instance : Mul ADtype := ⟨fun a b => ⟨a.val * b.val, fun k => a.dx k * b.val + a.val * b.dx k⟩⟩
instance : NatCast ADtype := ⟨fun n => ofReal n⟩
instance : IntCast ADtype := ⟨fun n => ofReal n⟩

/-- The AD scalars form a commutative ring (the ring of first-order jets), which makes the
algebra of the residual expressions available to `ring`. -/
instance : CommRing ADtype where
  add_assoc a b c := ADtype.ext (add_assoc a.val b.val c.val)
    (funext fun k => add_assoc (a.dx k) (b.dx k) (c.dx k))
  zero_add a := ADtype.ext (zero_add a.val) (funext fun k => zero_add (a.dx k))
  add_zero a := ADtype.ext (add_zero a.val) (funext fun k => add_zero (a.dx k))
  add_comm a b := ADtype.ext (add_comm a.val b.val) (funext fun k => add_comm (a.dx k) (b.dx k))
  neg_add_cancel a := ADtype.ext (neg_add_cancel a.val) (funext fun k => neg_add_cancel (a.dx k))
  sub_eq_add_neg a b := ADtype.ext (sub_eq_add_neg a.val b.val)
    (funext fun k => sub_eq_add_neg (a.dx k) (b.dx k))
  mul_assoc a b c := ADtype.ext (mul_assoc a.val b.val c.val) (funext fun k => by
    show (a.dx k * b.val + a.val * b.dx k) * c.val + a.val * b.val * c.dx k
      = a.dx k * (b.val * c.val) + a.val * (b.dx k * c.val + b.val * c.dx k)
    ring)
  one_mul a := ADtype.ext (one_mul a.val) (funext fun k => by
    show 0 * a.val + 1 * a.dx k = a.dx k
    ring)
  mul_one a := ADtype.ext (mul_one a.val) (funext fun k => by
    show a.dx k * 1 + a.val * 0 = a.dx k
    ring)
  zero_mul a := ADtype.ext (zero_mul a.val) (funext fun k => by
    show 0 * a.val + 0 * a.dx k = 0
    ring)
  mul_zero a := ADtype.ext (mul_zero a.val) (funext fun k => by
    show a.dx k * 0 + a.val * 0 = 0
    ring)
  left_distrib a b c := ADtype.ext (mul_add a.val b.val c.val) (funext fun k => by
    show a.dx k * (b.val + c.val) + a.val * (b.dx k + c.dx k)
      = a.dx k * b.val + a.val * b.dx k + (a.dx k * c.val + a.val * c.dx k)
    ring)
  right_distrib a b c := ADtype.ext (add_mul a.val b.val c.val) (funext fun k => by
    show (a.dx k + b.dx k) * c.val + (a.val + b.val) * c.dx k
      = a.dx k * c.val + a.val * c.dx k + (b.dx k * c.val + b.val * c.dx k)
    ring)
  mul_comm a b := ADtype.ext (mul_comm a.val b.val) (funext fun k => by
    show a.dx k * b.val + a.val * b.dx k = b.dx k * a.val + b.val * a.dx k
    ring)
  nsmul := nsmulRec
  zsmul := zsmulRec
  natCast_zero := ADtype.ext (Nat.cast_zero : ((0 : ℕ) : real) = 0) rfl
  natCast_succ n := ADtype.ext (Nat.cast_succ n : ((n + 1 : ℕ) : real) = n + 1)
    (funext fun _ => (add_zero (0 : real)).symm)
  intCast_ofNat n := ADtype.ext (Int.cast_natCast n : (((n : ℕ) : ℤ) : real) = n) rfl
  intCast_negSucc n := ADtype.ext
    (Int.cast_negSucc n : ((Int.negSucc n : ℤ) : real) = -((n + 1 : ℕ) : real))
    (funext fun _ => (neg_zero : -(0 : real) = 0).symm)

end ADtype

/-! ## Containers -/

/-- Embeds `dealii::Tensor<1,dim,T>`: component `d` for `d < dim`. -/
abbrev Tensor1 (T : Type) := ℕ → T

/-- Embeds `std::array<ADtype,nstate>`. -/
abbrev ADArray := ℕ → ADtype

/-- Embeds `std::array<dealii::Tensor<1,dim,ADtype>,nstate>`: indexed `[istate][d]`. -/
abbrev ADArrayTensor1 := ℕ → Tensor1 ADtype

/-- Embeds `dealii::Vector<real>`: the residual accumulator and the solution vector. -/
abbrev RealVector := ℕ → real

/-- The global system matrix, `(row, column) ↦ entry`. -/
abbrev SystemMatrix := ℕ → ℕ → real

/-- Embeds `for (unsigned int i = 0; i < n; ++i) st = body(st, i);` -/
def forLoop {σ : Type} (n : ℕ) (init : σ) (body : σ → ℕ → σ) : σ :=
  (List.range n).foldl body init

/-- The contraction `a * b` of a `Tensor<1,dim,ADtype>` with a `Tensor<1,dim,real>`. -/
def dotAR (dim : ℕ) (a : Tensor1 ADtype) (b : Tensor1 real) : ADtype :=
  forLoop dim 0 (fun acc d => acc + a d * ADtype.ofReal (b d))

/-- The contraction `a * b` of a `Tensor<1,dim,real>` with a `Tensor<1,dim,ADtype>`. -/
def dotRA (dim : ℕ) (a : Tensor1 real) (b : Tensor1 ADtype) : ADtype :=
  forLoop dim 0 (fun acc d => acc + ADtype.ofReal (a d) * b d)

/-- The conversion `Tensor<1,dim,ADtype> normal_int = normals[iquad]`. -/
def tensorOfReal (n : Tensor1 real) : Tensor1 ADtype := fun d => ADtype.ofReal (n d)

/-- The product `s * n` of an AD scalar with a `Tensor<1,dim,ADtype>`. -/
def scaleT (s : ADtype) (n : Tensor1 ADtype) : Tensor1 ADtype := fun d => s * n d

/-- Embeds `m(i) += v` on a `dealii::Vector`. -/
def RealVector.add (m : RealVector) (i : ℕ) (v : real) : RealVector :=
  Function.update m i (m i + v)

/-- Embeds `system_matrix.add(row, col_indices, values)`: adds `values[k]` to the entry
`(row, col_indices[k])` for every `k`. -/
def SystemMatrix.add (m : SystemMatrix) (row : ℕ) (col_indices : List ℕ) (values : ℕ → real) :
    SystemMatrix :=
  forLoop col_indices.length m (fun m k =>
    Function.update m row
      (Function.update (m row) (col_indices.getD k 0) (m row (col_indices.getD k 0) + values k)))

/-! ## Collaborators -/

/-- The part of `dealii::FEValues` / `dealii::FEFaceValues` the assemblers read.
The tables are defined for `idof < dofs_per_cell` and `iquad < n_quadrature_points`. -/
structure FEValues where
  /-- Embeds `n_quadrature_points` -/
  n_quadrature_points : ℕ
  /-- Embeds `dofs_per_cell` -/
  dofs_per_cell : ℕ
  /-- Embeds `get_fe().system_to_component_index(idof).first` -/
  system_to_component_index : ℕ → ℕ
  /-- Embeds `shape_value_component(idof, iquad, istate)` -/
  shape_value_component : ℕ → ℕ → ℕ → real
  /-- Embeds `shape_grad_component(idof, iquad, istate)` -/
  shape_grad_component : ℕ → ℕ → ℕ → Tensor1 real
  /-- Embeds `shape_grad(idof, iquad)` -/
  shape_grad : ℕ → ℕ → Tensor1 real
  /-- Embeds `JxW(iquad)`, `get_JxW_values()[iquad]` -/
  JxW : ℕ → real
  /-- Embeds `get_normal_vectors()[iquad]` -/
  normal_vector : ℕ → Tensor1 real
  /-- Embeds `quadrature_point(iquad)`, `get_quadrature_points()[iquad]` -/
  quadrature_point : ℕ → Tensor1 real

/-- Embeds `Physics::PhysicsBase<dim,nstate,ADtype>`: the virtual functions the assemblers call. -/
structure PhysicsBase where
  /-- Embeds `convective_flux(solution)` -/
  convective_flux : ADArray → ADArrayTensor1
  /-- Embeds `dissipative_flux(solution, solution_gradient)` -/
  dissipative_flux : ADArray → ADArrayTensor1 → ADArrayTensor1
  /-- Embeds `source_term(pos, solution)` -/
  source_term : Tensor1 real → ADArray → ADArray
  /-- Embeds `boundary_face_values(boundary_type, pos, normal, soln_int, soln_grad_int,
  soln_bc, soln_grad_bc)`; the two output arguments are returned as a pair. -/
  boundary_face_values :
    ℕ → Tensor1 real → Tensor1 ADtype → ADArray → ADArrayTensor1 → ADArray × ADArrayTensor1

/-- The convective numerical flux object `conv_num_flux`. -/
structure NumericalFluxConvective where
  /-- Embeds `evaluate_flux(soln_int, soln_ext, normal_int)` -/
  evaluate_flux : ADArray → ADArray → Tensor1 ADtype → ADArray

/-- The dissipative numerical flux object `diss_num_flux`. -/
structure NumericalFluxDissipative where
  /-- Embeds `evaluate_solution_flux(soln_int, soln_ext, normal_int)` -/
  evaluate_solution_flux : ADArray → ADArray → Tensor1 ADtype → ADArray
  /-- Embeds `evaluate_auxiliary_flux(soln_int, soln_ext, soln_grad_int, soln_grad_ext,
  normal_int, penalty, on_boundary)`; `on_boundary` defaults to `false` in the interior-face
  call. -/
  evaluate_auxiliary_flux :
    ADArray → ADArray → ADArrayTensor1 → ADArrayTensor1 → Tensor1 ADtype → real → Bool → ADArray

/-- Modelled from the spec: one entry of `split_fluxes->split_convective_fluxes`, whose
declaration is not part of the sources at hand. A split-flux pair is two scalar-valued flux
functions `f`, `g` of the state plus a blend weight `alpha`. -/
structure SplitFluxPair where
  /-- Embeds `f(State)` -/
  f : ADArray → ADtype
  /-- Embeds `g(State)` -/
  g : ADArray → ADtype
  /-- Embeds `alpha` -/
  alpha : real

instance : Inhabited SplitFluxPair := ⟨⟨fun _ => 0, fun _ => 0, 0⟩⟩

/-- Modelled from the spec: the registry `split_fluxes->split_convective_fluxes`, a finite
multi-dimensional, multi-pair set of split-flux pairs indexed `[idim][istate][isplit]`. -/
abbrev SplitForm := List (List (List SplitFluxPair))

/-- Whether `split_convective_fluxes[idim][istate][isplit]` exists. -/
def SplitForm.has (sf : SplitForm) (idim istate isplit : ℕ) : Bool :=
  decide (isplit < ((sf.getD idim []).getD istate []).length)

/-- The pair `split_convective_fluxes[idim][istate][isplit]`. -/
def SplitForm.get (sf : SplitForm) (idim istate isplit : ℕ) : SplitFluxPair :=
  ((sf.getD idim []).getD istate []).getD isplit default

/-- Embeds `Parameters::ODESolverParam::ODESolverEnum` -/
inductive ODESolverEnum where
  | explicit_solver
  | implicit_solver
  deriving DecidableEq, Repr

/-- The members of `Parameters::AllParameters` the assemblers read. -/
structure AllParameters where
  /-- Embeds `use_split_form` -/
  use_split_form : Bool
  /-- Embeds `use_collocated_nodes` -/
  use_collocated_nodes : Bool
  /-- Embeds `manufactured_convergence_study_param.use_manufactured_source_term` -/
  use_manufactured_source_term : Bool
  /-- Embeds `ode_solver_param.ode_solver_type` -/
  ode_solver_type : ODESolverEnum

/-- The members of `DGStrong<dim,nstate,real>` (and of its base `DGBase`) the assemblers
read and write. -/
structure DGStrong where
  /-- Template parameter `dim` -/
  dim : ℕ
  /-- Template parameter `nstate` -/
  nstate : ℕ
  /-- Embeds `all_parameters` -/
  all_parameters : AllParameters
  /-- Embeds `pde_physics` -/
  pde_physics : PhysicsBase
  /-- Embeds `conv_num_flux` -/
  conv_num_flux : NumericalFluxConvective
  /-- Embeds `diss_num_flux` -/
  diss_num_flux : NumericalFluxDissipative
  /-- Embeds `split_fluxes->split_convective_fluxes` -/
  split_fluxes : SplitForm
  /-- Embeds `DGBase::solution` -/
  solution : RealVector
  /-- Embeds `system_matrix` -/
  system_matrix : SystemMatrix

/-- How an assembler call can fail. -/
inductive AssemblyError where
  /-- Raised when `AssertDimension` failed -/
  | dimension_mismatch
  /-- an array, table or registry is read or written outside its range -/
  | index_out_of_range
  /-- an `assert` failed -/
  | assertion_failed
  deriving DecidableEq, Repr

/-! ## Steps shared by the three assemblers -/

/-- The seeding loops (lines 81-85, 266-271, 416-424):
`soln_coeff[idof] = solution(dofs_indices[idof]);`
`soln_coeff[idof].diff(idof + offset, n_total_indep);` -/
def seed_soln_coeff (solution : RealVector) (dofs_indices : List ℕ) (offset n_total_indep : ℕ)
    (idof : ℕ) : ADtype :=
  (ADtype.ofReal (solution (dofs_indices.getD idof 0))).diff (idof + offset) n_total_indep

/-- The interpolation loop on the solution at one quadrature point (lines 95-97, 287-289,
439-441, 444-446): starting from zero,
`soln[istate] += soln_coeff[idof] * shape_value_component(idof, iquad, istate)` with
`istate = system_to_component_index(idof).first`. -/
def interpolate_soln (fe : FEValues) (soln_coeff : ℕ → ADtype) (iquad : ℕ) : ADArray :=
  forLoop fe.dofs_per_cell (fun _ => 0) (fun soln idof =>
    let istate := fe.system_to_component_index idof
    Function.update soln istate
      (soln istate + soln_coeff idof * ADtype.ofReal (fe.shape_value_component idof iquad istate)))

/-- The interpolation loop on the gradient at one quadrature point (lines 98, 290, 442, 447):
`soln_grad[istate] += soln_coeff[idof] * shape_grad_component(idof, iquad, istate)`. -/
def interpolate_grad (fe : FEValues) (soln_coeff : ℕ → ADtype) (iquad : ℕ) : ADArrayTensor1 :=
  forLoop fe.dofs_per_cell (fun _ _ => 0) (fun grad idof =>
    let istate := fe.system_to_component_index idof
    Function.update grad istate
      (fun d => grad istate d
        + soln_coeff idof * ADtype.ofReal (fe.shape_grad_component idof iquad istate d)))

/-- The writes `soln[istate]` of the interpolation loops stay inside `std::array<_,nstate>`. -/
def interpolation_in_range (nstate : ℕ) (fe : FEValues) (n_quad_pts : ℕ) : Prop :=
  ∀ iquad, iquad < n_quad_pts → ∀ idof, idof < fe.dofs_per_cell →
    fe.system_to_component_index idof < nstate

instance (nstate : ℕ) (fe : FEValues) (n_quad_pts : ℕ) :
    Decidable (interpolation_in_range nstate fe n_quad_pts) := by
  unfold interpolation_in_range; infer_instance

/-- The scatter at the end of every test-function iteration (lines 217-225, 347-355):
`local_rhs(itest) += rhs.val()` and, for the implicit solver,
`system_matrix.add(dofs[itest], dofs, residual_derivatives)` with
`residual_derivatives[idof] = rhs.dx(idof)`. -/
def scatter (params : AllParameters) (dofs_indices : List ℕ) (itest : ℕ) (rhs : ADtype)
    (acc : RealVector × SystemMatrix) : RealVector × SystemMatrix :=
  (acc.1.add itest rhs.val,
   if params.ode_solver_type = ODESolverEnum.implicit_solver then
     acc.2.add (dofs_indices.getD itest 0) dofs_indices (fun idof => rhs.dx idof)
   else acc.2)

/-! ## The cell assembler -/

/-- The arrays written by the flux-divergence loops of lines 120-151. -/
@[ext]
structure FluxLoopState where
  /-- Embeds `flux_divergence[iquad][istate]` -/
  flux_divergence : ℕ → ADArray
  /-- Embeds `f1[iquad]` -/
  f1 : ℕ → ADtype
  /-- Embeds `f2[iquad]` -/
  f2 : ℕ → ADtype
  /-- Embeds `g1[iquad]` -/
  g1 : ℕ → ADtype
  /-- Embeds `g2[iquad]` -/
  g2 : ℕ → ADtype

/-- Lines 133-140: the body of the `flux_basis` loop. -/
def cell_flux_basis_body (dg : DGStrong) (fe_values_vol fe_values_lagrange : FEValues)
    (soln_at_q : ℕ → ADArray) (conv_phys_flux_at_q : ℕ → ADArrayTensor1) (istate iquad : ℕ)
    (st : FluxLoopState) (flux_basis : ℕ) : FluxLoopState :=
  let shape_grad_0 :=
    ADtype.ofReal (fe_values_vol.shape_grad_component flux_basis iquad istate 0)
  { flux_divergence :=
      Function.update st.flux_divergence iquad
        (Function.update (st.flux_divergence iquad) istate
          (st.flux_divergence iquad istate
            + dotAR dg.dim (conv_phys_flux_at_q flux_basis istate)
                (fe_values_lagrange.shape_grad flux_basis iquad)))
    f1 := Function.update st.f1 iquad
      (st.f1 iquad + (dg.split_fluxes.get 0 0 0).f (soln_at_q flux_basis) * shape_grad_0)
    f2 := Function.update st.f2 iquad
      (st.f2 iquad + (dg.split_fluxes.get 0 0 1).f (soln_at_q flux_basis) * shape_grad_0)
    g1 := Function.update st.g1 iquad
      (st.g1 iquad + (dg.split_fluxes.get 0 0 0).g (soln_at_q flux_basis) * shape_grad_0)
    g2 := Function.update st.g2 iquad
      (st.g2 iquad + (dg.split_fluxes.get 0 0 1).g (soln_at_q flux_basis) * shape_grad_0) }

/-- Lines 127-131: the resets at the head of the `iquad` loop body. -/
def cell_flux_reset (istate iquad : ℕ) (st : FluxLoopState) : FluxLoopState :=
  { flux_divergence :=
      Function.update st.flux_divergence iquad
        (Function.update (st.flux_divergence iquad) istate 0)
    f1 := Function.update st.f1 iquad 0
    f2 := Function.update st.f2 iquad 0
    g1 := Function.update st.g1 iquad 0
    g2 := Function.update st.g2 iquad 0 }

/-- Lines 125-151: the loops over `istate`, `iquad` and `flux_basis`. -/
def cell_flux_loops (dg : DGStrong) (fe_values_vol fe_values_lagrange : FEValues)
    (soln_at_q : ℕ → ADArray) (conv_phys_flux_at_q : ℕ → ADArrayTensor1) : FluxLoopState :=
  let n_quad_pts := fe_values_vol.n_quadrature_points
  forLoop dg.nstate ⟨fun _ _ => 0, fun _ => 0, fun _ => 0, fun _ => 0, fun _ => 0⟩
    (fun st istate =>
      forLoop n_quad_pts st (fun st iquad =>
        forLoop n_quad_pts (cell_flux_reset istate iquad st)
          (cell_flux_basis_body dg fe_values_vol fe_values_lagrange soln_at_q
            conv_phys_flux_at_q istate iquad)))

/-- The reads of lines 133-140 are in range: whenever the loop body runs, `flux_basis` and
`iquad` index the Lagrange tables, `flux_basis` indexes the solution basis, and the two
hard-coded registry entries exist. -/
def cell_flux_loops_in_range (dg : DGStrong) (fe_values_vol fe_values_lagrange : FEValues) :
    Prop :=
  0 < dg.nstate → 0 < fe_values_vol.n_quadrature_points →
    (fe_values_vol.n_quadrature_points ≤ fe_values_lagrange.dofs_per_cell
      ∧ fe_values_vol.n_quadrature_points ≤ fe_values_lagrange.n_quadrature_points
      ∧ fe_values_vol.n_quadrature_points ≤ fe_values_vol.dofs_per_cell
      ∧ dg.split_fluxes.has 0 0 0 = true ∧ dg.split_fluxes.has 0 0 1 = true)

instance (dg : DGStrong) (fe_values_vol fe_values_lagrange : FEValues) :
    Decidable (cell_flux_loops_in_range dg fe_values_vol fe_values_lagrange) := by
  unfold cell_flux_loops_in_range; infer_instance

/-- Lines 168-179: the split-form block of one test function, applied to `rhs = 0`. -/
def cell_split_rhs (dg : DGStrong) (fe_values_vol : FEValues) (soln_at_q : ℕ → ADArray)
    (st : FluxLoopState) (itest : ℕ) (rhs : ADtype) : ADtype :=
  let istate := fe_values_vol.system_to_component_index itest
  let inter := forLoop fe_values_vol.n_quadrature_points ((0 : ADtype), (0 : ADtype))
    (fun inter iquad =>
      let inter2 := inter.2
        + ADtype.ofReal (fe_values_vol.shape_value_component itest iquad istate) * st.g2 iquad
          * ADtype.ofReal (fe_values_vol.JxW iquad)
      let inter1 := inter.1
        + ADtype.ofReal (fe_values_vol.shape_value_component itest iquad istate) * st.g1 iquad
          * ADtype.ofReal (fe_values_vol.JxW iquad)
      (inter1, inter2))
  let rhs := rhs - inter.1 * (dg.split_fluxes.get 0 0 0).f (soln_at_q itest)
    * ADtype.ofReal (dg.split_fluxes.get 0 0 0).alpha
  rhs - inter.2 * (dg.split_fluxes.get 0 0 1).f (soln_at_q itest)
    * ADtype.ofReal (dg.split_fluxes.get 0 0 1).alpha

/-- Lines 198-215: the body of the quadrature loop of one test function. -/
def cell_quad_body (dg : DGStrong) (fe_values_vol : FEValues)
    (diss_phys_flux_at_q : ℕ → ADArrayTensor1) (source_at_q : ℕ → ADArray)
    (st : FluxLoopState) (itest : ℕ) (rhs : ADtype) (iquad : ℕ) : ADtype :=
  let istate := fe_values_vol.system_to_component_index itest
  let rhs :=
    if dg.all_parameters.use_split_form = false then
      rhs - ADtype.ofReal (fe_values_vol.shape_value_component itest iquad istate)
        * st.flux_divergence iquad istate * ADtype.ofReal (fe_values_vol.JxW iquad)
    else rhs
  let rhs := rhs
    + dotRA dg.dim (fe_values_vol.shape_grad_component itest iquad istate)
        (diss_phys_flux_at_q iquad istate) * ADtype.ofReal (fe_values_vol.JxW iquad)
  if dg.all_parameters.use_manufactured_source_term then
    rhs + ADtype.ofReal (fe_values_vol.shape_value_component itest iquad istate)
      * source_at_q iquad istate * ADtype.ofReal (fe_values_vol.JxW iquad)
  else rhs

/-- Lines 69-111: `soln_at_q[iquad]`. -/
def cell_soln_at_q (dg : DGStrong) (fe_values_vol : FEValues) (cell_dofs_indices : List ℕ)
    (iquad : ℕ) : ADArray :=
  interpolate_soln fe_values_vol
    (seed_soln_coeff dg.solution cell_dofs_indices 0 fe_values_vol.dofs_per_cell) iquad

/-- Lines 70-111: `soln_grad_at_q[iquad]`. -/
def cell_soln_grad_at_q (dg : DGStrong) (fe_values_vol : FEValues)
    (cell_dofs_indices : List ℕ) (iquad : ℕ) : ADArrayTensor1 :=
  interpolate_grad fe_values_vol
    (seed_soln_coeff dg.solution cell_dofs_indices 0 fe_values_vol.dofs_per_cell) iquad

/-- Line 104: `conv_phys_flux_at_q[iquad]`. -/
def cell_conv_phys_flux_at_q (dg : DGStrong) (fe_values_vol : FEValues)
    (cell_dofs_indices : List ℕ) (iquad : ℕ) : ADArrayTensor1 :=
  dg.pde_physics.convective_flux (cell_soln_at_q dg fe_values_vol cell_dofs_indices iquad)

/-- Line 105: `diss_phys_flux_at_q[iquad]`. -/
def cell_diss_phys_flux_at_q (dg : DGStrong) (fe_values_vol : FEValues)
    (cell_dofs_indices : List ℕ) (iquad : ℕ) : ADArrayTensor1 :=
  dg.pde_physics.dissipative_flux (cell_soln_at_q dg fe_values_vol cell_dofs_indices iquad)
    (cell_soln_grad_at_q dg fe_values_vol cell_dofs_indices iquad)

/-- Lines 109-111: `source_at_q[iquad]`, left at its zero initial value unless a manufactured
source term is configured. -/
def cell_source_at_q (dg : DGStrong) (fe_values_vol : FEValues) (cell_dofs_indices : List ℕ)
    (iquad : ℕ) : ADArray :=
  if dg.all_parameters.use_manufactured_source_term then
    dg.pde_physics.source_term (fe_values_vol.quadrature_point iquad)
      (cell_soln_at_q dg fe_values_vol cell_dofs_indices iquad)
  else fun _ => 0

/-- The arrays left by lines 120-151 for this cell. -/
def cell_flux_state (dg : DGStrong) (fe_values_vol fe_values_lagrange : FEValues)
    (cell_dofs_indices : List ℕ) : FluxLoopState :=
  cell_flux_loops dg fe_values_vol fe_values_lagrange
    (cell_soln_at_q dg fe_values_vol cell_dofs_indices)
    (cell_conv_phys_flux_at_q dg fe_values_vol cell_dofs_indices)

/-- Lines 163-215: the AD residual `rhs` of test function `itest`. -/
def cell_rhs (dg : DGStrong) (fe_values_vol fe_values_lagrange : FEValues)
    (cell_dofs_indices : List ℕ) (itest : ℕ) : ADtype :=
  let st := cell_flux_state dg fe_values_vol fe_values_lagrange cell_dofs_indices
  let rhs : ADtype := 0
  let rhs :=
    if dg.all_parameters.use_split_form then
      cell_split_rhs dg fe_values_vol (cell_soln_at_q dg fe_values_vol cell_dofs_indices) st
        itest rhs
    else rhs
  forLoop fe_values_vol.n_quadrature_points rhs
    (cell_quad_body dg fe_values_vol (cell_diss_phys_flux_at_q dg fe_values_vol cell_dofs_indices)
      (cell_source_at_q dg fe_values_vol cell_dofs_indices) st itest)

/-- The reads of the split-form block (lines 168-179) for test function `itest`: the two
registry entries and `soln_at_q[itest]`, a vector with `n_quad_pts` entries. -/
def cell_split_checks (dg : DGStrong) (fe_values_vol : FEValues) (itest : ℕ) :
    Except AssemblyError Unit :=
  if dg.all_parameters.use_split_form = true
      ∧ ¬ (dg.split_fluxes.has 0 0 0 = true ∧ dg.split_fluxes.has 0 0 1 = true
            ∧ itest < fe_values_vol.n_quadrature_points) then
    .error .index_out_of_range
  else .ok ()

/-- Line 202, for every quadrature point in turn:
`assert(JxW[iquad] - fe_values_lagrange.JxW(iquad) < 1e-14);` -/
def cell_quad_checks (fe_values_vol fe_values_lagrange : FEValues) : Except AssemblyError Unit :=
  (List.range fe_values_vol.n_quadrature_points).forM (fun iquad =>
    if ¬ iquad < fe_values_lagrange.n_quadrature_points then .error .index_out_of_range
    else if ¬ (fe_values_vol.JxW iquad - fe_values_lagrange.JxW iquad < 1 / 10 ^ 14) then
      .error .assertion_failed
    else .ok ())

/-- One iteration of the test-function loop of lines 161-226. -/
def cell_test_step (dg : DGStrong) (fe_values_vol fe_values_lagrange : FEValues)
    (cell_dofs_indices : List ℕ) (acc : RealVector × SystemMatrix) (itest : ℕ) :
    Except AssemblyError (RealVector × SystemMatrix) := do
  cell_split_checks dg fe_values_vol itest
  cell_quad_checks fe_values_vol fe_values_lagrange
  pure (scatter dg.all_parameters cell_dofs_indices itest
    (cell_rhs dg fe_values_vol fe_values_lagrange cell_dofs_indices itest) acc)

/-- Embeds `DGStrong::assemble_cell_terms_implicit(fe_values_vol, cell_dofs_indices,
local_rhs_int_cell)`. `fe_values_lagrange` is the `FEValues` object the function builds at
lines 117-119 from the Lagrange basis on `oned_quadrature`, reinitialised on the cell. Returns
the residual vector and the system matrix after the call. -/
def assemble_cell_terms_implicit (dg : DGStrong) (fe_values_vol fe_values_lagrange : FEValues)
    (cell_dofs_indices : List ℕ) (local_rhs_int_cell : RealVector) :
    Except AssemblyError (RealVector × SystemMatrix) :=
  let n_quad_pts := fe_values_vol.n_quadrature_points
  let n_dofs_cell := fe_values_vol.dofs_per_cell
  if n_dofs_cell ≠ cell_dofs_indices.length then .error .dimension_mismatch
  else if ¬ interpolation_in_range dg.nstate fe_values_vol n_quad_pts then
    .error .index_out_of_range
  else if ¬ cell_flux_loops_in_range dg fe_values_vol fe_values_lagrange then
    .error .index_out_of_range
  else
    (List.range n_dofs_cell).foldlM
      (cell_test_step dg fe_values_vol fe_values_lagrange cell_dofs_indices)
      (local_rhs_int_cell, dg.system_matrix)

/-! ## The boundary-face assembler -/

/-- Lines 317-320 and 464-468: the loop
`for (int s=0; s<nstate; s++) jump[s] = (diss_soln_num_flux[s] - soln[s]) * normal;`
on a zero-initialised array of tensors. -/
def diss_soln_jump (nstate : ℕ) (diss_soln_num_flux soln : ADArray) (normal : Tensor1 ADtype) :
    ADArrayTensor1 :=
  forLoop nstate (fun _ _ => 0) (fun jump s =>
    Function.update jump s (scaleT (diss_soln_num_flux s - soln s) normal))

/-- The values computed at one boundary quadrature point by lines 282-327. -/
structure BoundaryQuadValues where
  /-- Embeds `soln_int[iquad]` -/
  soln_int : ADArray
  /-- Embeds `soln_grad_int[iquad]` -/
  soln_grad_int : ADArrayTensor1
  /-- Embeds `soln_ext[iquad]` -/
  soln_ext : ADArray
  /-- Embeds `soln_grad_ext[iquad]` -/
  soln_grad_ext : ADArrayTensor1
  /-- Embeds `conv_num_flux_dot_n[iquad]` -/
  conv_num_flux_dot_n : ADArray
  /-- Embeds `conv_phys_flux[iquad]` -/
  conv_phys_flux : ADArrayTensor1
  /-- Embeds `diss_soln_num_flux[iquad]` -/
  diss_soln_num_flux : ADArray
  /-- Embeds `diss_flux_jump_int[iquad]` -/
  diss_flux_jump_int : ADArrayTensor1
  /-- Embeds `diss_auxi_num_flux_dot_n[iquad]` -/
  diss_auxi_num_flux_dot_n : ADArray

/-- Lines 282-327: the body of the first quadrature loop of the boundary assembler. -/
def boundary_quad_values (dg : DGStrong) (boundary_id : ℕ) (fe_values_boundary : FEValues)
    (penalty : real) (dof_indices_int : List ℕ) (iquad : ℕ) : BoundaryQuadValues :=
  let soln_coeff_int :=
    seed_soln_coeff dg.solution dof_indices_int 0 fe_values_boundary.dofs_per_cell
  let normal_int := tensorOfReal (fe_values_boundary.normal_vector iquad)
  let soln_int := interpolate_soln fe_values_boundary soln_coeff_int iquad
  let soln_grad_int := interpolate_grad fe_values_boundary soln_coeff_int iquad
  let x_quad := fe_values_boundary.quadrature_point iquad
  let bc := dg.pde_physics.boundary_face_values boundary_id x_quad normal_int soln_int
    soln_grad_int
  let soln_ext := bc.1
  let soln_grad_ext := bc.2
  let conv_num_flux_dot_n := dg.conv_num_flux.evaluate_flux soln_int soln_ext normal_int
  let conv_phys_flux := dg.pde_physics.convective_flux soln_int
  let diss_soln_num_flux := dg.diss_num_flux.evaluate_solution_flux soln_ext soln_ext normal_int
  let diss_soln_jump_int := diss_soln_jump dg.nstate diss_soln_num_flux soln_int normal_int
  let diss_flux_jump_int := dg.pde_physics.dissipative_flux soln_int diss_soln_jump_int
  let diss_auxi_num_flux_dot_n := dg.diss_num_flux.evaluate_auxiliary_flux soln_int soln_ext
    soln_grad_int soln_grad_ext normal_int penalty true
  { soln_int := soln_int
    soln_grad_int := soln_grad_int
    soln_ext := soln_ext
    soln_grad_ext := soln_grad_ext
    conv_num_flux_dot_n := conv_num_flux_dot_n
    conv_phys_flux := conv_phys_flux
    diss_soln_num_flux := diss_soln_num_flux
    diss_flux_jump_int := diss_flux_jump_int
    diss_auxi_num_flux_dot_n := diss_auxi_num_flux_dot_n }

/-- Line 339: `flux_diff = conv_num_flux_dot_n[iquad][istate]
- conv_phys_flux[iquad][istate]*normals[iquad]`. -/
def boundary_flux_diff (dg : DGStrong) (boundary_id : ℕ) (fe_values_boundary : FEValues)
    (penalty : real) (dof_indices_int : List ℕ) (iquad istate : ℕ) : ADtype :=
  let q := boundary_quad_values dg boundary_id fe_values_boundary penalty dof_indices_int iquad
  q.conv_num_flux_dot_n istate
    - dotAR dg.dim (q.conv_phys_flux istate) (fe_values_boundary.normal_vector iquad)

/-- Lines 336-344: the body of the quadrature loop of one boundary test function. -/
def boundary_quad_body (dg : DGStrong) (boundary_id : ℕ) (fe_values_boundary : FEValues)
    (penalty : real) (dof_indices_int : List ℕ) (itest : ℕ) (rhs : ADtype) (iquad : ℕ) :
    ADtype :=
  let istate := fe_values_boundary.system_to_component_index itest
  let q := boundary_quad_values dg boundary_id fe_values_boundary penalty dof_indices_int iquad
  let flux_diff :=
    boundary_flux_diff dg boundary_id fe_values_boundary penalty dof_indices_int iquad istate
  let rhs := rhs
    - ADtype.ofReal (fe_values_boundary.shape_value_component itest iquad istate) * flux_diff
      * ADtype.ofReal (fe_values_boundary.JxW iquad)
  let rhs := rhs
    - ADtype.ofReal (fe_values_boundary.shape_value_component itest iquad istate)
      * q.diss_auxi_num_flux_dot_n istate * ADtype.ofReal (fe_values_boundary.JxW iquad)
  rhs + dotRA dg.dim (fe_values_boundary.shape_grad_component itest iquad istate)
      (q.diss_flux_jump_int istate) * ADtype.ofReal (fe_values_boundary.JxW iquad)

/-- Lines 332-344: the AD residual `rhs` of boundary test function `itest`. -/
def boundary_rhs (dg : DGStrong) (boundary_id : ℕ) (fe_values_boundary : FEValues)
    (penalty : real) (dof_indices_int : List ℕ) (itest : ℕ) : ADtype :=
  forLoop fe_values_boundary.n_quadrature_points 0
    (boundary_quad_body dg boundary_id fe_values_boundary penalty dof_indices_int itest)

/-- Embeds `DGStrong::assemble_boundary_term_implicit(boundary_id, fe_values_boundary,
penalty, dof_indices_int, local_rhs_int_cell)`. Returns the residual vector and the system matrix
after the call. -/
def assemble_boundary_term_implicit (dg : DGStrong) (boundary_id : ℕ)
    (fe_values_boundary : FEValues) (penalty : real) (dof_indices_int : List ℕ)
    (local_rhs_int_cell : RealVector) : Except AssemblyError (RealVector × SystemMatrix) :=
  let n_dofs_cell := fe_values_boundary.dofs_per_cell
  let n_face_quad_pts := fe_values_boundary.n_quadrature_points
  if n_dofs_cell ≠ dof_indices_int.length then .error .dimension_mismatch
  else if ¬ interpolation_in_range dg.nstate fe_values_boundary n_face_quad_pts then
    .error .index_out_of_range
  else
    .ok (forLoop n_dofs_cell (local_rhs_int_cell, dg.system_matrix) (fun acc itest =>
      scatter dg.all_parameters dof_indices_int itest
        (boundary_rhs dg boundary_id fe_values_boundary penalty dof_indices_int itest) acc))

/-! ## The interior-face assembler -/

/-- The values computed at one face quadrature point by lines 433-476. -/
structure FaceQuadValues where
  /-- Embeds `soln_int[iquad]` -/
  soln_int : ADArray
  /-- Embeds `soln_ext[iquad]` -/
  soln_ext : ADArray
  /-- Embeds `soln_grad_int[iquad]` -/
  soln_grad_int : ADArrayTensor1
  /-- Embeds `soln_grad_ext[iquad]` -/
  soln_grad_ext : ADArrayTensor1
  /-- Embeds `conv_num_flux_dot_n[iquad]` -/
  conv_num_flux_dot_n : ADArray
  /-- Embeds `conv_phys_flux_int[iquad]` -/
  conv_phys_flux_int : ADArrayTensor1
  /-- Embeds `conv_phys_flux_ext[iquad]` -/
  conv_phys_flux_ext : ADArrayTensor1
  /-- Embeds `diss_soln_num_flux[iquad]` -/
  diss_soln_num_flux : ADArray
  /-- Embeds `diss_flux_jump_int[iquad]` -/
  diss_flux_jump_int : ADArrayTensor1
  /-- Embeds `diss_flux_jump_ext[iquad]` -/
  diss_flux_jump_ext : ADArrayTensor1
  /-- Embeds `diss_auxi_num_flux_dot_n[iquad]` -/
  diss_auxi_num_flux_dot_n : ADArray

/-- Lines 433-476: the body of the first quadrature loop of the interior-face assembler. -/
def face_quad_values (dg : DGStrong) (fe_values_int fe_values_ext : FEValues) (penalty : real)
    (dof_indices_int dof_indices_ext : List ℕ) (iquad : ℕ) : FaceQuadValues :=
  let n_dofs_int := fe_values_int.dofs_per_cell
  let n_dofs_ext := fe_values_ext.dofs_per_cell
  let n_total_indep := n_dofs_int + n_dofs_ext
  let soln_coeff_int_ad := seed_soln_coeff dg.solution dof_indices_int 0 n_total_indep
  let soln_coeff_ext_ad := seed_soln_coeff dg.solution dof_indices_ext n_dofs_int n_total_indep
  let normal_int := tensorOfReal (fe_values_int.normal_vector iquad)
  let normal_ext : Tensor1 ADtype := fun d => -normal_int d
  let soln_int := interpolate_soln fe_values_int soln_coeff_int_ad iquad
  let soln_grad_int := interpolate_grad fe_values_int soln_coeff_int_ad iquad
  let soln_ext := interpolate_soln fe_values_ext soln_coeff_ext_ad iquad
  let soln_grad_ext := interpolate_grad fe_values_ext soln_coeff_ext_ad iquad
  let conv_num_flux_dot_n := dg.conv_num_flux.evaluate_flux soln_int soln_ext normal_int
  let conv_phys_flux_int := dg.pde_physics.convective_flux soln_int
  let conv_phys_flux_ext := dg.pde_physics.convective_flux soln_ext
  let diss_soln_num_flux := dg.diss_num_flux.evaluate_solution_flux soln_int soln_ext normal_int
  let diss_soln_jump_int := diss_soln_jump dg.nstate diss_soln_num_flux soln_int normal_int
  let diss_soln_jump_ext := diss_soln_jump dg.nstate diss_soln_num_flux soln_ext normal_ext
  let diss_flux_jump_int := dg.pde_physics.dissipative_flux soln_int diss_soln_jump_int
  let diss_flux_jump_ext := dg.pde_physics.dissipative_flux soln_ext diss_soln_jump_ext
  let diss_auxi_num_flux_dot_n := dg.diss_num_flux.evaluate_auxiliary_flux soln_int soln_ext
    soln_grad_int soln_grad_ext normal_int penalty false
  { soln_int := soln_int
    soln_ext := soln_ext
    soln_grad_int := soln_grad_int
    soln_grad_ext := soln_grad_ext
    conv_num_flux_dot_n := conv_num_flux_dot_n
    conv_phys_flux_int := conv_phys_flux_int
    conv_phys_flux_ext := conv_phys_flux_ext
    diss_soln_num_flux := diss_soln_num_flux
    diss_flux_jump_int := diss_flux_jump_int
    diss_flux_jump_ext := diss_flux_jump_ext
    diss_auxi_num_flux_dot_n := diss_auxi_num_flux_dot_n }

/-- Lines 483-490: the body of the quadrature loop of one interior-side test function. -/
def face_quad_body_int (dg : DGStrong) (fe_values_int fe_values_ext : FEValues) (penalty : real)
    (dof_indices_int dof_indices_ext : List ℕ) (itest_int : ℕ) (rhs : ADtype) (iquad : ℕ) :
    ADtype :=
  let istate := fe_values_int.system_to_component_index itest_int
  let q := face_quad_values dg fe_values_int fe_values_ext penalty dof_indices_int
    dof_indices_ext iquad
  let flux_diff := q.conv_num_flux_dot_n istate
    - dotAR dg.dim (q.conv_phys_flux_int istate) (fe_values_int.normal_vector iquad)
  let rhs := rhs
    - ADtype.ofReal (fe_values_int.shape_value_component itest_int iquad istate) * flux_diff
      * ADtype.ofReal (fe_values_int.JxW iquad)
  let rhs := rhs
    - ADtype.ofReal (fe_values_int.shape_value_component itest_int iquad istate)
      * q.diss_auxi_num_flux_dot_n istate * ADtype.ofReal (fe_values_int.JxW iquad)
  rhs + dotRA dg.dim (fe_values_int.shape_grad_component itest_int iquad istate)
      (q.diss_flux_jump_int istate) * ADtype.ofReal (fe_values_int.JxW iquad)

/-- Lines 510-517: the body of the quadrature loop of one exterior-side test function. The
state component is read from the interior element, `fe_values_int.get_fe()`, at line 508. -/
def face_quad_body_ext (dg : DGStrong) (fe_values_int fe_values_ext : FEValues) (penalty : real)
    (dof_indices_int dof_indices_ext : List ℕ) (itest_ext : ℕ) (rhs : ADtype) (iquad : ℕ) :
    ADtype :=
  let istate := fe_values_int.system_to_component_index itest_ext
  let q := face_quad_values dg fe_values_int fe_values_ext penalty dof_indices_int
    dof_indices_ext iquad
  let flux_diff := (-q.conv_num_flux_dot_n istate)
    - dotAR dg.dim (q.conv_phys_flux_ext istate) (fun d => -fe_values_int.normal_vector iquad d)
  let rhs := rhs
    - ADtype.ofReal (fe_values_ext.shape_value_component itest_ext iquad istate) * flux_diff
      * ADtype.ofReal (fe_values_int.JxW iquad)
  let rhs := rhs
    - ADtype.ofReal (fe_values_ext.shape_value_component itest_ext iquad istate)
      * (-q.diss_auxi_num_flux_dot_n istate) * ADtype.ofReal (fe_values_int.JxW iquad)
  rhs + dotRA dg.dim (fe_values_ext.shape_grad_component itest_ext iquad istate)
      (q.diss_flux_jump_ext istate) * ADtype.ofReal (fe_values_int.JxW iquad)

/-- Lines 480-490: the AD residual `rhs` of interior-side test function `itest_int`. -/
def face_rhs_int (dg : DGStrong) (fe_values_int fe_values_ext : FEValues) (penalty : real)
    (dof_indices_int dof_indices_ext : List ℕ) (itest_int : ℕ) : ADtype :=
  forLoop fe_values_ext.n_quadrature_points 0
    (face_quad_body_int dg fe_values_int fe_values_ext penalty dof_indices_int dof_indices_ext
      itest_int)

/-- Lines 507-517: the AD residual `rhs` of exterior-side test function `itest_ext`. -/
def face_rhs_ext (dg : DGStrong) (fe_values_int fe_values_ext : FEValues) (penalty : real)
    (dof_indices_int dof_indices_ext : List ℕ) (itest_ext : ℕ) : ADtype :=
  forLoop fe_values_ext.n_quadrature_points 0
    (face_quad_body_ext dg fe_values_int fe_values_ext penalty dof_indices_int dof_indices_ext
      itest_ext)

/-- The scatter at the end of every test-function iteration of the interior-face assembler
(lines 492-502 and 519-529): `local_rhs(itest) += rhs.val()` and, for the implicit solver,
the two calls `system_matrix.add(row, dof_indices_int, rhs.dx(idof))` and
`system_matrix.add(row, dof_indices_ext, rhs.dx(n_dofs_int+idof))`. -/
def face_scatter (params : AllParameters) (dof_indices_int dof_indices_ext : List ℕ)
    (n_dofs_int row itest : ℕ) (rhs : ADtype) (local_rhs : RealVector)
    (system_matrix : SystemMatrix) : RealVector × SystemMatrix :=
  (local_rhs.add itest rhs.val,
   if params.ode_solver_type = ODESolverEnum.implicit_solver then
     (system_matrix.add row dof_indices_int (fun idof => rhs.dx idof)).add row dof_indices_ext
       (fun idof => rhs.dx (n_dofs_int + idof))
   else system_matrix)

/-- The residual vectors of the two cells and the system matrix. -/
structure FaceOutput where
  /-- Embeds `local_rhs_int_cell` -/
  local_rhs_int_cell : RealVector
  /-- Embeds `local_rhs_ext_cell` -/
  local_rhs_ext_cell : RealVector
  /-- Embeds `system_matrix` -/
  system_matrix : SystemMatrix

/-- One iteration of the interior-side test loop of lines 479-503. -/
def face_test_step_int (dg : DGStrong) (fe_values_int fe_values_ext : FEValues) (penalty : real)
    (dof_indices_int dof_indices_ext : List ℕ) (acc : FaceOutput) (itest_int : ℕ) : FaceOutput :=
  let out := face_scatter dg.all_parameters dof_indices_int dof_indices_ext
    fe_values_int.dofs_per_cell (dof_indices_int.getD itest_int 0) itest_int
    (face_rhs_int dg fe_values_int fe_values_ext penalty dof_indices_int dof_indices_ext
      itest_int)
    acc.local_rhs_int_cell acc.system_matrix
  { acc with local_rhs_int_cell := out.1, system_matrix := out.2 }

/-- One iteration of the exterior-side test loop of lines 506-530; line 508 reads
`fe_values_int.get_fe().system_to_component_index(itest_ext)`, which is defined for
`itest_ext < n_dofs_int`. -/
def face_test_step_ext (dg : DGStrong) (fe_values_int fe_values_ext : FEValues) (penalty : real)
    (dof_indices_int dof_indices_ext : List ℕ) (acc : FaceOutput) (itest_ext : ℕ) :
    Except AssemblyError FaceOutput :=
  if ¬ itest_ext < fe_values_int.dofs_per_cell then .error .index_out_of_range
  else
    let out := face_scatter dg.all_parameters dof_indices_int dof_indices_ext
      fe_values_int.dofs_per_cell (dof_indices_ext.getD itest_ext 0) itest_ext
      (face_rhs_ext dg fe_values_int fe_values_ext penalty dof_indices_int dof_indices_ext
        itest_ext)
      acc.local_rhs_ext_cell acc.system_matrix
    .ok { acc with local_rhs_ext_cell := out.1, system_matrix := out.2 }

/-- Embeds `DGStrong::assemble_face_term_implicit(fe_values_int, fe_values_ext, penalty,
dof_indices_int, dof_indices_ext, local_rhs_int_cell, local_rhs_ext_cell)`. Returns the two
residual vectors and the system matrix after the call. -/
def assemble_face_term_implicit (dg : DGStrong) (fe_values_int fe_values_ext : FEValues)
    (penalty : real) (dof_indices_int dof_indices_ext : List ℕ)
    (local_rhs_int_cell local_rhs_ext_cell : RealVector) : Except AssemblyError FaceOutput :=
  let n_face_quad_pts := fe_values_ext.n_quadrature_points
  let n_dofs_int := fe_values_int.dofs_per_cell
  let n_dofs_ext := fe_values_ext.dofs_per_cell
  if n_dofs_int ≠ dof_indices_int.length then .error .dimension_mismatch
  else if n_dofs_ext ≠ dof_indices_ext.length then .error .dimension_mismatch
  else if ¬ n_face_quad_pts ≤ fe_values_int.n_quadrature_points then .error .index_out_of_range
  else if ¬ (interpolation_in_range dg.nstate fe_values_int n_face_quad_pts
      ∧ interpolation_in_range dg.nstate fe_values_ext n_face_quad_pts) then
    .error .index_out_of_range
  else
    (List.range n_dofs_ext).foldlM
      (face_test_step_ext dg fe_values_int fe_values_ext penalty dof_indices_int dof_indices_ext)
      (forLoop n_dofs_int ⟨local_rhs_int_cell, local_rhs_ext_cell, dg.system_matrix⟩
        (face_test_step_int dg fe_values_int fe_values_ext penalty dof_indices_int
          dof_indices_ext))

/-! ## Definitions used by the statements and the proofs -/

/-! ### The projections of the AD scalars as homomorphisms -/

/-- The projection `val()` as a ring homomorphism. -/
def ADtype.valHom : ADtype →+* real where
  toFun := ADtype.val
  map_one' := rfl
  map_mul' _ _ := rfl
  map_zero' := rfl
  map_add' _ _ := rfl

/-- The projection `dx(k)` as an additive homomorphism. -/
def ADtype.dxHom (k : ℕ) : ADtype →+ real where
  toFun a := a.dx k
  map_zero' := rfl
  map_add' _ _ := rfl

/-! ### Definitions for: Closed form of the flux-divergence loops -/

/-- The sum accumulated into `flux_divergence[iquad][istate]` by line 133. -/
def flux_divergence_sum (dim n_quad_pts : ℕ) (fe_values_lagrange : FEValues)
    (conv_phys_flux_at_q : ℕ → ADArrayTensor1) (iquad istate : ℕ) : ADtype :=
  ∑ flux_basis in Finset.range n_quad_pts,
    dotAR dim (conv_phys_flux_at_q flux_basis istate)
      (fe_values_lagrange.shape_grad flux_basis iquad)

/-- The sum accumulated into `f1[iquad]`, `f2[iquad]`, `g1[iquad]` or `g2[iquad]` by lines
137-140 during the pass for state component `istate`, for the flux function `fn`. -/
def split_accum_sum (n_quad_pts : ℕ) (fe_values_vol : FEValues) (soln_at_q : ℕ → ADArray)
    (fn : ADArray → ADtype) (istate iquad : ℕ) : ADtype :=
  ∑ flux_basis in Finset.range n_quad_pts,
    fn (soln_at_q flux_basis)
      * ADtype.ofReal (fe_values_vol.shape_grad_component flux_basis iquad istate 0)

/-! ### Definitions for: The cell assembler: success and closed form -/

/-- The conditions under which every check of `assemble_cell_terms_implicit` passes. -/
def cell_checks_pass (dg : DGStrong) (fe_values_vol fe_values_lagrange : FEValues)
    (cell_dofs_indices : List ℕ) : Prop :=
  fe_values_vol.dofs_per_cell = cell_dofs_indices.length
  ∧ interpolation_in_range dg.nstate fe_values_vol fe_values_vol.n_quadrature_points
  ∧ cell_flux_loops_in_range dg fe_values_vol fe_values_lagrange
  ∧ (dg.all_parameters.use_split_form = true →
      ∀ itest, itest < fe_values_vol.dofs_per_cell →
        dg.split_fluxes.has 0 0 0 = true ∧ dg.split_fluxes.has 0 0 1 = true
          ∧ itest < fe_values_vol.n_quadrature_points)
  ∧ (0 < fe_values_vol.dofs_per_cell →
      ∀ iquad, iquad < fe_values_vol.n_quadrature_points →
        iquad < fe_values_lagrange.n_quadrature_points
          ∧ fe_values_vol.JxW iquad - fe_values_lagrange.JxW iquad < 1 / 10 ^ 14)

/-- One quadrature point's contribution to `rhs` in the loop of lines 198-215. -/
def cell_quad_term (dg : DGStrong) (fe_values_vol : FEValues)
    (diss_phys_flux_at_q : ℕ → ADArrayTensor1) (source_at_q : ℕ → ADArray)
    (st : FluxLoopState) (itest iquad : ℕ) : ADtype :=
  let istate := fe_values_vol.system_to_component_index itest
  (if dg.all_parameters.use_split_form = false then
      -(ADtype.ofReal (fe_values_vol.shape_value_component itest iquad istate)
        * st.flux_divergence iquad istate * ADtype.ofReal (fe_values_vol.JxW iquad))
    else 0)
  + dotRA dg.dim (fe_values_vol.shape_grad_component itest iquad istate)
      (diss_phys_flux_at_q iquad istate) * ADtype.ofReal (fe_values_vol.JxW iquad)
  + (if dg.all_parameters.use_manufactured_source_term then
      ADtype.ofReal (fe_values_vol.shape_value_component itest iquad istate)
        * source_at_q iquad istate * ADtype.ofReal (fe_values_vol.JxW iquad)
    else 0)

/-! ### Definitions for: A concrete problem (one-dimensional, scalar, degree 1) -/

/-- The degree-1 nodal element on the unit interval with its two nodes as quadrature points:
`phi_0 = 1 - x`, `phi_1 = x`, weights `1/2`. -/
def example_fe : FEValues where
  n_quadrature_points := 2
  dofs_per_cell := 2
  system_to_component_index := fun _ => 0
  shape_value_component := fun idof iquad _ => if idof = iquad then 1 else 0
  shape_grad_component := fun idof _ _ _ => if idof = 0 then -1 else 1
  shape_grad := fun idof _ _ => if idof = 0 then -1 else 1
  JxW := fun _ => 1 / 2
  normal_vector := fun _ _ => 1
  quadrature_point := fun iquad _ => iquad

/-- The face of the unit interval at `x = 1`, seen from the same element: one quadrature
point of weight `1`, outward normal `+1`. -/
def example_fe_face : FEValues where
  n_quadrature_points := 1
  dofs_per_cell := 2
  system_to_component_index := fun _ => 0
  shape_value_component := fun idof _ _ => if idof = 1 then 1 else 0
  shape_grad_component := fun idof _ _ _ => if idof = 0 then -1 else 1
  shape_grad := fun idof _ _ => if idof = 0 then -1 else 1
  JxW := fun _ => 1
  normal_vector := fun _ _ => 1
  quadrature_point := fun _ _ => 1

/-- The same face seen from the neighbouring element `[1, 2]`, whose node `0` lies on it. -/
def example_fe_face_ext : FEValues where
  n_quadrature_points := 1
  dofs_per_cell := 2
  system_to_component_index := fun _ => 0
  shape_value_component := fun idof _ _ => if idof = 0 then 1 else 0
  shape_grad_component := fun idof _ _ _ => if idof = 0 then -1 else 1
  shape_grad := fun idof _ _ => if idof = 0 then -1 else 1
  JxW := fun _ => 1
  normal_vector := fun _ _ => -1
  quadrature_point := fun _ _ => 1

/-- Scalar linear advection-diffusion: `Fconv = u`, `Fdiss = -grad u`, no source, and a
boundary reconstruction that returns the interior trace. -/
def example_physics : PhysicsBase where
  convective_flux := fun u s _ => u s
  dissipative_flux := fun _ g s d => -(g s d)
  source_term := fun _ _ _ => 0
  boundary_face_values := fun _ _ _ u g => (u, g)

/-- The central convective flux `(u_int + u_ext)/2 * n`. -/
def example_conv_num_flux : NumericalFluxConvective where
  evaluate_flux := fun ui ue n s => ADtype.ofReal (1 / 2) * (ui s + ue s) * n 0

/-- The central solution flux and a penalty flux `penalty * (u_int - u_ext)`. -/
def example_diss_num_flux : NumericalFluxDissipative where
  evaluate_solution_flux := fun ui ue _ s => ADtype.ofReal (1 / 2) * (ui s + ue s)
  evaluate_auxiliary_flux := fun ui ue _ _ _ penalty _ s => ADtype.ofReal penalty * (ui s - ue s)

/-- The split-flux pair with `f = g = identity` and `alpha = 1`. -/
def identity_pair : SplitFluxPair where
  f := fun u => u 0
  g := fun u => u 0
  alpha := 1

/-- A `DGStrong<1,1,real>` object with the example collaborators. -/
def example_dg (use_split_form : Bool) (ode_solver_type : ODESolverEnum) : DGStrong where
  dim := 1
  nstate := 1
  all_parameters :=
    { use_split_form := use_split_form
      use_collocated_nodes := true
      use_manufactured_source_term := false
      ode_solver_type := ode_solver_type }
  pde_physics := example_physics
  conv_num_flux := example_conv_num_flux
  diss_num_flux := example_diss_num_flux
  split_fluxes := [[[identity_pair, identity_pair]]]
  solution := fun i => i + 1
  system_matrix := fun _ _ => 0

/-! ### Definitions for: C3: the strong-form cell residual -/

/-- The pointwise divergence of the convective flux named by the claim:
`div(Fconv)[q][s] = Sum_j Fconv[j][s] . grad(lagrange_j)(q)`, the contraction of the nodal
convective fluxes with the Lagrange differentiation matrix. -/
def lagrange_divergence (dg : DGStrong) (fe_values_vol fe_values_lagrange : FEValues)
    (cell_dofs_indices : List ℕ) (q s : ℕ) : ADtype :=
  ∑ j in Finset.range fe_values_vol.n_quadrature_points,
    dotAR dg.dim
      (dg.pde_physics.convective_flux (cell_soln_at_q dg fe_values_vol cell_dofs_indices j) s)
      (fe_values_lagrange.shape_grad j q)

/-- The strong-form right-hand side of test index `itest` named by the claim:
`Sum_q [ -phi(q) * div(Fconv)[q][s] + grad(phi)(q) . Fdiss[q][s]
+ (phi(q) * source[q][s] if a manufactured source is configured) ] * JxW[q]`. -/
def cell_strong_form_rhs (dg : DGStrong) (fe_values_vol fe_values_lagrange : FEValues)
    (cell_dofs_indices : List ℕ) (itest : ℕ) : ADtype :=
  let s := fe_values_vol.system_to_component_index itest
  ∑ q in Finset.range fe_values_vol.n_quadrature_points,
    (-(ADtype.ofReal (fe_values_vol.shape_value_component itest q s))
        * lagrange_divergence dg fe_values_vol fe_values_lagrange cell_dofs_indices q s
      + dotRA dg.dim (fe_values_vol.shape_grad_component itest q s)
          (dg.pde_physics.dissipative_flux
            (cell_soln_at_q dg fe_values_vol cell_dofs_indices q)
            (cell_soln_grad_at_q dg fe_values_vol cell_dofs_indices q) s)
      + (if dg.all_parameters.use_manufactured_source_term = true then
          ADtype.ofReal (fe_values_vol.shape_value_component itest q s)
            * dg.pde_physics.source_term (fe_values_vol.quadrature_point q)
                (cell_soln_at_q dg fe_values_vol cell_dofs_indices q) s
        else 0))
    * ADtype.ofReal (fe_values_vol.JxW q)

/-! ### Definitions for: The boundary-face and interior-face assemblers: success and closed form -/

/-- The conditions under which every check of `assemble_boundary_term_implicit` passes. -/
def boundary_checks_pass (dg : DGStrong) (fe_values_boundary : FEValues)
    (dof_indices_int : List ℕ) : Prop :=
  fe_values_boundary.dofs_per_cell = dof_indices_int.length
  ∧ interpolation_in_range dg.nstate fe_values_boundary fe_values_boundary.n_quadrature_points

/-- The conditions under which every check of `assemble_face_term_implicit` passes. -/
def face_checks_pass (dg : DGStrong) (fe_values_int fe_values_ext : FEValues)
    (dof_indices_int dof_indices_ext : List ℕ) : Prop :=
  fe_values_int.dofs_per_cell = dof_indices_int.length
  ∧ fe_values_ext.dofs_per_cell = dof_indices_ext.length
  ∧ fe_values_ext.n_quadrature_points ≤ fe_values_int.n_quadrature_points
  ∧ interpolation_in_range dg.nstate fe_values_int fe_values_ext.n_quadrature_points
  ∧ interpolation_in_range dg.nstate fe_values_ext fe_values_ext.n_quadrature_points
  ∧ fe_values_ext.dofs_per_cell ≤ fe_values_int.dofs_per_cell

/-- The exterior-side test iteration of lines 506-530 without its range check. -/
def face_test_step_ext_pure (dg : DGStrong) (fe_values_int fe_values_ext : FEValues)
    (penalty : real) (dof_indices_int dof_indices_ext : List ℕ) (acc : FaceOutput)
    (itest_ext : ℕ) : FaceOutput :=
  let out := face_scatter dg.all_parameters dof_indices_int dof_indices_ext
    fe_values_int.dofs_per_cell (dof_indices_ext.getD itest_ext 0) itest_ext
    (face_rhs_ext dg fe_values_int fe_values_ext penalty dof_indices_int dof_indices_ext
      itest_ext)
    acc.local_rhs_ext_cell acc.system_matrix
  { acc with local_rhs_ext_cell := out.1, system_matrix := out.2 }

/-- The total added to the entry `(row of the test function, c)` by the two
`system_matrix.add` calls of one test function of the interior-face assembler. -/
def face_row_sum (dof_indices_int dof_indices_ext : List ℕ) (n_dofs_int : ℕ) (rhs : ADtype)
    (c : ℕ) : real :=
  (∑ k in Finset.range dof_indices_int.length,
      if dof_indices_int.getD k 0 = c then rhs.dx k else 0)
  + ∑ k in Finset.range dof_indices_ext.length,
      if dof_indices_ext.getD k 0 = c then rhs.dx (n_dofs_int + k) else 0

/-- The result of the two test-function loops of the interior-face assembler. -/
def face_loops (dg : DGStrong) (fe_values_int fe_values_ext : FEValues) (penalty : real)
    (dof_indices_int dof_indices_ext : List ℕ) (init : FaceOutput) : FaceOutput :=
  forLoop fe_values_ext.dofs_per_cell
    (forLoop fe_values_int.dofs_per_cell init
      (face_test_step_int dg fe_values_int fe_values_ext penalty dof_indices_int dof_indices_ext))
    (face_test_step_ext_pure dg fe_values_int fe_values_ext penalty dof_indices_int
      dof_indices_ext)

/-! ### Definitions for: C4: the boundary-face residual -/

/-- The boundary right-hand side of test index `itest` named by the claim:
`Sum_q [ -phi(q) * (F*(u_int, u_ext, n)[s] - Fconv(u_int)[s] . n) - phi(q) * sigma*[s]
+ grad(phi)(q) . Fdiss(u_int, (u* - u_int) n)[s] ] * JxW[q]`, with the ghost state
`(u_ext, grad_ext) = boundary_face_values(boundary_id, x_q, n, u_int, grad_int)`,
`sigma* = evaluate_auxiliary_flux(u_int, u_ext, grad_int, grad_ext, n, penalty, true)` and
`u* = evaluate_solution_flux(u_ext, u_ext, n)`. -/
def boundary_claim_rhs (dg : DGStrong) (boundary_id : ℕ) (fe_values_boundary : FEValues)
    (penalty : real) (dof_indices_int : List ℕ) (itest : ℕ) : ADtype :=
  let s := fe_values_boundary.system_to_component_index itest
  let coeff := seed_soln_coeff dg.solution dof_indices_int 0 fe_values_boundary.dofs_per_cell
  ∑ q in Finset.range fe_values_boundary.n_quadrature_points,
    let n := tensorOfReal (fe_values_boundary.normal_vector q)
    let u_int := interpolate_soln fe_values_boundary coeff q
    let grad_int := interpolate_grad fe_values_boundary coeff q
    let ghost := dg.pde_physics.boundary_face_values boundary_id
      (fe_values_boundary.quadrature_point q) n u_int grad_int
    let u_ext := ghost.1
    let grad_ext := ghost.2
    let u_star := dg.diss_num_flux.evaluate_solution_flux u_ext u_ext n
    (-(ADtype.ofReal (fe_values_boundary.shape_value_component itest q s))
        * (dg.conv_num_flux.evaluate_flux u_int u_ext n s
            - dotAR dg.dim (dg.pde_physics.convective_flux u_int s)
                (fe_values_boundary.normal_vector q))
      - ADtype.ofReal (fe_values_boundary.shape_value_component itest q s)
        * dg.diss_num_flux.evaluate_auxiliary_flux u_int u_ext grad_int grad_ext n penalty true s
      + dotRA dg.dim (fe_values_boundary.shape_grad_component itest q s)
          (dg.pde_physics.dissipative_flux u_int
            (fun s' d => if s' < dg.nstate then (u_star s' - u_int s') * n d else 0) s))
    * ADtype.ofReal (fe_values_boundary.JxW q)

/-! ### Definitions for: C5: the exterior-side residual of an interior face -/

/-- The exterior-side right-hand side of test index `j` named by the claim:
`Sum_q [ -phi_ext(q) * ( -F*[q][s] - Fconv(u_ext)[s] . (-n) ) - phi_ext(q) * ( -sigma*[q][s] )
+ grad(phi_ext)(q) . Fdiss(u_ext, (u* - u_ext)(-n))[s] ] * JxW_int[q]`, where `s` is the state
component of `j` in the exterior element, `n` the interior normal,
`F* = evaluate_flux(u_int, u_ext, n)`, `u* = evaluate_solution_flux(u_int, u_ext, n)` and
`sigma* = evaluate_auxiliary_flux(u_int, u_ext, grad_int, grad_ext, n, penalty)`. -/
def face_ext_claim_rhs (dg : DGStrong) (fe_values_int fe_values_ext : FEValues) (penalty : real)
    (dof_indices_int dof_indices_ext : List ℕ) (j : ℕ) : ADtype :=
  let s := fe_values_ext.system_to_component_index j
  let n_total := fe_values_int.dofs_per_cell + fe_values_ext.dofs_per_cell
  let coeff_int := seed_soln_coeff dg.solution dof_indices_int 0 n_total
  let coeff_ext := seed_soln_coeff dg.solution dof_indices_ext fe_values_int.dofs_per_cell n_total
  ∑ q in Finset.range fe_values_ext.n_quadrature_points,
    let n := tensorOfReal (fe_values_int.normal_vector q)
    let u_int := interpolate_soln fe_values_int coeff_int q
    let grad_int := interpolate_grad fe_values_int coeff_int q
    let u_ext := interpolate_soln fe_values_ext coeff_ext q
    let grad_ext := interpolate_grad fe_values_ext coeff_ext q
    let F_star := dg.conv_num_flux.evaluate_flux u_int u_ext n
    let u_star := dg.diss_num_flux.evaluate_solution_flux u_int u_ext n
    let sigma_star :=
      dg.diss_num_flux.evaluate_auxiliary_flux u_int u_ext grad_int grad_ext n penalty false
    (-(ADtype.ofReal (fe_values_ext.shape_value_component j q s))
        * (-F_star s
            - dotAR dg.dim (dg.pde_physics.convective_flux u_ext s)
                (fun d => -fe_values_int.normal_vector q d))
      - ADtype.ofReal (fe_values_ext.shape_value_component j q s) * (-sigma_star s)
      + dotRA dg.dim (fe_values_ext.shape_grad_component j q s)
          (dg.pde_physics.dissipative_flux u_ext
            (fun s' d => if s' < dg.nstate then (u_star s' - u_ext s') * (-n d) else 0) s))
    * ADtype.ofReal (fe_values_int.JxW q)

/-! ### Definitions for: C1: the numerical fluxes in the two residuals of an interior face -/

/-- The sum `F*[q][s] + sigma*[q][s]` of the convective numerical flux and the auxiliary flux
stored for the face quadrature point `q` (lines 457 and 472). -/
def face_num_flux_sum (dg : DGStrong) (fe_values_int fe_values_ext : FEValues) (penalty : real)
    (dof_indices_int dof_indices_ext : List ℕ) (q s : ℕ) : ADtype :=
  (face_quad_values dg fe_values_int fe_values_ext penalty dof_indices_int dof_indices_ext
      q).conv_num_flux_dot_n s
  + (face_quad_values dg fe_values_int fe_values_ext penalty dof_indices_int dof_indices_ext
      q).diss_auxi_num_flux_dot_n s

/-- The numerical-flux part of what lines 485-488 add to `rhs` for the interior test function
`i` at `q`: `-phi_int(q) * (F*[q][s] + sigma*[q][s]) * JxW[q]`, with `s` the state component of
`i` in the interior element (line 481). -/
def face_num_flux_term_int (dg : DGStrong) (fe_values_int fe_values_ext : FEValues)
    (penalty : real) (dof_indices_int dof_indices_ext : List ℕ) (i q : ℕ) : ADtype :=
  let s := fe_values_int.system_to_component_index i
  (-(ADtype.ofReal (fe_values_int.shape_value_component i q s)))
    * face_num_flux_sum dg fe_values_int fe_values_ext penalty dof_indices_int dof_indices_ext
        q s
    * ADtype.ofReal (fe_values_int.JxW q)

/-- The numerical-flux part of what lines 512-515 add to `rhs` for the exterior test function
`j` at `q`, as the code forms it: `+phi_ext(q) * (F*[q][s] + sigma*[q][s]) * JxW[q]` with
`s = fe_values_int.get_fe().system_to_component_index(j)`, the state component line 508 reads
from the interior element. -/
def face_num_flux_term_ext (dg : DGStrong) (fe_values_int fe_values_ext : FEValues)
    (penalty : real) (dof_indices_int dof_indices_ext : List ℕ) (j q : ℕ) : ADtype :=
  let s := fe_values_int.system_to_component_index j
  ADtype.ofReal (fe_values_ext.shape_value_component j q s)
    * face_num_flux_sum dg fe_values_int fe_values_ext penalty dof_indices_int dof_indices_ext
        q s
    * ADtype.ofReal (fe_values_int.JxW q)

/-- What lines 485-489 add to `rhs` for the interior test function `i` at `q` besides the
numerical fluxes: the physical convective flux of the interior trace and the interior jump
term. -/
def face_physical_term_int (dg : DGStrong) (fe_values_int fe_values_ext : FEValues)
    (penalty : real) (dof_indices_int dof_indices_ext : List ℕ) (i q : ℕ) : ADtype :=
  let s := fe_values_int.system_to_component_index i
  let v := face_quad_values dg fe_values_int fe_values_ext penalty dof_indices_int
    dof_indices_ext q
  (ADtype.ofReal (fe_values_int.shape_value_component i q s)
      * dotAR dg.dim (v.conv_phys_flux_int s) (fe_values_int.normal_vector q)
    + dotRA dg.dim (fe_values_int.shape_grad_component i q s) (v.diss_flux_jump_int s))
  * ADtype.ofReal (fe_values_int.JxW q)

/-- What lines 512-516 add to `rhs` for the exterior test function `j` at `q` besides the
numerical fluxes, as the code forms it: the physical convective flux of the exterior trace and
the exterior jump term, with the state component line 508 reads from the interior element. -/
def face_physical_term_ext (dg : DGStrong) (fe_values_int fe_values_ext : FEValues)
    (penalty : real) (dof_indices_int dof_indices_ext : List ℕ) (j q : ℕ) : ADtype :=
  let s := fe_values_int.system_to_component_index j
  let v := face_quad_values dg fe_values_int fe_values_ext penalty dof_indices_int
    dof_indices_ext q
  (-(ADtype.ofReal (fe_values_ext.shape_value_component j q s)
      * dotAR dg.dim (v.conv_phys_flux_ext s) (fe_values_int.normal_vector q))
    + dotRA dg.dim (fe_values_ext.shape_grad_component j q s) (v.diss_flux_jump_ext s))
  * ADtype.ofReal (fe_values_int.JxW q)

/-- The numerical-flux entry of the exterior test function `j` at `q` named by the claim:
`+phi_ext(q) * (F*[q][s] + sigma*[q][s]) * JxW[q]`, with `s` the state component of `j` in the
exterior element. -/
def face_num_flux_claim_term_ext (dg : DGStrong) (fe_values_int fe_values_ext : FEValues)
    (penalty : real) (dof_indices_int dof_indices_ext : List ℕ) (j q : ℕ) : ADtype :=
  let s := fe_values_ext.system_to_component_index j
  ADtype.ofReal (fe_values_ext.shape_value_component j q s)
    * face_num_flux_sum dg fe_values_int fe_values_ext penalty dof_indices_int dof_indices_ext
        q s
    * ADtype.ofReal (fe_values_int.JxW q)

/-! ### Definitions for: C6: a boundary reconstruction that returns the interior state -/

/-- The boundary right-hand side of test index `itest` without its convective term:
`Sum_q [ -phi(q) * sigma*[q][s] + grad(phi)(q) . diss_flux_jump_int[q][s] ] * JxW[q]`. -/
def boundary_rhs_without_convection (dg : DGStrong) (boundary_id : ℕ)
    (fe_values_boundary : FEValues) (penalty : real) (dof_indices_int : List ℕ) (itest : ℕ) :
    ADtype :=
  let s := fe_values_boundary.system_to_component_index itest
  ∑ q in Finset.range fe_values_boundary.n_quadrature_points,
    (-(ADtype.ofReal (fe_values_boundary.shape_value_component itest q s)
        * (boundary_quad_values dg boundary_id fe_values_boundary penalty dof_indices_int
            q).diss_auxi_num_flux_dot_n s)
      + dotRA dg.dim (fe_values_boundary.shape_grad_component itest q s)
          ((boundary_quad_values dg boundary_id fe_values_boundary penalty dof_indices_int
            q).diss_flux_jump_int s))
    * ADtype.ofReal (fe_values_boundary.JxW q)

/-! ### Definitions for: C9: the assemblers write additively -/

/-- The same object with another system matrix. -/
def DGStrong.with_system_matrix (dg : DGStrong) (m : SystemMatrix) : DGStrong :=
  { dg with system_matrix := m }

/-- Adding the contents `r0`, `m0` to a residual vector and a system matrix. -/
def add_accumulators (r0 : RealVector) (m0 : SystemMatrix) (acc : RealVector × SystemMatrix) :
    RealVector × SystemMatrix :=
  (fun i => r0 i + acc.1 i, fun r c => m0 r c + acc.2 r c)

/-- Adding the contents `r_int`, `r_ext`, `m0` to the output of the interior-face assembler. -/
def add_face_accumulators (r_int r_ext : RealVector) (m0 : SystemMatrix) (acc : FaceOutput) :
    FaceOutput :=
  { local_rhs_int_cell := fun i => r_int i + acc.local_rhs_int_cell i
    local_rhs_ext_cell := fun i => r_ext i + acc.local_rhs_ext_cell i
    system_matrix := fun r c => m0 r c + acc.system_matrix r c }

/-! ### Definitions for: C10: the assemblers when the Jacobian is not requested -/

/-- The same object with another ODE solver type. -/
def DGStrong.with_ode_solver_type (dg : DGStrong) (t : ODESolverEnum) : DGStrong :=
  { dg with all_parameters := { dg.all_parameters with ode_solver_type := t } }

/-- The checks of one iteration of the test-function loop of the cell assembler. -/
def cell_test_checks (dg : DGStrong) (fe_values_vol fe_values_lagrange : FEValues)
    (itest : ℕ) : Except AssemblyError Unit := do
  cell_split_checks dg fe_values_vol itest
  cell_quad_checks fe_values_vol fe_values_lagrange

/-- The range check of one exterior-side test iteration of the interior-face assembler. -/
def face_ext_check (fe_values_int : FEValues) (itest_ext : ℕ) : Except AssemblyError Unit :=
  if ¬ itest_ext < fe_values_int.dofs_per_cell then .error .index_out_of_range else .ok ()

/-- The action of one exterior-side test iteration on the two residual vectors. -/
def face_ext_residual_step (dg : DGStrong) (fe_values_int fe_values_ext : FEValues)
    (penalty : real) (dof_indices_int dof_indices_ext : List ℕ) (r : RealVector × RealVector)
    (i : ℕ) : Except AssemblyError (RealVector × RealVector) :=
  (face_ext_check fe_values_int i).map (fun _ =>
    (r.1, r.2.add i (face_rhs_ext dg fe_values_int fe_values_ext penalty dof_indices_int
      dof_indices_ext i).val))

/-! ### Definitions for: C7: the split form with `f = g = identity` and `alpha = 1` -/

/-- The same object with another `use_split_form` flag. -/
def DGStrong.with_split_form (dg : DGStrong) (b : Bool) : DGStrong :=
  { dg with all_parameters := { dg.all_parameters with use_split_form := b } }

/-- The accumulation `G(q) = Sum_j g(State at node j) * d(phi_j)/dx_0 (q)` held by `g1[q]`
(or `g2[q]`) after the loops of lines 125-151, for the flux function `g`. -/
def split_g_accumulation (dg : DGStrong) (fe_values_vol : FEValues)
    (cell_dofs_indices : List ℕ) (g : ADArray → ADtype) (q : ℕ) : ADtype :=
  ∑ j in Finset.range fe_values_vol.n_quadrature_points,
    g (cell_soln_at_q dg fe_values_vol cell_dofs_indices j)
      * ADtype.ofReal (fe_values_vol.shape_grad_component j q (dg.nstate - 1) 0)

/-- The dissipative and source terms of the cell residual of test index `itest`:
`Sum_q [ grad(phi)(q) . Fdiss[q][s] + (phi(q) * source[q][s] if configured) ] * JxW[q]`. -/
def cell_diss_source_rhs (dg : DGStrong) (fe_values_vol : FEValues)
    (cell_dofs_indices : List ℕ) (itest : ℕ) : ADtype :=
  let s := fe_values_vol.system_to_component_index itest
  ∑ q in Finset.range fe_values_vol.n_quadrature_points,
    (dotRA dg.dim (fe_values_vol.shape_grad_component itest q s)
          (dg.pde_physics.dissipative_flux
            (cell_soln_at_q dg fe_values_vol cell_dofs_indices q)
            (cell_soln_grad_at_q dg fe_values_vol cell_dofs_indices q) s)
      + (if dg.all_parameters.use_manufactured_source_term = true then
          ADtype.ofReal (fe_values_vol.shape_value_component itest q s)
            * dg.pde_physics.source_term (fe_values_vol.quadrature_point q)
                (cell_soln_at_q dg fe_values_vol cell_dofs_indices q) s
        else 0))
    * ADtype.ofReal (fe_values_vol.JxW q)

/-- The convective term of the strong-form cell residual of test index `itest`:
`Sum_q phi(q) * div(Fconv)[q][s] * JxW[q]`. -/
def cell_divergence_rhs (dg : DGStrong) (fe_values_vol fe_values_lagrange : FEValues)
    (cell_dofs_indices : List ℕ) (itest : ℕ) : ADtype :=
  let s := fe_values_vol.system_to_component_index itest
  ∑ q in Finset.range fe_values_vol.n_quadrature_points,
    ADtype.ofReal (fe_values_vol.shape_value_component itest q s)
      * lagrange_divergence dg fe_values_vol fe_values_lagrange cell_dofs_indices q s
      * ADtype.ofReal (fe_values_vol.JxW q)

/-- The term the split form contributes for one pair `(f, g, alpha)`:
`alpha * f(State at the test node) * Sum_q phi(q) * G(q) * JxW[q]`. -/
def cell_split_pair_rhs (dg : DGStrong) (fe_values_vol : FEValues)
    (cell_dofs_indices : List ℕ) (pair : SplitFluxPair) (itest : ℕ) : ADtype :=
  let s := fe_values_vol.system_to_component_index itest
  ADtype.ofReal pair.alpha
    * pair.f (cell_soln_at_q dg fe_values_vol cell_dofs_indices itest)
    * ∑ q in Finset.range fe_values_vol.n_quadrature_points,
        ADtype.ofReal (fe_values_vol.shape_value_component itest q s)
          * split_g_accumulation dg fe_values_vol cell_dofs_indices pair.g q
          * ADtype.ofReal (fe_values_vol.JxW q)

/-! ### Definitions for: C2: the AD Jacobian and the centred finite difference -/

/-- The solution vector with `τ` added to the entry of the global degree of freedom `c`. -/
def perturb_solution (u : RealVector) (c : ℕ) (τ : real) : RealVector :=
  fun g => if g = c then u g + τ else u g

/-- The same object with another solution vector. -/
def DGStrong.with_solution (dg : DGStrong) (u : RealVector) : DGStrong :=
  { dg with solution := u }

/-- The centred finite difference `(R(u + eps e_c) - R(u - eps e_c)) / (2 eps)`. -/
def centred_difference (R : RealVector → real) (u : RealVector) (c : ℕ) (eps : real) : real :=
  (R (perturb_solution u c eps) - R (perturb_solution u c (-eps))) / (2 * eps)

/-- The derivative an AD scalar carries along a direction: the combination
`Sum_{k < N} w k * dx(k)` of its derivative components. -/
def dirDeriv (w : ℕ → real) (N : ℕ) (X : ADtype) : real :=
  ∑ k in Finset.range N, w k * X.dx k

/-- A family of AD scalars whose value is affine in the parameter, with slope the carried
derivative, and whose carried derivative is constant. -/
def AffRel (w : ℕ → real) (N : ℕ) (X : real → ADtype) : Prop :=
  ∀ τ, (X τ).val = (X 0).val + τ * dirDeriv w N (X 0) ∧ dirDeriv w N (X τ) = dirDeriv w N (X 0)

/-- A family of AD scalars for which the centred difference of the value is the carried
derivative. -/
def QuadRel (w : ℕ → real) (N : ℕ) (X : real → ADtype) : Prop :=
  ∀ e, (X e).val - (X (-e)).val = 2 * e * dirDeriv w N (X 0)

/-- An AD function of the two traces and their gradients that is affine with passive
coefficients: `F = b + A1 . u_int + A2 . u_ext + B1 : grad_int + B2 : grad_ext`. -/
def IsAffine (nstate dim : ℕ)
    (F : ADArray → ADArray → ADArrayTensor1 → ADArrayTensor1 → ADtype) : Prop :=
  ∃ (b : real) (A1 A2 : ℕ → real) (B1 B2 : ℕ → ℕ → real), ∀ ui ue gi ge,
    F ui ue gi ge
      = ADtype.ofReal b
        + ∑ t in Finset.range nstate, ADtype.ofReal (A1 t) * ui t
        + ∑ t in Finset.range nstate, ADtype.ofReal (A2 t) * ue t
        + ∑ t in Finset.range nstate, ∑ e in Finset.range dim, ADtype.ofReal (B1 t e) * gi t e
        + ∑ t in Finset.range nstate, ∑ e in Finset.range dim, ADtype.ofReal (B2 t e) * ge t e

/-- The physics and numerical-flux functions of `dg` are affine in the state and the
gradient, for every state component and direction of the arrays and for every passive normal
vector. -/
structure AffinePhysics (dg : DGStrong) : Prop where
  /-- The function `convective_flux` is affine in the state -/
  convective_flux : ∀ s, s < dg.nstate → ∀ d, d < dg.dim → IsAffine dg.nstate dg.dim
    (fun ui _ _ _ => dg.pde_physics.convective_flux ui s d)
  /-- The function `dissipative_flux` is affine in the state and the gradient -/
  dissipative_flux : ∀ s, s < dg.nstate → ∀ d, d < dg.dim → IsAffine dg.nstate dg.dim
    (fun ui _ gi _ => dg.pde_physics.dissipative_flux ui gi s d)
  /-- The function `source_term` is affine in the state -/
  source_term : ∀ x s, s < dg.nstate → IsAffine dg.nstate dg.dim
    (fun ui _ _ _ => dg.pde_physics.source_term x ui s)
  /-- the ghost state of `boundary_face_values` is affine in the interior trace -/
  boundary_state : ∀ id x (n : Tensor1 real) s, s < dg.nstate → IsAffine dg.nstate dg.dim
    (fun ui _ gi _ => (dg.pde_physics.boundary_face_values id x (tensorOfReal n) ui gi).1 s)
  /-- the ghost gradient of `boundary_face_values` is affine in the interior trace -/
  boundary_gradient : ∀ id x (n : Tensor1 real) s, s < dg.nstate → ∀ d, d < dg.dim →
    IsAffine dg.nstate dg.dim
      (fun ui _ gi _ => (dg.pde_physics.boundary_face_values id x (tensorOfReal n) ui gi).2 s d)
  /-- The function `evaluate_flux` is affine in the two states -/
  evaluate_flux : ∀ (n : Tensor1 real) s, s < dg.nstate → IsAffine dg.nstate dg.dim
    (fun ui ue _ _ => dg.conv_num_flux.evaluate_flux ui ue (tensorOfReal n) s)
  /-- The function `evaluate_solution_flux` is affine in the two states -/
  evaluate_solution_flux : ∀ (n : Tensor1 real) s, s < dg.nstate → IsAffine dg.nstate dg.dim
    (fun ui ue _ _ => dg.diss_num_flux.evaluate_solution_flux ui ue (tensorOfReal n) s)
  /-- The function `evaluate_auxiliary_flux` is affine in the two states and the two gradients -/
  evaluate_auxiliary_flux : ∀ (n : Tensor1 real) penalty on_boundary s, s < dg.nstate →
    IsAffine dg.nstate dg.dim
      (fun ui ue gi ge =>
        dg.diss_num_flux.evaluate_auxiliary_flux ui ue gi ge (tensorOfReal n) penalty
          on_boundary s)

/-- The functions `f` and `g` of the two split-flux pairs the cell assembler reads,
`split_convective_fluxes[0][0][0]` and `split_convective_fluxes[0][0][1]`, are affine in the
state. -/
def AffineSplitFluxes (dg : DGStrong) : Prop :=
  ∀ isplit, isplit < 2 →
    IsAffine dg.nstate dg.dim (fun ui _ _ _ => (dg.split_fluxes.get 0 0 isplit).f ui)
      ∧ IsAffine dg.nstate dg.dim (fun ui _ _ _ => (dg.split_fluxes.get 0 0 isplit).g ui)

/-- The physics and numerical-flux functions of `dg` are affine and, when the split form is
enabled, so are the split-flux functions the cell assembler reads. -/
structure AffineCollaborators (dg : DGStrong) extends AffinePhysics dg : Prop where
  /-- the functions `f` of the two split-flux pairs the assembler reads are affine -/
  split_f : dg.all_parameters.use_split_form = true → ∀ isplit, isplit < 2 →
    IsAffine dg.nstate dg.dim (fun ui _ _ _ => (dg.split_fluxes.get 0 0 isplit).f ui)
  /-- the functions `g` of the two split-flux pairs the assembler reads are affine -/
  split_g : dg.all_parameters.use_split_form = true → ∀ isplit, isplit < 2 →
    IsAffine dg.nstate dg.dim (fun ui _ _ _ => (dg.split_fluxes.get 0 0 isplit).g ui)

/-- The direction in the space of local unknowns of a cell (or a boundary face) that
corresponds to the global degree of freedom `c`. -/
def cell_weights (dofs_indices : List ℕ) (c : ℕ) : ℕ → real :=
  fun k => if dofs_indices.getD k 0 = c then 1 else 0

/-- The direction in the space of the joint local unknowns of an interior face (interior
ones first, then exterior ones) that corresponds to the global degree of freedom `c`. -/
def face_weights (dof_indices_int dof_indices_ext : List ℕ) (n_dofs_int : ℕ) (c : ℕ) :
    ℕ → real :=
  fun k =>
    if k < n_dofs_int then (if dof_indices_int.getD k 0 = c then 1 else 0)
    else (if dof_indices_ext.getD (k - n_dofs_int) 0 = c then 1 else 0)

/-- The object `dg` with its solution perturbed by `τ` along the global unknown `c`. -/
def DGStrong.perturbed (dg : DGStrong) (c : ℕ) (τ : real) : DGStrong :=
  dg.with_solution (perturb_solution dg.solution c τ)

/-- The residual contribution of the cell assembler to the entry of test function `i`, as a
function of the solution vector: what a call adds to a zero residual vector. -/
def cell_residual_contribution (dg : DGStrong) (fe_values_vol fe_values_lagrange : FEValues)
    (cell_dofs_indices : List ℕ) (i : ℕ) (u : RealVector) : real :=
  match assemble_cell_terms_implicit (dg.with_solution u) fe_values_vol fe_values_lagrange
      cell_dofs_indices (fun _ => 0) with
  | .ok out => out.1 i
  | .error _ => 0

/-- The residual contribution of the boundary assembler to the entry of test function `i`,
as a function of the solution vector: what a call adds to a zero residual vector. -/
def boundary_residual_contribution (dg : DGStrong) (boundary_id : ℕ)
    (fe_values_boundary : FEValues) (penalty : real) (dof_indices_int : List ℕ) (i : ℕ)
    (u : RealVector) : real :=
  match assemble_boundary_term_implicit (dg.with_solution u) boundary_id fe_values_boundary
      penalty dof_indices_int (fun _ => 0) with
  | .ok out => out.1 i
  | .error _ => 0

/-- The residual contribution of the interior-face assembler to the interior-side entry of
test function `i`, as a function of the solution vector. -/
def face_residual_contribution_int (dg : DGStrong) (fe_values_int fe_values_ext : FEValues)
    (penalty : real) (dof_indices_int dof_indices_ext : List ℕ) (i : ℕ) (u : RealVector) :
    real :=
  match assemble_face_term_implicit (dg.with_solution u) fe_values_int fe_values_ext penalty
      dof_indices_int dof_indices_ext (fun _ => 0) (fun _ => 0) with
  | .ok out => out.local_rhs_int_cell i
  | .error _ => 0

/-- The residual contribution of the interior-face assembler to the exterior-side entry of
test function `j`, as a function of the solution vector. -/
def face_residual_contribution_ext (dg : DGStrong) (fe_values_int fe_values_ext : FEValues)
    (penalty : real) (dof_indices_int dof_indices_ext : List ℕ) (j : ℕ) (u : RealVector) :
    real :=
  match assemble_face_term_implicit (dg.with_solution u) fe_values_int fe_values_ext penalty
      dof_indices_int dof_indices_ext (fun _ => 0) (fun _ => 0) with
  | .ok out => out.local_rhs_ext_cell j
  | .error _ => 0

/-- A split-flux pair with the quadratic functions `f = g = u^2` and `alpha = 1`. -/
def square_pair : SplitFluxPair where
  f := fun u => u 0 * u 0
  g := fun u => u 0 * u 0
  alpha := 1

/-- The one-dimensional example with the implicit solver, the split form enabled and two
quadratic split-flux pairs in the registry. -/
def example_dg_square : DGStrong :=
  { example_dg true .implicit_solver with split_fluxes := [[[square_pair, square_pair]]] }

/-! ### Definitions for: C12: the seeding of the local unknowns -/

/-- The seed named by the claim: the AD scalar with the given value whose derivative vector
is the `k`-th unit vector of length `n`. -/
def one_hot_seed (value : real) (k n : ℕ) : ADtype :=
  ⟨value, fun j => if j = k ∧ j < n then 1 else 0⟩

/-! ### Definitions for: C13: a dimension mismatch fails at entry -/

/-- The accumulators a loop of fallible iterations leaves behind: every iteration before the
first failing one has been applied, the failing one and those after it have not. -/
def loop_accumulators {σ : Type} (step : σ → ℕ → Except AssemblyError σ) : List ℕ → σ → σ
  | [], acc => acc
  | i :: rest, acc =>
    match step acc i with
    | .ok acc' => loop_accumulators step rest acc'
    | .error _ => acc

/-- The contents of the residual vector and of the system matrix after a call of
`assemble_cell_terms_implicit`, whether it returned or failed: the checks of lines 62-151
precede every write, and the test-function loop of lines 161-226 writes at the end of each
iteration it completes. -/
def assemble_cell_terms_implicit_accumulators (dg : DGStrong)
    (fe_values_vol fe_values_lagrange : FEValues) (cell_dofs_indices : List ℕ)
    (local_rhs_int_cell : RealVector) : RealVector × SystemMatrix :=
  let n_quad_pts := fe_values_vol.n_quadrature_points
  let n_dofs_cell := fe_values_vol.dofs_per_cell
  if n_dofs_cell ≠ cell_dofs_indices.length then (local_rhs_int_cell, dg.system_matrix)
  else if ¬ interpolation_in_range dg.nstate fe_values_vol n_quad_pts then
    (local_rhs_int_cell, dg.system_matrix)
  else if ¬ cell_flux_loops_in_range dg fe_values_vol fe_values_lagrange then
    (local_rhs_int_cell, dg.system_matrix)
  else
    loop_accumulators (cell_test_step dg fe_values_vol fe_values_lagrange cell_dofs_indices)
      (List.range n_dofs_cell) (local_rhs_int_cell, dg.system_matrix)

/-- The contents of the residual vector and of the system matrix after a call of
`assemble_boundary_term_implicit`, whether it returned or failed: the checks of lines
245-327 precede every write. -/
def assemble_boundary_term_implicit_accumulators (dg : DGStrong) (boundary_id : ℕ)
    (fe_values_boundary : FEValues) (penalty : real) (dof_indices_int : List ℕ)
    (local_rhs_int_cell : RealVector) : RealVector × SystemMatrix :=
  let n_dofs_cell := fe_values_boundary.dofs_per_cell
  let n_face_quad_pts := fe_values_boundary.n_quadrature_points
  if n_dofs_cell ≠ dof_indices_int.length then (local_rhs_int_cell, dg.system_matrix)
  else if ¬ interpolation_in_range dg.nstate fe_values_boundary n_face_quad_pts then
    (local_rhs_int_cell, dg.system_matrix)
  else
    forLoop n_dofs_cell (local_rhs_int_cell, dg.system_matrix) (fun acc itest =>
      scatter dg.all_parameters dof_indices_int itest
        (boundary_rhs dg boundary_id fe_values_boundary penalty dof_indices_int itest) acc)

/-- The contents of the two residual vectors and of the system matrix after a call of
`assemble_face_term_implicit`, whether it returned or failed: the checks of lines 380-476
precede every write, the interior test loop writes in every iteration, the exterior test
loop at the end of each iteration it completes. -/
def assemble_face_term_implicit_accumulators (dg : DGStrong)
    (fe_values_int fe_values_ext : FEValues) (penalty : real)
    (dof_indices_int dof_indices_ext : List ℕ)
    (local_rhs_int_cell local_rhs_ext_cell : RealVector) : FaceOutput :=
  let n_face_quad_pts := fe_values_ext.n_quadrature_points
  let n_dofs_int := fe_values_int.dofs_per_cell
  let n_dofs_ext := fe_values_ext.dofs_per_cell
  if n_dofs_int ≠ dof_indices_int.length then
    ⟨local_rhs_int_cell, local_rhs_ext_cell, dg.system_matrix⟩
  else if n_dofs_ext ≠ dof_indices_ext.length then
    ⟨local_rhs_int_cell, local_rhs_ext_cell, dg.system_matrix⟩
  else if ¬ n_face_quad_pts ≤ fe_values_int.n_quadrature_points then
    ⟨local_rhs_int_cell, local_rhs_ext_cell, dg.system_matrix⟩
  else if ¬ (interpolation_in_range dg.nstate fe_values_int n_face_quad_pts
      ∧ interpolation_in_range dg.nstate fe_values_ext n_face_quad_pts) then
    ⟨local_rhs_int_cell, local_rhs_ext_cell, dg.system_matrix⟩
  else
    loop_accumulators
      (face_test_step_ext dg fe_values_int fe_values_ext penalty dof_indices_int dof_indices_ext)
      (List.range n_dofs_ext)
      (forLoop n_dofs_int ⟨local_rhs_int_cell, local_rhs_ext_cell, dg.system_matrix⟩
        (face_test_step_int dg fe_values_int fe_values_ext penalty dof_indices_int
          dof_indices_ext))

/-! ### Definitions for: C14: the split form on a discretization that is not collocated -/

/-- The same object with another `use_collocated_nodes` flag. -/
def DGStrong.with_collocated_nodes (dg : DGStrong) (b : Bool) : DGStrong :=
  { dg with all_parameters := { dg.all_parameters with use_collocated_nodes := b } }

/-! ### Definitions for: C15: the check of the two sets of quadrature weights -/

/-- The element of the example with the quadrature weights `1` instead of `1/2`: every other
table is the one of `example_fe`. -/
def example_fe_heavy : FEValues :=
  { example_fe with JxW := fun _ => 1 }

/-! ### Definitions for: C16: the order of two assembler calls -/

/-- One call of an assembler as a caller issues it: the assembler, its arguments and, for the
cell and boundary assemblers, which of the two residual vectors of the accumulators it is
handed (`ext_side = true` for the second one). -/
inductive AssemblerCall where
  /-- a call of `assemble_cell_terms_implicit` -/
  | cell (fe_values_vol fe_values_lagrange : FEValues) (cell_dofs_indices : List ℕ)
      (ext_side : Bool)
  /-- a call of `assemble_boundary_term_implicit` -/
  | boundary (boundary_id : ℕ) (fe_values_boundary : FEValues) (penalty : real)
      (dof_indices_int : List ℕ) (ext_side : Bool)
  /-- a call of `assemble_face_term_implicit` -/
  | face (fe_values_int fe_values_ext : FEValues) (penalty : real)
      (dof_indices_int dof_indices_ext : List ℕ)

/-- The accumulators with one residual vector and the system matrix replaced. -/
def FaceOutput.put (acc : FaceOutput) (ext_side : Bool) (out : RealVector × SystemMatrix) :
    FaceOutput :=
  if ext_side then ⟨acc.local_rhs_int_cell, out.1, out.2⟩
  else ⟨out.1, acc.local_rhs_ext_cell, out.2⟩

/-- The residual vector of the accumulators a cell or boundary call is handed. -/
def FaceOutput.side (acc : FaceOutput) (ext_side : Bool) : RealVector :=
  if ext_side then acc.local_rhs_ext_cell else acc.local_rhs_int_cell

/-- The accumulators (two residual vectors and the system matrix) after a call issued on the
accumulators `acc`, against the solution and the collaborators of `dg`. -/
def AssemblerCall.run (dg : DGStrong) (call : AssemblerCall) (acc : FaceOutput) :
    Except AssemblyError FaceOutput :=
  match call with
  | .cell fe_values_vol fe_values_lagrange cell_dofs_indices ext_side =>
    (assemble_cell_terms_implicit (dg.with_system_matrix acc.system_matrix) fe_values_vol
      fe_values_lagrange cell_dofs_indices (acc.side ext_side)).map (acc.put ext_side)
  | .boundary boundary_id fe_values_boundary penalty dof_indices_int ext_side =>
    (assemble_boundary_term_implicit (dg.with_system_matrix acc.system_matrix) boundary_id
      fe_values_boundary penalty dof_indices_int (acc.side ext_side)).map (acc.put ext_side)
  | .face fe_values_int fe_values_ext penalty dof_indices_int dof_indices_ext =>
    assemble_face_term_implicit (dg.with_system_matrix acc.system_matrix) fe_values_int
      fe_values_ext penalty dof_indices_int dof_indices_ext acc.local_rhs_int_cell
      acc.local_rhs_ext_cell

/-- The empty accumulators. -/
def FaceOutput.zero : FaceOutput := ⟨fun _ => 0, fun _ => 0, fun _ _ => 0⟩

/-! ### Definitions for: C17: the upwind flux on a one-dimensional two-cell mesh -/

/-- Scalar linear advection with the speed `a`: `Fconv = a u`, no dissipative flux, no
source, and a boundary reconstruction that returns the interior trace. -/
def advection_physics (a : real) : PhysicsBase where
  convective_flux := fun u s _ => ADtype.ofReal a * u s
  dissipative_flux := fun _ _ _ _ => 0
  source_term := fun _ _ _ => 0
  boundary_face_values := fun _ _ _ u g => (u, g)

/-- The upwind convective numerical flux for the speed `a`: the flux of the trace the wind
comes from, `a u_int n` when `a n >= 0` and `a u_ext n` otherwise. -/
def upwind_flux (a : real) : NumericalFluxConvective where
  evaluate_flux := fun ui ue n s =>
    if 0 ≤ a * (n 0).val then ADtype.ofReal a * ui s * n 0 else ADtype.ofReal a * ue s * n 0

/-- The dissipative numerical flux of a problem without diffusion: the central solution flux
and no auxiliary flux. -/
def no_diss_num_flux : NumericalFluxDissipative where
  evaluate_solution_flux := fun ui ue _ s => ADtype.ofReal (1 / 2) * (ui s + ue s)
  evaluate_auxiliary_flux := fun _ _ _ _ _ _ _ _ => 0

/-- A `DGStrong<1,1,real>` object for scalar linear advection with the speed `a`, the upwind
flux and the solution vector `u`. -/
def advection_dg (a : real) (u : RealVector) : DGStrong where
  dim := 1
  nstate := 1
  all_parameters :=
    { use_split_form := false
      use_collocated_nodes := true
      use_manufactured_source_term := false
      ode_solver_type := .implicit_solver }
  pde_physics := advection_physics a
  conv_num_flux := upwind_flux a
  diss_num_flux := no_diss_num_flux
  split_fluxes := [[[identity_pair, identity_pair]]]
  solution := u
  system_matrix := fun _ _ => 0

/-! ### Definitions for: C18: the split form replaces the strong-form divergence -/

/-- The same object with another `convective_flux` function in its physics. -/
def DGStrong.with_convective_flux (dg : DGStrong) (F : ADArray → ADArrayTensor1) : DGStrong :=
  { dg with pde_physics := { dg.pde_physics with convective_flux := F } }

/-! ### Definitions for: C19: the pairs and dimensions the split form sums over -/

/-- The per-node sum named by the claim for the flux function `g`, the state component `s`
and the spatial dimension `idim`: `G(q) = Sum_j g(State at node j) * d(phi_j)/dx_idim (q)`. -/
def split_claim_g (dg : DGStrong) (fe_values_vol : FEValues) (cell_dofs_indices : List ℕ)
    (g : ADArray → ADtype) (s idim q : ℕ) : ADtype :=
  ∑ j in Finset.range fe_values_vol.n_quadrature_points,
    g (cell_soln_at_q dg fe_values_vol cell_dofs_indices j)
      * ADtype.ofReal (fe_values_vol.shape_grad_component j q s idim)

/-- The term named by the claim for one pair and one spatial dimension:
`-alpha * f(State at the test node) * Sum_q phi_test(q) * G(q) * JxW[q]`. -/
def split_claim_pair_rhs (dg : DGStrong) (fe_values_vol : FEValues)
    (cell_dofs_indices : List ℕ) (pair : SplitFluxPair) (idim itest : ℕ) : ADtype :=
  let s := fe_values_vol.system_to_component_index itest
  (-(ADtype.ofReal pair.alpha
    * pair.f (cell_soln_at_q dg fe_values_vol cell_dofs_indices itest)
    * ∑ q in Finset.range fe_values_vol.n_quadrature_points,
        ADtype.ofReal (fe_values_vol.shape_value_component itest q s)
          * split_claim_g dg fe_values_vol cell_dofs_indices pair.g s idim q
          * ADtype.ofReal (fe_values_vol.JxW q)))

/-- The convective contribution named by the claim: the sum of the terms of every split-flux
pair registered for the state component of the test function, in every spatial dimension. -/
def split_claim_rhs (dg : DGStrong) (fe_values_vol : FEValues) (cell_dofs_indices : List ℕ)
    (itest : ℕ) : ADtype :=
  let s := fe_values_vol.system_to_component_index itest
  ∑ idim in Finset.range dg.dim,
    ∑ isplit in Finset.range ((dg.split_fluxes.getD idim []).getD s []).length,
      split_claim_pair_rhs dg fe_values_vol cell_dofs_indices
        (dg.split_fluxes.get idim s isplit) idim itest

/-- The one-dimensional example with the split form enabled and three split-flux pairs with
`f = g = identity`, `alpha = 1` registered for its state component. -/
def example_dg_three_pairs : DGStrong :=
  { example_dg true .implicit_solver with
    split_fluxes := [[[identity_pair, identity_pair, identity_pair]]] }

/-! ### Definitions for: C20: the source term -/

/-- The same object with another `source_term` function in its physics. -/
def DGStrong.with_source_term (dg : DGStrong) (S : Tensor1 real → ADArray → ADArray) :
    DGStrong :=
  { dg with pde_physics := { dg.pde_physics with source_term := S } }

/-- The same object with another `use_manufactured_source_term` flag. -/
def DGStrong.with_manufactured_source_term (dg : DGStrong) (b : Bool) : DGStrong :=
  { dg with all_parameters := { dg.all_parameters with use_manufactured_source_term := b } }

/-- The source contribution named by the claim for test index `itest`:
`Sum_q phi_test(q) * source_term(x_q, State_q)[s] * JxW[q]`. -/
def cell_source_rhs (dg : DGStrong) (fe_values_vol : FEValues) (cell_dofs_indices : List ℕ)
    (itest : ℕ) : ADtype :=
  let s := fe_values_vol.system_to_component_index itest
  ∑ q in Finset.range fe_values_vol.n_quadrature_points,
    ADtype.ofReal (fe_values_vol.shape_value_component itest q s)
      * dg.pde_physics.source_term (fe_values_vol.quadrature_point q)
          (cell_soln_at_q dg fe_values_vol cell_dofs_indices q) s
      * ADtype.ofReal (fe_values_vol.JxW q)

/-- The one-dimensional example with the manufactured source term configured and the source
`S(x, u) = u`. -/
def example_dg_source : DGStrong :=
  ((example_dg false .implicit_solver).with_source_term
    (fun _ u => u)).with_manufactured_source_term true

/-! ### Definitions for: C21: the dissipative auxiliary trace at a boundary face -/

/-- Lines 317-320: the local array `diss_soln_jump_int` built at the boundary quadrature point
`iquad`, which line 321 passes to `dissipative_flux`. -/
def boundary_diss_soln_jump_int (dg : DGStrong) (boundary_id : ℕ)
    (fe_values_boundary : FEValues) (penalty : real) (dof_indices_int : List ℕ) (iquad : ℕ) :
    ADArrayTensor1 :=
  let q := boundary_quad_values dg boundary_id fe_values_boundary penalty dof_indices_int iquad
  diss_soln_jump dg.nstate q.diss_soln_num_flux q.soln_int
    (tensorOfReal (fe_values_boundary.normal_vector iquad))

/-! ### Definitions for: C22: the free-stream velocity set by the Euler constructor -/

/-- The library functions `Euler::Euler` calls, on the scalar type `R`: `cos` and `sin` of
`<cmath>` and `dealii::Tensor<1,dim,real>::norm()`. None of them is part of the sources at
hand. -/
structure EulerLibrary (R : Type) where
  /-- Embeds `cos(x)` -/
  cos : R → R
  /-- Embeds `sin(x)` -/
  sin : R → R
  /-- Embeds `v.norm()` for a tensor `v` with `dim` components -/
  norm : ℕ → Tensor1 R → R

/-- The data members of `Physics::Euler<dim,nstate,real>` that its constructor sets
(`src/physics/euler.h`, lines 109-120). -/
structure Euler (R : Type) where
  /-- Embeds `ref_length` -/
  ref_length : R
  /-- Embeds `mach_inf` -/
  mach_inf : R
  /-- Embeds `mach_inf_sqr` -/
  mach_inf_sqr : R
  /-- Embeds `angle_of_attack` -/
  angle_of_attack : R
  /-- Embeds `side_slip_angle` -/
  side_slip_angle : R
  /-- Embeds `sound_inf` -/
  sound_inf : R
  /-- Embeds `velocities_inf` -/
  velocities_inf : Tensor1 R

/-- Lines 90-102 of `euler.h`: the branches on `dim` that fill the zero-initialised tensor
`velocities_inf`. The message printed at line 94 for a non-zero side-slip angle in 2D has no
effect on the values. -/
def Euler.set_velocities_inf {R : Type} [Field R] (lib : EulerLibrary R) (dim : ℕ)
    (angle_of_attack side_slip_angle : R) : Tensor1 R :=
  let velocities_inf : Tensor1 R := fun _ => 0
  if dim = 1 then
    Function.update velocities_inf 0 1
  else if dim = 2 then
    let velocities_inf :=
      Function.update velocities_inf 0 (lib.cos angle_of_attack * lib.cos side_slip_angle)
    Function.update velocities_inf 1 (lib.sin angle_of_attack)
  else if dim = 3 then
    let velocities_inf := Function.update velocities_inf 0 (lib.cos angle_of_attack)
    let velocities_inf := Function.update velocities_inf 1 (lib.sin angle_of_attack)
    Function.update velocities_inf 2 0
  else velocities_inf

set_option linter.dupNamespace false in
/-- Embeds the constructor `Euler::Euler(ref_length, mach_inf, angle_of_attack,
side_slip_angle)` of lines 76-104 for the template parameter `dim`; `nstate == dim+2` is a
`static_assert`, checked when the program is compiled. The constructor fails when
`assert(std::abs(velocities_inf.norm() - 1.0) < 1e-14)` does. -/
def Euler.Euler {R : Type} [LinearOrderedField R] (lib : EulerLibrary R) (dim : ℕ)
    (ref_length mach_inf angle_of_attack side_slip_angle : R) :
    Except AssemblyError (Euler R) :=
  let velocities_inf := Euler.set_velocities_inf lib dim angle_of_attack side_slip_angle
  if ¬ (|lib.norm dim velocities_inf - 1| < 1 / 10 ^ 14) then .error .assertion_failed
  else
    .ok { ref_length := ref_length
          mach_inf := mach_inf
          mach_inf_sqr := mach_inf * mach_inf
          angle_of_attack := angle_of_attack
          side_slip_angle := side_slip_angle
          sound_inf := 1 / mach_inf
          velocities_inf := velocities_inf }

/-- What it means for the library functions to be the real ones: `cos^2 + sin^2 = 1` and
`norm()` is the Euclidean norm, the non-negative number whose square is the sum of the squared
components. -/
def EulerLibrary.IsEuclidean {R : Type} [LinearOrderedField R] (lib : EulerLibrary R) : Prop :=
  (∀ x, lib.cos x ^ 2 + lib.sin x ^ 2 = 1)
  ∧ ∀ dim v, 0 ≤ lib.norm dim v ∧ lib.norm dim v ^ 2 = ∑ d in Finset.range dim, v d ^ 2

/-! ### Definitions for: C23: the state component of an exterior test function -/

/-- The face of the unit interval at `x = 1` seen from a degree-0 element: one constant basis
function, one quadrature point of weight `1`, outward normal `+1`. -/
def example_fe_face_p0 : FEValues where
  n_quadrature_points := 1
  dofs_per_cell := 1
  system_to_component_index := fun _ => 0
  shape_value_component := fun _ _ _ => 1
  shape_grad_component := fun _ _ _ _ => 0
  shape_grad := fun _ _ _ => 0
  JxW := fun _ => 1
  normal_vector := fun _ _ => 1
  quadrature_point := fun _ _ => 1

/-- The face of the unit interval at `x = 1` seen from the two-component degree-1 element:
DOFs `0, 1` carry component `0` and DOFs `2, 3` carry component `1`; within a component the
basis is `1 - x`, `x`. -/
def example_fe_face_system : FEValues where
  n_quadrature_points := 1
  dofs_per_cell := 4
  system_to_component_index := fun idof => idof / 2
  shape_value_component := fun idof _ s => if idof / 2 = s ∧ idof % 2 = 1 then 1 else 0
  shape_grad_component := fun idof _ s _ =>
    if idof / 2 = s then (if idof % 2 = 0 then -1 else 1) else 0
  shape_grad := fun idof _ _ => if idof % 2 = 0 then -1 else 1
  JxW := fun _ => 1
  normal_vector := fun _ _ => 1
  quadrature_point := fun _ _ => 1

/-- The same face seen from the neighbouring element `[1, 2]` when that element is the
two-component degree-0 element: DOF `0` carries component `0`, DOF `1` carries component `1`,
each with the constant basis function `1`. -/
def example_fe_face_ext_system_p0 : FEValues where
  n_quadrature_points := 1
  dofs_per_cell := 2
  system_to_component_index := fun idof => idof
  shape_value_component := fun idof _ s => if idof = s then 1 else 0
  shape_grad_component := fun _ _ _ _ => 0
  shape_grad := fun _ _ _ => 0
  JxW := fun _ => 1
  normal_vector := fun _ _ => -1
  quadrature_point := fun _ _ => 1

/-- The example object with two state components, a `DGStrong<1,2,real>`. -/
def example_dg_two_states : DGStrong :=
  { example_dg false .implicit_solver with nstate := 2 }

/-! ### Definitions for: C24: the component of the split-form accumulations -/

/-- The two-component degree-1 element on the unit interval, evaluated at the four equally
spaced points `0, 1/3, 2/3, 1` with the weights of Simpson's 3/8 rule: DOFs `0, 1` carry
component `0` and DOFs `2, 3` carry component `1`; within a component the basis is `1 - x`,
`x`. -/
def example_fe_system : FEValues where
  n_quadrature_points := 4
  dofs_per_cell := 4
  system_to_component_index := fun idof => idof / 2
  shape_value_component := fun idof iquad s =>
    if idof / 2 = s then (if idof % 2 = 0 then 1 - (iquad : real) / 3 else (iquad : real) / 3)
    else 0
  shape_grad_component := fun idof _ s _ =>
    if idof / 2 = s then (if idof % 2 = 0 then -1 else 1) else 0
  shape_grad := fun idof _ _ => if idof % 2 = 0 then -1 else 1
  JxW := fun iquad => if iquad = 0 ∨ iquad = 3 then 1 / 8 else 3 / 8
  normal_vector := fun _ _ => 0
  quadrature_point := fun iquad _ => (iquad : real) / 3

/-- The cubic Lagrange basis on the same four points, with the same weights; `shape_grad` is
its differentiation matrix. -/
def example_fe_lagrange_cubic : FEValues where
  n_quadrature_points := 4
  dofs_per_cell := 4
  system_to_component_index := fun _ => 0
  shape_value_component := fun idof iquad _ => if idof = iquad then 1 else 0
  shape_grad_component := fun idof iquad _ _ =>
    (([[-11 / 2, -1, 1 / 2, -1], [9, -3 / 2, -3, 9 / 2], [-9 / 2, 3, 3 / 2, -9],
      [1, -1 / 2, 1, 11 / 2]] : List (List real)).getD idof []).getD iquad 0
  shape_grad := fun idof iquad _ =>
    (([[-11 / 2, -1, 1 / 2, -1], [9, -3 / 2, -3, 9 / 2], [-9 / 2, 3, 3 / 2, -9],
      [1, -1 / 2, 1, 11 / 2]] : List (List real)).getD idof []).getD iquad 0
  JxW := fun iquad => if iquad = 0 ∨ iquad = 3 then 1 / 8 else 3 / 8
  normal_vector := fun _ _ => 0
  quadrature_point := fun iquad _ => (iquad : real) / 3

/-- The example object with two state components, the split form enabled and two quadratic
split-flux pairs in the registry. -/
def example_dg_split_two_states : DGStrong :=
  { example_dg true .implicit_solver with
    nstate := 2
    split_fluxes := [[[square_pair, square_pair]]] }

/-! ### Definitions for: C25: the split-flux registry when the split form is disabled -/

/-- The same object with another split-flux registry. -/
def DGStrong.with_split_fluxes (dg : DGStrong) (sf : SplitForm) : DGStrong :=
  { dg with split_fluxes := sf }

/-! ### Definitions for: C26: the ranges of the reads of the cell assembler -/

/-- The two-component degree-1 element on the unit interval with its two nodes as quadrature
points (weights `1/2`): DOFs `0, 1` carry component `0` and DOFs `2, 3` carry component `1`;
within a component the basis is `1 - x`, `x`. -/
def example_fe_system_collocated : FEValues where
  n_quadrature_points := 2
  dofs_per_cell := 4
  system_to_component_index := fun idof => idof / 2
  shape_value_component := fun idof iquad s =>
    if idof / 2 = s ∧ idof % 2 = iquad then 1 else 0
  shape_grad_component := fun idof _ s _ =>
    if idof / 2 = s then (if idof % 2 = 0 then -1 else 1) else 0
  shape_grad := fun idof _ _ => if idof % 2 = 0 then -1 else 1
  JxW := fun _ => 1 / 2
  normal_vector := fun _ _ => 0
  quadrature_point := fun iquad _ => iquad

/-- The scalar degree-1 element on the unit interval (basis `1 - x`, `x`) evaluated at the
three points `0, 1/2, 1` of Simpson's rule, weights `1/6, 2/3, 1/6`. -/
def example_fe_three_points : FEValues where
  n_quadrature_points := 3
  dofs_per_cell := 2
  system_to_component_index := fun _ => 0
  shape_value_component := fun idof iquad _ =>
    if idof = 0 then 1 - (iquad : real) / 2 else (iquad : real) / 2
  shape_grad_component := fun idof _ _ _ => if idof = 0 then -1 else 1
  shape_grad := fun idof _ _ => if idof = 0 then -1 else 1
  JxW := fun iquad => if iquad = 1 then 2 / 3 else 1 / 6
  normal_vector := fun _ _ => 0
  quadrature_point := fun iquad _ => (iquad : real) / 2

/-- The quadratic Lagrange basis on the same three points, with the same weights;
`shape_grad` is its differentiation matrix. -/
def example_fe_lagrange_quadratic : FEValues where
  n_quadrature_points := 3
  dofs_per_cell := 3
  system_to_component_index := fun _ => 0
  shape_value_component := fun idof iquad _ => if idof = iquad then 1 else 0
  shape_grad_component := fun idof iquad _ _ =>
    (([[-3, -1, 1], [4, 0, -4], [-1, 1, 3]] : List (List real)).getD idof []).getD iquad 0
  shape_grad := fun idof iquad _ =>
    (([[-3, -1, 1], [4, 0, -4], [-1, 1, 3]] : List (List real)).getD idof []).getD iquad 0
  JxW := fun iquad => if iquad = 1 then 2 / 3 else 1 / 6
  normal_vector := fun _ _ => 0
  quadrature_point := fun iquad _ => (iquad : real) / 2

/-! ### Definitions for: C27: free-stream preservation of the volume term -/

/-- The one-dimensional example with the constant solution `u = 3`. -/
def example_dg_constant : DGStrong :=
  (example_dg false .implicit_solver).with_solution (fun _ => 3)

/-! ### Definitions for: C28: an interior face whose two traces coincide -/

/-- The collaborators of `dg` evaluate real functions in AD arithmetic: the value of each
result depends on the values of the arguments only, not on their derivative vectors. -/
structure ValueRespecting (dg : DGStrong) : Prop where
  /-- the value of `convective_flux(u)` depends on the values of `u` only -/
  convective_flux : ∀ u u' : ADArray, (∀ s, (u s).val = (u' s).val) →
    ∀ s d, (dg.pde_physics.convective_flux u s d).val
      = (dg.pde_physics.convective_flux u' s d).val
  /-- the value of `dissipative_flux(u, g)` depends on the values of `u` and `g` only -/
  dissipative_flux : ∀ (u u' : ADArray) (g g' : ADArrayTensor1),
    (∀ s, (u s).val = (u' s).val) → (∀ s d, (g s d).val = (g' s d).val) →
    ∀ s d, (dg.pde_physics.dissipative_flux u g s d).val
      = (dg.pde_physics.dissipative_flux u' g' s d).val
  /-- the value of `evaluate_flux(u_int, u_ext, n)` depends on the values of the traces only -/
  evaluate_flux : ∀ (ui ue ui' ue' : ADArray) (n : Tensor1 ADtype),
    (∀ s, (ui s).val = (ui' s).val) → (∀ s, (ue s).val = (ue' s).val) →
    ∀ s, (dg.conv_num_flux.evaluate_flux ui ue n s).val
      = (dg.conv_num_flux.evaluate_flux ui' ue' n s).val
  /-- the value of `evaluate_solution_flux(u_int, u_ext, n)` depends on the values of the
  traces only -/
  evaluate_solution_flux : ∀ (ui ue ui' ue' : ADArray) (n : Tensor1 ADtype),
    (∀ s, (ui s).val = (ui' s).val) → (∀ s, (ue s).val = (ue' s).val) →
    ∀ s, (dg.diss_num_flux.evaluate_solution_flux ui ue n s).val
      = (dg.diss_num_flux.evaluate_solution_flux ui' ue' n s).val

/-- The auxiliary-flux term of the interior-side residual of test index `i`:
`Sum_q -phi_int(q) * sigma*[q][s] * JxW[q]` (line 488). -/
def face_auxiliary_rhs_int (dg : DGStrong) (fe_values_int fe_values_ext : FEValues)
    (penalty : real) (dof_indices_int dof_indices_ext : List ℕ) (i : ℕ) : ADtype :=
  let s := fe_values_int.system_to_component_index i
  ∑ q in Finset.range fe_values_ext.n_quadrature_points,
    -(ADtype.ofReal (fe_values_int.shape_value_component i q s)
      * (face_quad_values dg fe_values_int fe_values_ext penalty dof_indices_int
          dof_indices_ext q).diss_auxi_num_flux_dot_n s
      * ADtype.ofReal (fe_values_int.JxW q))

/-- The auxiliary-flux term of the exterior-side residual of test index `j`:
`Sum_q phi_ext(q) * sigma*[q][s] * JxW[q]` (line 515), with the state component `s` the
assembler uses for `j`. -/
def face_auxiliary_rhs_ext (dg : DGStrong) (fe_values_int fe_values_ext : FEValues)
    (penalty : real) (dof_indices_int dof_indices_ext : List ℕ) (j : ℕ) : ADtype :=
  let s := fe_values_int.system_to_component_index j
  ∑ q in Finset.range fe_values_ext.n_quadrature_points,
    ADtype.ofReal (fe_values_ext.shape_value_component j q s)
      * (face_quad_values dg fe_values_int fe_values_ext penalty dof_indices_int
          dof_indices_ext q).diss_auxi_num_flux_dot_n s
      * ADtype.ofReal (fe_values_int.JxW q)

/-! ### Definitions for: C29: the two solution jumps of an interior face -/

/-- Line 466: the local array `diss_soln_jump_int` built at the face quadrature point `iquad`,
`(u* - u_int) * normal_int`. -/
def face_diss_soln_jump_int (dg : DGStrong) (fe_values_int fe_values_ext : FEValues)
    (penalty : real) (dof_indices_int dof_indices_ext : List ℕ) (iquad : ℕ) : ADArrayTensor1 :=
  let q := face_quad_values dg fe_values_int fe_values_ext penalty dof_indices_int
    dof_indices_ext iquad
  diss_soln_jump dg.nstate q.diss_soln_num_flux q.soln_int
    (tensorOfReal (fe_values_int.normal_vector iquad))

/-- Line 467: the local array `diss_soln_jump_ext` built at the face quadrature point `iquad`,
`(u* - u_ext) * normal_ext` with `normal_ext = -normal_int`. -/
def face_diss_soln_jump_ext (dg : DGStrong) (fe_values_int fe_values_ext : FEValues)
    (penalty : real) (dof_indices_int dof_indices_ext : List ℕ) (iquad : ℕ) : ADArrayTensor1 :=
  let q := face_quad_values dg fe_values_int fe_values_ext penalty dof_indices_int
    dof_indices_ext iquad
  diss_soln_jump dg.nstate q.diss_soln_num_flux q.soln_ext
    (fun d => -tensorOfReal (fe_values_int.normal_vector iquad) d)

/-! ### Definitions for: C30: the finite-difference stencil of the sensitivity test -/

/-- The index `ij = (i+2)*5 + (j+2)` under which the sensitivity test stores the sample
`(i, j)` (`tests/unit_tests/sensitivities/d2RdWdX_fd_vs_ad.cpp`, lines 136, 146, 174). -/
def stencil_index (i j : ℤ) : ℕ := ((i + 2) * 5 + (j + 2)).toNat

/-- Lines 142-164 of the sensitivity test: the array `perturbed_dual_dot_residual`, filled by
the loops `for (int i=-2; i<3; ++i) for (int j=-2; j<3; ++j)` at the index `ij` with
`dual . right_hand_side` evaluated at `solution[iw] = old_iw + i*EPS` and
`nodes[jnode] = old_jnode + j*EPS`. `R` is that quantity as a function of the two perturbed
entries. -/
def perturbed_dual_dot_residual (R : real → real → real) (old_iw old_jnode EPS : real) :
    ℕ → real :=
  forLoop 5 (fun _ => 0) (fun arr i' =>
    forLoop 5 arr (fun arr j' =>
      let i : ℤ := (i' : ℤ) - 2
      let j : ℤ := (j' : ℤ) - 2
      let ij := stencil_index i j
      Function.update arr ij (R (old_iw + i * EPS) (old_jnode + j * EPS))))

/-- Lines 167-219 of the sensitivity test: the finite-difference value `fd_entry` formed from
the array `perturbed_dual_dot_residual`. -/
def fd_entry (perturbed_dual_dot_residual : ℕ → real) (EPS : real) : real :=
  let term0 : real := 0
  let term0 := term0 + perturbed_dual_dot_residual (stencil_index 1 (-2))
  let term0 := term0 + perturbed_dual_dot_residual (stencil_index 2 (-1))
  let term0 := term0 + perturbed_dual_dot_residual (stencil_index (-2) 1)
  let term0 := term0 + perturbed_dual_dot_residual (stencil_index (-1) 2)
  let term0 := term0 * (-63)
  let term1 : real := 0
  let term1 := term1 + perturbed_dual_dot_residual (stencil_index (-1) (-2))
  let term1 := term1 + perturbed_dual_dot_residual (stencil_index (-2) (-1))
  let term1 := term1 + perturbed_dual_dot_residual (stencil_index 2 1)
  let term1 := term1 + perturbed_dual_dot_residual (stencil_index 1 2)
  let term1 := term1 * 63
  let term2 : real := 0
  let term2 := term2 + perturbed_dual_dot_residual (stencil_index 2 (-2))
  let term2 := term2 + perturbed_dual_dot_residual (stencil_index (-2) 2)
  let term2 := term2 - perturbed_dual_dot_residual (stencil_index (-2) (-2))
  let term2 := term2 - perturbed_dual_dot_residual (stencil_index 2 2)
  let term2 := term2 * 44
  let term3 : real := 0
  let term3 := term3 + perturbed_dual_dot_residual (stencil_index (-1) (-1))
  let term3 := term3 + perturbed_dual_dot_residual (stencil_index 1 1)
  let term3 := term3 - perturbed_dual_dot_residual (stencil_index 1 (-1))
  let term3 := term3 - perturbed_dual_dot_residual (stencil_index (-1) 1)
  let term3 := term3 * 74
  let fd_entry := term0 + term1 + term2 + term3
  fd_entry / (600 * EPS * EPS)

/-- The weighted sum of the sixteen samples the stencil reads:
`-63` at `(1,-2), (2,-1), (-2,1), (-1,2)`; `+63` at `(-1,-2), (-2,-1), (2,1), (1,2)`; `+44` at
`(2,-2), (-2,2)` and `-44` at `(-2,-2), (2,2)`; `+74` at `(-1,-1), (1,1)` and `-74` at
`(1,-1), (-1,1)`, for the samples `f i j`. -/
def stencil_sum (f : ℤ → ℤ → real) : real :=
  -63 * (f 1 (-2) + f 2 (-1) + f (-2) 1 + f (-1) 2)
    + 63 * (f (-1) (-2) + f (-2) (-1) + f 2 1 + f 1 2)
    + 44 * (f 2 (-2) + f (-2) 2 - f (-2) (-2) - f 2 2)
    + 74 * (f (-1) (-1) + f 1 1 - f 1 (-1) - f (-1) 1)

/-! ## The AD scalar layer: projections of the operations -/

namespace ADtype

@[simp] theorem val_zero : (0 : ADtype).val = 0 := rfl
@[simp] theorem dx_zero (k : ℕ) : (0 : ADtype).dx k = 0 := rfl
@[simp] theorem val_one : (1 : ADtype).val = 1 := rfl
@[simp] theorem dx_one (k : ℕ) : (1 : ADtype).dx k = 0 := rfl
@[simp] theorem val_add (a b : ADtype) : (a + b).val = a.val + b.val := rfl
@[simp] theorem dx_add (a b : ADtype) (k : ℕ) : (a + b).dx k = a.dx k + b.dx k := rfl
@[simp] theorem val_neg (a : ADtype) : (-a).val = -a.val := rfl
@[simp] theorem dx_neg (a : ADtype) (k : ℕ) : (-a).dx k = -a.dx k := rfl
@[simp] theorem val_sub (a b : ADtype) : (a - b).val = a.val - b.val := rfl
@[simp] theorem dx_sub (a b : ADtype) (k : ℕ) : (a - b).dx k = a.dx k - b.dx k := rfl
@[simp] theorem val_mul (a b : ADtype) : (a * b).val = a.val * b.val := rfl
@[simp] theorem dx_mul (a b : ADtype) (k : ℕ) :
    (a * b).dx k = a.dx k * b.val + a.val * b.dx k := rfl
@[simp] theorem val_ofReal (x : real) : (ofReal x).val = x := rfl
@[simp] theorem dx_ofReal (x : real) (k : ℕ) : (ofReal x).dx k = 0 := rfl
@[simp] theorem val_diff (x : ADtype) (k n : ℕ) : (x.diff k n).val = x.val := rfl
@[simp] theorem dx_diff (x : ADtype) (k n j : ℕ) :
    (x.diff k n).dx j = if j = k then 1 else 0 := rfl
@[simp] theorem val_natCast (n : ℕ) : (n : ADtype).val = n := rfl
@[simp] theorem dx_natCast (n k : ℕ) : (n : ADtype).dx k = 0 := rfl
@[simp] theorem val_ofNat (n : ℕ) [n.AtLeastTwo] :
    (no_index (OfNat.ofNat n) : ADtype).val = (OfNat.ofNat n : real) :=
  (Nat.cast_ofNat : ((OfNat.ofNat n : ℕ) : real) = OfNat.ofNat n)
@[simp] theorem dx_ofNat (n : ℕ) [n.AtLeastTwo] (k : ℕ) :
    (no_index (OfNat.ofNat n) : ADtype).dx k = 0 := rfl
@[simp] theorem val_intCast (n : ℤ) : (n : ADtype).val = n := rfl
@[simp] theorem dx_intCast (n : ℤ) (k : ℕ) : (n : ADtype).dx k = 0 := rfl

end ADtype

/-! ## Loops and sums -/

theorem forLoop_zero {σ : Type} (init : σ) (body : σ → ℕ → σ) : forLoop 0 init body = init := by
  simp [forLoop]

theorem forLoop_succ {σ : Type} (n : ℕ) (init : σ) (body : σ → ℕ → σ) :
    forLoop (n + 1) init body = body (forLoop n init body) n := by
  simp [forLoop, List.range_succ, List.foldl_append]

/-- An accumulation loop computes a finite sum. -/
theorem forLoop_add_eq_sum {M : Type} [AddCommMonoid M] (n : ℕ) (a : M) (f : ℕ → M) :
    forLoop n a (fun acc i => acc + f i) = a + ∑ i in Finset.range n, f i := by
  induction n with
  | zero => simp [forLoop_zero]
  | succ n ih => rw [forLoop_succ, ih, Finset.sum_range_succ, add_assoc]

/-- A projection that commutes with the loop body commutes with the loop. -/
theorem forLoop_proj {σ τ : Type} (p : σ → τ) (body : σ → ℕ → σ) (body' : τ → ℕ → τ)
    (h : ∀ st i, p (body st i) = body' (p st) i) (n : ℕ) (init : σ) :
    p (forLoop n init body) = forLoop n (p init) body' := by
  induction n with
  | zero => simp [forLoop_zero]
  | succ n ih => rw [forLoop_succ, forLoop_succ, h, ih]

/-- Two loops whose bodies agree on the indices below the bound agree. -/
theorem forLoop_congr {σ : Type} (n : ℕ) (init : σ) (body body' : σ → ℕ → σ)
    (h : ∀ st i, i < n → body st i = body' st i) :
    forLoop n init body = forLoop n init body' := by
  induction n with
  | zero => simp [forLoop_zero]
  | succ n ih =>
    rw [forLoop_succ, forLoop_succ, ih (fun st i hi => h st i (Nat.lt_succ_of_lt hi)),
      h _ n (Nat.lt_succ_self n)]

theorem dotAR_eq_sum (dim : ℕ) (a : Tensor1 ADtype) (b : Tensor1 real) :
    dotAR dim a b = ∑ d in Finset.range dim, a d * ADtype.ofReal (b d) := by
  simp [dotAR, forLoop_add_eq_sum]

theorem dotRA_eq_sum (dim : ℕ) (a : Tensor1 real) (b : Tensor1 ADtype) :
    dotRA dim a b = ∑ d in Finset.range dim, ADtype.ofReal (a d) * b d := by
  simp [dotRA, forLoop_add_eq_sum]

namespace ADtype

theorem val_sum {ι : Type} (s : Finset ι) (f : ι → ADtype) :
    (∑ i in s, f i).val = ∑ i in s, (f i).val :=
  map_sum valHom f s

theorem dx_sum {ι : Type} (s : Finset ι) (f : ι → ADtype) (k : ℕ) :
    (∑ i in s, f i).dx k = ∑ i in s, (f i).dx k :=
  map_sum (dxHom k) f s

theorem ofReal_zero : ofReal 0 = 0 := rfl

theorem ofReal_neg (x : real) : ofReal (-x) = -ofReal x := by ext <;> simp

theorem ofReal_one : ofReal 1 = 1 := rfl

end ADtype

/-! ## Closed forms of the shared steps -/

theorem interpolate_soln_eq_sum (fe : FEValues) (soln_coeff : ℕ → ADtype) (iquad s : ℕ) :
    interpolate_soln fe soln_coeff iquad s
      = ∑ idof in Finset.range fe.dofs_per_cell,
          if fe.system_to_component_index idof = s then
            soln_coeff idof * ADtype.ofReal (fe.shape_value_component idof iquad s)
          else 0 := by
  unfold interpolate_soln
  generalize fe.dofs_per_cell = n
  induction n with
  | zero => simp [forLoop_zero]
  | succ n ih =>
    rw [forLoop_succ, Finset.sum_range_succ, ← ih]
    by_cases h : fe.system_to_component_index n = s
    · subst h; simp
    · simp [h, Function.update_apply, Ne.symm h]

theorem interpolate_grad_eq_sum (fe : FEValues) (soln_coeff : ℕ → ADtype) (iquad s d : ℕ) :
    interpolate_grad fe soln_coeff iquad s d
      = ∑ idof in Finset.range fe.dofs_per_cell,
          if fe.system_to_component_index idof = s then
            soln_coeff idof * ADtype.ofReal (fe.shape_grad_component idof iquad s d)
          else 0 := by
  unfold interpolate_grad
  generalize fe.dofs_per_cell = n
  induction n with
  | zero => simp [forLoop_zero]
  | succ n ih =>
    rw [forLoop_succ, Finset.sum_range_succ, ← ih]
    by_cases h : fe.system_to_component_index n = s
    · subst h; simp
    · simp [h, Function.update_apply, Ne.symm h]

theorem diss_soln_jump_apply (nstate : ℕ) (u_star u : ADArray) (normal : Tensor1 ADtype)
    (s d : ℕ) :
    diss_soln_jump nstate u_star u normal s d
      = if s < nstate then (u_star s - u s) * normal d else 0 := by
  unfold diss_soln_jump
  induction nstate with
  | zero => simp [forLoop_zero]
  | succ n ih =>
    rw [forLoop_succ]
    by_cases h : s = n
    · subst h; simp [scaleT]
    · rw [Function.update_noteq h, ih]
      have : (s < n + 1) ↔ s < n := by omega
      simp [this]

/-! ## Closed form of the flux-divergence loops -/

theorem cell_flux_inner_loop (dg : DGStrong) (fe_values_vol fe_values_lagrange : FEValues)
    (soln_at_q : ℕ → ADArray) (conv_phys_flux_at_q : ℕ → ADArrayTensor1) (istate iquad : ℕ)
    (st : FluxLoopState) (n : ℕ) :
    forLoop n (cell_flux_reset istate iquad st)
        (cell_flux_basis_body dg fe_values_vol fe_values_lagrange soln_at_q
          conv_phys_flux_at_q istate iquad)
      = { flux_divergence := Function.update st.flux_divergence iquad
            (Function.update (st.flux_divergence iquad) istate
              (flux_divergence_sum dg.dim n fe_values_lagrange conv_phys_flux_at_q iquad istate))
          f1 := Function.update st.f1 iquad
            (split_accum_sum n fe_values_vol soln_at_q (dg.split_fluxes.get 0 0 0).f istate iquad)
          f2 := Function.update st.f2 iquad
            (split_accum_sum n fe_values_vol soln_at_q (dg.split_fluxes.get 0 0 1).f istate iquad)
          g1 := Function.update st.g1 iquad
            (split_accum_sum n fe_values_vol soln_at_q (dg.split_fluxes.get 0 0 0).g istate iquad)
          g2 := Function.update st.g2 iquad
            (split_accum_sum n fe_values_vol soln_at_q (dg.split_fluxes.get 0 0 1).g istate
              iquad) } := by
  induction n with
  | zero =>
    simp [forLoop_zero, cell_flux_reset, flux_divergence_sum, split_accum_sum]
  | succ n ih =>
    rw [forLoop_succ, ih]
    simp [cell_flux_basis_body, flux_divergence_sum, split_accum_sum, Finset.sum_range_succ]

theorem cell_flux_middle_loop (dg : DGStrong) (fe_values_vol fe_values_lagrange : FEValues)
    (soln_at_q : ℕ → ADArray) (conv_phys_flux_at_q : ℕ → ADArrayTensor1) (istate : ℕ)
    (st : FluxLoopState) (n m : ℕ) :
    forLoop m st (fun st iquad =>
        forLoop n (cell_flux_reset istate iquad st)
          (cell_flux_basis_body dg fe_values_vol fe_values_lagrange soln_at_q
            conv_phys_flux_at_q istate iquad))
      = { flux_divergence := fun q s =>
            if q < m ∧ s = istate then
              flux_divergence_sum dg.dim n fe_values_lagrange conv_phys_flux_at_q q istate
            else st.flux_divergence q s
          f1 := fun q =>
            if q < m then
              split_accum_sum n fe_values_vol soln_at_q (dg.split_fluxes.get 0 0 0).f istate q
            else st.f1 q
          f2 := fun q =>
            if q < m then
              split_accum_sum n fe_values_vol soln_at_q (dg.split_fluxes.get 0 0 1).f istate q
            else st.f2 q
          g1 := fun q =>
            if q < m then
              split_accum_sum n fe_values_vol soln_at_q (dg.split_fluxes.get 0 0 0).g istate q
            else st.g1 q
          g2 := fun q =>
            if q < m then
              split_accum_sum n fe_values_vol soln_at_q (dg.split_fluxes.get 0 0 1).g istate q
            else st.g2 q } := by
  induction m with
  | zero => simp [forLoop_zero]
  | succ m ih =>
    rw [forLoop_succ, ih, cell_flux_inner_loop]
    refine FluxLoopState.ext ?_ ?_ ?_ ?_ ?_
    · funext q s
      by_cases hq : q = m
      · subst hq
        by_cases hs : s = istate
        · subst hs; simp
        · simp [hs, Function.update_noteq hs]
      · have : (q < m + 1) ↔ q < m := by omega
        simp [Function.update_noteq hq, this]
    all_goals
      funext q
      by_cases hq : q = m
      · subst hq; simp
      · have : (q < m + 1) ↔ q < m := by omega
        simp [Function.update_noteq hq, this]

/-- The arrays left by the loops of lines 125-151: `flux_divergence` holds the contraction
for every state component, while the split-form accumulators hold the sums of the last
pass, `istate = nstate - 1`. -/
theorem cell_flux_loops_eq (dg : DGStrong) (fe_values_vol fe_values_lagrange : FEValues)
    (soln_at_q : ℕ → ADArray) (conv_phys_flux_at_q : ℕ → ADArrayTensor1) :
    cell_flux_loops dg fe_values_vol fe_values_lagrange soln_at_q conv_phys_flux_at_q
      = { flux_divergence := fun q s =>
            if q < fe_values_vol.n_quadrature_points ∧ s < dg.nstate then
              flux_divergence_sum dg.dim fe_values_vol.n_quadrature_points fe_values_lagrange
                conv_phys_flux_at_q q s
            else 0
          f1 := fun q =>
            if q < fe_values_vol.n_quadrature_points ∧ 0 < dg.nstate then
              split_accum_sum fe_values_vol.n_quadrature_points fe_values_vol soln_at_q
                (dg.split_fluxes.get 0 0 0).f (dg.nstate - 1) q
            else 0
          f2 := fun q =>
            if q < fe_values_vol.n_quadrature_points ∧ 0 < dg.nstate then
              split_accum_sum fe_values_vol.n_quadrature_points fe_values_vol soln_at_q
                (dg.split_fluxes.get 0 0 1).f (dg.nstate - 1) q
            else 0
          g1 := fun q =>
            if q < fe_values_vol.n_quadrature_points ∧ 0 < dg.nstate then
              split_accum_sum fe_values_vol.n_quadrature_points fe_values_vol soln_at_q
                (dg.split_fluxes.get 0 0 0).g (dg.nstate - 1) q
            else 0
          g2 := fun q =>
            if q < fe_values_vol.n_quadrature_points ∧ 0 < dg.nstate then
              split_accum_sum fe_values_vol.n_quadrature_points fe_values_vol soln_at_q
                (dg.split_fluxes.get 0 0 1).g (dg.nstate - 1) q
            else 0 } := by
  unfold cell_flux_loops
  generalize dg.nstate = ns
  induction ns with
  | zero => simp [forLoop_zero]
  | succ ns ih =>
    rw [forLoop_succ, ih, cell_flux_middle_loop]
    refine FluxLoopState.ext ?_ ?_ ?_ ?_ ?_
    · funext q s
      by_cases hq : q < fe_values_vol.n_quadrature_points
      · by_cases hs : s = ns
        · subst hs; simp [hq]
        · have : (s < ns + 1) ↔ s < ns := by omega
          simp [hq, hs, this]
      · simp [hq]
    all_goals
      funext q
      by_cases hq : q < fe_values_vol.n_quadrature_points <;> simp [hq]

/-! ## The scatter into the residual vector and the system matrix -/

theorem realVector_add_apply (m : RealVector) (i : ℕ) (v : real) (j : ℕ) :
    m.add i v j = m j + if j = i then v else 0 := by
  unfold RealVector.add
  by_cases h : j = i
  · subst h; simp
  · simp [Function.update_noteq h, h]

theorem matrix_add_loop (m : SystemMatrix) (row : ℕ) (cols : ℕ → ℕ) (values : ℕ → real)
    (n r c : ℕ) :
    forLoop n m (fun m k =>
        Function.update m row (Function.update (m row) (cols k) (m row (cols k) + values k))) r c
      = m r c + if r = row then
          ∑ k in Finset.range n, if cols k = c then values k else 0
        else 0 := by
  induction n with
  | zero => simp [forLoop_zero]
  | succ n ih =>
    rw [forLoop_succ, Finset.sum_range_succ]
    by_cases hr : r = row
    · subst hr
      rw [Function.update_same, Function.update_apply]
      by_cases hc : c = cols n
      · rw [if_pos hc, if_pos rfl, if_pos hc.symm, ← hc, ih, if_pos rfl]; ring
      · rw [if_neg hc, ih, if_pos rfl, if_pos rfl, if_neg (Ne.symm hc)]; ring
    · rw [Function.update_noteq hr, ih, if_neg hr, if_neg hr]

theorem systemMatrix_add_apply (m : SystemMatrix) (row : ℕ) (col_indices : List ℕ)
    (values : ℕ → real) (r c : ℕ) :
    m.add row col_indices values r c
      = m r c + if r = row then
          ∑ k in Finset.range col_indices.length,
            if col_indices.getD k 0 = c then values k else 0
        else 0 :=
  matrix_add_loop m row (fun k => col_indices.getD k 0) values col_indices.length r c

/-- Iterating a fallible step that succeeds on every index is iterating its pure part. -/
theorem foldlM_eq_ok {ε σ : Type} (step : σ → ℕ → Except ε σ) (pure_step : σ → ℕ → σ)
    (l : List ℕ) (h : ∀ i, i ∈ l → ∀ acc, step acc i = .ok (pure_step acc i)) (init : σ) :
    l.foldlM step init = .ok (l.foldl pure_step init) := by
  induction l generalizing init with
  | nil => rfl
  | cons a l ih =>
    rw [List.foldlM_cons, h a (List.mem_cons_self a l)]
    exact ih (fun i hi => h i (List.mem_cons_of_mem a hi)) _

/-- A fallible iteration whose steps commute with a transformation of the state commutes
with it. -/
theorem foldlM_map_comm {ε σ : Type} (step : σ → ℕ → Except ε σ) (T : σ → σ)
    (h : ∀ acc i, step (T acc) i = (step acc i).map T) (l : List ℕ) (init : σ) :
    l.foldlM step (T init) = (l.foldlM step init).map T := by
  induction l generalizing init with
  | nil => rfl
  | cons a l ih =>
    rw [List.foldlM_cons, List.foldlM_cons, h]
    cases hs : step init a with
    | error e => rfl
    | ok st => exact ih st

theorem scatter_fst (params : AllParameters) (dofs_indices : List ℕ) (itest : ℕ) (rhs : ADtype)
    (acc : RealVector × SystemMatrix) :
    (scatter params dofs_indices itest rhs acc).1 = acc.1.add itest rhs.val := rfl

theorem scatter_snd (params : AllParameters) (dofs_indices : List ℕ) (itest : ℕ) (rhs : ADtype)
    (acc : RealVector × SystemMatrix) :
    (scatter params dofs_indices itest rhs acc).2
      = if params.ode_solver_type = ODESolverEnum.implicit_solver then
          acc.2.add (dofs_indices.getD itest 0) dofs_indices (fun idof => rhs.dx idof)
        else acc.2 := rfl

theorem scatter_loop_fst (params : AllParameters) (dofs_indices : List ℕ) (rhs : ℕ → ADtype)
    (n : ℕ) (acc : RealVector × SystemMatrix) (j : ℕ) :
    (forLoop n acc (fun acc itest => scatter params dofs_indices itest (rhs itest) acc)).1 j
      = acc.1 j + if j < n then (rhs j).val else 0 := by
  induction n with
  | zero => simp [forLoop_zero]
  | succ n ih =>
    rw [forLoop_succ, scatter_fst, realVector_add_apply, ih]
    by_cases h : j = n
    · rw [if_pos h, if_neg (by omega), if_pos (by omega), h]; ring
    · rw [if_neg h]
      by_cases h2 : j < n
      · rw [if_pos h2, if_pos (by omega)]; ring
      · rw [if_neg h2, if_neg (by omega)]; ring

theorem scatter_loop_snd (params : AllParameters) (dofs_indices : List ℕ) (rhs : ℕ → ADtype)
    (n : ℕ) (acc : RealVector × SystemMatrix) (r c : ℕ) :
    (forLoop n acc (fun acc itest => scatter params dofs_indices itest (rhs itest) acc)).2 r c
      = acc.2 r c + if params.ode_solver_type = ODESolverEnum.implicit_solver then
          ∑ itest in Finset.range n,
            if dofs_indices.getD itest 0 = r then
              ∑ k in Finset.range dofs_indices.length,
                if dofs_indices.getD k 0 = c then (rhs itest).dx k else 0
            else 0
        else 0 := by
  induction n with
  | zero => simp [forLoop_zero]
  | succ n ih =>
    rw [forLoop_succ, scatter_snd]
    by_cases hp : params.ode_solver_type = ODESolverEnum.implicit_solver
    · rw [if_pos hp, systemMatrix_add_apply, ih, if_pos hp, if_pos hp, Finset.sum_range_succ]
      by_cases hr : r = dofs_indices.getD n 0
      · rw [if_pos hr, if_pos hr.symm]; ring
      · rw [if_neg hr, if_neg (Ne.symm hr)]; ring
    · rw [if_neg hp, ih, if_neg hp, if_neg hp]

/-! ## The cell assembler: success and closed form -/

theorem forM_eq_ok {ε : Type} (f : ℕ → Except ε Unit) (l : List ℕ)
    (h : ∀ i, i ∈ l → f i = .ok ()) : l.forM f = .ok () := by
  induction l with
  | nil => rfl
  | cons a l ih =>
    rw [List.forM_cons', h a (List.mem_cons_self a l)]
    exact ih (fun i hi => h i (List.mem_cons_of_mem a hi))

theorem cell_test_step_ok (dg : DGStrong) (fe_values_vol fe_values_lagrange : FEValues)
    (cell_dofs_indices : List ℕ)
    (h : cell_checks_pass dg fe_values_vol fe_values_lagrange cell_dofs_indices)
    (acc : RealVector × SystemMatrix) (itest : ℕ) (hi : itest < fe_values_vol.dofs_per_cell) :
    cell_test_step dg fe_values_vol fe_values_lagrange cell_dofs_indices acc itest
      = .ok (scatter dg.all_parameters cell_dofs_indices itest
          (cell_rhs dg fe_values_vol fe_values_lagrange cell_dofs_indices itest) acc) := by
  obtain ⟨_, _, _, hsplit, hquad⟩ := h
  have h1 : cell_split_checks dg fe_values_vol itest = .ok () := by
    unfold cell_split_checks
    by_cases hs : dg.all_parameters.use_split_form = true
    · have := hsplit hs itest hi
      rw [if_neg]
      intro hc
      exact hc.2 this
    · rw [if_neg]
      intro hc
      exact hs hc.1
  have h2 : cell_quad_checks fe_values_vol fe_values_lagrange = .ok () := by
    unfold cell_quad_checks
    apply forM_eq_ok
    intro iquad hq
    have := hquad (Nat.lt_of_le_of_lt (Nat.zero_le _) hi) iquad (List.mem_range.mp hq)
    rw [if_neg (not_not.mpr this.1), if_neg (not_not.mpr this.2)]
  unfold cell_test_step
  rw [h1, h2]
  rfl

/-- When every check passes, the cell assembler returns the result of the scatter loop. -/
theorem assemble_cell_eq_ok (dg : DGStrong) (fe_values_vol fe_values_lagrange : FEValues)
    (cell_dofs_indices : List ℕ) (local_rhs_int_cell : RealVector)
    (h : cell_checks_pass dg fe_values_vol fe_values_lagrange cell_dofs_indices) :
    assemble_cell_terms_implicit dg fe_values_vol fe_values_lagrange cell_dofs_indices
        local_rhs_int_cell
      = .ok (forLoop fe_values_vol.dofs_per_cell (local_rhs_int_cell, dg.system_matrix)
          (fun acc itest => scatter dg.all_parameters cell_dofs_indices itest
            (cell_rhs dg fe_values_vol fe_values_lagrange cell_dofs_indices itest) acc)) := by
  have h' := h
  obtain ⟨hdim, hint, hflux, _, _⟩ := h'
  unfold assemble_cell_terms_implicit
  simp only []
  rw [if_neg (not_not.mpr hdim), if_neg (not_not.mpr hint), if_neg (not_not.mpr hflux)]
  exact foldlM_eq_ok _ _ _
    (fun i hi acc => cell_test_step_ok dg fe_values_vol fe_values_lagrange cell_dofs_indices h
      acc i (List.mem_range.mp hi)) _

/-- The value `flux_divergence[iquad][istate]` left by lines 125-151: the contraction of the
nodal convective fluxes with the gradients of the Lagrange basis. -/
theorem cell_flux_divergence_eq (dg : DGStrong) (fe_values_vol fe_values_lagrange : FEValues)
    (cell_dofs_indices : List ℕ) (iquad istate : ℕ)
    (hq : iquad < fe_values_vol.n_quadrature_points) (hs : istate < dg.nstate) :
    (cell_flux_state dg fe_values_vol fe_values_lagrange cell_dofs_indices).flux_divergence
        iquad istate
      = ∑ flux_basis in Finset.range fe_values_vol.n_quadrature_points,
          dotAR dg.dim
            (cell_conv_phys_flux_at_q dg fe_values_vol cell_dofs_indices flux_basis istate)
            (fe_values_lagrange.shape_grad flux_basis iquad) := by
  unfold cell_flux_state
  rw [cell_flux_loops_eq]
  simp [hq, hs, flux_divergence_sum]

theorem cell_quad_loop_eq (dg : DGStrong) (fe_values_vol : FEValues)
    (diss_phys_flux_at_q : ℕ → ADArrayTensor1) (source_at_q : ℕ → ADArray)
    (st : FluxLoopState) (itest : ℕ) (rhs : ADtype) (n : ℕ) :
    forLoop n rhs (cell_quad_body dg fe_values_vol diss_phys_flux_at_q source_at_q st itest)
      = rhs + ∑ iquad in Finset.range n,
          cell_quad_term dg fe_values_vol diss_phys_flux_at_q source_at_q st itest iquad := by
  induction n with
  | zero => simp [forLoop_zero]
  | succ n ih =>
    rw [forLoop_succ, ih, Finset.sum_range_succ]
    unfold cell_quad_body cell_quad_term
    cases dg.all_parameters.use_split_form <;>
      cases dg.all_parameters.use_manufactured_source_term <;> simp <;> ring

theorem pair_loop_eq (n : ℕ) (a b : ℕ → ADtype) :
    forLoop n ((0 : ADtype), (0 : ADtype)) (fun inter iquad =>
        (inter.1 + a iquad, inter.2 + b iquad))
      = (∑ iquad in Finset.range n, a iquad, ∑ iquad in Finset.range n, b iquad) := by
  induction n with
  | zero => simp [forLoop_zero]
  | succ n ih => rw [forLoop_succ, ih, Finset.sum_range_succ, Finset.sum_range_succ]

/-- The split-form block of lines 168-179 in closed form. -/
theorem cell_split_rhs_eq (dg : DGStrong) (fe_values_vol : FEValues) (soln_at_q : ℕ → ADArray)
    (st : FluxLoopState) (itest : ℕ) (rhs : ADtype) :
    cell_split_rhs dg fe_values_vol soln_at_q st itest rhs
      = rhs
        - (∑ iquad in Finset.range fe_values_vol.n_quadrature_points,
            ADtype.ofReal (fe_values_vol.shape_value_component itest iquad
              (fe_values_vol.system_to_component_index itest)) * st.g1 iquad
              * ADtype.ofReal (fe_values_vol.JxW iquad))
          * (dg.split_fluxes.get 0 0 0).f (soln_at_q itest)
          * ADtype.ofReal (dg.split_fluxes.get 0 0 0).alpha
        - (∑ iquad in Finset.range fe_values_vol.n_quadrature_points,
            ADtype.ofReal (fe_values_vol.shape_value_component itest iquad
              (fe_values_vol.system_to_component_index itest)) * st.g2 iquad
              * ADtype.ofReal (fe_values_vol.JxW iquad))
          * (dg.split_fluxes.get 0 0 1).f (soln_at_q itest)
          * ADtype.ofReal (dg.split_fluxes.get 0 0 1).alpha := by
  unfold cell_split_rhs
  simp only [pair_loop_eq]

/-! ## A concrete problem: one-dimensional scalar advection-diffusion, degree 1 -/

theorem example_cell_checks_pass (use_split_form : Bool) (ode_solver_type : ODESolverEnum) :
    cell_checks_pass (example_dg use_split_form ode_solver_type) example_fe example_fe [0, 1] := by
  refine ⟨rfl, ?_, ?_, ?_, ?_⟩
  · intro _ _ _ _; exact Nat.zero_lt_one
  · intro _ _
    exact ⟨Nat.le_refl _, Nat.le_refl _, Nat.le_refl _, rfl, rfl⟩
  · intro _ itest hi
    exact ⟨rfl, rfl, hi⟩
  · intro _ iquad hq
    refine ⟨hq, ?_⟩
    show (1 / 2 : ℚ) - 1 / 2 < 1 / 10 ^ 14
    norm_num

/-! ## C3: the strong-form cell residual -/

/-- With `use_split_form` disabled the AD residual of a test function is the strong-form
right-hand side. -/
theorem cell_rhs_eq_strong_form (dg : DGStrong) (fe_values_vol fe_values_lagrange : FEValues)
    (cell_dofs_indices : List ℕ) (itest : ℕ)
    (hsplit : dg.all_parameters.use_split_form = false)
    (hint : interpolation_in_range dg.nstate fe_values_vol fe_values_vol.n_quadrature_points)
    (hi : itest < fe_values_vol.dofs_per_cell) :
    cell_rhs dg fe_values_vol fe_values_lagrange cell_dofs_indices itest
      = cell_strong_form_rhs dg fe_values_vol fe_values_lagrange cell_dofs_indices itest := by
  unfold cell_rhs cell_strong_form_rhs
  simp only [hsplit, Bool.false_eq_true, if_false]
  rw [cell_quad_loop_eq, zero_add]
  apply Finset.sum_congr rfl
  intro iquad hq
  have hq' := Finset.mem_range.mp hq
  have hs : fe_values_vol.system_to_component_index itest < dg.nstate := hint iquad hq' itest hi
  unfold cell_quad_term lagrange_divergence
  simp only [hsplit, if_true]
  rw [cell_flux_divergence_eq dg fe_values_vol fe_values_lagrange cell_dofs_indices iquad _ hq' hs]
  unfold cell_source_at_q cell_diss_phys_flux_at_q cell_conv_phys_flux_at_q
  cases dg.all_parameters.use_manufactured_source_term <;> simp <;> ring

/-- C3: with `use_split_form` disabled, the cell assembler succeeds (when its checks pass) and
adds to the residual entry of every test index `itest`, of state component `s`, exactly the
value of `Sum_q [ -phi(q) * div(Fconv)[q][s] + grad(phi)(q) . Fdiss[q][s]
+ (phi(q) * source[q][s] if a manufactured source is configured) ] * JxW[q]`, where
`div(Fconv)[q][s] = Sum_j Fconv[j][s] . grad(lagrange_j)(q)`. -/
theorem cell_residual_strong_form (dg : DGStrong) (fe_values_vol fe_values_lagrange : FEValues)
    (cell_dofs_indices : List ℕ) (local_rhs_int_cell : RealVector)
    (hsplit : dg.all_parameters.use_split_form = false)
    (hok : cell_checks_pass dg fe_values_vol fe_values_lagrange cell_dofs_indices) :
    ∃ out, assemble_cell_terms_implicit dg fe_values_vol fe_values_lagrange cell_dofs_indices
        local_rhs_int_cell = .ok out
      ∧ ∀ itest, itest < fe_values_vol.dofs_per_cell →
        out.1 itest = local_rhs_int_cell itest
          + (cell_strong_form_rhs dg fe_values_vol fe_values_lagrange cell_dofs_indices
              itest).val := by
  refine ⟨_, assemble_cell_eq_ok dg fe_values_vol fe_values_lagrange cell_dofs_indices
    local_rhs_int_cell hok, ?_⟩
  intro itest hi
  rw [scatter_loop_fst, if_pos hi,
    cell_rhs_eq_strong_form dg fe_values_vol fe_values_lagrange cell_dofs_indices itest hsplit
      hok.2.1 hi]

/-- The strong-form cell residual on the one-dimensional example. -/
theorem cell_residual_strong_form_witness :
    (example_dg false .implicit_solver).all_parameters.use_split_form = false
      ∧ cell_checks_pass (example_dg false .implicit_solver) example_fe example_fe [0, 1]
      ∧ ∃ out, assemble_cell_terms_implicit (example_dg false .implicit_solver) example_fe
          example_fe [0, 1] (fun _ => 0) = .ok out
        ∧ ∀ itest, itest < example_fe.dofs_per_cell →
          out.1 itest = (fun _ => (0 : real)) itest
            + (cell_strong_form_rhs (example_dg false .implicit_solver) example_fe example_fe
                [0, 1] itest).val :=
  ⟨rfl, example_cell_checks_pass false .implicit_solver,
    cell_residual_strong_form (example_dg false .implicit_solver) example_fe example_fe [0, 1]
      (fun _ => 0) rfl (example_cell_checks_pass false .implicit_solver)⟩

/-! ## The boundary-face and interior-face assemblers: success and closed form -/

/-- When every check passes, the boundary assembler returns the result of the scatter loop. -/
theorem assemble_boundary_eq_ok (dg : DGStrong) (boundary_id : ℕ) (fe_values_boundary : FEValues)
    (penalty : real) (dof_indices_int : List ℕ) (local_rhs_int_cell : RealVector)
    (h : boundary_checks_pass dg fe_values_boundary dof_indices_int) :
    assemble_boundary_term_implicit dg boundary_id fe_values_boundary penalty dof_indices_int
        local_rhs_int_cell
      = .ok (forLoop fe_values_boundary.dofs_per_cell (local_rhs_int_cell, dg.system_matrix)
          (fun acc itest => scatter dg.all_parameters dof_indices_int itest
            (boundary_rhs dg boundary_id fe_values_boundary penalty dof_indices_int itest)
            acc)) := by
  unfold assemble_boundary_term_implicit
  simp only []
  rw [if_neg (not_not.mpr h.1), if_neg (not_not.mpr h.2)]

/-- The boundary residual of a test function as a sum over the quadrature points. -/
theorem boundary_rhs_eq_sum (dg : DGStrong) (boundary_id : ℕ) (fe_values_boundary : FEValues)
    (penalty : real) (dof_indices_int : List ℕ) (itest : ℕ) :
    boundary_rhs dg boundary_id fe_values_boundary penalty dof_indices_int itest
      = ∑ iquad in Finset.range fe_values_boundary.n_quadrature_points,
          (-(ADtype.ofReal (fe_values_boundary.shape_value_component itest iquad
                (fe_values_boundary.system_to_component_index itest))
              * boundary_flux_diff dg boundary_id fe_values_boundary penalty dof_indices_int
                  iquad (fe_values_boundary.system_to_component_index itest))
            - ADtype.ofReal (fe_values_boundary.shape_value_component itest iquad
                (fe_values_boundary.system_to_component_index itest))
              * (boundary_quad_values dg boundary_id fe_values_boundary penalty dof_indices_int
                  iquad).diss_auxi_num_flux_dot_n
                  (fe_values_boundary.system_to_component_index itest)
            + dotRA dg.dim
                (fe_values_boundary.shape_grad_component itest iquad
                  (fe_values_boundary.system_to_component_index itest))
                ((boundary_quad_values dg boundary_id fe_values_boundary penalty dof_indices_int
                  iquad).diss_flux_jump_int (fe_values_boundary.system_to_component_index itest)))
          * ADtype.ofReal (fe_values_boundary.JxW iquad) := by
  unfold boundary_rhs
  rw [← zero_add (Finset.sum _ _), ← forLoop_add_eq_sum]
  congr 1
  funext rhs iquad
  unfold boundary_quad_body
  ring

/-- When every check passes, the interior-face assembler returns the result of the two
scatter loops. -/
theorem assemble_face_eq_ok (dg : DGStrong) (fe_values_int fe_values_ext : FEValues)
    (penalty : real) (dof_indices_int dof_indices_ext : List ℕ)
    (local_rhs_int_cell local_rhs_ext_cell : RealVector)
    (h : face_checks_pass dg fe_values_int fe_values_ext dof_indices_int dof_indices_ext) :
    assemble_face_term_implicit dg fe_values_int fe_values_ext penalty dof_indices_int
        dof_indices_ext local_rhs_int_cell local_rhs_ext_cell
      = .ok (forLoop fe_values_ext.dofs_per_cell
          (forLoop fe_values_int.dofs_per_cell
            ⟨local_rhs_int_cell, local_rhs_ext_cell, dg.system_matrix⟩
            (face_test_step_int dg fe_values_int fe_values_ext penalty dof_indices_int
              dof_indices_ext))
          (face_test_step_ext_pure dg fe_values_int fe_values_ext penalty dof_indices_int
            dof_indices_ext)) := by
  obtain ⟨h1, h2, h3, h4, h5, h6⟩ := h
  unfold assemble_face_term_implicit
  simp only []
  rw [if_neg (not_not.mpr h1), if_neg (not_not.mpr h2), if_neg (not_not.mpr h3),
    if_neg (not_not.mpr ⟨h4, h5⟩)]
  apply foldlM_eq_ok
  intro i hi acc
  unfold face_test_step_ext
  rw [if_neg (not_not.mpr (Nat.lt_of_lt_of_le (List.mem_range.mp hi) h6))]
  rfl

theorem forLoop_const {σ : Type} (n : ℕ) (init : σ) :
    forLoop n init (fun st _ => st) = init := by
  induction n with
  | zero => rfl
  | succ n ih => rw [forLoop_succ, ih]

theorem face_scatter_loop_fst (params : AllParameters) (dof_indices_int dof_indices_ext : List ℕ)
    (n_dofs_int : ℕ) (rows : ℕ → ℕ) (rhs : ℕ → ADtype) (n : ℕ)
    (acc : RealVector × SystemMatrix) (j : ℕ) :
    (forLoop n acc (fun acc itest =>
        face_scatter params dof_indices_int dof_indices_ext n_dofs_int (rows itest) itest
          (rhs itest) acc.1 acc.2)).1 j
      = acc.1 j + if j < n then (rhs j).val else 0 := by
  induction n with
  | zero => simp [forLoop_zero]
  | succ n ih =>
    rw [forLoop_succ]
    show RealVector.add _ n (rhs n).val j = _
    rw [realVector_add_apply, ih]
    by_cases h : j = n
    · rw [if_pos h, if_neg (by omega), if_pos (by omega), h]; ring
    · rw [if_neg h]
      by_cases h2 : j < n
      · rw [if_pos h2, if_pos (by omega)]; ring
      · rw [if_neg h2, if_neg (by omega)]; ring

theorem face_scatter_snd (params : AllParameters) (dof_indices_int dof_indices_ext : List ℕ)
    (n_dofs_int row itest : ℕ) (rhs : ADtype) (v : RealVector) (m : SystemMatrix) :
    (face_scatter params dof_indices_int dof_indices_ext n_dofs_int row itest rhs v m).2
      = if params.ode_solver_type = ODESolverEnum.implicit_solver then
          (m.add row dof_indices_int (fun idof => rhs.dx idof)).add row dof_indices_ext
            (fun idof => rhs.dx (n_dofs_int + idof))
        else m := rfl

theorem face_scatter_loop_snd (params : AllParameters) (dof_indices_int dof_indices_ext : List ℕ)
    (n_dofs_int : ℕ) (rows : ℕ → ℕ) (rhs : ℕ → ADtype) (n : ℕ)
    (acc : RealVector × SystemMatrix) (r c : ℕ) :
    (forLoop n acc (fun acc itest =>
        face_scatter params dof_indices_int dof_indices_ext n_dofs_int (rows itest) itest
          (rhs itest) acc.1 acc.2)).2 r c
      = acc.2 r c + if params.ode_solver_type = ODESolverEnum.implicit_solver then
          ∑ itest in Finset.range n,
            if rows itest = r then
              face_row_sum dof_indices_int dof_indices_ext n_dofs_int (rhs itest) c
            else 0
        else 0 := by
  induction n with
  | zero => simp [forLoop_zero]
  | succ n ih =>
    rw [forLoop_succ, face_scatter_snd]
    by_cases hp : params.ode_solver_type = ODESolverEnum.implicit_solver
    · rw [if_pos hp, systemMatrix_add_apply, systemMatrix_add_apply, ih, if_pos hp, if_pos hp,
        Finset.sum_range_succ]
      unfold face_row_sum
      by_cases hr : r = rows n
      · rw [if_pos hr, if_pos hr, if_pos hr.symm]; ring
      · rw [if_neg hr, if_neg hr, if_neg (Ne.symm hr)]; ring
    · rw [if_neg hp, ih, if_neg hp, if_neg hp]

theorem face_int_loop_eq (dg : DGStrong) (fe_values_int fe_values_ext : FEValues)
    (penalty : real) (dof_indices_int dof_indices_ext : List ℕ) (init : FaceOutput) (n : ℕ) :
    forLoop n init
        (face_test_step_int dg fe_values_int fe_values_ext penalty dof_indices_int
          dof_indices_ext)
      = { local_rhs_int_cell :=
            (forLoop n (init.local_rhs_int_cell, init.system_matrix) (fun acc itest =>
              face_scatter dg.all_parameters dof_indices_int dof_indices_ext
                fe_values_int.dofs_per_cell (dof_indices_int.getD itest 0) itest
                (face_rhs_int dg fe_values_int fe_values_ext penalty dof_indices_int
                  dof_indices_ext itest) acc.1 acc.2)).1
          local_rhs_ext_cell := init.local_rhs_ext_cell
          system_matrix :=
            (forLoop n (init.local_rhs_int_cell, init.system_matrix) (fun acc itest =>
              face_scatter dg.all_parameters dof_indices_int dof_indices_ext
                fe_values_int.dofs_per_cell (dof_indices_int.getD itest 0) itest
                (face_rhs_int dg fe_values_int fe_values_ext penalty dof_indices_int
                  dof_indices_ext itest) acc.1 acc.2)).2 } := by
  induction n with
  | zero => rfl
  | succ n ih =>
    rw [forLoop_succ, ih, forLoop_succ]
    rfl

theorem face_ext_loop_eq (dg : DGStrong) (fe_values_int fe_values_ext : FEValues)
    (penalty : real) (dof_indices_int dof_indices_ext : List ℕ) (init : FaceOutput) (n : ℕ) :
    forLoop n init
        (face_test_step_ext_pure dg fe_values_int fe_values_ext penalty dof_indices_int
          dof_indices_ext)
      = { local_rhs_int_cell := init.local_rhs_int_cell
          local_rhs_ext_cell :=
            (forLoop n (init.local_rhs_ext_cell, init.system_matrix) (fun acc itest =>
              face_scatter dg.all_parameters dof_indices_int dof_indices_ext
                fe_values_int.dofs_per_cell (dof_indices_ext.getD itest 0) itest
                (face_rhs_ext dg fe_values_int fe_values_ext penalty dof_indices_int
                  dof_indices_ext itest) acc.1 acc.2)).1
          system_matrix :=
            (forLoop n (init.local_rhs_ext_cell, init.system_matrix) (fun acc itest =>
              face_scatter dg.all_parameters dof_indices_int dof_indices_ext
                fe_values_int.dofs_per_cell (dof_indices_ext.getD itest 0) itest
                (face_rhs_ext dg fe_values_int fe_values_ext penalty dof_indices_int
                  dof_indices_ext itest) acc.1 acc.2)).2 } := by
  induction n with
  | zero => rfl
  | succ n ih =>
    rw [forLoop_succ, ih, forLoop_succ]
    rfl

theorem face_loops_int (dg : DGStrong) (fe_values_int fe_values_ext : FEValues) (penalty : real)
    (dof_indices_int dof_indices_ext : List ℕ) (init : FaceOutput) (i : ℕ) :
    (face_loops dg fe_values_int fe_values_ext penalty dof_indices_int dof_indices_ext
        init).local_rhs_int_cell i
      = init.local_rhs_int_cell i + if i < fe_values_int.dofs_per_cell then
          (face_rhs_int dg fe_values_int fe_values_ext penalty dof_indices_int dof_indices_ext
            i).val
        else 0 := by
  unfold face_loops
  rw [face_ext_loop_eq, face_int_loop_eq]
  exact face_scatter_loop_fst dg.all_parameters dof_indices_int dof_indices_ext
    fe_values_int.dofs_per_cell (fun itest => dof_indices_int.getD itest 0)
    (face_rhs_int dg fe_values_int fe_values_ext penalty dof_indices_int dof_indices_ext)
    fe_values_int.dofs_per_cell (init.local_rhs_int_cell, init.system_matrix) i

theorem face_loops_ext (dg : DGStrong) (fe_values_int fe_values_ext : FEValues) (penalty : real)
    (dof_indices_int dof_indices_ext : List ℕ) (init : FaceOutput) (j : ℕ) :
    (face_loops dg fe_values_int fe_values_ext penalty dof_indices_int dof_indices_ext
        init).local_rhs_ext_cell j
      = init.local_rhs_ext_cell j + if j < fe_values_ext.dofs_per_cell then
          (face_rhs_ext dg fe_values_int fe_values_ext penalty dof_indices_int dof_indices_ext
            j).val
        else 0 := by
  unfold face_loops
  rw [face_ext_loop_eq, face_int_loop_eq]
  exact face_scatter_loop_fst dg.all_parameters dof_indices_int dof_indices_ext
    fe_values_int.dofs_per_cell (fun itest => dof_indices_ext.getD itest 0)
    (face_rhs_ext dg fe_values_int fe_values_ext penalty dof_indices_int dof_indices_ext)
    fe_values_ext.dofs_per_cell _ j

theorem face_loops_matrix (dg : DGStrong) (fe_values_int fe_values_ext : FEValues)
    (penalty : real) (dof_indices_int dof_indices_ext : List ℕ) (init : FaceOutput) (r c : ℕ) :
    (face_loops dg fe_values_int fe_values_ext penalty dof_indices_int dof_indices_ext
        init).system_matrix r c
      = init.system_matrix r c
        + (if dg.all_parameters.ode_solver_type = ODESolverEnum.implicit_solver then
            ∑ itest in Finset.range fe_values_int.dofs_per_cell,
              if dof_indices_int.getD itest 0 = r then
                face_row_sum dof_indices_int dof_indices_ext fe_values_int.dofs_per_cell
                  (face_rhs_int dg fe_values_int fe_values_ext penalty dof_indices_int
                    dof_indices_ext itest) c
              else 0
          else 0)
        + (if dg.all_parameters.ode_solver_type = ODESolverEnum.implicit_solver then
            ∑ itest in Finset.range fe_values_ext.dofs_per_cell,
              if dof_indices_ext.getD itest 0 = r then
                face_row_sum dof_indices_int dof_indices_ext fe_values_int.dofs_per_cell
                  (face_rhs_ext dg fe_values_int fe_values_ext penalty dof_indices_int
                    dof_indices_ext itest) c
              else 0
          else 0) := by
  unfold face_loops
  rw [face_ext_loop_eq, face_int_loop_eq]
  have hext := face_scatter_loop_snd dg.all_parameters dof_indices_int dof_indices_ext
    fe_values_int.dofs_per_cell (fun itest => dof_indices_ext.getD itest 0)
    (face_rhs_ext dg fe_values_int fe_values_ext penalty dof_indices_int dof_indices_ext)
    fe_values_ext.dofs_per_cell
    (init.local_rhs_ext_cell,
      (forLoop fe_values_int.dofs_per_cell (init.local_rhs_int_cell, init.system_matrix)
        (fun acc itest =>
          face_scatter dg.all_parameters dof_indices_int dof_indices_ext
            fe_values_int.dofs_per_cell (dof_indices_int.getD itest 0) itest
            (face_rhs_int dg fe_values_int fe_values_ext penalty dof_indices_int
              dof_indices_ext itest) acc.1 acc.2)).2) r c
  have hint := face_scatter_loop_snd dg.all_parameters dof_indices_int dof_indices_ext
    fe_values_int.dofs_per_cell (fun itest => dof_indices_int.getD itest 0)
    (face_rhs_int dg fe_values_int fe_values_ext penalty dof_indices_int dof_indices_ext)
    fe_values_int.dofs_per_cell (init.local_rhs_int_cell, init.system_matrix) r c
  exact hext.trans (by rw [hint])

theorem assemble_face_eq_loops (dg : DGStrong) (fe_values_int fe_values_ext : FEValues)
    (penalty : real) (dof_indices_int dof_indices_ext : List ℕ)
    (local_rhs_int_cell local_rhs_ext_cell : RealVector)
    (h : face_checks_pass dg fe_values_int fe_values_ext dof_indices_int dof_indices_ext) :
    assemble_face_term_implicit dg fe_values_int fe_values_ext penalty dof_indices_int
        dof_indices_ext local_rhs_int_cell local_rhs_ext_cell
      = .ok (face_loops dg fe_values_int fe_values_ext penalty dof_indices_int dof_indices_ext
          ⟨local_rhs_int_cell, local_rhs_ext_cell, dg.system_matrix⟩) :=
  assemble_face_eq_ok dg fe_values_int fe_values_ext penalty dof_indices_int dof_indices_ext
    local_rhs_int_cell local_rhs_ext_cell h

/-- A loop that adds one term per index to a zero accumulator computes the sum of the terms. -/
theorem forLoop_eq_sum_of_body (n : ℕ) (body : ADtype → ℕ → ADtype) (t : ℕ → ADtype)
    (h : ∀ rhs q, body rhs q = rhs + t q) :
    forLoop n 0 body = ∑ q in Finset.range n, t q := by
  have : body = fun acc q => acc + t q := by funext rhs q; exact h rhs q
  rw [this, forLoop_add_eq_sum, zero_add]

theorem diss_soln_jump_eq (nstate : ℕ) (u_star u : ADArray) (normal : Tensor1 ADtype) :
    diss_soln_jump nstate u_star u normal
      = fun s d => if s < nstate then (u_star s - u s) * normal d else 0 := by
  funext s d
  exact diss_soln_jump_apply nstate u_star u normal s d

theorem dotAR_neg_right (dim : ℕ) (a : Tensor1 ADtype) (b : Tensor1 real) :
    dotAR dim a (fun d => -b d) = -dotAR dim a b := by
  rw [dotAR_eq_sum, dotAR_eq_sum, ← Finset.sum_neg_distrib]
  apply Finset.sum_congr rfl
  intro d _
  rw [ADtype.ofReal_neg]; ring

/-! ## C4: the boundary-face residual -/

theorem boundary_rhs_eq_claim (dg : DGStrong) (boundary_id : ℕ) (fe_values_boundary : FEValues)
    (penalty : real) (dof_indices_int : List ℕ) (itest : ℕ) :
    boundary_rhs dg boundary_id fe_values_boundary penalty dof_indices_int itest
      = boundary_claim_rhs dg boundary_id fe_values_boundary penalty dof_indices_int itest := by
  unfold boundary_rhs boundary_claim_rhs
  apply forLoop_eq_sum_of_body
  intro rhs q
  unfold boundary_quad_body boundary_flux_diff boundary_quad_values
  simp only [diss_soln_jump_eq]
  ring

/-- C4: for every boundary face and every test index `itest` with state component `s`, the
boundary assembler succeeds (when its checks pass) and adds to residual entry `itest` exactly
the value of `Sum_q [ -phi(q) * (F*(u_int, u_ext, n)[s] - Fconv(u_int)[s] . n)
- phi(q) * sigma*[s] + grad(phi)(q) . Fdiss(u_int, (u* - u_int) n)[s] ] * JxW[q]`, the
convective numerical flux being evaluated with the interior trace on one side and the ghost
state on the other. -/
theorem boundary_residual_formula (dg : DGStrong) (boundary_id : ℕ)
    (fe_values_boundary : FEValues) (penalty : real) (dof_indices_int : List ℕ)
    (local_rhs_int_cell : RealVector)
    (hok : boundary_checks_pass dg fe_values_boundary dof_indices_int) :
    ∃ out, assemble_boundary_term_implicit dg boundary_id fe_values_boundary penalty
        dof_indices_int local_rhs_int_cell = .ok out
      ∧ ∀ itest, itest < fe_values_boundary.dofs_per_cell →
        out.1 itest = local_rhs_int_cell itest
          + (boundary_claim_rhs dg boundary_id fe_values_boundary penalty dof_indices_int
              itest).val := by
  refine ⟨_, assemble_boundary_eq_ok dg boundary_id fe_values_boundary penalty dof_indices_int
    local_rhs_int_cell hok, ?_⟩
  intro itest hi
  rw [scatter_loop_fst, if_pos hi, boundary_rhs_eq_claim]

theorem example_boundary_checks_pass (use_split_form : Bool) (ode_solver_type : ODESolverEnum) :
    boundary_checks_pass (example_dg use_split_form ode_solver_type) example_fe_face [0, 1] :=
  ⟨rfl, fun _ _ _ _ => Nat.zero_lt_one⟩

/-- The boundary residual formula on the one-dimensional example. -/
theorem boundary_residual_formula_witness :
    boundary_checks_pass (example_dg false .implicit_solver) example_fe_face [0, 1]
      ∧ ∃ out, assemble_boundary_term_implicit (example_dg false .implicit_solver) 0
          example_fe_face 2 [0, 1] (fun _ => 0) = .ok out
        ∧ ∀ itest, itest < example_fe_face.dofs_per_cell →
          out.1 itest = (fun _ => (0 : real)) itest
            + (boundary_claim_rhs (example_dg false .implicit_solver) 0 example_fe_face 2 [0, 1]
                itest).val :=
  ⟨⟨rfl, fun _ _ _ _ => Nat.zero_lt_one⟩,
    boundary_residual_formula (example_dg false .implicit_solver) 0 example_fe_face 2 [0, 1]
      (fun _ => 0) ⟨rfl, fun _ _ _ _ => Nat.zero_lt_one⟩⟩

/-! ## C5: the exterior-side residual of an interior face -/

theorem face_rhs_ext_eq_claim (dg : DGStrong) (fe_values_int fe_values_ext : FEValues)
    (penalty : real) (dof_indices_int dof_indices_ext : List ℕ) (j : ℕ)
    (hfe : fe_values_int.system_to_component_index j
      = fe_values_ext.system_to_component_index j) :
    face_rhs_ext dg fe_values_int fe_values_ext penalty dof_indices_int dof_indices_ext j
      = face_ext_claim_rhs dg fe_values_int fe_values_ext penalty dof_indices_int
          dof_indices_ext j := by
  unfold face_rhs_ext face_ext_claim_rhs
  apply forLoop_eq_sum_of_body
  intro rhs q
  unfold face_quad_body_ext face_quad_values
  simp only [diss_soln_jump_eq, hfe]
  ring

/-- C5: when both cells of an interior face use the same finite element (the same
DOF-to-component map), the interior-face assembler succeeds (when its checks pass) and adds
to the exterior residual entry of every exterior test index `j` exactly the value of
`Sum_q [ -phi_ext(q) * ( -F*[q][s] - Fconv(u_ext)[s] . (-n) ) - phi_ext(q) * ( -sigma*[q][s] )
+ grad(phi_ext)(q) . Fdiss(u_ext, (u* - u_ext)(-n))[s] ] * JxW_int[q]`. -/
theorem face_exterior_residual_formula (dg : DGStrong) (fe_values_int fe_values_ext : FEValues)
    (penalty : real) (dof_indices_int dof_indices_ext : List ℕ)
    (local_rhs_int_cell local_rhs_ext_cell : RealVector)
    (hok : face_checks_pass dg fe_values_int fe_values_ext dof_indices_int dof_indices_ext)
    (hfe : ∀ j, j < fe_values_ext.dofs_per_cell →
      fe_values_int.system_to_component_index j = fe_values_ext.system_to_component_index j) :
    ∃ out, assemble_face_term_implicit dg fe_values_int fe_values_ext penalty dof_indices_int
        dof_indices_ext local_rhs_int_cell local_rhs_ext_cell = .ok out
      ∧ ∀ j, j < fe_values_ext.dofs_per_cell →
        out.local_rhs_ext_cell j = local_rhs_ext_cell j
          + (face_ext_claim_rhs dg fe_values_int fe_values_ext penalty dof_indices_int
              dof_indices_ext j).val := by
  refine ⟨_, assemble_face_eq_loops dg fe_values_int fe_values_ext penalty dof_indices_int
    dof_indices_ext local_rhs_int_cell local_rhs_ext_cell hok, ?_⟩
  intro j hj
  rw [face_loops_ext, if_pos hj, face_rhs_ext_eq_claim _ _ _ _ _ _ _ (hfe j hj)]

theorem example_face_checks_pass (use_split_form : Bool) (ode_solver_type : ODESolverEnum) :
    face_checks_pass (example_dg use_split_form ode_solver_type) example_fe_face
      example_fe_face_ext [0, 1] [2, 3] :=
  ⟨rfl, rfl, Nat.le_refl _, fun _ _ _ _ => Nat.zero_lt_one, fun _ _ _ _ => Nat.zero_lt_one,
    Nat.le_refl _⟩

/-- The exterior-side residual formula on the one-dimensional two-cell example. -/
theorem face_exterior_residual_formula_witness :
    face_checks_pass (example_dg false .implicit_solver) example_fe_face example_fe_face_ext
        [0, 1] [2, 3]
      ∧ (∀ j, j < example_fe_face_ext.dofs_per_cell →
          example_fe_face.system_to_component_index j
            = example_fe_face_ext.system_to_component_index j)
      ∧ ∃ out, assemble_face_term_implicit (example_dg false .implicit_solver) example_fe_face
          example_fe_face_ext 2 [0, 1] [2, 3] (fun _ => 0) (fun _ => 0) = .ok out
        ∧ ∀ j, j < example_fe_face_ext.dofs_per_cell →
          out.local_rhs_ext_cell j = (fun _ => (0 : real)) j
            + (face_ext_claim_rhs (example_dg false .implicit_solver) example_fe_face
                example_fe_face_ext 2 [0, 1] [2, 3] j).val :=
  ⟨example_face_checks_pass false .implicit_solver, fun _ _ => rfl,
    face_exterior_residual_formula (example_dg false .implicit_solver) example_fe_face
      example_fe_face_ext 2 [0, 1] [2, 3] (fun _ => 0) (fun _ => 0)
      (example_face_checks_pass false .implicit_solver) (fun _ _ => rfl)⟩

/-! ## The numerical-flux part and the physical part of the two face residuals -/

theorem face_rhs_int_eq_terms (dg : DGStrong) (fe_values_int fe_values_ext : FEValues)
    (penalty : real) (dof_indices_int dof_indices_ext : List ℕ) (i : ℕ) :
    face_rhs_int dg fe_values_int fe_values_ext penalty dof_indices_int dof_indices_ext i
      = ∑ q in Finset.range fe_values_ext.n_quadrature_points,
          (face_num_flux_term_int dg fe_values_int fe_values_ext penalty dof_indices_int
              dof_indices_ext i q
            + face_physical_term_int dg fe_values_int fe_values_ext penalty dof_indices_int
              dof_indices_ext i q) := by
  unfold face_rhs_int
  apply forLoop_eq_sum_of_body
  intro rhs q
  unfold face_quad_body_int face_num_flux_term_int face_physical_term_int face_num_flux_sum
  ring

theorem face_rhs_ext_eq_terms (dg : DGStrong) (fe_values_int fe_values_ext : FEValues)
    (penalty : real) (dof_indices_int dof_indices_ext : List ℕ) (j : ℕ) :
    face_rhs_ext dg fe_values_int fe_values_ext penalty dof_indices_int dof_indices_ext j
      = ∑ q in Finset.range fe_values_ext.n_quadrature_points,
          (face_num_flux_term_ext dg fe_values_int fe_values_ext penalty dof_indices_int
              dof_indices_ext j q
            + face_physical_term_ext dg fe_values_int fe_values_ext penalty dof_indices_int
              dof_indices_ext j q) := by
  unfold face_rhs_ext
  apply forLoop_eq_sum_of_body
  intro rhs q
  unfold face_quad_body_ext face_num_flux_term_ext face_physical_term_ext face_num_flux_sum
  simp only [dotAR_neg_right]
  ring

/-! ## C6: a boundary reconstruction that returns the interior state -/

/-- C6: if the convective numerical flux is consistent,
`evaluate_flux(u, u, n) = convective_flux(u) . n`, then at every boundary quadrature point
where the boundary reconstruction returns `State_ext = State_int` the convective flux jump
`F*_conv . n - Fconv,int . n` formed by the boundary assembler is zero for every state
component; and when that is so at every quadrature point of the face, the convective term
contributes nothing to any boundary residual entry. -/
theorem boundary_noop_zero_convective_jump (dg : DGStrong) (boundary_id : ℕ)
    (fe_values_boundary : FEValues) (penalty : real) (dof_indices_int : List ℕ)
    (local_rhs_int_cell : RealVector)
    (hok : boundary_checks_pass dg fe_values_boundary dof_indices_int)
    (hcons : ∀ (u : ADArray) (n : Tensor1 real) (s : ℕ),
      dg.conv_num_flux.evaluate_flux u u (tensorOfReal n) s
        = dotAR dg.dim (dg.pde_physics.convective_flux u s) n) :
    (∀ q, (boundary_quad_values dg boundary_id fe_values_boundary penalty dof_indices_int
              q).soln_ext
            = (boundary_quad_values dg boundary_id fe_values_boundary penalty dof_indices_int
              q).soln_int →
        ∀ s, boundary_flux_diff dg boundary_id fe_values_boundary penalty dof_indices_int q s
          = 0)
      ∧ ((∀ q, q < fe_values_boundary.n_quadrature_points →
            (boundary_quad_values dg boundary_id fe_values_boundary penalty dof_indices_int
                q).soln_ext
              = (boundary_quad_values dg boundary_id fe_values_boundary penalty dof_indices_int
                q).soln_int) →
          ∃ out, assemble_boundary_term_implicit dg boundary_id fe_values_boundary penalty
              dof_indices_int local_rhs_int_cell = .ok out
            ∧ ∀ itest, itest < fe_values_boundary.dofs_per_cell →
              boundary_rhs dg boundary_id fe_values_boundary penalty dof_indices_int itest
                  = boundary_rhs_without_convection dg boundary_id fe_values_boundary penalty
                      dof_indices_int itest
                ∧ out.1 itest = local_rhs_int_cell itest
                  + (boundary_rhs_without_convection dg boundary_id fe_values_boundary penalty
                      dof_indices_int itest).val) := by
  have hzero : ∀ q, (boundary_quad_values dg boundary_id fe_values_boundary penalty
        dof_indices_int q).soln_ext
      = (boundary_quad_values dg boundary_id fe_values_boundary penalty dof_indices_int
        q).soln_int →
      ∀ s, boundary_flux_diff dg boundary_id fe_values_boundary penalty dof_indices_int q s
        = 0 := by
    intro q hq s
    have hflux : (boundary_quad_values dg boundary_id fe_values_boundary penalty
        dof_indices_int q).conv_num_flux_dot_n
        = dg.conv_num_flux.evaluate_flux
            (boundary_quad_values dg boundary_id fe_values_boundary penalty dof_indices_int
              q).soln_int
            (boundary_quad_values dg boundary_id fe_values_boundary penalty dof_indices_int
              q).soln_ext
            (tensorOfReal (fe_values_boundary.normal_vector q)) := rfl
    have hphys : (boundary_quad_values dg boundary_id fe_values_boundary penalty
        dof_indices_int q).conv_phys_flux
        = dg.pde_physics.convective_flux
            (boundary_quad_values dg boundary_id fe_values_boundary penalty dof_indices_int
              q).soln_int := rfl
    unfold boundary_flux_diff
    simp only []
    rw [hflux, hphys, hq, hcons, sub_self]
  refine ⟨hzero, ?_⟩
  intro hall
  refine ⟨_, assemble_boundary_eq_ok dg boundary_id fe_values_boundary penalty dof_indices_int
    local_rhs_int_cell hok, ?_⟩
  intro itest hi
  have hrhs : boundary_rhs dg boundary_id fe_values_boundary penalty dof_indices_int itest
      = boundary_rhs_without_convection dg boundary_id fe_values_boundary penalty
          dof_indices_int itest := by
    rw [boundary_rhs_eq_sum]
    unfold boundary_rhs_without_convection
    apply Finset.sum_congr rfl
    intro q hq
    rw [hzero q (hall q (Finset.mem_range.mp hq))]
    ring
  refine ⟨hrhs, ?_⟩
  rw [scatter_loop_fst, if_pos hi, hrhs]

theorem example_flux_consistent (u : ADArray) (n : Tensor1 real) (s : ℕ) :
    example_conv_num_flux.evaluate_flux u u (tensorOfReal n) s
      = dotAR 1 (example_physics.convective_flux u s) n := by
  rw [dotAR_eq_sum]
  simp only [example_conv_num_flux, example_physics, tensorOfReal, Finset.sum_range_one]
  ext <;>
    simp only [ADtype.val_mul, ADtype.dx_mul, ADtype.val_add, ADtype.dx_add, ADtype.val_ofReal,
      ADtype.dx_ofReal] <;> ring

/-- The no-op boundary reconstruction on the one-dimensional example: the checks pass, the
central flux is consistent, the reconstruction returns the interior state, hence the
convective flux jump vanishes and the residual is formed without the convective term. -/
theorem boundary_noop_zero_convective_jump_witness :
    boundary_checks_pass (example_dg false .implicit_solver) example_fe_face [0, 1]
      ∧ (∀ (u : ADArray) (n : Tensor1 real) (s : ℕ),
          (example_dg false .implicit_solver).conv_num_flux.evaluate_flux u u (tensorOfReal n) s
            = dotAR (example_dg false .implicit_solver).dim
                ((example_dg false .implicit_solver).pde_physics.convective_flux u s) n)
      ∧ (∀ q, q < example_fe_face.n_quadrature_points →
            (boundary_quad_values (example_dg false .implicit_solver) 0 example_fe_face 2
                [0, 1] q).soln_ext
              = (boundary_quad_values (example_dg false .implicit_solver) 0 example_fe_face 2
                [0, 1] q).soln_int)
      ∧ (∀ s, boundary_flux_diff (example_dg false .implicit_solver) 0 example_fe_face 2
            [0, 1] 0 s = 0)
      ∧ ∃ out, assemble_boundary_term_implicit (example_dg false .implicit_solver) 0
            example_fe_face 2 [0, 1] (fun _ => 0) = .ok out
          ∧ ∀ itest, itest < example_fe_face.dofs_per_cell →
            boundary_rhs (example_dg false .implicit_solver) 0 example_fe_face 2 [0, 1] itest
                = boundary_rhs_without_convection (example_dg false .implicit_solver) 0
                    example_fe_face 2 [0, 1] itest
              ∧ out.1 itest = (fun _ => (0 : real)) itest
                + (boundary_rhs_without_convection (example_dg false .implicit_solver) 0
                    example_fe_face 2 [0, 1] itest).val :=
  ⟨example_boundary_checks_pass false .implicit_solver, example_flux_consistent,
    fun _ _ => rfl,
    (boundary_noop_zero_convective_jump (example_dg false .implicit_solver) 0 example_fe_face 2
      [0, 1] (fun _ => 0) (example_boundary_checks_pass false .implicit_solver)
      example_flux_consistent).1 0 rfl,
    (boundary_noop_zero_convective_jump (example_dg false .implicit_solver) 0 example_fe_face 2
      [0, 1] (fun _ => 0) (example_boundary_checks_pass false .implicit_solver)
      example_flux_consistent).2 (fun _ _ => rfl)⟩

/-! ## C9: the assemblers write additively -/

theorem forLoop_map_comm {σ : Type} (body : σ → ℕ → σ) (T : σ → σ)
    (h : ∀ acc i, body (T acc) i = T (body acc i)) (n : ℕ) (init : σ) :
    forLoop n (T init) body = T (forLoop n init body) := by
  induction n with
  | zero => rfl
  | succ n ih => rw [forLoop_succ, forLoop_succ, ih, h]

theorem realVector_add_comm (r0 v : RealVector) (i : ℕ) (x : real) :
    RealVector.add (fun j => r0 j + v j) i x = fun j => r0 j + RealVector.add v i x j := by
  funext j
  rw [realVector_add_apply, realVector_add_apply]
  ring

theorem systemMatrix_add_comm (m0 m : SystemMatrix) (row : ℕ) (cols : List ℕ)
    (values : ℕ → real) :
    SystemMatrix.add (fun r c => m0 r c + m r c) row cols values
      = fun r c => m0 r c + SystemMatrix.add m row cols values r c := by
  funext r c
  rw [systemMatrix_add_apply, systemMatrix_add_apply]
  ring

theorem scatter_add_comm (params : AllParameters) (dofs_indices : List ℕ) (itest : ℕ)
    (rhs : ADtype) (r0 : RealVector) (m0 : SystemMatrix) (acc : RealVector × SystemMatrix) :
    scatter params dofs_indices itest rhs (add_accumulators r0 m0 acc)
      = add_accumulators r0 m0 (scatter params dofs_indices itest rhs acc) := by
  unfold scatter add_accumulators
  by_cases hp : params.ode_solver_type = ODESolverEnum.implicit_solver
  · simp only [hp, if_true, realVector_add_comm, systemMatrix_add_comm]
  · simp only [hp, if_false, realVector_add_comm]

theorem face_scatter_add_comm (params : AllParameters) (dof_indices_int dof_indices_ext : List ℕ)
    (n_dofs_int row itest : ℕ) (rhs : ADtype) (r0 v : RealVector) (m0 m : SystemMatrix) :
    face_scatter params dof_indices_int dof_indices_ext n_dofs_int row itest rhs
        (fun j => r0 j + v j) (fun r c => m0 r c + m r c)
      = add_accumulators r0 m0
          (face_scatter params dof_indices_int dof_indices_ext n_dofs_int row itest rhs v m) := by
  unfold face_scatter add_accumulators
  by_cases hp : params.ode_solver_type = ODESolverEnum.implicit_solver
  · simp only [hp, if_true, realVector_add_comm, systemMatrix_add_comm]
  · simp only [hp, if_false, realVector_add_comm]

theorem cell_test_step_add_comm (dg : DGStrong) (fe_values_vol fe_values_lagrange : FEValues)
    (cell_dofs_indices : List ℕ) (r0 : RealVector) (m0 m : SystemMatrix)
    (acc : RealVector × SystemMatrix) (itest : ℕ) :
    cell_test_step dg fe_values_vol fe_values_lagrange cell_dofs_indices
        (add_accumulators r0 m0 acc) itest
      = (cell_test_step (dg.with_system_matrix m) fe_values_vol fe_values_lagrange
          cell_dofs_indices acc itest).map (add_accumulators r0 m0) := by
  unfold cell_test_step
  have h1 : cell_split_checks (dg.with_system_matrix m) fe_values_vol itest
      = cell_split_checks dg fe_values_vol itest := rfl
  have h2 : cell_rhs (dg.with_system_matrix m) fe_values_vol fe_values_lagrange
      cell_dofs_indices itest
      = cell_rhs dg fe_values_vol fe_values_lagrange cell_dofs_indices itest := rfl
  have h3 : (dg.with_system_matrix m).all_parameters = dg.all_parameters := rfl
  rw [h1, h2, h3]
  cases cell_split_checks dg fe_values_vol itest with
  | error e => rfl
  | ok _ =>
    cases cell_quad_checks fe_values_vol fe_values_lagrange with
    | error e => rfl
    | ok _ =>
      show Except.ok _ = Except.ok _
      rw [scatter_add_comm]

/-- The cell assembler writes additively: its result is the initial contents of the
accumulators plus its result from zero accumulators. -/
theorem assemble_cell_additive (dg : DGStrong) (fe_values_vol fe_values_lagrange : FEValues)
    (cell_dofs_indices : List ℕ) (r0 : RealVector) :
    assemble_cell_terms_implicit dg fe_values_vol fe_values_lagrange cell_dofs_indices r0
      = (assemble_cell_terms_implicit (dg.with_system_matrix (fun _ _ => 0)) fe_values_vol
          fe_values_lagrange cell_dofs_indices (fun _ => 0)).map
          (fun out => (fun i => r0 i + out.1 i, fun r c => dg.system_matrix r c + out.2 r c)) := by
  unfold assemble_cell_terms_implicit
  simp only []
  by_cases h1 : fe_values_vol.dofs_per_cell ≠ cell_dofs_indices.length
  · rw [if_pos h1, if_pos h1]; rfl
  rw [if_neg h1, if_neg h1]
  by_cases h2 : ¬ interpolation_in_range dg.nstate fe_values_vol
      fe_values_vol.n_quadrature_points
  · have h2' : ¬ interpolation_in_range (dg.with_system_matrix (fun _ _ => 0)).nstate
        fe_values_vol fe_values_vol.n_quadrature_points := h2
    rw [if_pos h2, if_pos h2']; rfl
  have h2' : ¬ ¬ interpolation_in_range (dg.with_system_matrix (fun _ _ => 0)).nstate
      fe_values_vol fe_values_vol.n_quadrature_points := h2
  rw [if_neg h2, if_neg h2']
  by_cases h3 : ¬ cell_flux_loops_in_range dg fe_values_vol fe_values_lagrange
  · have h3' : ¬ cell_flux_loops_in_range (dg.with_system_matrix (fun _ _ => 0))
        fe_values_vol fe_values_lagrange := h3
    rw [if_pos h3, if_pos h3']; rfl
  have h3' : ¬ ¬ cell_flux_loops_in_range (dg.with_system_matrix (fun _ _ => 0))
      fe_values_vol fe_values_lagrange := h3
  rw [if_neg h3, if_neg h3']
  have hinit : (r0, dg.system_matrix)
      = add_accumulators r0 dg.system_matrix
          ((fun _ => 0), (dg.with_system_matrix (fun _ _ => 0)).system_matrix) := by
    unfold add_accumulators
    refine Prod.ext ?_ ?_
    · funext i; exact (add_zero _).symm
    · funext r c; exact (add_zero _).symm
  rw [hinit]
  have hstep : ∀ acc i,
      cell_test_step dg fe_values_vol fe_values_lagrange cell_dofs_indices
          (add_accumulators r0 dg.system_matrix acc) i
        = (cell_test_step dg fe_values_vol fe_values_lagrange cell_dofs_indices acc i).map
            (add_accumulators r0 dg.system_matrix) := fun acc i =>
    cell_test_step_add_comm dg fe_values_vol fe_values_lagrange cell_dofs_indices r0
      dg.system_matrix dg.system_matrix acc i
  rw [foldlM_map_comm _ _ hstep]
  rfl

/-- The boundary-face assembler writes additively. -/
theorem assemble_boundary_additive (dg : DGStrong) (boundary_id : ℕ)
    (fe_values_boundary : FEValues) (penalty : real) (dof_indices_int : List ℕ)
    (r0 : RealVector) :
    assemble_boundary_term_implicit dg boundary_id fe_values_boundary penalty dof_indices_int r0
      = (assemble_boundary_term_implicit (dg.with_system_matrix (fun _ _ => 0)) boundary_id
          fe_values_boundary penalty dof_indices_int (fun _ => 0)).map
          (fun out => (fun i => r0 i + out.1 i, fun r c => dg.system_matrix r c + out.2 r c)) := by
  unfold assemble_boundary_term_implicit
  simp only []
  by_cases h1 : fe_values_boundary.dofs_per_cell ≠ dof_indices_int.length
  · rw [if_pos h1, if_pos h1]; rfl
  rw [if_neg h1, if_neg h1]
  by_cases h2 : ¬ interpolation_in_range dg.nstate fe_values_boundary
      fe_values_boundary.n_quadrature_points
  · have h2' : ¬ interpolation_in_range (dg.with_system_matrix (fun _ _ => 0)).nstate
        fe_values_boundary fe_values_boundary.n_quadrature_points := h2
    rw [if_pos h2, if_pos h2']; rfl
  have h2' : ¬ ¬ interpolation_in_range (dg.with_system_matrix (fun _ _ => 0)).nstate
      fe_values_boundary fe_values_boundary.n_quadrature_points := h2
  rw [if_neg h2, if_neg h2']
  have hinit : (r0, dg.system_matrix)
      = add_accumulators r0 dg.system_matrix
          ((fun _ => 0), (dg.with_system_matrix (fun _ _ => 0)).system_matrix) := by
    unfold add_accumulators
    refine Prod.ext ?_ ?_
    · funext i; exact (add_zero _).symm
    · funext r c; exact (add_zero _).symm
  rw [hinit]
  rw [forLoop_map_comm _ (add_accumulators r0 dg.system_matrix)
    (fun acc i => scatter_add_comm _ _ _ _ _ _ _)]
  rfl

/-- The interior-face assembler writes additively. -/
theorem assemble_face_additive (dg : DGStrong) (fe_values_int fe_values_ext : FEValues)
    (penalty : real) (dof_indices_int dof_indices_ext : List ℕ) (r_int r_ext : RealVector) :
    assemble_face_term_implicit dg fe_values_int fe_values_ext penalty dof_indices_int
        dof_indices_ext r_int r_ext
      = (assemble_face_term_implicit (dg.with_system_matrix (fun _ _ => 0)) fe_values_int
          fe_values_ext penalty dof_indices_int dof_indices_ext (fun _ => 0) (fun _ => 0)).map
          (fun out =>
            { local_rhs_int_cell := fun i => r_int i + out.local_rhs_int_cell i
              local_rhs_ext_cell := fun i => r_ext i + out.local_rhs_ext_cell i
              system_matrix := fun r c => dg.system_matrix r c + out.system_matrix r c }) := by
  unfold assemble_face_term_implicit
  simp only []
  by_cases h1 : fe_values_int.dofs_per_cell ≠ dof_indices_int.length
  · rw [if_pos h1, if_pos h1]; rfl
  rw [if_neg h1, if_neg h1]
  by_cases h2 : fe_values_ext.dofs_per_cell ≠ dof_indices_ext.length
  · rw [if_pos h2, if_pos h2]; rfl
  rw [if_neg h2, if_neg h2]
  by_cases h3 : ¬ fe_values_ext.n_quadrature_points ≤ fe_values_int.n_quadrature_points
  · rw [if_pos h3, if_pos h3]; rfl
  rw [if_neg h3, if_neg h3]
  by_cases h4 : ¬ (interpolation_in_range dg.nstate fe_values_int
      fe_values_ext.n_quadrature_points
      ∧ interpolation_in_range dg.nstate fe_values_ext fe_values_ext.n_quadrature_points)
  · have h4' : ¬ (interpolation_in_range (dg.with_system_matrix (fun _ _ => 0)).nstate
        fe_values_int fe_values_ext.n_quadrature_points
        ∧ interpolation_in_range (dg.with_system_matrix (fun _ _ => 0)).nstate fe_values_ext
          fe_values_ext.n_quadrature_points) := h4
    rw [if_pos h4, if_pos h4']; rfl
  have h4' : ¬ ¬ (interpolation_in_range (dg.with_system_matrix (fun _ _ => 0)).nstate
      fe_values_int fe_values_ext.n_quadrature_points
      ∧ interpolation_in_range (dg.with_system_matrix (fun _ _ => 0)).nstate fe_values_ext
        fe_values_ext.n_quadrature_points) := h4
  rw [if_neg h4, if_neg h4']
  have hinit : (⟨r_int, r_ext, dg.system_matrix⟩ : FaceOutput)
      = add_face_accumulators r_int r_ext dg.system_matrix
          ⟨(fun _ => 0), (fun _ => 0),
            (dg.with_system_matrix (fun _ _ => 0)).system_matrix⟩ := by
    unfold add_face_accumulators
    congr 1
    · funext i; exact (add_zero _).symm
    · funext i; exact (add_zero _).symm
    · funext r c; exact (add_zero _).symm
  rw [hinit]
  have hint : ∀ acc i,
      face_test_step_int dg fe_values_int fe_values_ext penalty dof_indices_int
          dof_indices_ext (add_face_accumulators r_int r_ext dg.system_matrix acc) i
        = add_face_accumulators r_int r_ext dg.system_matrix
            (face_test_step_int dg fe_values_int fe_values_ext penalty dof_indices_int
              dof_indices_ext acc i) := by
    intro acc i
    unfold face_test_step_int add_face_accumulators
    simp only [face_scatter_add_comm]
    rfl
  have hext : ∀ acc i,
      face_test_step_ext dg fe_values_int fe_values_ext penalty dof_indices_int
          dof_indices_ext (add_face_accumulators r_int r_ext dg.system_matrix acc) i
        = (face_test_step_ext dg fe_values_int fe_values_ext penalty dof_indices_int
            dof_indices_ext acc i).map
            (add_face_accumulators r_int r_ext dg.system_matrix) := by
    intro acc i
    unfold face_test_step_ext
    by_cases hi : ¬ i < fe_values_int.dofs_per_cell
    · rw [if_pos hi, if_pos hi]; rfl
    rw [if_neg hi, if_neg hi]
    unfold add_face_accumulators
    simp only [face_scatter_add_comm]
    rfl
  rw [forLoop_map_comm _ _ hint, foldlM_map_comm _ _ hext]
  rfl

/-- C9: each assembler writes additively. For any initial contents of the residual vector(s)
and of the Jacobian accumulator, the result of a call is the initial contents plus the
result of the same call started from zero accumulators (and the call fails from the one
exactly when it fails from the other); and each call returns a result when its dimension,
index and assertion checks pass. -/
theorem assemblers_write_additively (dg : DGStrong) (boundary_id : ℕ)
    (fe_values_vol fe_values_lagrange fe_values_boundary fe_values_int fe_values_ext : FEValues)
    (penalty : real) (cell_dofs_indices dof_indices_int dof_indices_ext : List ℕ)
    (r0 r_int r_ext : RealVector) :
    assemble_cell_terms_implicit dg fe_values_vol fe_values_lagrange cell_dofs_indices r0
        = (assemble_cell_terms_implicit (dg.with_system_matrix (fun _ _ => 0)) fe_values_vol
            fe_values_lagrange cell_dofs_indices (fun _ => 0)).map
            (fun out => (fun i => r0 i + out.1 i, fun r c => dg.system_matrix r c + out.2 r c))
      ∧ assemble_boundary_term_implicit dg boundary_id fe_values_boundary penalty
          dof_indices_int r0
        = (assemble_boundary_term_implicit (dg.with_system_matrix (fun _ _ => 0)) boundary_id
            fe_values_boundary penalty dof_indices_int (fun _ => 0)).map
            (fun out => (fun i => r0 i + out.1 i, fun r c => dg.system_matrix r c + out.2 r c))
      ∧ assemble_face_term_implicit dg fe_values_int fe_values_ext penalty dof_indices_int
          dof_indices_ext r_int r_ext
        = (assemble_face_term_implicit (dg.with_system_matrix (fun _ _ => 0)) fe_values_int
            fe_values_ext penalty dof_indices_int dof_indices_ext (fun _ => 0) (fun _ => 0)).map
            (fun out =>
              { local_rhs_int_cell := fun i => r_int i + out.local_rhs_int_cell i
                local_rhs_ext_cell := fun i => r_ext i + out.local_rhs_ext_cell i
                system_matrix := fun r c => dg.system_matrix r c + out.system_matrix r c })
      ∧ (cell_checks_pass dg fe_values_vol fe_values_lagrange cell_dofs_indices →
          ∃ out, assemble_cell_terms_implicit dg fe_values_vol fe_values_lagrange
            cell_dofs_indices r0 = .ok out)
      ∧ (boundary_checks_pass dg fe_values_boundary dof_indices_int →
          ∃ out, assemble_boundary_term_implicit dg boundary_id fe_values_boundary penalty
            dof_indices_int r0 = .ok out)
      ∧ (face_checks_pass dg fe_values_int fe_values_ext dof_indices_int dof_indices_ext →
          ∃ out, assemble_face_term_implicit dg fe_values_int fe_values_ext penalty
            dof_indices_int dof_indices_ext r_int r_ext = .ok out) := by
  exact ⟨assemble_cell_additive dg fe_values_vol fe_values_lagrange cell_dofs_indices r0,
    assemble_boundary_additive dg boundary_id fe_values_boundary penalty dof_indices_int r0,
    assemble_face_additive dg fe_values_int fe_values_ext penalty dof_indices_int
      dof_indices_ext r_int r_ext,
    fun h => ⟨_, assemble_cell_eq_ok _ _ _ _ _ h⟩,
    fun h => ⟨_, assemble_boundary_eq_ok _ _ _ _ _ _ h⟩,
    fun h => ⟨_, assemble_face_eq_ok _ _ _ _ _ _ _ _ h⟩⟩

/-- The additive-write property on the one-dimensional example, started from the residual
`i ↦ i` and the example's system matrix: the three calls return results. -/
theorem assemblers_write_additively_witness :
    cell_checks_pass (example_dg false .implicit_solver) example_fe example_fe [0, 1]
      ∧ boundary_checks_pass (example_dg false .implicit_solver) example_fe_face [0, 1]
      ∧ face_checks_pass (example_dg false .implicit_solver) example_fe_face example_fe_face_ext
          [0, 1] [2, 3]
      ∧ (∃ out, assemble_cell_terms_implicit (example_dg false .implicit_solver) example_fe
          example_fe [0, 1] (fun i => i) = .ok out)
      ∧ (∃ out, assemble_boundary_term_implicit (example_dg false .implicit_solver) 0
          example_fe_face 2 [0, 1] (fun i => i) = .ok out)
      ∧ (∃ out, assemble_face_term_implicit (example_dg false .implicit_solver) example_fe_face
          example_fe_face_ext 2 [0, 1] [2, 3] (fun i => i) (fun i => 2 * i) = .ok out)
      ∧ assemble_cell_terms_implicit (example_dg false .implicit_solver) example_fe example_fe
          [0, 1] (fun i => i)
        = (assemble_cell_terms_implicit
            ((example_dg false .implicit_solver).with_system_matrix (fun _ _ => 0)) example_fe
            example_fe [0, 1] (fun _ => 0)).map
            (fun out => (fun (i : ℕ) => (i : real) + out.1 i,
              fun r c => (example_dg false .implicit_solver).system_matrix r c + out.2 r c)) :=
  have h := assemblers_write_additively (example_dg false .implicit_solver) 0 example_fe example_fe
    example_fe_face example_fe_face example_fe_face_ext 2 [0, 1] [0, 1] [2, 3] (fun i => i)
    (fun i => i) (fun i => 2 * i)
  ⟨example_cell_checks_pass false .implicit_solver,
    example_boundary_checks_pass false .implicit_solver,
    example_face_checks_pass false .implicit_solver,
    h.2.2.2.1 (example_cell_checks_pass false .implicit_solver),
    h.2.2.2.2.1 (example_boundary_checks_pass false .implicit_solver),
    h.2.2.2.2.2 (example_face_checks_pass false .implicit_solver),
    h.1⟩

/-! ## C10: the assemblers when the Jacobian is not requested -/

theorem cell_test_step_eq_map (dg : DGStrong) (fe_values_vol fe_values_lagrange : FEValues)
    (cell_dofs_indices : List ℕ) (acc : RealVector × SystemMatrix) (itest : ℕ) :
    cell_test_step dg fe_values_vol fe_values_lagrange cell_dofs_indices acc itest
      = (cell_test_checks dg fe_values_vol fe_values_lagrange itest).map (fun _ =>
          scatter dg.all_parameters cell_dofs_indices itest
            (cell_rhs dg fe_values_vol fe_values_lagrange cell_dofs_indices itest) acc) := by
  unfold cell_test_step cell_test_checks
  cases cell_split_checks dg fe_values_vol itest with
  | error e => rfl
  | ok _ =>
    cases cell_quad_checks fe_values_vol fe_values_lagrange with
    | error e => rfl
    | ok _ => rfl

theorem except_map_map {ε α β γ : Type} (f : α → β) (g : β → γ) (x : Except ε α) :
    (x.map f).map g = x.map (fun a => g (f a)) := by
  cases x <;> rfl

/-- Projecting a fallible iteration whose steps act on the projection alone. -/
theorem foldlM_map_proj {ε σ τ : Type} (p : σ → τ) (step : σ → ℕ → Except ε σ)
    (step' : τ → ℕ → Except ε τ) (h : ∀ acc i, (step acc i).map p = step' (p acc) i)
    (l : List ℕ) (init : σ) :
    (l.foldlM step init).map p = l.foldlM step' (p init) := by
  induction l generalizing init with
  | nil => rfl
  | cons a l ih =>
    rw [List.foldlM_cons, List.foldlM_cons, ← h]
    cases hs : step init a with
    | error e => rfl
    | ok st => exact ih st

theorem scatter_snd_explicit (params : AllParameters) (dofs_indices : List ℕ) (itest : ℕ)
    (rhs : ADtype) (acc : RealVector × SystemMatrix)
    (h : params.ode_solver_type ≠ ODESolverEnum.implicit_solver) :
    (scatter params dofs_indices itest rhs acc).2 = acc.2 := by
  rw [scatter_snd, if_neg h]

theorem face_scatter_snd_explicit (params : AllParameters)
    (dof_indices_int dof_indices_ext : List ℕ) (n_dofs_int row itest : ℕ) (rhs : ADtype)
    (v : RealVector) (m : SystemMatrix)
    (h : params.ode_solver_type ≠ ODESolverEnum.implicit_solver) :
    (face_scatter params dof_indices_int dof_indices_ext n_dofs_int row itest rhs v m).2 = m := by
  rw [face_scatter_snd, if_neg h]

/-- The system matrix is left alone by the cell assembler of an explicit solver. -/
theorem cell_matrix_unchanged (dg : DGStrong) (fe_values_vol fe_values_lagrange : FEValues)
    (cell_dofs_indices : List ℕ) (r0 : RealVector)
    (hexp : dg.all_parameters.ode_solver_type ≠ ODESolverEnum.implicit_solver) :
    (assemble_cell_terms_implicit dg fe_values_vol fe_values_lagrange cell_dofs_indices r0).map
        Prod.snd
      = (assemble_cell_terms_implicit dg fe_values_vol fe_values_lagrange cell_dofs_indices
          r0).map (fun _ => dg.system_matrix) := by
  unfold assemble_cell_terms_implicit
  simp only []
  by_cases h1 : fe_values_vol.dofs_per_cell ≠ cell_dofs_indices.length
  · rw [if_pos h1]; rfl
  rw [if_neg h1]
  by_cases h2 : ¬ interpolation_in_range dg.nstate fe_values_vol
      fe_values_vol.n_quadrature_points
  · rw [if_pos h2]; rfl
  rw [if_neg h2]
  by_cases h3 : ¬ cell_flux_loops_in_range dg fe_values_vol fe_values_lagrange
  · rw [if_pos h3]; rfl
  rw [if_neg h3]
  rw [foldlM_map_proj Prod.snd _
      (fun m i => (cell_test_checks dg fe_values_vol fe_values_lagrange i).map (fun _ => m)),
    foldlM_map_proj (fun _ => dg.system_matrix) _
      (fun m i => (cell_test_checks dg fe_values_vol fe_values_lagrange i).map (fun _ => m))]
  · intro acc i
    rw [cell_test_step_eq_map, except_map_map]
  · intro acc i
    rw [cell_test_step_eq_map, except_map_map]
    simp only [scatter_snd_explicit _ _ _ _ _ hexp]

/-- The residual written by the cell assembler does not depend on the ODE solver type. -/
theorem cell_residual_same (dg : DGStrong) (fe_values_vol fe_values_lagrange : FEValues)
    (cell_dofs_indices : List ℕ) (r0 : RealVector) (t : ODESolverEnum) :
    (assemble_cell_terms_implicit dg fe_values_vol fe_values_lagrange cell_dofs_indices r0).map
        Prod.fst
      = (assemble_cell_terms_implicit (dg.with_ode_solver_type t) fe_values_vol
          fe_values_lagrange cell_dofs_indices r0).map Prod.fst := by
  unfold assemble_cell_terms_implicit
  simp only []
  by_cases h1 : fe_values_vol.dofs_per_cell ≠ cell_dofs_indices.length
  · rw [if_pos h1, if_pos h1]
  rw [if_neg h1, if_neg h1]
  by_cases h2 : ¬ interpolation_in_range dg.nstate fe_values_vol
      fe_values_vol.n_quadrature_points
  · have h2' : ¬ interpolation_in_range (dg.with_ode_solver_type t).nstate
        fe_values_vol fe_values_vol.n_quadrature_points := h2
    rw [if_pos h2, if_pos h2']
  have h2' : ¬ ¬ interpolation_in_range (dg.with_ode_solver_type t).nstate
      fe_values_vol fe_values_vol.n_quadrature_points := h2
  rw [if_neg h2, if_neg h2']
  by_cases h3 : ¬ cell_flux_loops_in_range dg fe_values_vol fe_values_lagrange
  · have h3' : ¬ cell_flux_loops_in_range (dg.with_ode_solver_type t)
        fe_values_vol fe_values_lagrange := h3
    rw [if_pos h3, if_pos h3']
  have h3' : ¬ ¬ cell_flux_loops_in_range (dg.with_ode_solver_type t)
      fe_values_vol fe_values_lagrange := h3
  rw [if_neg h3, if_neg h3']
  rw [foldlM_map_proj Prod.fst _
      (fun (r : RealVector) i =>
        (cell_test_checks dg fe_values_vol fe_values_lagrange i).map (fun _ =>
          r.add i (cell_rhs dg fe_values_vol fe_values_lagrange cell_dofs_indices i).val)),
    foldlM_map_proj Prod.fst _
      (fun (r : RealVector) i =>
        (cell_test_checks dg fe_values_vol fe_values_lagrange i).map (fun _ =>
          r.add i (cell_rhs dg fe_values_vol fe_values_lagrange cell_dofs_indices i).val))]
  · intro acc i
    rw [cell_test_step_eq_map, except_map_map]
    rfl
  · intro acc i
    rw [cell_test_step_eq_map, except_map_map]
    rfl

theorem boundary_matrix_unchanged (dg : DGStrong) (boundary_id : ℕ)
    (fe_values_boundary : FEValues) (penalty : real) (dof_indices_int : List ℕ)
    (r0 : RealVector)
    (hexp : dg.all_parameters.ode_solver_type ≠ ODESolverEnum.implicit_solver) :
    (assemble_boundary_term_implicit dg boundary_id fe_values_boundary penalty dof_indices_int
        r0).map Prod.snd
      = (assemble_boundary_term_implicit dg boundary_id fe_values_boundary penalty
          dof_indices_int r0).map (fun _ => dg.system_matrix) := by
  unfold assemble_boundary_term_implicit
  simp only []
  by_cases h1 : fe_values_boundary.dofs_per_cell ≠ dof_indices_int.length
  · rw [if_pos h1]; rfl
  rw [if_neg h1]
  by_cases h2 : ¬ interpolation_in_range dg.nstate fe_values_boundary
      fe_values_boundary.n_quadrature_points
  · rw [if_pos h2]; rfl
  rw [if_neg h2]
  show Except.ok _ = Except.ok _
  congr 1
  funext r c
  rw [scatter_loop_snd, if_neg hexp, add_zero]

theorem boundary_residual_same (dg : DGStrong) (boundary_id : ℕ)
    (fe_values_boundary : FEValues) (penalty : real) (dof_indices_int : List ℕ)
    (r0 : RealVector) (t : ODESolverEnum) :
    (assemble_boundary_term_implicit dg boundary_id fe_values_boundary penalty dof_indices_int
        r0).map Prod.fst
      = (assemble_boundary_term_implicit (dg.with_ode_solver_type t) boundary_id
          fe_values_boundary penalty dof_indices_int r0).map Prod.fst := by
  unfold assemble_boundary_term_implicit
  simp only []
  by_cases h1 : fe_values_boundary.dofs_per_cell ≠ dof_indices_int.length
  · rw [if_pos h1, if_pos h1]
  rw [if_neg h1, if_neg h1]
  by_cases h2 : ¬ interpolation_in_range dg.nstate fe_values_boundary
      fe_values_boundary.n_quadrature_points
  · have h2' : ¬ interpolation_in_range (dg.with_ode_solver_type t).nstate
        fe_values_boundary fe_values_boundary.n_quadrature_points := h2
    rw [if_pos h2, if_pos h2']
  have h2' : ¬ ¬ interpolation_in_range (dg.with_ode_solver_type t).nstate
      fe_values_boundary fe_values_boundary.n_quadrature_points := h2
  rw [if_neg h2, if_neg h2']
  show Except.ok _ = Except.ok _
  congr 1
  funext j
  rw [scatter_loop_fst, scatter_loop_fst]
  rfl

theorem face_test_step_ext_eq_map (dg : DGStrong) (fe_values_int fe_values_ext : FEValues)
    (penalty : real) (dof_indices_int dof_indices_ext : List ℕ) (acc : FaceOutput) (i : ℕ) :
    face_test_step_ext dg fe_values_int fe_values_ext penalty dof_indices_int dof_indices_ext
        acc i
      = (face_ext_check fe_values_int i).map (fun _ =>
          face_test_step_ext_pure dg fe_values_int fe_values_ext penalty dof_indices_int
            dof_indices_ext acc i) := by
  unfold face_test_step_ext face_ext_check
  by_cases hi : ¬ i < fe_values_int.dofs_per_cell
  · rw [if_pos hi, if_pos hi]; rfl
  · rw [if_neg hi, if_neg hi]; rfl

theorem face_int_loop_matrix_explicit (dg : DGStrong) (fe_values_int fe_values_ext : FEValues)
    (penalty : real) (dof_indices_int dof_indices_ext : List ℕ) (init : FaceOutput) (n : ℕ)
    (hexp : dg.all_parameters.ode_solver_type ≠ ODESolverEnum.implicit_solver) :
    (forLoop n init
        (face_test_step_int dg fe_values_int fe_values_ext penalty dof_indices_int
          dof_indices_ext)).system_matrix = init.system_matrix := by
  rw [face_int_loop_eq]
  funext r c
  show (forLoop n (init.local_rhs_int_cell, init.system_matrix) _).2 r c = _
  rw [face_scatter_loop_snd dg.all_parameters dof_indices_int dof_indices_ext
    fe_values_int.dofs_per_cell (fun itest => dof_indices_int.getD itest 0)
    (face_rhs_int dg fe_values_int fe_values_ext penalty dof_indices_int dof_indices_ext),
    if_neg hexp, add_zero]

theorem face_matrix_unchanged (dg : DGStrong) (fe_values_int fe_values_ext : FEValues)
    (penalty : real) (dof_indices_int dof_indices_ext : List ℕ) (r_int r_ext : RealVector)
    (hexp : dg.all_parameters.ode_solver_type ≠ ODESolverEnum.implicit_solver) :
    (assemble_face_term_implicit dg fe_values_int fe_values_ext penalty dof_indices_int
        dof_indices_ext r_int r_ext).map FaceOutput.system_matrix
      = (assemble_face_term_implicit dg fe_values_int fe_values_ext penalty dof_indices_int
          dof_indices_ext r_int r_ext).map (fun _ => dg.system_matrix) := by
  unfold assemble_face_term_implicit
  simp only []
  by_cases h1 : fe_values_int.dofs_per_cell ≠ dof_indices_int.length
  · rw [if_pos h1]; rfl
  rw [if_neg h1]
  by_cases h2 : fe_values_ext.dofs_per_cell ≠ dof_indices_ext.length
  · rw [if_pos h2]; rfl
  rw [if_neg h2]
  by_cases h3 : ¬ fe_values_ext.n_quadrature_points ≤ fe_values_int.n_quadrature_points
  · rw [if_pos h3]; rfl
  rw [if_neg h3]
  by_cases h4 : ¬ (interpolation_in_range dg.nstate fe_values_int
      fe_values_ext.n_quadrature_points
      ∧ interpolation_in_range dg.nstate fe_values_ext fe_values_ext.n_quadrature_points)
  · rw [if_pos h4]; rfl
  rw [if_neg h4]
  rw [foldlM_map_proj FaceOutput.system_matrix _
      (fun m i => (face_ext_check fe_values_int i).map (fun _ => m)),
    foldlM_map_proj (fun _ => dg.system_matrix) _
      (fun m i => (face_ext_check fe_values_int i).map (fun _ => m)),
    face_int_loop_matrix_explicit _ _ _ _ _ _ _ _ hexp]
  · intro acc i
    rw [face_test_step_ext_eq_map, except_map_map]
  · intro acc i
    rw [face_test_step_ext_eq_map, except_map_map]
    congr 1
    funext _
    show (face_scatter dg.all_parameters dof_indices_int dof_indices_ext
      fe_values_int.dofs_per_cell (dof_indices_ext.getD i 0) i _ acc.local_rhs_ext_cell
      acc.system_matrix).2 = _
    rw [face_scatter_snd_explicit _ _ _ _ _ _ _ _ _ hexp]

theorem face_residual_same (dg : DGStrong) (fe_values_int fe_values_ext : FEValues)
    (penalty : real) (dof_indices_int dof_indices_ext : List ℕ) (r_int r_ext : RealVector)
    (t : ODESolverEnum) :
    (assemble_face_term_implicit dg fe_values_int fe_values_ext penalty dof_indices_int
        dof_indices_ext r_int r_ext).map
        (fun out => (out.local_rhs_int_cell, out.local_rhs_ext_cell))
      = (assemble_face_term_implicit (dg.with_ode_solver_type t) fe_values_int fe_values_ext
          penalty dof_indices_int dof_indices_ext r_int r_ext).map
          (fun out => (out.local_rhs_int_cell, out.local_rhs_ext_cell)) := by
  unfold assemble_face_term_implicit
  simp only []
  by_cases h1 : fe_values_int.dofs_per_cell ≠ dof_indices_int.length
  · rw [if_pos h1, if_pos h1]
  rw [if_neg h1, if_neg h1]
  by_cases h2 : fe_values_ext.dofs_per_cell ≠ dof_indices_ext.length
  · rw [if_pos h2, if_pos h2]
  rw [if_neg h2, if_neg h2]
  by_cases h3 : ¬ fe_values_ext.n_quadrature_points ≤ fe_values_int.n_quadrature_points
  · rw [if_pos h3, if_pos h3]
  rw [if_neg h3, if_neg h3]
  by_cases h4 : ¬ (interpolation_in_range dg.nstate fe_values_int
      fe_values_ext.n_quadrature_points
      ∧ interpolation_in_range dg.nstate fe_values_ext fe_values_ext.n_quadrature_points)
  · have h4' : ¬ (interpolation_in_range (dg.with_ode_solver_type t).nstate
        fe_values_int fe_values_ext.n_quadrature_points
        ∧ interpolation_in_range (dg.with_ode_solver_type t).nstate fe_values_ext
          fe_values_ext.n_quadrature_points) := h4
    rw [if_pos h4, if_pos h4']
  have h4' : ¬ ¬ (interpolation_in_range (dg.with_ode_solver_type t).nstate
      fe_values_int fe_values_ext.n_quadrature_points
      ∧ interpolation_in_range (dg.with_ode_solver_type t).nstate fe_values_ext
        fe_values_ext.n_quadrature_points) := h4
  rw [if_neg h4, if_neg h4']
  have hstep : ∀ (d : DGStrong) (acc : FaceOutput) (i : ℕ),
      (face_test_step_ext d fe_values_int fe_values_ext penalty dof_indices_int
          dof_indices_ext acc i).map
          (fun out => (out.local_rhs_int_cell, out.local_rhs_ext_cell))
        = face_ext_residual_step d fe_values_int fe_values_ext penalty dof_indices_int
            dof_indices_ext (acc.local_rhs_int_cell, acc.local_rhs_ext_cell) i := by
    intro d acc i
    rw [face_test_step_ext_eq_map, except_map_map]
    rfl
  rw [foldlM_map_proj _ _
      (face_ext_residual_step dg fe_values_int fe_values_ext penalty dof_indices_int
        dof_indices_ext) (hstep dg),
    foldlM_map_proj _ _
      (face_ext_residual_step (dg.with_ode_solver_type t) fe_values_int fe_values_ext penalty
        dof_indices_int dof_indices_ext) (hstep (dg.with_ode_solver_type t))]
  have hinit : ∀ (d : DGStrong),
      ((forLoop fe_values_int.dofs_per_cell
          (⟨r_int, r_ext, d.system_matrix⟩ : FaceOutput)
          (face_test_step_int d fe_values_int fe_values_ext penalty dof_indices_int
            dof_indices_ext)).local_rhs_int_cell,
        (forLoop fe_values_int.dofs_per_cell
          (⟨r_int, r_ext, d.system_matrix⟩ : FaceOutput)
          (face_test_step_int d fe_values_int fe_values_ext penalty dof_indices_int
            dof_indices_ext)).local_rhs_ext_cell)
      = ((fun j => r_int j + if j < fe_values_int.dofs_per_cell then
            (face_rhs_int d fe_values_int fe_values_ext penalty dof_indices_int
              dof_indices_ext j).val else 0), r_ext) := by
    intro d
    rw [face_int_loop_eq]
    refine Prod.ext ?_ rfl
    funext j
    exact face_scatter_loop_fst d.all_parameters dof_indices_int dof_indices_ext
      fe_values_int.dofs_per_cell (fun itest => dof_indices_int.getD itest 0)
      (face_rhs_int d fe_values_int fe_values_ext penalty dof_indices_int dof_indices_ext)
      fe_values_int.dofs_per_cell (r_int, d.system_matrix) j
  rw [hinit dg, hinit (dg.with_ode_solver_type t)]
  rfl

/-- C10: when the Jacobian is not requested (the ODE solver type is not `implicit_solver`),
each of the three assemblers leaves the system matrix unchanged, and the residual values it
writes are the ones it writes when the Jacobian is requested (it fails in the one setting
exactly when it fails in the other); and each call returns a result when its dimension,
index and assertion checks pass. -/
theorem jacobian_not_requested (dg : DGStrong) (boundary_id : ℕ)
    (fe_values_vol fe_values_lagrange fe_values_boundary fe_values_int fe_values_ext : FEValues)
    (penalty : real) (cell_dofs_indices dof_indices_int dof_indices_ext : List ℕ)
    (r0 r_int r_ext : RealVector)
    (hexp : dg.all_parameters.ode_solver_type ≠ ODESolverEnum.implicit_solver) :
    ((assemble_cell_terms_implicit dg fe_values_vol fe_values_lagrange cell_dofs_indices
          r0).map Prod.snd
        = (assemble_cell_terms_implicit dg fe_values_vol fe_values_lagrange cell_dofs_indices
            r0).map (fun _ => dg.system_matrix)
      ∧ (assemble_cell_terms_implicit dg fe_values_vol fe_values_lagrange cell_dofs_indices
          r0).map Prod.fst
        = (assemble_cell_terms_implicit (dg.with_ode_solver_type .implicit_solver)
            fe_values_vol fe_values_lagrange cell_dofs_indices r0).map Prod.fst)
    ∧ ((assemble_boundary_term_implicit dg boundary_id fe_values_boundary penalty
          dof_indices_int r0).map Prod.snd
        = (assemble_boundary_term_implicit dg boundary_id fe_values_boundary penalty
            dof_indices_int r0).map (fun _ => dg.system_matrix)
      ∧ (assemble_boundary_term_implicit dg boundary_id fe_values_boundary penalty
          dof_indices_int r0).map Prod.fst
        = (assemble_boundary_term_implicit (dg.with_ode_solver_type .implicit_solver)
            boundary_id fe_values_boundary penalty dof_indices_int r0).map Prod.fst)
    ∧ ((assemble_face_term_implicit dg fe_values_int fe_values_ext penalty dof_indices_int
          dof_indices_ext r_int r_ext).map FaceOutput.system_matrix
        = (assemble_face_term_implicit dg fe_values_int fe_values_ext penalty dof_indices_int
            dof_indices_ext r_int r_ext).map (fun _ => dg.system_matrix)
      ∧ (assemble_face_term_implicit dg fe_values_int fe_values_ext penalty dof_indices_int
          dof_indices_ext r_int r_ext).map
          (fun out => (out.local_rhs_int_cell, out.local_rhs_ext_cell))
        = (assemble_face_term_implicit (dg.with_ode_solver_type .implicit_solver)
            fe_values_int fe_values_ext penalty dof_indices_int dof_indices_ext r_int
            r_ext).map (fun out => (out.local_rhs_int_cell, out.local_rhs_ext_cell)))
    ∧ (cell_checks_pass dg fe_values_vol fe_values_lagrange cell_dofs_indices →
        ∃ out, assemble_cell_terms_implicit dg fe_values_vol fe_values_lagrange
          cell_dofs_indices r0 = .ok out)
    ∧ (boundary_checks_pass dg fe_values_boundary dof_indices_int →
        ∃ out, assemble_boundary_term_implicit dg boundary_id fe_values_boundary penalty
          dof_indices_int r0 = .ok out)
    ∧ (face_checks_pass dg fe_values_int fe_values_ext dof_indices_int dof_indices_ext →
        ∃ out, assemble_face_term_implicit dg fe_values_int fe_values_ext penalty
          dof_indices_int dof_indices_ext r_int r_ext = .ok out) :=
  ⟨⟨cell_matrix_unchanged dg fe_values_vol fe_values_lagrange cell_dofs_indices r0 hexp,
      cell_residual_same dg fe_values_vol fe_values_lagrange cell_dofs_indices r0 _⟩,
    ⟨boundary_matrix_unchanged dg boundary_id fe_values_boundary penalty dof_indices_int r0
        hexp,
      boundary_residual_same dg boundary_id fe_values_boundary penalty dof_indices_int r0 _⟩,
    ⟨face_matrix_unchanged dg fe_values_int fe_values_ext penalty dof_indices_int
        dof_indices_ext r_int r_ext hexp,
      face_residual_same dg fe_values_int fe_values_ext penalty dof_indices_int
        dof_indices_ext r_int r_ext _⟩,
    fun h => ⟨_, assemble_cell_eq_ok _ _ _ _ _ h⟩,
    fun h => ⟨_, assemble_boundary_eq_ok _ _ _ _ _ _ h⟩,
    fun h => ⟨_, assemble_face_eq_ok _ _ _ _ _ _ _ _ h⟩⟩

/-- The jacobian-not-requested property on the one-dimensional example. -/
theorem jacobian_not_requested_witness :
    (example_dg false .explicit_solver).all_parameters.ode_solver_type
        ≠ ODESolverEnum.implicit_solver
    ∧ ((assemble_cell_terms_implicit (example_dg false .explicit_solver) example_fe example_fe
          [0, 1] (fun _ => 0)).map Prod.snd
        = (assemble_cell_terms_implicit (example_dg false .explicit_solver) example_fe
            example_fe [0, 1] (fun _ => 0)).map
            (fun _ => (example_dg false .explicit_solver).system_matrix)
      ∧ (assemble_cell_terms_implicit (example_dg false .explicit_solver) example_fe example_fe
          [0, 1] (fun _ => 0)).map Prod.fst
        = (assemble_cell_terms_implicit
            ((example_dg false .explicit_solver).with_ode_solver_type .implicit_solver)
            example_fe example_fe [0, 1] (fun _ => 0)).map Prod.fst)
    ∧ ((assemble_boundary_term_implicit (example_dg false .explicit_solver) 0 example_fe_face 2
          [0, 1] (fun _ => 0)).map Prod.snd
        = (assemble_boundary_term_implicit (example_dg false .explicit_solver) 0
            example_fe_face 2 [0, 1] (fun _ => 0)).map
            (fun _ => (example_dg false .explicit_solver).system_matrix)
      ∧ (assemble_boundary_term_implicit (example_dg false .explicit_solver) 0 example_fe_face 2
          [0, 1] (fun _ => 0)).map Prod.fst
        = (assemble_boundary_term_implicit
            ((example_dg false .explicit_solver).with_ode_solver_type .implicit_solver) 0
            example_fe_face 2 [0, 1] (fun _ => 0)).map Prod.fst)
    ∧ ((assemble_face_term_implicit (example_dg false .explicit_solver) example_fe_face
          example_fe_face_ext 2 [0, 1] [2, 3] (fun _ => 0) (fun _ => 0)).map
          FaceOutput.system_matrix
        = (assemble_face_term_implicit (example_dg false .explicit_solver) example_fe_face
            example_fe_face_ext 2 [0, 1] [2, 3] (fun _ => 0) (fun _ => 0)).map
            (fun _ => (example_dg false .explicit_solver).system_matrix)
      ∧ (assemble_face_term_implicit (example_dg false .explicit_solver) example_fe_face
          example_fe_face_ext 2 [0, 1] [2, 3] (fun _ => 0) (fun _ => 0)).map
          (fun out => (out.local_rhs_int_cell, out.local_rhs_ext_cell))
        = (assemble_face_term_implicit
            ((example_dg false .explicit_solver).with_ode_solver_type .implicit_solver)
            example_fe_face example_fe_face_ext 2 [0, 1] [2, 3] (fun _ => 0) (fun _ => 0)).map
            (fun out => (out.local_rhs_int_cell, out.local_rhs_ext_cell)))
    ∧ (∃ out, assemble_cell_terms_implicit (example_dg false .explicit_solver) example_fe
        example_fe [0, 1] (fun _ => 0) = .ok out)
    ∧ (∃ out, assemble_boundary_term_implicit (example_dg false .explicit_solver) 0
        example_fe_face 2 [0, 1] (fun _ => 0) = .ok out)
    ∧ (∃ out, assemble_face_term_implicit (example_dg false .explicit_solver) example_fe_face
        example_fe_face_ext 2 [0, 1] [2, 3] (fun _ => 0) (fun _ => 0) = .ok out) :=
  have h := jacobian_not_requested (example_dg false .explicit_solver) 0 example_fe example_fe
    example_fe_face example_fe_face example_fe_face_ext 2 [0, 1] [0, 1] [2, 3] (fun _ => 0)
    (fun _ => 0) (fun _ => 0) (fun h => ODESolverEnum.noConfusion h)
  ⟨fun h => ODESolverEnum.noConfusion h, h.1, h.2.1, h.2.2.1,
    h.2.2.2.1 (example_cell_checks_pass false .explicit_solver),
    h.2.2.2.2.1 (example_boundary_checks_pass false .explicit_solver),
    h.2.2.2.2.2 (example_face_checks_pass false .explicit_solver)⟩

/-! ## C7: the split form with `f = g = identity` and `alpha = 1` -/

theorem cell_strong_form_rhs_split (dg : DGStrong) (fe_values_vol fe_values_lagrange : FEValues)
    (cell_dofs_indices : List ℕ) (itest : ℕ) :
    cell_strong_form_rhs dg fe_values_vol fe_values_lagrange cell_dofs_indices itest
      = -cell_divergence_rhs dg fe_values_vol fe_values_lagrange cell_dofs_indices itest
        + cell_diss_source_rhs dg fe_values_vol cell_dofs_indices itest := by
  unfold cell_strong_form_rhs cell_divergence_rhs cell_diss_source_rhs
  simp only []
  rw [← Finset.sum_neg_distrib, ← Finset.sum_add_distrib]
  apply Finset.sum_congr rfl
  intro q _
  ring

/-- With `use_split_form` enabled the AD residual of a test function is minus the terms of
the two hard-coded pairs plus the dissipative and source terms. -/
theorem cell_rhs_eq_split_form (dg : DGStrong) (fe_values_vol fe_values_lagrange : FEValues)
    (cell_dofs_indices : List ℕ) (itest : ℕ)
    (hsplit : dg.all_parameters.use_split_form = true) (hns : 0 < dg.nstate) :
    cell_rhs dg fe_values_vol fe_values_lagrange cell_dofs_indices itest
      = -cell_split_pair_rhs dg fe_values_vol cell_dofs_indices (dg.split_fluxes.get 0 0 0)
            itest
        - cell_split_pair_rhs dg fe_values_vol cell_dofs_indices (dg.split_fluxes.get 0 0 1)
            itest
        + cell_diss_source_rhs dg fe_values_vol cell_dofs_indices itest := by
  unfold cell_rhs
  simp only [hsplit, if_true]
  rw [cell_quad_loop_eq, cell_split_rhs_eq]
  have hg1 : ∀ q, q ∈ Finset.range fe_values_vol.n_quadrature_points →
      ADtype.ofReal (fe_values_vol.shape_value_component itest q
          (fe_values_vol.system_to_component_index itest))
        * (cell_flux_state dg fe_values_vol fe_values_lagrange cell_dofs_indices).g1 q
        * ADtype.ofReal (fe_values_vol.JxW q)
      = ADtype.ofReal (fe_values_vol.shape_value_component itest q
          (fe_values_vol.system_to_component_index itest))
        * split_g_accumulation dg fe_values_vol cell_dofs_indices
            (dg.split_fluxes.get 0 0 0).g q
        * ADtype.ofReal (fe_values_vol.JxW q) := by
    intro q hq
    unfold cell_flux_state
    rw [cell_flux_loops_eq]
    simp only [Finset.mem_range.mp hq, hns, and_self, if_true]
    rfl
  have hg2 : ∀ q, q ∈ Finset.range fe_values_vol.n_quadrature_points →
      ADtype.ofReal (fe_values_vol.shape_value_component itest q
          (fe_values_vol.system_to_component_index itest))
        * (cell_flux_state dg fe_values_vol fe_values_lagrange cell_dofs_indices).g2 q
        * ADtype.ofReal (fe_values_vol.JxW q)
      = ADtype.ofReal (fe_values_vol.shape_value_component itest q
          (fe_values_vol.system_to_component_index itest))
        * split_g_accumulation dg fe_values_vol cell_dofs_indices
            (dg.split_fluxes.get 0 0 1).g q
        * ADtype.ofReal (fe_values_vol.JxW q) := by
    intro q hq
    unfold cell_flux_state
    rw [cell_flux_loops_eq]
    simp only [Finset.mem_range.mp hq, hns, and_self, if_true]
    rfl
  rw [Finset.sum_congr rfl hg1, Finset.sum_congr rfl hg2]
  have hquad : ∑ iquad in Finset.range fe_values_vol.n_quadrature_points,
      cell_quad_term dg fe_values_vol
        (cell_diss_phys_flux_at_q dg fe_values_vol cell_dofs_indices)
        (cell_source_at_q dg fe_values_vol cell_dofs_indices)
        (cell_flux_state dg fe_values_vol fe_values_lagrange cell_dofs_indices) itest iquad
      = cell_diss_source_rhs dg fe_values_vol cell_dofs_indices itest := by
    unfold cell_diss_source_rhs
    apply Finset.sum_congr rfl
    intro q _
    unfold cell_quad_term cell_source_at_q cell_diss_phys_flux_at_q
    simp only [hsplit]
    cases dg.all_parameters.use_manufactured_source_term
    · simp
    · simp; ring
  rw [hquad]
  unfold cell_split_pair_rhs
  ring

theorem example_strong_form_value :
    (cell_strong_form_rhs (example_dg false .implicit_solver) example_fe example_fe [0, 1] 0).val
      = 1 / 2 := by
  simp [cell_strong_form_rhs, lagrange_divergence, cell_soln_at_q, cell_soln_grad_at_q,
    interpolate_soln_eq_sum, interpolate_grad_eq_sum, dotAR_eq_sum, dotRA_eq_sum,
    Finset.sum_range_succ, example_dg, example_fe, example_physics, seed_soln_coeff,
    ADtype.val_sum]

theorem example_split_form_value :
    (-cell_split_pair_rhs (example_dg true .implicit_solver) example_fe [0, 1] identity_pair 0
      - cell_split_pair_rhs (example_dg true .implicit_solver) example_fe [0, 1] identity_pair 0
      + cell_diss_source_rhs (example_dg true .implicit_solver) example_fe [0, 1] 0).val
      = 0 := by
  simp [cell_split_pair_rhs, cell_diss_source_rhs, split_g_accumulation, identity_pair,
    cell_soln_at_q, cell_soln_grad_at_q,
    interpolate_soln_eq_sum, interpolate_grad_eq_sum, dotAR_eq_sum, dotRA_eq_sum,
    Finset.sum_range_succ, example_dg, example_fe, example_physics, seed_soln_coeff,
    ADtype.val_sum]
  norm_num

/-- C7, counterexample: on the one-dimensional example, where every registered split-flux
pair has `f = g = identity` and `alpha = 1`, the residual entry `0` produced with
`use_split_form` enabled is `0` while the one produced with it disabled is `1/2`. -/
theorem split_form_identity_counterexample :
    (example_dg true .implicit_solver).split_fluxes = [[[identity_pair, identity_pair]]]
      ∧ ∃ out_split out_std,
        assemble_cell_terms_implicit (example_dg true .implicit_solver) example_fe example_fe
            [0, 1] (fun _ => 0) = .ok out_split
          ∧ assemble_cell_terms_implicit (example_dg false .implicit_solver) example_fe
              example_fe [0, 1] (fun _ => 0) = .ok out_std
          ∧ out_split.1 0 = 0 ∧ out_std.1 0 = 1 / 2 ∧ out_split.1 0 ≠ out_std.1 0 := by
  refine ⟨rfl, _, _,
    assemble_cell_eq_ok _ _ _ _ _ (example_cell_checks_pass true .implicit_solver),
    assemble_cell_eq_ok _ _ _ _ _ (example_cell_checks_pass false .implicit_solver), ?_⟩
  have hsplit : (forLoop example_fe.dofs_per_cell
      ((fun _ => (0 : real)), (example_dg true .implicit_solver).system_matrix)
      (fun acc itest => scatter (example_dg true .implicit_solver).all_parameters [0, 1] itest
        (cell_rhs (example_dg true .implicit_solver) example_fe example_fe [0, 1] itest)
        acc)).1 0 = 0 := by
    rw [scatter_loop_fst, if_pos (by decide),
      cell_rhs_eq_split_form _ _ _ _ _ rfl Nat.zero_lt_one]
    exact (zero_add _).trans example_split_form_value
  have hstd : (forLoop example_fe.dofs_per_cell
      ((fun _ => (0 : real)), (example_dg false .implicit_solver).system_matrix)
      (fun acc itest => scatter (example_dg false .implicit_solver).all_parameters [0, 1] itest
        (cell_rhs (example_dg false .implicit_solver) example_fe example_fe [0, 1] itest)
        acc)).1 0 = 1 / 2 := by
    rw [scatter_loop_fst, if_pos (by decide),
      cell_rhs_eq_strong_form _ _ _ _ _ rfl (example_cell_checks_pass false .implicit_solver).2.1
        (by decide)]
    exact (zero_add _).trans example_strong_form_value
  refine ⟨hsplit, hstd, ?_⟩
  rw [hsplit, hstd]
  norm_num

theorem cell_checks_pass_without_split (dg : DGStrong)
    (fe_values_vol fe_values_lagrange : FEValues) (cell_dofs_indices : List ℕ)
    (h : cell_checks_pass (dg.with_split_form true) fe_values_vol fe_values_lagrange
      cell_dofs_indices) :
    cell_checks_pass (dg.with_split_form false) fe_values_vol fe_values_lagrange
      cell_dofs_indices :=
  ⟨h.1, h.2.1, h.2.2.1, fun hf => absurd hf (by simp [DGStrong.with_split_form]), h.2.2.2.2⟩

/-- C7, amended: for `nstate = 1`, when the two split-flux pairs the assembler reads have
`f = g = identity` and `alpha = 1`, the cell assembler succeeds with `use_split_form` enabled
and disabled (when its checks pass), and the two residuals differ only in the convective
term: the strong-form term `-Sum_q phi(q) * div(Fconv)[q] * JxW[q]` is replaced by
`-2 * u(test node) * Sum_q phi(q) * G(q) * JxW[q]` with
`G(q) = Sum_j u(node j) * d(phi_j)/dx_0 (q)`, the dissipative and source terms being the
same; so the two residual entries are equal exactly when these two convective terms have
the same value. -/
theorem split_form_identity_difference (dg : DGStrong)
    (fe_values_vol fe_values_lagrange : FEValues) (cell_dofs_indices : List ℕ)
    (local_rhs_int_cell : RealVector)
    (hns : dg.nstate = 1)
    (hok : cell_checks_pass (dg.with_split_form true) fe_values_vol fe_values_lagrange
      cell_dofs_indices)
    (h0 : dg.split_fluxes.get 0 0 0 = identity_pair)
    (h1 : dg.split_fluxes.get 0 0 1 = identity_pair) :
    ∃ out_split out_std,
      assemble_cell_terms_implicit (dg.with_split_form true) fe_values_vol fe_values_lagrange
          cell_dofs_indices local_rhs_int_cell = .ok out_split
        ∧ assemble_cell_terms_implicit (dg.with_split_form false) fe_values_vol
            fe_values_lagrange cell_dofs_indices local_rhs_int_cell = .ok out_std
        ∧ ∀ itest, itest < fe_values_vol.dofs_per_cell →
          out_std.1 itest = local_rhs_int_cell itest
              + (-cell_divergence_rhs dg fe_values_vol fe_values_lagrange cell_dofs_indices
                    itest
                  + cell_diss_source_rhs dg fe_values_vol cell_dofs_indices itest).val
            ∧ out_split.1 itest = local_rhs_int_cell itest
              + (-(2 * cell_split_pair_rhs dg fe_values_vol cell_dofs_indices identity_pair
                    itest)
                  + cell_diss_source_rhs dg fe_values_vol cell_dofs_indices itest).val
            ∧ (out_split.1 itest = out_std.1 itest
              ↔ (2 * cell_split_pair_rhs dg fe_values_vol cell_dofs_indices identity_pair
                    itest).val
                = (cell_divergence_rhs dg fe_values_vol fe_values_lagrange cell_dofs_indices
                    itest).val) := by
  have hok' := cell_checks_pass_without_split dg fe_values_vol fe_values_lagrange
    cell_dofs_indices hok
  refine ⟨_, _, assemble_cell_eq_ok _ _ _ _ _ hok, assemble_cell_eq_ok _ _ _ _ _ hok', ?_⟩
  intro itest hi
  suffices hboth : _ ∧ _ by
    refine ⟨hboth.1, hboth.2, ?_⟩
    rw [hboth.1, hboth.2]
    simp only [ADtype.val_add, ADtype.val_neg]
    constructor
    · intro h; linarith
    · intro h; linarith
  constructor
  · rw [scatter_loop_fst, if_pos hi,
      cell_rhs_eq_strong_form (dg.with_split_form false) _ _ _ _ rfl hok'.2.1 hi,
      cell_strong_form_rhs_split]
    rfl
  · have hns' : 0 < (dg.with_split_form true).nstate := by
      show 0 < dg.nstate
      rw [hns]; exact Nat.zero_lt_one
    rw [scatter_loop_fst, if_pos hi,
      cell_rhs_eq_split_form (dg.with_split_form true) _ _ _ _ rfl hns']
    have e0 : (dg.with_split_form true).split_fluxes.get 0 0 0 = identity_pair := h0
    have e1 : (dg.with_split_form true).split_fluxes.get 0 0 1 = identity_pair := h1
    rw [e0, e1]
    have hp : cell_split_pair_rhs (dg.with_split_form true) fe_values_vol cell_dofs_indices
        identity_pair itest
        = cell_split_pair_rhs dg fe_values_vol cell_dofs_indices identity_pair itest := rfl
    have hd : cell_diss_source_rhs (dg.with_split_form true) fe_values_vol cell_dofs_indices
        itest = cell_diss_source_rhs dg fe_values_vol cell_dofs_indices itest := rfl
    rw [hp, hd]
    congr 2
    ring

/-- The amended split-form statement on the one-dimensional example. -/
theorem split_form_identity_difference_witness :
    (example_dg true .implicit_solver).nstate = 1
      ∧ cell_checks_pass ((example_dg true .implicit_solver).with_split_form true) example_fe
          example_fe [0, 1]
      ∧ (example_dg true .implicit_solver).split_fluxes.get 0 0 0 = identity_pair
      ∧ (example_dg true .implicit_solver).split_fluxes.get 0 0 1 = identity_pair
      ∧ ∃ out_split out_std,
        assemble_cell_terms_implicit ((example_dg true .implicit_solver).with_split_form true)
            example_fe example_fe [0, 1] (fun _ => 0) = .ok out_split
          ∧ assemble_cell_terms_implicit
              ((example_dg true .implicit_solver).with_split_form false) example_fe example_fe
              [0, 1] (fun _ => 0) = .ok out_std
          ∧ ∀ itest, itest < example_fe.dofs_per_cell →
            out_std.1 itest = (fun _ => (0 : real)) itest
                + (-cell_divergence_rhs (example_dg true .implicit_solver) example_fe
                      example_fe [0, 1] itest
                    + cell_diss_source_rhs (example_dg true .implicit_solver) example_fe [0, 1]
                      itest).val
              ∧ out_split.1 itest = (fun _ => (0 : real)) itest
                + (-(2 * cell_split_pair_rhs (example_dg true .implicit_solver) example_fe
                      [0, 1] identity_pair itest)
                    + cell_diss_source_rhs (example_dg true .implicit_solver) example_fe [0, 1]
                      itest).val
              ∧ (out_split.1 itest = out_std.1 itest
                ↔ (2 * cell_split_pair_rhs (example_dg true .implicit_solver) example_fe
                      [0, 1] identity_pair itest).val
                  = (cell_divergence_rhs (example_dg true .implicit_solver) example_fe
                      example_fe [0, 1] itest).val) :=
  ⟨rfl, example_cell_checks_pass true .implicit_solver, rfl, rfl,
    split_form_identity_difference (example_dg true .implicit_solver) example_fe example_fe
      [0, 1] (fun _ => 0) rfl (example_cell_checks_pass true .implicit_solver) rfl rfl⟩

/-! ## C2: the AD Jacobian and the centred finite difference

The solution is perturbed along one global degree of freedom `c`. Every AD quantity the
assemblers form becomes a family indexed by the size `τ` of the perturbation. For affine
collaborators the value of such a family is affine in `τ` with slope the derivative the AD
scalar carries along `c`; products of two such families (the split form) are quadratic, for
which the centred difference is still exact. -/

theorem dirDeriv_zero (w : ℕ → real) (N : ℕ) : dirDeriv w N 0 = 0 := by
  simp [dirDeriv]

theorem dirDeriv_ofReal (w : ℕ → real) (N : ℕ) (x : real) : dirDeriv w N (ADtype.ofReal x) = 0 := by
  simp [dirDeriv]

theorem dirDeriv_add (w : ℕ → real) (N : ℕ) (X Y : ADtype) :
    dirDeriv w N (X + Y) = dirDeriv w N X + dirDeriv w N Y := by
  simp only [dirDeriv, ADtype.dx_add, mul_add, Finset.sum_add_distrib]

theorem dirDeriv_neg (w : ℕ → real) (N : ℕ) (X : ADtype) :
    dirDeriv w N (-X) = -dirDeriv w N X := by
  simp only [dirDeriv, ADtype.dx_neg, mul_neg, Finset.sum_neg_distrib]

theorem dirDeriv_sub (w : ℕ → real) (N : ℕ) (X Y : ADtype) :
    dirDeriv w N (X - Y) = dirDeriv w N X - dirDeriv w N Y := by
  simp only [dirDeriv, ADtype.dx_sub, mul_sub, Finset.sum_sub_distrib]

theorem dirDeriv_mul (w : ℕ → real) (N : ℕ) (X Y : ADtype) :
    dirDeriv w N (X * Y) = dirDeriv w N X * Y.val + X.val * dirDeriv w N Y := by
  simp only [dirDeriv, ADtype.dx_mul, Finset.sum_mul, Finset.mul_sum, ← Finset.sum_add_distrib]
  apply Finset.sum_congr rfl
  intro k _
  ring

theorem dirDeriv_sum {ι : Type} (w : ℕ → real) (N : ℕ) (s : Finset ι) (f : ι → ADtype) :
    dirDeriv w N (∑ i in s, f i) = ∑ i in s, dirDeriv w N (f i) := by
  simp only [dirDeriv, ADtype.dx_sum, Finset.mul_sum]
  exact Finset.sum_comm

theorem AffRel.const (w : ℕ → real) (N : ℕ) (a : ADtype) (h : dirDeriv w N a = 0) :
    AffRel w N (fun _ => a) := by
  intro τ
  simp [h]

theorem AffRel.ofReal (w : ℕ → real) (N : ℕ) (x : real) :
    AffRel w N (fun _ => ADtype.ofReal x) :=
  AffRel.const w N _ (dirDeriv_ofReal w N x)

theorem AffRel.zero (w : ℕ → real) (N : ℕ) : AffRel w N (fun _ => 0) :=
  AffRel.const w N _ (dirDeriv_zero w N)

theorem AffRel.add {w : ℕ → real} {N : ℕ} {X Y : real → ADtype} (hX : AffRel w N X)
    (hY : AffRel w N Y) : AffRel w N (fun τ => X τ + Y τ) := by
  intro τ
  simp only [ADtype.val_add, dirDeriv_add, (hX τ).1, (hX τ).2, (hY τ).1, (hY τ).2]
  exact ⟨by ring, trivial⟩

theorem AffRel.neg {w : ℕ → real} {N : ℕ} {X : real → ADtype} (hX : AffRel w N X) :
    AffRel w N (fun τ => -X τ) := by
  intro τ
  simp only [ADtype.val_neg, dirDeriv_neg, (hX τ).1, (hX τ).2]
  exact ⟨by ring, trivial⟩

theorem AffRel.sub {w : ℕ → real} {N : ℕ} {X Y : real → ADtype} (hX : AffRel w N X)
    (hY : AffRel w N Y) : AffRel w N (fun τ => X τ - Y τ) := by
  intro τ
  simp only [ADtype.val_sub, dirDeriv_sub, (hX τ).1, (hX τ).2, (hY τ).1, (hY τ).2]
  exact ⟨by ring, trivial⟩

theorem AffRel.const_mul {w : ℕ → real} {N : ℕ} {X : real → ADtype} (x : real)
    (hX : AffRel w N X) : AffRel w N (fun τ => ADtype.ofReal x * X τ) := by
  intro τ
  simp only [ADtype.val_mul, dirDeriv_mul, dirDeriv_ofReal, ADtype.val_ofReal, (hX τ).1,
    (hX τ).2]
  exact ⟨by ring, by ring⟩

theorem AffRel.mul_const {w : ℕ → real} {N : ℕ} {X : real → ADtype} (x : real)
    (hX : AffRel w N X) : AffRel w N (fun τ => X τ * ADtype.ofReal x) := by
  intro τ
  simp only [ADtype.val_mul, dirDeriv_mul, dirDeriv_ofReal, ADtype.val_ofReal, (hX τ).1,
    (hX τ).2]
  exact ⟨by ring, by ring⟩

theorem AffRel.sum {w : ℕ → real} {N : ℕ} {ι : Type} (s : Finset ι) {X : ι → real → ADtype}
    (hX : ∀ i, i ∈ s → AffRel w N (X i)) : AffRel w N (fun τ => ∑ i in s, X i τ) := by
  intro τ
  simp only [ADtype.val_sum, dirDeriv_sum]
  constructor
  · rw [Finset.mul_sum, ← Finset.sum_add_distrib]
    exact Finset.sum_congr rfl (fun i hi => (hX i hi τ).1)
  · exact Finset.sum_congr rfl (fun i hi => (hX i hi τ).2)

theorem AffRel.ite {w : ℕ → real} {N : ℕ} (p : Prop) [Decidable p] {X Y : real → ADtype}
    (hX : AffRel w N X) (hY : AffRel w N Y) : AffRel w N (fun τ => if p then X τ else Y τ) := by
  by_cases h : p
  · simp only [h, if_true]; exact hX
  · simp only [h, if_false]; exact hY

theorem AffRel.quadRel {w : ℕ → real} {N : ℕ} {X : real → ADtype} (hX : AffRel w N X) :
    QuadRel w N X := by
  intro e
  rw [(hX e).1, (hX (-e)).1]
  ring

theorem AffRel.mul_quadRel {w : ℕ → real} {N : ℕ} {X Y : real → ADtype} (hX : AffRel w N X)
    (hY : AffRel w N Y) : QuadRel w N (fun τ => X τ * Y τ) := by
  intro e
  simp only [ADtype.val_mul, dirDeriv_mul]
  rw [(hX e).1, (hX (-e)).1, (hY e).1, (hY (-e)).1]
  ring

theorem QuadRel.quad_add {w : ℕ → real} {N : ℕ} {X Y : real → ADtype} (hX : QuadRel w N X)
    (hY : QuadRel w N Y) : QuadRel w N (fun τ => X τ + Y τ) := by
  intro e
  have h1 := hX e
  have h2 := hY e
  simp only [ADtype.val_add, dirDeriv_add]
  linear_combination h1 + h2

theorem QuadRel.quad_sub {w : ℕ → real} {N : ℕ} {X Y : real → ADtype} (hX : QuadRel w N X)
    (hY : QuadRel w N Y) : QuadRel w N (fun τ => X τ - Y τ) := by
  intro e
  have h1 := hX e
  have h2 := hY e
  simp only [ADtype.val_sub, dirDeriv_sub]
  linear_combination h1 - h2

theorem QuadRel.quad_neg {w : ℕ → real} {N : ℕ} {X : real → ADtype} (hX : QuadRel w N X) :
    QuadRel w N (fun τ => -X τ) := by
  intro e
  have h1 := hX e
  simp only [ADtype.val_neg, dirDeriv_neg]
  linear_combination -h1

/-- For a family with the centred-difference property, the centred difference quotient of
the value is the carried derivative. -/
theorem QuadRel.centred {w : ℕ → real} {N : ℕ} {X : real → ADtype} (hX : QuadRel w N X)
    (eps : real) (heps : eps ≠ 0) :
    ((X eps).val - (X (-eps)).val) / (2 * eps) = dirDeriv w N (X 0) := by
  rw [hX eps]
  field_simp

theorem perturb_solution_zero (u : RealVector) (c : ℕ) : perturb_solution u c 0 = u := by
  funext g
  unfold perturb_solution
  split <;> simp

/-- An affine AD function maps affine families to an affine family. -/
theorem IsAffine.affRel {nstate dim : ℕ}
    {F : ADArray → ADArray → ADArrayTensor1 → ADArrayTensor1 → ADtype}
    (hF : IsAffine nstate dim F) (w : ℕ → real) (N : ℕ) (ui ue : real → ADArray)
    (gi ge : real → ADArrayTensor1)
    (hui : ∀ t, t < nstate → AffRel w N (fun τ => ui τ t))
    (hue : ∀ t, t < nstate → AffRel w N (fun τ => ue τ t))
    (hgi : ∀ t, t < nstate → ∀ e, e < dim → AffRel w N (fun τ => gi τ t e))
    (hge : ∀ t, t < nstate → ∀ e, e < dim → AffRel w N (fun τ => ge τ t e)) :
    AffRel w N (fun τ => F (ui τ) (ue τ) (gi τ) (ge τ)) := by
  obtain ⟨b, A1, A2, B1, B2, h⟩ := hF
  simp only [h]
  refine AffRel.add (AffRel.add (AffRel.add (AffRel.add (AffRel.ofReal w N b) ?_) ?_) ?_) ?_
  · exact AffRel.sum _ (fun t ht => AffRel.const_mul _ (hui t (Finset.mem_range.mp ht)))
  · exact AffRel.sum _ (fun t ht => AffRel.const_mul _ (hue t (Finset.mem_range.mp ht)))
  · exact AffRel.sum _ (fun t ht => AffRel.sum _ (fun e he =>
      AffRel.const_mul _ (hgi t (Finset.mem_range.mp ht) e (Finset.mem_range.mp he))))
  · exact AffRel.sum _ (fun t ht => AffRel.sum _ (fun e he =>
      AffRel.const_mul _ (hge t (Finset.mem_range.mp ht) e (Finset.mem_range.mp he))))

theorem dirDeriv_cell_weights (dofs_indices : List ℕ) (c N : ℕ) (X : ADtype) :
    dirDeriv (cell_weights dofs_indices c) N X
      = ∑ k in Finset.range N, if dofs_indices.getD k 0 = c then X.dx k else 0 := by
  unfold dirDeriv cell_weights
  apply Finset.sum_congr rfl
  intro k _
  split <;> simp

theorem dirDeriv_face_weights (dof_indices_int dof_indices_ext : List ℕ) (c : ℕ) (X : ADtype) :
    dirDeriv (face_weights dof_indices_int dof_indices_ext dof_indices_int.length c)
        (dof_indices_int.length + dof_indices_ext.length) X
      = face_row_sum dof_indices_int dof_indices_ext dof_indices_int.length X c := by
  unfold dirDeriv face_weights face_row_sum
  rw [Finset.sum_range_add]
  congr 1
  · apply Finset.sum_congr rfl
    intro k hk
    rw [if_pos (Finset.mem_range.mp hk)]
    split <;> simp
  · apply Finset.sum_congr rfl
    intro k _
    rw [if_neg (by omega), Nat.add_sub_cancel_left]
    split <;> simp

/-- The seeded coefficient of a local unknown is an affine family: its value moves with the
perturbation exactly when its global degree of freedom is the perturbed one. -/
theorem affRel_seed (w : ℕ → real) (N : ℕ) (u : RealVector) (c : ℕ) (dofs_indices : List ℕ)
    (offset n_total idof : ℕ) (hlt : idof + offset < N)
    (hw : w (idof + offset) = if dofs_indices.getD idof 0 = c then 1 else 0) :
    AffRel w N (fun τ => seed_soln_coeff (perturb_solution u c τ) dofs_indices offset n_total
      idof) := by
  have hD : ∀ τ, dirDeriv w N (seed_soln_coeff (perturb_solution u c τ) dofs_indices offset
      n_total idof) = w (idof + offset) := by
    intro τ
    unfold dirDeriv seed_soln_coeff
    simp only [ADtype.dx_diff]
    rw [Finset.sum_eq_single (idof + offset)]
    · simp
    · intro k _ hk; simp [hk]
    · intro hk; exact absurd (Finset.mem_range.mpr hlt) hk
  intro τ
  rw [hD, hD, hw]
  refine ⟨?_, rfl⟩
  unfold seed_soln_coeff perturb_solution
  simp only [ADtype.val_diff, ADtype.val_ofReal]
  split <;> simp

theorem affRel_interpolate_soln (w : ℕ → real) (N : ℕ) (fe : FEValues)
    (coeff : real → ℕ → ADtype)
    (hc : ∀ idof, idof < fe.dofs_per_cell → AffRel w N (fun τ => coeff τ idof)) (q s : ℕ) :
    AffRel w N (fun τ => interpolate_soln fe (coeff τ) q s) := by
  simp only [interpolate_soln_eq_sum]
  exact AffRel.sum _ (fun idof hi =>
    AffRel.ite _ (AffRel.mul_const _ (hc idof (Finset.mem_range.mp hi))) (AffRel.zero w N))

theorem affRel_interpolate_grad (w : ℕ → real) (N : ℕ) (fe : FEValues)
    (coeff : real → ℕ → ADtype)
    (hc : ∀ idof, idof < fe.dofs_per_cell → AffRel w N (fun τ => coeff τ idof)) (q s d : ℕ) :
    AffRel w N (fun τ => interpolate_grad fe (coeff τ) q s d) := by
  simp only [interpolate_grad_eq_sum]
  exact AffRel.sum _ (fun idof hi =>
    AffRel.ite _ (AffRel.mul_const _ (hc idof (Finset.mem_range.mp hi))) (AffRel.zero w N))

theorem affRel_dotAR (w : ℕ → real) (N dim : ℕ) (a : real → Tensor1 ADtype) (b : Tensor1 real)
    (ha : ∀ d, d < dim → AffRel w N (fun τ => a τ d)) :
    AffRel w N (fun τ => dotAR dim (a τ) b) := by
  simp only [dotAR_eq_sum]
  exact AffRel.sum _ (fun d hd => AffRel.mul_const _ (ha d (Finset.mem_range.mp hd)))

theorem affRel_dotRA (w : ℕ → real) (N dim : ℕ) (a : Tensor1 real) (b : real → Tensor1 ADtype)
    (hb : ∀ d, d < dim → AffRel w N (fun τ => b τ d)) :
    AffRel w N (fun τ => dotRA dim a (b τ)) := by
  simp only [dotRA_eq_sum]
  exact AffRel.sum _ (fun d hd => AffRel.const_mul _ (hb d (Finset.mem_range.mp hd)))

theorem affRel_of_state {nstate dim : ℕ} {f : ADArray → ADtype}
    (hF : IsAffine nstate dim (fun ui _ _ _ => f ui)) (w : ℕ → real) (N : ℕ)
    (U : real → ADArray) (hU : ∀ t, t < nstate → AffRel w N (fun τ => U τ t)) :
    AffRel w N (fun τ => f (U τ)) :=
  hF.affRel w N U U (fun _ _ _ => 0) (fun _ _ _ => 0) hU hU
    (fun _ _ _ _ => AffRel.zero w N) (fun _ _ _ _ => AffRel.zero w N)

theorem affRel_of_state_grad {nstate dim : ℕ} {f : ADArray → ADArrayTensor1 → ADtype}
    (hF : IsAffine nstate dim (fun ui _ gi _ => f ui gi)) (w : ℕ → real) (N : ℕ)
    (U : real → ADArray) (G : real → ADArrayTensor1)
    (hU : ∀ t, t < nstate → AffRel w N (fun τ => U τ t))
    (hG : ∀ t, t < nstate → ∀ e, e < dim → AffRel w N (fun τ => G τ t e)) :
    AffRel w N (fun τ => f (U τ) (G τ)) :=
  hF.affRel w N U U G G hU hU hG hG

theorem affRel_of_states {nstate dim : ℕ} {f : ADArray → ADArray → ADtype}
    (hF : IsAffine nstate dim (fun ui ue _ _ => f ui ue)) (w : ℕ → real) (N : ℕ)
    (U V : real → ADArray)
    (hU : ∀ t, t < nstate → AffRel w N (fun τ => U τ t))
    (hV : ∀ t, t < nstate → AffRel w N (fun τ => V τ t)) :
    AffRel w N (fun τ => f (U τ) (V τ)) :=
  hF.affRel w N U V (fun _ _ _ => 0) (fun _ _ _ => 0) hU hV
    (fun _ _ _ _ => AffRel.zero w N) (fun _ _ _ _ => AffRel.zero w N)

theorem perturbed_zero (dg : DGStrong) (c : ℕ) : dg.perturbed c 0 = dg := by
  unfold DGStrong.perturbed
  rw [perturb_solution_zero]
  rfl

theorem perturbed_dim (dg : DGStrong) (c : ℕ) (τ : real) : (dg.perturbed c τ).dim = dg.dim := rfl

theorem perturbed_nstate (dg : DGStrong) (c : ℕ) (τ : real) :
    (dg.perturbed c τ).nstate = dg.nstate := rfl

theorem perturbed_all_parameters (dg : DGStrong) (c : ℕ) (τ : real) :
    (dg.perturbed c τ).all_parameters = dg.all_parameters := rfl

theorem perturbed_pde_physics (dg : DGStrong) (c : ℕ) (τ : real) :
    (dg.perturbed c τ).pde_physics = dg.pde_physics := rfl

theorem perturbed_conv_num_flux (dg : DGStrong) (c : ℕ) (τ : real) :
    (dg.perturbed c τ).conv_num_flux = dg.conv_num_flux := rfl

theorem perturbed_diss_num_flux (dg : DGStrong) (c : ℕ) (τ : real) :
    (dg.perturbed c τ).diss_num_flux = dg.diss_num_flux := rfl

theorem perturbed_split_fluxes (dg : DGStrong) (c : ℕ) (τ : real) :
    (dg.perturbed c τ).split_fluxes = dg.split_fluxes := rfl

theorem perturbed_system_matrix (dg : DGStrong) (c : ℕ) (τ : real) :
    (dg.perturbed c τ).system_matrix = dg.system_matrix := rfl

theorem perturbed_solution (dg : DGStrong) (c : ℕ) (τ : real) :
    (dg.perturbed c τ).solution = perturb_solution dg.solution c τ := rfl

theorem affRel_cell_soln (dg : DGStrong) (fe_values_vol : FEValues) (cell_dofs_indices : List ℕ)
    (c q s : ℕ) :
    AffRel (cell_weights cell_dofs_indices c) fe_values_vol.dofs_per_cell
      (fun τ => cell_soln_at_q (dg.perturbed c τ) fe_values_vol cell_dofs_indices q s) :=
  affRel_interpolate_soln _ _ fe_values_vol
    (fun τ => seed_soln_coeff (perturb_solution dg.solution c τ) cell_dofs_indices 0
      fe_values_vol.dofs_per_cell)
    (fun _ hi => affRel_seed _ _ _ _ _ _ _ _ hi rfl) q s

theorem affRel_cell_grad (dg : DGStrong) (fe_values_vol : FEValues) (cell_dofs_indices : List ℕ)
    (c q s d : ℕ) :
    AffRel (cell_weights cell_dofs_indices c) fe_values_vol.dofs_per_cell
      (fun τ => cell_soln_grad_at_q (dg.perturbed c τ) fe_values_vol cell_dofs_indices q s d) :=
  affRel_interpolate_grad _ _ fe_values_vol
    (fun τ => seed_soln_coeff (perturb_solution dg.solution c τ) cell_dofs_indices 0
      fe_values_vol.dofs_per_cell)
    (fun _ hi => affRel_seed _ _ _ _ _ _ _ _ hi rfl) q s d

theorem affRel_cell_diss_source (dg : DGStrong) (haff : AffineCollaborators dg)
    (fe_values_vol : FEValues) (cell_dofs_indices : List ℕ) (c itest : ℕ)
    (hint : interpolation_in_range dg.nstate fe_values_vol fe_values_vol.n_quadrature_points)
    (hi : itest < fe_values_vol.dofs_per_cell) :
    AffRel (cell_weights cell_dofs_indices c) fe_values_vol.dofs_per_cell
      (fun τ => cell_diss_source_rhs (dg.perturbed c τ) fe_values_vol cell_dofs_indices
        itest) := by
  unfold cell_diss_source_rhs
  simp only [perturbed_dim, perturbed_all_parameters, perturbed_pde_physics]
  refine AffRel.sum _ (fun q hq => AffRel.mul_const _ (AffRel.add ?_ ?_))
  · refine affRel_dotRA _ _ dg.dim _ _ (fun d hd => ?_)
    exact affRel_of_state_grad
      (haff.dissipative_flux _ (hint q (Finset.mem_range.mp hq) itest hi) d hd) _ _
      (fun τ => cell_soln_at_q (dg.perturbed c τ) fe_values_vol cell_dofs_indices q)
      (fun τ => cell_soln_grad_at_q (dg.perturbed c τ) fe_values_vol cell_dofs_indices q)
      (fun t _ => affRel_cell_soln dg fe_values_vol cell_dofs_indices c q t)
      (fun t _ e _ => affRel_cell_grad dg fe_values_vol cell_dofs_indices c q t e)
  · refine AffRel.ite _ (AffRel.const_mul _ ?_) (AffRel.zero _ _)
    exact affRel_of_state
      (haff.source_term _ _ (hint q (Finset.mem_range.mp hq) itest hi)) _ _
      (fun τ => cell_soln_at_q (dg.perturbed c τ) fe_values_vol cell_dofs_indices q)
      (fun t _ => affRel_cell_soln dg fe_values_vol cell_dofs_indices c q t)

theorem affRel_cell_divergence (dg : DGStrong) (haff : AffineCollaborators dg)
    (fe_values_vol fe_values_lagrange : FEValues) (cell_dofs_indices : List ℕ) (c itest : ℕ)
    (hint : interpolation_in_range dg.nstate fe_values_vol fe_values_vol.n_quadrature_points)
    (hi : itest < fe_values_vol.dofs_per_cell) :
    AffRel (cell_weights cell_dofs_indices c) fe_values_vol.dofs_per_cell
      (fun τ => cell_divergence_rhs (dg.perturbed c τ) fe_values_vol fe_values_lagrange
        cell_dofs_indices itest) := by
  unfold cell_divergence_rhs lagrange_divergence
  simp only [perturbed_dim, perturbed_pde_physics]
  refine AffRel.sum _ (fun q hq => AffRel.mul_const _ (AffRel.const_mul _ ?_))
  refine AffRel.sum _ (fun j _ => affRel_dotAR _ _ dg.dim _ _ (fun d hd => ?_))
  exact affRel_of_state
    (haff.convective_flux _ (hint q (Finset.mem_range.mp hq) itest hi) d hd) _ _
    (fun τ => cell_soln_at_q (dg.perturbed c τ) fe_values_vol cell_dofs_indices j)
    (fun t _ => affRel_cell_soln dg fe_values_vol cell_dofs_indices c j t)

theorem quadRel_cell_split_pair (dg : DGStrong) (fe_values_vol : FEValues)
    (cell_dofs_indices : List ℕ) (pair : SplitFluxPair)
    (hf : IsAffine dg.nstate dg.dim (fun ui _ _ _ => pair.f ui))
    (hg : IsAffine dg.nstate dg.dim (fun ui _ _ _ => pair.g ui)) (c itest : ℕ) :
    QuadRel (cell_weights cell_dofs_indices c) fe_values_vol.dofs_per_cell
      (fun τ => cell_split_pair_rhs (dg.perturbed c τ) fe_values_vol cell_dofs_indices pair
        itest) := by
  unfold cell_split_pair_rhs split_g_accumulation
  simp only [perturbed_nstate]
  refine AffRel.mul_quadRel (AffRel.const_mul _ ?_) ?_
  · exact affRel_of_state hf _ _
      (fun τ => cell_soln_at_q (dg.perturbed c τ) fe_values_vol cell_dofs_indices itest)
      (fun t _ => affRel_cell_soln dg fe_values_vol cell_dofs_indices c itest t)
  · refine AffRel.sum _ (fun q _ => AffRel.mul_const _ (AffRel.const_mul _ ?_))
    refine AffRel.sum _ (fun j _ => AffRel.mul_const _ ?_)
    exact affRel_of_state hg _ _
      (fun τ => cell_soln_at_q (dg.perturbed c τ) fe_values_vol cell_dofs_indices j)
      (fun t _ => affRel_cell_soln dg fe_values_vol cell_dofs_indices c j t)

theorem quadRel_cell_rhs (dg : DGStrong) (haff : AffineCollaborators dg)
    (fe_values_vol fe_values_lagrange : FEValues) (cell_dofs_indices : List ℕ)
    (hok : cell_checks_pass dg fe_values_vol fe_values_lagrange cell_dofs_indices)
    (c itest : ℕ) (hi : itest < fe_values_vol.dofs_per_cell) :
    QuadRel (cell_weights cell_dofs_indices c) fe_values_vol.dofs_per_cell
      (fun τ => cell_rhs (dg.perturbed c τ) fe_values_vol fe_values_lagrange cell_dofs_indices
        itest) := by
  cases hsplit : dg.all_parameters.use_split_form with
  | false =>
    have h : ∀ τ, cell_rhs (dg.perturbed c τ) fe_values_vol fe_values_lagrange
        cell_dofs_indices itest
        = -cell_divergence_rhs (dg.perturbed c τ) fe_values_vol fe_values_lagrange
            cell_dofs_indices itest
          + cell_diss_source_rhs (dg.perturbed c τ) fe_values_vol cell_dofs_indices itest := by
      intro τ
      rw [cell_rhs_eq_strong_form (dg.perturbed c τ) _ _ _ _ hsplit hok.2.1 hi,
        cell_strong_form_rhs_split]
    simp only [h]
    exact (AffRel.add (AffRel.neg (affRel_cell_divergence dg haff _ _ _ c itest hok.2.1 hi))
      (affRel_cell_diss_source dg haff _ _ c itest hok.2.1 hi)).quadRel
  | true =>
    have hq : itest < fe_values_vol.n_quadrature_points := (hok.2.2.2.1 hsplit itest hi).2.2
    have hns : 0 < dg.nstate := Nat.lt_of_le_of_lt (Nat.zero_le _) (hok.2.1 itest hq itest hi)
    have h : ∀ τ, cell_rhs (dg.perturbed c τ) fe_values_vol fe_values_lagrange
        cell_dofs_indices itest
        = -cell_split_pair_rhs (dg.perturbed c τ) fe_values_vol cell_dofs_indices
              (dg.split_fluxes.get 0 0 0) itest
          - cell_split_pair_rhs (dg.perturbed c τ) fe_values_vol cell_dofs_indices
              (dg.split_fluxes.get 0 0 1) itest
          + cell_diss_source_rhs (dg.perturbed c τ) fe_values_vol cell_dofs_indices itest := by
      intro τ
      exact cell_rhs_eq_split_form (dg.perturbed c τ) _ _ _ _ hsplit hns
    simp only [h]
    exact QuadRel.quad_add
      (QuadRel.quad_sub
        (QuadRel.quad_neg (quadRel_cell_split_pair dg _ _ _ (haff.split_f hsplit 0 (by decide))
          (haff.split_g hsplit 0 (by decide)) c itest))
        (quadRel_cell_split_pair dg _ _ _ (haff.split_f hsplit 1 (by decide))
          (haff.split_g hsplit 1 (by decide)) c itest))
      (affRel_cell_diss_source dg haff _ _ c itest hok.2.1 hi).quadRel

theorem cell_residual_contribution_eq (dg : DGStrong)
    (fe_values_vol fe_values_lagrange : FEValues) (cell_dofs_indices : List ℕ)
    (hok : cell_checks_pass dg fe_values_vol fe_values_lagrange cell_dofs_indices)
    (i : ℕ) (hi : i < fe_values_vol.dofs_per_cell) (u : RealVector) :
    cell_residual_contribution dg fe_values_vol fe_values_lagrange cell_dofs_indices i u
      = (cell_rhs (dg.with_solution u) fe_values_vol fe_values_lagrange cell_dofs_indices
          i).val := by
  have hok' : cell_checks_pass (dg.with_solution u) fe_values_vol fe_values_lagrange
      cell_dofs_indices := hok
  unfold cell_residual_contribution
  rw [assemble_cell_eq_ok _ _ _ _ _ hok']
  simp only []
  rw [scatter_loop_fst, if_pos hi, zero_add]

/-- In the cell assembler the derivative carried by the residual of a test function along a
global unknown is the centred difference of its residual contribution. -/
theorem cell_dirDeriv_eq_centred (dg : DGStrong) (haff : AffineCollaborators dg)
    (fe_values_vol fe_values_lagrange : FEValues) (cell_dofs_indices : List ℕ)
    (hok : cell_checks_pass dg fe_values_vol fe_values_lagrange cell_dofs_indices)
    (c i : ℕ) (hi : i < fe_values_vol.dofs_per_cell) (eps : real) (heps : eps ≠ 0) :
    dirDeriv (cell_weights cell_dofs_indices c) fe_values_vol.dofs_per_cell
        (cell_rhs dg fe_values_vol fe_values_lagrange cell_dofs_indices i)
      = centred_difference
          (cell_residual_contribution dg fe_values_vol fe_values_lagrange cell_dofs_indices i)
          dg.solution c eps := by
  unfold centred_difference
  rw [cell_residual_contribution_eq dg _ _ _ hok i hi,
    cell_residual_contribution_eq dg _ _ _ hok i hi]
  have h := (quadRel_cell_rhs dg haff _ _ _ hok c i hi).centred eps heps
  simp only [perturbed_zero] at h
  exact h.symm

theorem nodup_getD_inj (l : List ℕ) (h : l.Nodup) (i j : ℕ) (hi : i < l.length)
    (hj : j < l.length) (heq : l.getD i 0 = l.getD j 0) : i = j := by
  rw [List.getD_eq_getElem _ _ hi, List.getD_eq_getElem _ _ hj] at heq
  exact (List.Nodup.getElem_inj_iff h).mp heq

theorem dirDeriv_cell_weights_nodup (dofs_indices : List ℕ) (h : dofs_indices.Nodup) (k : ℕ)
    (hk : k < dofs_indices.length) (X : ADtype) :
    dirDeriv (cell_weights dofs_indices (dofs_indices.getD k 0)) dofs_indices.length X
      = X.dx k := by
  rw [dirDeriv_cell_weights, Finset.sum_eq_single k]
  · rw [if_pos rfl]
  · intro j hj hjk
    rw [if_neg]
    intro heq
    exact hjk (nodup_getD_inj _ h j k (Finset.mem_range.mp hj) hk heq)
  · intro hk'
    exact absurd (Finset.mem_range.mpr hk) hk'

/-- The cell part of the Jacobian statement. -/
theorem cell_jacobian_centred (dg : DGStrong) (haff : AffineCollaborators dg)
    (fe_values_vol fe_values_lagrange : FEValues) (cell_dofs_indices : List ℕ)
    (r0 : RealVector)
    (himp : dg.all_parameters.ode_solver_type = ODESolverEnum.implicit_solver)
    (hok : cell_checks_pass dg fe_values_vol fe_values_lagrange cell_dofs_indices)
    (eps : real) (heps : eps ≠ 0) :
    (∃ out, assemble_cell_terms_implicit dg fe_values_vol fe_values_lagrange
          cell_dofs_indices r0 = .ok out
        ∧ ∀ r c, out.2 r c = dg.system_matrix r c
          + ∑ i in Finset.range fe_values_vol.dofs_per_cell,
              if cell_dofs_indices.getD i 0 = r then
                centred_difference
                  (cell_residual_contribution dg fe_values_vol fe_values_lagrange
                    cell_dofs_indices i) dg.solution c eps
              else 0)
      ∧ (cell_dofs_indices.Nodup → ∀ i k, i < fe_values_vol.dofs_per_cell →
          k < fe_values_vol.dofs_per_cell →
          (cell_rhs dg fe_values_vol fe_values_lagrange cell_dofs_indices i).dx k
            = centred_difference
                (cell_residual_contribution dg fe_values_vol fe_values_lagrange
                  cell_dofs_indices i) dg.solution (cell_dofs_indices.getD k 0) eps) := by
  constructor
  · refine ⟨_, assemble_cell_eq_ok _ _ _ _ _ hok, ?_⟩
    intro r c
    rw [scatter_loop_snd, if_pos himp]
    congr 1
    apply Finset.sum_congr rfl
    intro i hi
    rw [← cell_dirDeriv_eq_centred dg haff _ _ _ hok c i (Finset.mem_range.mp hi) eps heps,
      dirDeriv_cell_weights, hok.1]
  · intro hnd i k hi hk
    rw [← cell_dirDeriv_eq_centred dg haff _ _ _ hok _ i hi eps heps, hok.1,
      dirDeriv_cell_weights_nodup _ hnd k (hok.1 ▸ hk)]

theorem affRel_jump (w : ℕ → real) (N nstate : ℕ) (u_star u : real → ADArray)
    (normal : Tensor1 real) (sign : real)
    (hs : ∀ s, s < nstate → AffRel w N (fun τ => u_star τ s))
    (hu : ∀ s, s < nstate → AffRel w N (fun τ => u τ s)) (s d : ℕ) :
    AffRel w N (fun τ => diss_soln_jump nstate (u_star τ) (u τ)
      (fun e => ADtype.ofReal (sign * normal e)) s d) := by
  simp only [diss_soln_jump_apply]
  by_cases h : s < nstate
  · simp only [h, if_true]
    exact AffRel.mul_const _ (AffRel.sub (hs s h) (hu s h))
  · simp only [h, if_false]
    exact AffRel.zero w N

theorem tensorOfReal_eq (n : Tensor1 real) :
    tensorOfReal n = fun e => ADtype.ofReal (1 * n e) := by
  funext e
  rw [one_mul]
  rfl

theorem neg_tensorOfReal_eq (n : Tensor1 real) :
    (fun d => -tensorOfReal n d) = fun e => ADtype.ofReal (-1 * n e) := by
  funext e
  rw [neg_one_mul, ADtype.ofReal_neg]
  rfl

/-- Every value the boundary assembler forms at a quadrature point is an affine family. -/
theorem affRel_boundary_quad_values (dg : DGStrong) (haff : AffineCollaborators dg)
    (boundary_id : ℕ) (fe_values_boundary : FEValues) (penalty : real)
    (dof_indices_int : List ℕ) (c q : ℕ) :
    (∀ s, s < dg.nstate → ∀ d, d < dg.dim →
        AffRel (cell_weights dof_indices_int c) fe_values_boundary.dofs_per_cell
          (fun τ => (boundary_quad_values (dg.perturbed c τ) boundary_id fe_values_boundary
            penalty dof_indices_int q).conv_phys_flux s d))
      ∧ (∀ s, s < dg.nstate →
        AffRel (cell_weights dof_indices_int c) fe_values_boundary.dofs_per_cell
          (fun τ => (boundary_quad_values (dg.perturbed c τ) boundary_id fe_values_boundary
            penalty dof_indices_int q).conv_num_flux_dot_n s))
      ∧ (∀ s, s < dg.nstate →
        AffRel (cell_weights dof_indices_int c) fe_values_boundary.dofs_per_cell
          (fun τ => (boundary_quad_values (dg.perturbed c τ) boundary_id fe_values_boundary
            penalty dof_indices_int q).diss_auxi_num_flux_dot_n s))
      ∧ (∀ s, s < dg.nstate → ∀ d, d < dg.dim →
        AffRel (cell_weights dof_indices_int c) fe_values_boundary.dofs_per_cell
          (fun τ => (boundary_quad_values (dg.perturbed c τ) boundary_id fe_values_boundary
            penalty dof_indices_int q).diss_flux_jump_int s d)) := by
  have hcoeff : ∀ idof, idof < fe_values_boundary.dofs_per_cell →
      AffRel (cell_weights dof_indices_int c) fe_values_boundary.dofs_per_cell
        (fun τ => seed_soln_coeff (perturb_solution dg.solution c τ) dof_indices_int 0
          fe_values_boundary.dofs_per_cell idof) :=
    fun _ hi => affRel_seed _ _ _ _ _ _ _ _ hi rfl
  have hui := affRel_interpolate_soln _ _ fe_values_boundary
    (fun τ => seed_soln_coeff (perturb_solution dg.solution c τ) dof_indices_int 0
      fe_values_boundary.dofs_per_cell) hcoeff q
  have hgi := affRel_interpolate_grad _ _ fe_values_boundary
    (fun τ => seed_soln_coeff (perturb_solution dg.solution c τ) dof_indices_int 0
      fe_values_boundary.dofs_per_cell) hcoeff q
  have hue : ∀ s, s < dg.nstate →
      AffRel (cell_weights dof_indices_int c) fe_values_boundary.dofs_per_cell
        (fun τ => (boundary_quad_values (dg.perturbed c τ) boundary_id fe_values_boundary
          penalty dof_indices_int q).soln_ext s) := fun s hs =>
    affRel_of_state_grad (haff.boundary_state boundary_id
      (fe_values_boundary.quadrature_point q)
      (fe_values_boundary.normal_vector q) s hs) _ _ _ _
      (fun t _ => hui t) (fun t _ e _ => hgi t e)
  have hge : ∀ s, s < dg.nstate → ∀ d, d < dg.dim →
      AffRel (cell_weights dof_indices_int c) fe_values_boundary.dofs_per_cell
        (fun τ => (boundary_quad_values (dg.perturbed c τ) boundary_id fe_values_boundary
          penalty dof_indices_int q).soln_grad_ext s d) := fun s hs d hd =>
    affRel_of_state_grad (haff.boundary_gradient boundary_id
      (fe_values_boundary.quadrature_point q)
      (fe_values_boundary.normal_vector q) s hs d hd) _ _ _ _
      (fun t _ => hui t) (fun t _ e _ => hgi t e)
  have hstar : ∀ s, s < dg.nstate →
      AffRel (cell_weights dof_indices_int c) fe_values_boundary.dofs_per_cell
        (fun τ => (boundary_quad_values (dg.perturbed c τ) boundary_id fe_values_boundary
          penalty dof_indices_int q).diss_soln_num_flux s) := fun s hs =>
    affRel_of_states (haff.evaluate_solution_flux
      (fe_values_boundary.normal_vector q) s hs) _ _ _ _ hue hue
  refine ⟨?_, ?_, ?_, ?_⟩
  · intro s hs d hd
    exact affRel_of_state (haff.convective_flux s hs d hd) _ _ _ (fun t _ => hui t)
  · intro s hs
    exact affRel_of_states (haff.evaluate_flux
      (fe_values_boundary.normal_vector q) s hs) _ _ _ _
      (fun t _ => hui t) hue
  · intro s hs
    exact (haff.evaluate_auxiliary_flux (fe_values_boundary.normal_vector q)
      penalty true s hs).affRel _ _ _ _ _ _
      (fun t _ => hui t) hue (fun t _ e _ => hgi t e) hge
  · intro s hs d hd
    have hjump : ∀ t e, AffRel (cell_weights dof_indices_int c)
        fe_values_boundary.dofs_per_cell
        (fun τ => diss_soln_jump dg.nstate
          ((boundary_quad_values (dg.perturbed c τ) boundary_id fe_values_boundary penalty
            dof_indices_int q).diss_soln_num_flux)
          ((boundary_quad_values (dg.perturbed c τ) boundary_id fe_values_boundary penalty
            dof_indices_int q).soln_int)
          (tensorOfReal (fe_values_boundary.normal_vector q)) t e) := by
      intro t e
      rw [tensorOfReal_eq]
      exact affRel_jump _ _ _ _ _ _ 1 hstar (fun s' _ => hui s') t e
    exact affRel_of_state_grad (haff.dissipative_flux s hs d hd) _ _ _ _
      (fun t _ => hui t) (fun t _ e _ => hjump t e)

theorem affRel_boundary_rhs (dg : DGStrong) (haff : AffineCollaborators dg)
    (boundary_id : ℕ) (fe_values_boundary : FEValues) (penalty : real)
    (dof_indices_int : List ℕ) (c itest : ℕ)
    (hint : interpolation_in_range dg.nstate fe_values_boundary
      fe_values_boundary.n_quadrature_points)
    (hi : itest < fe_values_boundary.dofs_per_cell) :
    AffRel (cell_weights dof_indices_int c) fe_values_boundary.dofs_per_cell
      (fun τ => boundary_rhs (dg.perturbed c τ) boundary_id fe_values_boundary penalty
        dof_indices_int itest) := by
  simp only [boundary_rhs_eq_sum, boundary_flux_diff, perturbed_dim]
  refine AffRel.sum _ (fun q hq => ?_)
  have hs := hint q (Finset.mem_range.mp hq) itest hi
  obtain ⟨hphys, hnum, haux, hjump⟩ := affRel_boundary_quad_values dg haff boundary_id
    fe_values_boundary penalty dof_indices_int c q
  refine AffRel.mul_const _ (AffRel.add (AffRel.sub (AffRel.neg (AffRel.const_mul _
    (AffRel.sub (hnum _ hs) (affRel_dotAR _ _ _ _ _ (fun d hd => hphys _ hs d hd)))))
    (AffRel.const_mul _ (haux _ hs))) (affRel_dotRA _ _ _ _ _ (fun d hd => hjump _ hs d hd)))

/-- Every value the interior-face assembler forms at a quadrature point is an affine
family. -/
theorem affRel_face_quad_values (dg : DGStrong) (haff : AffineCollaborators dg)
    (fe_values_int fe_values_ext : FEValues) (penalty : real)
    (dof_indices_int dof_indices_ext : List ℕ) (c q : ℕ) :
    (∀ s, s < dg.nstate → ∀ d, d < dg.dim → AffRel
        (face_weights dof_indices_int dof_indices_ext fe_values_int.dofs_per_cell c)
        (fe_values_int.dofs_per_cell + fe_values_ext.dofs_per_cell)
        (fun τ => (face_quad_values (dg.perturbed c τ) fe_values_int fe_values_ext penalty
          dof_indices_int dof_indices_ext q).conv_phys_flux_int s d))
      ∧ (∀ s, s < dg.nstate → ∀ d, d < dg.dim → AffRel
        (face_weights dof_indices_int dof_indices_ext fe_values_int.dofs_per_cell c)
        (fe_values_int.dofs_per_cell + fe_values_ext.dofs_per_cell)
        (fun τ => (face_quad_values (dg.perturbed c τ) fe_values_int fe_values_ext penalty
          dof_indices_int dof_indices_ext q).conv_phys_flux_ext s d))
      ∧ (∀ s, s < dg.nstate → AffRel
        (face_weights dof_indices_int dof_indices_ext fe_values_int.dofs_per_cell c)
        (fe_values_int.dofs_per_cell + fe_values_ext.dofs_per_cell)
        (fun τ => (face_quad_values (dg.perturbed c τ) fe_values_int fe_values_ext penalty
          dof_indices_int dof_indices_ext q).conv_num_flux_dot_n s))
      ∧ (∀ s, s < dg.nstate → AffRel
        (face_weights dof_indices_int dof_indices_ext fe_values_int.dofs_per_cell c)
        (fe_values_int.dofs_per_cell + fe_values_ext.dofs_per_cell)
        (fun τ => (face_quad_values (dg.perturbed c τ) fe_values_int fe_values_ext penalty
          dof_indices_int dof_indices_ext q).diss_auxi_num_flux_dot_n s))
      ∧ (∀ s, s < dg.nstate → ∀ d, d < dg.dim → AffRel
        (face_weights dof_indices_int dof_indices_ext fe_values_int.dofs_per_cell c)
        (fe_values_int.dofs_per_cell + fe_values_ext.dofs_per_cell)
        (fun τ => (face_quad_values (dg.perturbed c τ) fe_values_int fe_values_ext penalty
          dof_indices_int dof_indices_ext q).diss_flux_jump_int s d))
      ∧ (∀ s, s < dg.nstate → ∀ d, d < dg.dim → AffRel
        (face_weights dof_indices_int dof_indices_ext fe_values_int.dofs_per_cell c)
        (fe_values_int.dofs_per_cell + fe_values_ext.dofs_per_cell)
        (fun τ => (face_quad_values (dg.perturbed c τ) fe_values_int fe_values_ext penalty
          dof_indices_int dof_indices_ext q).diss_flux_jump_ext s d)) := by
  have hci : ∀ idof, idof < fe_values_int.dofs_per_cell →
      AffRel (face_weights dof_indices_int dof_indices_ext fe_values_int.dofs_per_cell c)
        (fe_values_int.dofs_per_cell + fe_values_ext.dofs_per_cell)
        (fun τ => seed_soln_coeff (perturb_solution dg.solution c τ) dof_indices_int 0
          (fe_values_int.dofs_per_cell + fe_values_ext.dofs_per_cell) idof) := by
    intro idof hi
    refine affRel_seed _ _ _ _ _ _ _ _ (by omega) ?_
    unfold face_weights
    rw [if_pos (by omega)]
    rfl
  have hce : ∀ idof, idof < fe_values_ext.dofs_per_cell →
      AffRel (face_weights dof_indices_int dof_indices_ext fe_values_int.dofs_per_cell c)
        (fe_values_int.dofs_per_cell + fe_values_ext.dofs_per_cell)
        (fun τ => seed_soln_coeff (perturb_solution dg.solution c τ) dof_indices_ext
          fe_values_int.dofs_per_cell
          (fe_values_int.dofs_per_cell + fe_values_ext.dofs_per_cell) idof) := by
    intro idof hi
    refine affRel_seed _ _ _ _ _ _ _ _ (by omega) ?_
    unfold face_weights
    rw [if_neg (by omega), Nat.add_sub_cancel]
  have hui := affRel_interpolate_soln _ _ fe_values_int
    (fun τ => seed_soln_coeff (perturb_solution dg.solution c τ) dof_indices_int 0
      (fe_values_int.dofs_per_cell + fe_values_ext.dofs_per_cell)) hci q
  have hgi := affRel_interpolate_grad _ _ fe_values_int
    (fun τ => seed_soln_coeff (perturb_solution dg.solution c τ) dof_indices_int 0
      (fe_values_int.dofs_per_cell + fe_values_ext.dofs_per_cell)) hci q
  have hue := affRel_interpolate_soln _ _ fe_values_ext
    (fun τ => seed_soln_coeff (perturb_solution dg.solution c τ) dof_indices_ext
      fe_values_int.dofs_per_cell
      (fe_values_int.dofs_per_cell + fe_values_ext.dofs_per_cell)) hce q
  have hge := affRel_interpolate_grad _ _ fe_values_ext
    (fun τ => seed_soln_coeff (perturb_solution dg.solution c τ) dof_indices_ext
      fe_values_int.dofs_per_cell
      (fe_values_int.dofs_per_cell + fe_values_ext.dofs_per_cell)) hce q
  have hstar : ∀ s, s < dg.nstate → AffRel
      (face_weights dof_indices_int dof_indices_ext fe_values_int.dofs_per_cell c)
      (fe_values_int.dofs_per_cell + fe_values_ext.dofs_per_cell)
      (fun τ => (face_quad_values (dg.perturbed c τ) fe_values_int fe_values_ext penalty
        dof_indices_int dof_indices_ext q).diss_soln_num_flux s) := fun s hs =>
    affRel_of_states (haff.evaluate_solution_flux
      (fe_values_int.normal_vector q) s hs) _ _ _ _
      (fun t _ => hui t) (fun t _ => hue t)
  refine ⟨?_, ?_, ?_, ?_, ?_, ?_⟩
  · intro s hs d hd
    exact affRel_of_state (haff.convective_flux s hs d hd) _ _ _ (fun t _ => hui t)
  · intro s hs d hd
    exact affRel_of_state (haff.convective_flux s hs d hd) _ _ _ (fun t _ => hue t)
  · intro s hs
    exact affRel_of_states (haff.evaluate_flux
      (fe_values_int.normal_vector q) s hs) _ _ _ _
      (fun t _ => hui t) (fun t _ => hue t)
  · intro s hs
    exact (haff.evaluate_auxiliary_flux (fe_values_int.normal_vector q)
      penalty false s hs).affRel _ _ _ _ _ _
      (fun t _ => hui t) (fun t _ => hue t) (fun t _ e _ => hgi t e) (fun t _ e _ => hge t e)
  · intro s hs d hd
    have hjump : ∀ t e, AffRel
        (face_weights dof_indices_int dof_indices_ext fe_values_int.dofs_per_cell c)
        (fe_values_int.dofs_per_cell + fe_values_ext.dofs_per_cell)
        (fun τ => diss_soln_jump dg.nstate
          ((face_quad_values (dg.perturbed c τ) fe_values_int fe_values_ext penalty
            dof_indices_int dof_indices_ext q).diss_soln_num_flux)
          ((face_quad_values (dg.perturbed c τ) fe_values_int fe_values_ext penalty
            dof_indices_int dof_indices_ext q).soln_int)
          (tensorOfReal (fe_values_int.normal_vector q)) t e) := by
      intro t e
      rw [tensorOfReal_eq]
      exact affRel_jump _ _ _ _ _ _ 1 hstar (fun s' _ => hui s') t e
    exact affRel_of_state_grad (haff.dissipative_flux s hs d hd) _ _ _ _
      (fun t _ => hui t) (fun t _ e _ => hjump t e)
  · intro s hs d hd
    have hjump : ∀ t e, AffRel
        (face_weights dof_indices_int dof_indices_ext fe_values_int.dofs_per_cell c)
        (fe_values_int.dofs_per_cell + fe_values_ext.dofs_per_cell)
        (fun τ => diss_soln_jump dg.nstate
          ((face_quad_values (dg.perturbed c τ) fe_values_int fe_values_ext penalty
            dof_indices_int dof_indices_ext q).diss_soln_num_flux)
          ((face_quad_values (dg.perturbed c τ) fe_values_int fe_values_ext penalty
            dof_indices_int dof_indices_ext q).soln_ext)
          (fun d => -tensorOfReal (fe_values_int.normal_vector q) d) t e) := by
      intro t e
      rw [neg_tensorOfReal_eq]
      exact affRel_jump _ _ _ _ _ _ (-1) hstar (fun s' _ => hue s') t e
    exact affRel_of_state_grad (haff.dissipative_flux s hs d hd) _ _ _ _
      (fun t _ => hue t) (fun t _ e _ => hjump t e)

theorem affRel_face_rhs_int (dg : DGStrong) (haff : AffineCollaborators dg)
    (fe_values_int fe_values_ext : FEValues) (penalty : real)
    (dof_indices_int dof_indices_ext : List ℕ) (c itest : ℕ)
    (hs' : 0 < fe_values_ext.n_quadrature_points →
      fe_values_int.system_to_component_index itest < dg.nstate) :
    AffRel (face_weights dof_indices_int dof_indices_ext fe_values_int.dofs_per_cell c)
      (fe_values_int.dofs_per_cell + fe_values_ext.dofs_per_cell)
      (fun τ => face_rhs_int (dg.perturbed c τ) fe_values_int fe_values_ext penalty
        dof_indices_int dof_indices_ext itest) := by
  simp only [face_rhs_int_eq_terms, face_num_flux_term_int, face_physical_term_int,
    face_num_flux_sum, perturbed_dim, neg_mul]
  refine AffRel.sum _ (fun q hq => ?_)
  have hs := hs' (Nat.lt_of_le_of_lt (Nat.zero_le q) (Finset.mem_range.mp hq))
  obtain ⟨hpi, _, hnum, haux, hji, _⟩ := affRel_face_quad_values dg haff fe_values_int
    fe_values_ext penalty dof_indices_int dof_indices_ext c q
  refine AffRel.add (AffRel.neg (AffRel.mul_const _ (AffRel.const_mul _
    (AffRel.add (hnum _ hs) (haux _ hs))))) (AffRel.mul_const _ (AffRel.add (AffRel.const_mul _
    (affRel_dotAR _ _ _ _ _ (fun d hd => hpi _ hs d hd)))
    (affRel_dotRA _ _ _ _ _ (fun d hd => hji _ hs d hd))))

theorem affRel_face_rhs_ext (dg : DGStrong) (haff : AffineCollaborators dg)
    (fe_values_int fe_values_ext : FEValues) (penalty : real)
    (dof_indices_int dof_indices_ext : List ℕ) (c itest : ℕ)
    (hs' : 0 < fe_values_ext.n_quadrature_points →
      fe_values_int.system_to_component_index itest < dg.nstate) :
    AffRel (face_weights dof_indices_int dof_indices_ext fe_values_int.dofs_per_cell c)
      (fe_values_int.dofs_per_cell + fe_values_ext.dofs_per_cell)
      (fun τ => face_rhs_ext (dg.perturbed c τ) fe_values_int fe_values_ext penalty
        dof_indices_int dof_indices_ext itest) := by
  simp only [face_rhs_ext_eq_terms, face_num_flux_term_ext, face_physical_term_ext,
    face_num_flux_sum, perturbed_dim]
  refine AffRel.sum _ (fun q hq => ?_)
  have hs := hs' (Nat.lt_of_le_of_lt (Nat.zero_le q) (Finset.mem_range.mp hq))
  obtain ⟨_, hpe, hnum, haux, _, hje⟩ := affRel_face_quad_values dg haff fe_values_int
    fe_values_ext penalty dof_indices_int dof_indices_ext c q
  refine AffRel.add (AffRel.mul_const _ (AffRel.const_mul _
    (AffRel.add (hnum _ hs) (haux _ hs)))) (AffRel.mul_const _ (AffRel.add (AffRel.neg
    (AffRel.const_mul _ (affRel_dotAR _ _ _ _ _ (fun d hd => hpe _ hs d hd))))
    (affRel_dotRA _ _ _ _ _ (fun d hd => hje _ hs d hd))))

theorem boundary_residual_contribution_eq (dg : DGStrong) (boundary_id : ℕ)
    (fe_values_boundary : FEValues) (penalty : real) (dof_indices_int : List ℕ)
    (hok : boundary_checks_pass dg fe_values_boundary dof_indices_int)
    (i : ℕ) (hi : i < fe_values_boundary.dofs_per_cell) (u : RealVector) :
    boundary_residual_contribution dg boundary_id fe_values_boundary penalty dof_indices_int
        i u
      = (boundary_rhs (dg.with_solution u) boundary_id fe_values_boundary penalty
          dof_indices_int i).val := by
  have hok' : boundary_checks_pass (dg.with_solution u) fe_values_boundary dof_indices_int :=
    hok
  unfold boundary_residual_contribution
  rw [assemble_boundary_eq_ok _ _ _ _ _ _ hok']
  simp only []
  rw [scatter_loop_fst, if_pos hi, zero_add]

theorem face_residual_contribution_int_eq (dg : DGStrong) (fe_values_int fe_values_ext : FEValues)
    (penalty : real) (dof_indices_int dof_indices_ext : List ℕ)
    (hok : face_checks_pass dg fe_values_int fe_values_ext dof_indices_int dof_indices_ext)
    (i : ℕ) (hi : i < fe_values_int.dofs_per_cell) (u : RealVector) :
    face_residual_contribution_int dg fe_values_int fe_values_ext penalty dof_indices_int
        dof_indices_ext i u
      = (face_rhs_int (dg.with_solution u) fe_values_int fe_values_ext penalty dof_indices_int
          dof_indices_ext i).val := by
  have hok' : face_checks_pass (dg.with_solution u) fe_values_int fe_values_ext
      dof_indices_int dof_indices_ext := hok
  unfold face_residual_contribution_int
  rw [assemble_face_eq_loops _ _ _ _ _ _ _ _ hok']
  simp only []
  rw [face_loops_int, if_pos hi, zero_add]

theorem face_residual_contribution_ext_eq (dg : DGStrong) (fe_values_int fe_values_ext : FEValues)
    (penalty : real) (dof_indices_int dof_indices_ext : List ℕ)
    (hok : face_checks_pass dg fe_values_int fe_values_ext dof_indices_int dof_indices_ext)
    (j : ℕ) (hj : j < fe_values_ext.dofs_per_cell) (u : RealVector) :
    face_residual_contribution_ext dg fe_values_int fe_values_ext penalty dof_indices_int
        dof_indices_ext j u
      = (face_rhs_ext (dg.with_solution u) fe_values_int fe_values_ext penalty dof_indices_int
          dof_indices_ext j).val := by
  have hok' : face_checks_pass (dg.with_solution u) fe_values_int fe_values_ext
      dof_indices_int dof_indices_ext := hok
  unfold face_residual_contribution_ext
  rw [assemble_face_eq_loops _ _ _ _ _ _ _ _ hok']
  simp only []
  rw [face_loops_ext, if_pos hj, zero_add]

theorem boundary_dirDeriv_eq_centred (dg : DGStrong) (haff : AffineCollaborators dg)
    (boundary_id : ℕ) (fe_values_boundary : FEValues) (penalty : real)
    (dof_indices_int : List ℕ)
    (hok : boundary_checks_pass dg fe_values_boundary dof_indices_int)
    (c i : ℕ) (hi : i < fe_values_boundary.dofs_per_cell) (eps : real) (heps : eps ≠ 0) :
    dirDeriv (cell_weights dof_indices_int c) fe_values_boundary.dofs_per_cell
        (boundary_rhs dg boundary_id fe_values_boundary penalty dof_indices_int i)
      = centred_difference
          (boundary_residual_contribution dg boundary_id fe_values_boundary penalty
            dof_indices_int i) dg.solution c eps := by
  unfold centred_difference
  rw [boundary_residual_contribution_eq dg _ _ _ _ hok i hi,
    boundary_residual_contribution_eq dg _ _ _ _ hok i hi]
  have h := (affRel_boundary_rhs dg haff boundary_id fe_values_boundary penalty
    dof_indices_int c i hok.2 hi).quadRel.centred eps heps
  simp only [perturbed_zero] at h
  exact h.symm

theorem face_int_dirDeriv_eq_centred (dg : DGStrong) (haff : AffineCollaborators dg)
    (fe_values_int fe_values_ext : FEValues) (penalty : real)
    (dof_indices_int dof_indices_ext : List ℕ)
    (hok : face_checks_pass dg fe_values_int fe_values_ext dof_indices_int dof_indices_ext)
    (c i : ℕ) (hi : i < fe_values_int.dofs_per_cell) (eps : real) (heps : eps ≠ 0) :
    dirDeriv (face_weights dof_indices_int dof_indices_ext fe_values_int.dofs_per_cell c)
        (fe_values_int.dofs_per_cell + fe_values_ext.dofs_per_cell)
        (face_rhs_int dg fe_values_int fe_values_ext penalty dof_indices_int dof_indices_ext i)
      = centred_difference
          (face_residual_contribution_int dg fe_values_int fe_values_ext penalty
            dof_indices_int dof_indices_ext i) dg.solution c eps := by
  unfold centred_difference
  rw [face_residual_contribution_int_eq dg _ _ _ _ _ hok i hi,
    face_residual_contribution_int_eq dg _ _ _ _ _ hok i hi]
  have h := (affRel_face_rhs_int dg haff fe_values_int fe_values_ext penalty dof_indices_int
    dof_indices_ext c i (fun hq => hok.2.2.2.1 0 hq i hi)).quadRel.centred eps heps
  simp only [perturbed_zero] at h
  exact h.symm

theorem face_ext_dirDeriv_eq_centred (dg : DGStrong) (haff : AffineCollaborators dg)
    (fe_values_int fe_values_ext : FEValues) (penalty : real)
    (dof_indices_int dof_indices_ext : List ℕ)
    (hok : face_checks_pass dg fe_values_int fe_values_ext dof_indices_int dof_indices_ext)
    (c j : ℕ) (hj : j < fe_values_ext.dofs_per_cell) (eps : real) (heps : eps ≠ 0) :
    dirDeriv (face_weights dof_indices_int dof_indices_ext fe_values_int.dofs_per_cell c)
        (fe_values_int.dofs_per_cell + fe_values_ext.dofs_per_cell)
        (face_rhs_ext dg fe_values_int fe_values_ext penalty dof_indices_int dof_indices_ext j)
      = centred_difference
          (face_residual_contribution_ext dg fe_values_int fe_values_ext penalty
            dof_indices_int dof_indices_ext j) dg.solution c eps := by
  unfold centred_difference
  rw [face_residual_contribution_ext_eq dg _ _ _ _ _ hok j hj,
    face_residual_contribution_ext_eq dg _ _ _ _ _ hok j hj]
  have h := (affRel_face_rhs_ext dg haff fe_values_int fe_values_ext penalty dof_indices_int
    dof_indices_ext c j
    (fun hq => hok.2.2.2.1 0 hq j (Nat.lt_of_lt_of_le hj hok.2.2.2.2.2))).quadRel.centred
    eps heps
  simp only [perturbed_zero] at h
  exact h.symm

theorem face_weights_eq_cell_weights (dof_indices_int dof_indices_ext : List ℕ) (c : ℕ) :
    face_weights dof_indices_int dof_indices_ext dof_indices_int.length c
      = cell_weights (dof_indices_int ++ dof_indices_ext) c := by
  funext k
  unfold face_weights cell_weights
  by_cases hk : k < dof_indices_int.length
  · rw [if_pos hk, List.getD_append _ _ _ _ hk]
  · rw [if_neg hk, List.getD_append_right _ _ _ _ (Nat.le_of_not_lt hk)]

/-- The boundary part of the Jacobian statement. -/
theorem boundary_jacobian_centred (dg : DGStrong) (haff : AffineCollaborators dg)
    (boundary_id : ℕ) (fe_values_boundary : FEValues) (penalty : real)
    (dof_indices_int : List ℕ) (r0 : RealVector)
    (himp : dg.all_parameters.ode_solver_type = ODESolverEnum.implicit_solver)
    (hok : boundary_checks_pass dg fe_values_boundary dof_indices_int)
    (eps : real) (heps : eps ≠ 0) :
    (∃ out, assemble_boundary_term_implicit dg boundary_id fe_values_boundary penalty
          dof_indices_int r0 = .ok out
        ∧ ∀ r c, out.2 r c = dg.system_matrix r c
          + ∑ i in Finset.range fe_values_boundary.dofs_per_cell,
              if dof_indices_int.getD i 0 = r then
                centred_difference
                  (boundary_residual_contribution dg boundary_id fe_values_boundary penalty
                    dof_indices_int i) dg.solution c eps
              else 0)
      ∧ (dof_indices_int.Nodup → ∀ i k, i < fe_values_boundary.dofs_per_cell →
          k < fe_values_boundary.dofs_per_cell →
          (boundary_rhs dg boundary_id fe_values_boundary penalty dof_indices_int i).dx k
            = centred_difference
                (boundary_residual_contribution dg boundary_id fe_values_boundary penalty
                  dof_indices_int i) dg.solution (dof_indices_int.getD k 0) eps) := by
  constructor
  · refine ⟨_, assemble_boundary_eq_ok _ _ _ _ _ _ hok, ?_⟩
    intro r c
    rw [scatter_loop_snd, if_pos himp]
    congr 1
    apply Finset.sum_congr rfl
    intro i hi
    rw [← boundary_dirDeriv_eq_centred dg haff _ _ _ _ hok c i (Finset.mem_range.mp hi) eps
      heps, dirDeriv_cell_weights, hok.1]
  · intro hnd i k hi hk
    rw [← boundary_dirDeriv_eq_centred dg haff _ _ _ _ hok _ i hi eps heps, hok.1,
      dirDeriv_cell_weights_nodup _ hnd k (hok.1 ▸ hk)]

/-- The interior-face part of the Jacobian statement. The derivative index `K` runs over the
joint local unknowns: `K < n_int` is the interior trial `K` and `n_int + k` the exterior
trial `k`, whose global unknown is entry `K` of `dof_indices_int ++ dof_indices_ext`. -/
theorem face_jacobian_centred (dg : DGStrong) (haff : AffineCollaborators dg)
    (fe_values_int fe_values_ext : FEValues) (penalty : real)
    (dof_indices_int dof_indices_ext : List ℕ) (r_int r_ext : RealVector)
    (himp : dg.all_parameters.ode_solver_type = ODESolverEnum.implicit_solver)
    (hok : face_checks_pass dg fe_values_int fe_values_ext dof_indices_int dof_indices_ext)
    (eps : real) (heps : eps ≠ 0) :
    (∃ out, assemble_face_term_implicit dg fe_values_int fe_values_ext penalty
          dof_indices_int dof_indices_ext r_int r_ext = .ok out
        ∧ ∀ r c, out.system_matrix r c = dg.system_matrix r c
          + (∑ i in Finset.range fe_values_int.dofs_per_cell,
              if dof_indices_int.getD i 0 = r then
                centred_difference
                  (face_residual_contribution_int dg fe_values_int fe_values_ext penalty
                    dof_indices_int dof_indices_ext i) dg.solution c eps
              else 0)
          + ∑ j in Finset.range fe_values_ext.dofs_per_cell,
              if dof_indices_ext.getD j 0 = r then
                centred_difference
                  (face_residual_contribution_ext dg fe_values_int fe_values_ext penalty
                    dof_indices_int dof_indices_ext j) dg.solution c eps
              else 0)
      ∧ ((dof_indices_int ++ dof_indices_ext).Nodup → ∀ K,
          K < fe_values_int.dofs_per_cell + fe_values_ext.dofs_per_cell →
          (∀ i, i < fe_values_int.dofs_per_cell →
            (face_rhs_int dg fe_values_int fe_values_ext penalty dof_indices_int
                dof_indices_ext i).dx K
              = centred_difference
                  (face_residual_contribution_int dg fe_values_int fe_values_ext penalty
                    dof_indices_int dof_indices_ext i) dg.solution
                  ((dof_indices_int ++ dof_indices_ext).getD K 0) eps)
          ∧ ∀ j, j < fe_values_ext.dofs_per_cell →
            (face_rhs_ext dg fe_values_int fe_values_ext penalty dof_indices_int
                dof_indices_ext j).dx K
              = centred_difference
                  (face_residual_contribution_ext dg fe_values_int fe_values_ext penalty
                    dof_indices_int dof_indices_ext j) dg.solution
                  ((dof_indices_int ++ dof_indices_ext).getD K 0) eps) := by
  have hli := hok.1
  have hle := hok.2.1
  constructor
  · refine ⟨_, assemble_face_eq_loops _ _ _ _ _ _ _ _ hok, ?_⟩
    intro r c
    rw [face_loops_matrix, if_pos himp, if_pos himp]
    congr 1
    · congr 1
      apply Finset.sum_congr rfl
      intro i hi
      rw [← face_int_dirDeriv_eq_centred dg haff _ _ _ _ _ hok c i (Finset.mem_range.mp hi)
        eps heps, hli, hle, dirDeriv_face_weights]
    · apply Finset.sum_congr rfl
      intro j hj
      rw [← face_ext_dirDeriv_eq_centred dg haff _ _ _ _ _ hok c j (Finset.mem_range.mp hj)
        eps heps, hli, hle, dirDeriv_face_weights]
  · intro hnd K hK
    have hK' : K < (dof_indices_int ++ dof_indices_ext).length := by
      rw [List.length_append, ← hli, ← hle]; exact hK
    constructor
    · intro i hi
      rw [← face_int_dirDeriv_eq_centred dg haff _ _ _ _ _ hok _ i hi eps heps, hli, hle,
        face_weights_eq_cell_weights, ← List.length_append,
        dirDeriv_cell_weights_nodup _ hnd K hK']
    · intro j hj
      rw [← face_ext_dirDeriv_eq_centred dg haff _ _ _ _ _ hok _ j hj eps heps, hli, hle,
        face_weights_eq_cell_weights, ← List.length_append,
        dirDeriv_cell_weights_nodup _ hnd K hK']

theorem isAffine_example (F : ADArray → ADArray → ADArrayTensor1 → ADArrayTensor1 → ADtype)
    (a1 a2 b1 b2 : real)
    (h : ∀ ui ue gi ge, F ui ue gi ge
      = ADtype.ofReal a1 * ui 0 + ADtype.ofReal a2 * ue 0 + ADtype.ofReal b1 * gi 0 0
        + ADtype.ofReal b2 * ge 0 0) :
    IsAffine 1 1 F := by
  refine ⟨0, fun _ => a1, fun _ => a2, fun _ _ => b1, fun _ _ => b2, fun ui ue gi ge => ?_⟩
  rw [h]
  simp only [Finset.sum_range_one, ADtype.ofReal_zero, zero_add]

/-- The collaborators of the one-dimensional example are affine. -/
theorem example_affine (use_split_form : Bool) (ode_solver_type : ODESolverEnum) :
    AffineCollaborators (example_dg use_split_form ode_solver_type) where
  convective_flux s hs d _ := by
    obtain rfl : s = 0 := Nat.lt_one_iff.mp hs
    refine isAffine_example _ 1 0 0 0 (fun ui ue gi ge => ?_)
    show ui 0 = _
    simp [ADtype.ofReal_zero, ADtype.ofReal_one]
  dissipative_flux s hs d hd := by
    obtain rfl : s = 0 := Nat.lt_one_iff.mp hs
    obtain rfl : d = 0 := Nat.lt_one_iff.mp hd
    refine isAffine_example _ 0 0 (-1) 0 (fun ui ue gi ge => ?_)
    show -(gi 0 0) = _
    simp [ADtype.ofReal_zero, ADtype.ofReal_one, ADtype.ofReal_neg]
  source_term x s _ := by
    refine isAffine_example _ 0 0 0 0 (fun ui ue gi ge => ?_)
    show (0 : ADtype) = _
    simp [ADtype.ofReal_zero]
  boundary_state id x n s hs := by
    obtain rfl : s = 0 := Nat.lt_one_iff.mp hs
    refine isAffine_example _ 1 0 0 0 (fun ui ue gi ge => ?_)
    show ui 0 = _
    simp [ADtype.ofReal_zero, ADtype.ofReal_one]
  boundary_gradient id x n s hs d hd := by
    obtain rfl : s = 0 := Nat.lt_one_iff.mp hs
    obtain rfl : d = 0 := Nat.lt_one_iff.mp hd
    refine isAffine_example _ 0 0 1 0 (fun ui ue gi ge => ?_)
    show gi 0 0 = _
    simp [ADtype.ofReal_zero, ADtype.ofReal_one]
  evaluate_flux n s hs := by
    obtain rfl : s = 0 := Nat.lt_one_iff.mp hs
    refine isAffine_example _ (1 / 2 * n 0) (1 / 2 * n 0) 0 0 (fun ui ue gi ge => ?_)
    show ADtype.ofReal (1 / 2) * (ui 0 + ue 0) * ADtype.ofReal (n 0) = _
    ext <;> simp <;> ring
  evaluate_solution_flux n s hs := by
    obtain rfl : s = 0 := Nat.lt_one_iff.mp hs
    refine isAffine_example _ (1 / 2) (1 / 2) 0 0 (fun ui ue gi ge => ?_)
    show ADtype.ofReal (1 / 2) * (ui 0 + ue 0) = _
    ext <;> simp <;> ring
  evaluate_auxiliary_flux n penalty on_boundary s hs := by
    obtain rfl : s = 0 := Nat.lt_one_iff.mp hs
    refine isAffine_example _ penalty (-penalty) 0 0 (fun ui ue gi ge => ?_)
    show ADtype.ofReal penalty * (ui 0 - ue 0) = _
    ext <;> simp <;> ring
  split_f _ isplit hlt := by
    refine isAffine_example _ 1 0 0 0 (fun ui ue gi ge => ?_)
    have h : ((example_dg use_split_form ode_solver_type).split_fluxes.get 0 0 isplit).f ui
        = ui 0 := by
      match isplit, hlt with
      | 0, _ => rfl
      | 1, _ => rfl
    rw [h]
    simp [ADtype.ofReal_zero, ADtype.ofReal_one]
  split_g _ isplit hlt := by
    refine isAffine_example _ 1 0 0 0 (fun ui ue gi ge => ?_)
    have h : ((example_dg use_split_form ode_solver_type).split_fluxes.get 0 0 isplit).g ui
        = ui 0 := by
      match isplit, hlt with
      | 0, _ => rfl
      | 1, _ => rfl
    rw [h]
    simp [ADtype.ofReal_zero, ADtype.ofReal_one]

/-- C2, amended: for each of the three assemblers, when the Jacobian is requested, the physics
and numerical-flux functions are affine in the state and gradient and, if the split form is
enabled, so are the split-flux functions the cell assembler reads, the assembler
succeeds (when its checks pass) and every value it adds to the system matrix is the centred
finite difference `(R_test(u + eps e) - R_test(u - eps e)) / (2 eps)` of its own residual
contribution, for every `eps ≠ 0`: the entry `(r, c)` grows by the sum, over the test
functions whose global unknown is `r`, of the centred difference along the global unknown
`c`; and when the local-to-global index lists have no repeated entry, the derivative
`rhs.dx(k)` written for the pair (test `i`, trial `k`) is the centred difference of `R_i`
along the global unknown of trial `k`, the interior/exterior off-diagonal blocks of the
interior-face assembler included. -/
theorem jacobian_equals_centred_difference (dg : DGStrong) (boundary_id : ℕ)
    (fe_values_vol fe_values_lagrange fe_values_boundary fe_values_int fe_values_ext : FEValues)
    (penalty : real) (cell_dofs_indices dof_indices_bnd dof_indices_int dof_indices_ext : List ℕ)
    (r0 r_int r_ext : RealVector) (eps : real)
    (hphys : AffinePhysics dg)
    (hsplit : dg.all_parameters.use_split_form = true → AffineSplitFluxes dg)
    (himp : dg.all_parameters.ode_solver_type = ODESolverEnum.implicit_solver)
    (hcell : cell_checks_pass dg fe_values_vol fe_values_lagrange cell_dofs_indices)
    (hbnd : boundary_checks_pass dg fe_values_boundary dof_indices_bnd)
    (hface : face_checks_pass dg fe_values_int fe_values_ext dof_indices_int dof_indices_ext)
    (heps : eps ≠ 0) :
    ((∃ out, assemble_cell_terms_implicit dg fe_values_vol fe_values_lagrange
          cell_dofs_indices r0 = .ok out
        ∧ ∀ r c, out.2 r c = dg.system_matrix r c
          + ∑ i in Finset.range fe_values_vol.dofs_per_cell,
              if cell_dofs_indices.getD i 0 = r then
                centred_difference
                  (cell_residual_contribution dg fe_values_vol fe_values_lagrange
                    cell_dofs_indices i) dg.solution c eps
              else 0)
      ∧ (cell_dofs_indices.Nodup → ∀ i k, i < fe_values_vol.dofs_per_cell →
          k < fe_values_vol.dofs_per_cell →
          (cell_rhs dg fe_values_vol fe_values_lagrange cell_dofs_indices i).dx k
            = centred_difference
                (cell_residual_contribution dg fe_values_vol fe_values_lagrange
                  cell_dofs_indices i) dg.solution (cell_dofs_indices.getD k 0) eps))
    ∧ ((∃ out, assemble_boundary_term_implicit dg boundary_id fe_values_boundary penalty
          dof_indices_bnd r0 = .ok out
        ∧ ∀ r c, out.2 r c = dg.system_matrix r c
          + ∑ i in Finset.range fe_values_boundary.dofs_per_cell,
              if dof_indices_bnd.getD i 0 = r then
                centred_difference
                  (boundary_residual_contribution dg boundary_id fe_values_boundary penalty
                    dof_indices_bnd i) dg.solution c eps
              else 0)
      ∧ (dof_indices_bnd.Nodup → ∀ i k, i < fe_values_boundary.dofs_per_cell →
          k < fe_values_boundary.dofs_per_cell →
          (boundary_rhs dg boundary_id fe_values_boundary penalty dof_indices_bnd i).dx k
            = centred_difference
                (boundary_residual_contribution dg boundary_id fe_values_boundary penalty
                  dof_indices_bnd i) dg.solution (dof_indices_bnd.getD k 0) eps))
    ∧ ((∃ out, assemble_face_term_implicit dg fe_values_int fe_values_ext penalty
          dof_indices_int dof_indices_ext r_int r_ext = .ok out
        ∧ ∀ r c, out.system_matrix r c = dg.system_matrix r c
          + (∑ i in Finset.range fe_values_int.dofs_per_cell,
              if dof_indices_int.getD i 0 = r then
                centred_difference
                  (face_residual_contribution_int dg fe_values_int fe_values_ext penalty
                    dof_indices_int dof_indices_ext i) dg.solution c eps
              else 0)
          + ∑ j in Finset.range fe_values_ext.dofs_per_cell,
              if dof_indices_ext.getD j 0 = r then
                centred_difference
                  (face_residual_contribution_ext dg fe_values_int fe_values_ext penalty
                    dof_indices_int dof_indices_ext j) dg.solution c eps
              else 0)
      ∧ ((dof_indices_int ++ dof_indices_ext).Nodup → ∀ K,
          K < fe_values_int.dofs_per_cell + fe_values_ext.dofs_per_cell →
          (∀ i, i < fe_values_int.dofs_per_cell →
            (face_rhs_int dg fe_values_int fe_values_ext penalty dof_indices_int
                dof_indices_ext i).dx K
              = centred_difference
                  (face_residual_contribution_int dg fe_values_int fe_values_ext penalty
                    dof_indices_int dof_indices_ext i) dg.solution
                  ((dof_indices_int ++ dof_indices_ext).getD K 0) eps)
          ∧ ∀ j, j < fe_values_ext.dofs_per_cell →
            (face_rhs_ext dg fe_values_int fe_values_ext penalty dof_indices_int
                dof_indices_ext j).dx K
              = centred_difference
                  (face_residual_contribution_ext dg fe_values_int fe_values_ext penalty
                    dof_indices_int dof_indices_ext j) dg.solution
                  ((dof_indices_int ++ dof_indices_ext).getD K 0) eps)) :=
  have haff : AffineCollaborators dg :=
    ⟨hphys, fun h isplit hlt => (hsplit h isplit hlt).1,
      fun h isplit hlt => (hsplit h isplit hlt).2⟩
  ⟨cell_jacobian_centred dg haff fe_values_vol fe_values_lagrange cell_dofs_indices r0 himp
      hcell eps heps,
    boundary_jacobian_centred dg haff boundary_id fe_values_boundary penalty dof_indices_bnd r0
      himp hbnd eps heps,
    face_jacobian_centred dg haff fe_values_int fe_values_ext penalty dof_indices_int
      dof_indices_ext r_int r_ext himp hface eps heps⟩

/-- The Jacobian statement on the one-dimensional example with the split form enabled (a
quadratic residual) and the perturbation size `1/10`. -/
theorem jacobian_equals_centred_difference_witness :
    AffinePhysics (example_dg true .implicit_solver)
      ∧ ((example_dg true .implicit_solver).all_parameters.use_split_form = true →
          AffineSplitFluxes (example_dg true .implicit_solver))
      ∧ (example_dg true .implicit_solver).all_parameters.ode_solver_type
          = ODESolverEnum.implicit_solver
      ∧ cell_checks_pass (example_dg true .implicit_solver) example_fe example_fe [0, 1]
      ∧ boundary_checks_pass (example_dg true .implicit_solver) example_fe_face [0, 1]
      ∧ face_checks_pass (example_dg true .implicit_solver) example_fe_face example_fe_face_ext
          [0, 1] [2, 3]
      ∧ (1 / 10 : real) ≠ 0
      ∧ (
      ((∃ out, assemble_cell_terms_implicit (example_dg true .implicit_solver) example_fe example_fe
            [0, 1] (fun _ => 0) = .ok out
          ∧ ∀ r c, out.2 r c = (example_dg true .implicit_solver).system_matrix r c
            + ∑ i in Finset.range example_fe.dofs_per_cell,
                if [0, 1].getD i 0 = r then
                  centred_difference
                    (cell_residual_contribution (example_dg true .implicit_solver) example_fe
                        example_fe
                      [0, 1] i) (example_dg true .implicit_solver).solution c (1 / 10)
                else 0)
        ∧ ([0, 1].Nodup → ∀ i k, i < example_fe.dofs_per_cell →
            k < example_fe.dofs_per_cell →
            (cell_rhs (example_dg true .implicit_solver) example_fe example_fe [0, 1] i).dx k
              = centred_difference
                  (cell_residual_contribution (example_dg true .implicit_solver) example_fe
                      example_fe
                    [0, 1] i) (example_dg true .implicit_solver).solution ([0, 1].getD k 0) (1 /
                        10)))
      ∧ ((∃ out, assemble_boundary_term_implicit (example_dg true .implicit_solver) 0
          example_fe_face 2
            [0, 1] (fun _ => 0) = .ok out
          ∧ ∀ r c, out.2 r c = (example_dg true .implicit_solver).system_matrix r c
            + ∑ i in Finset.range example_fe_face.dofs_per_cell,
                if [0, 1].getD i 0 = r then
                  centred_difference
                    (boundary_residual_contribution (example_dg true .implicit_solver) 0
                        example_fe_face 2
                      [0, 1] i) (example_dg true .implicit_solver).solution c (1 / 10)
                else 0)
        ∧ ([0, 1].Nodup → ∀ i k, i < example_fe_face.dofs_per_cell →
            k < example_fe_face.dofs_per_cell →
            (boundary_rhs (example_dg true .implicit_solver) 0 example_fe_face 2 [0, 1] i).dx k
              = centred_difference
                  (boundary_residual_contribution (example_dg true .implicit_solver) 0
                      example_fe_face 2
                    [0, 1] i) (example_dg true .implicit_solver).solution ([0, 1].getD k 0) (1 /
                        10)))
      ∧ ((∃ out, assemble_face_term_implicit (example_dg true .implicit_solver) example_fe_face
          example_fe_face_ext 2
            [0, 1] [2, 3] (fun _ => 0) (fun _ => 0) = .ok out
          ∧ ∀ r c, out.system_matrix r c = (example_dg true .implicit_solver).system_matrix r c
            + (∑ i in Finset.range example_fe_face.dofs_per_cell,
                if [0, 1].getD i 0 = r then
                  centred_difference
                    (face_residual_contribution_int (example_dg true .implicit_solver)
                        example_fe_face example_fe_face_ext 2
                      [0, 1] [2, 3] i) (example_dg true .implicit_solver).solution c (1 / 10)
                else 0)
            + ∑ j in Finset.range example_fe_face_ext.dofs_per_cell,
                if [2, 3].getD j 0 = r then
                  centred_difference
                    (face_residual_contribution_ext (example_dg true .implicit_solver)
                        example_fe_face example_fe_face_ext 2
                      [0, 1] [2, 3] j) (example_dg true .implicit_solver).solution c (1 / 10)
                else 0)
        ∧ (([0, 1] ++ [2, 3]).Nodup → ∀ K,
            K < example_fe_face.dofs_per_cell + example_fe_face_ext.dofs_per_cell →
            (∀ i, i < example_fe_face.dofs_per_cell →
              (face_rhs_int (example_dg true .implicit_solver) example_fe_face example_fe_face_ext
                  2 [0, 1]
                  [2, 3] i).dx K
                = centred_difference
                    (face_residual_contribution_int (example_dg true .implicit_solver)
                        example_fe_face example_fe_face_ext 2
                      [0, 1] [2, 3] i) (example_dg true .implicit_solver).solution
                    (([0, 1] ++ [2, 3]).getD K 0) (1 / 10))
            ∧ ∀ j, j < example_fe_face_ext.dofs_per_cell →
              (face_rhs_ext (example_dg true .implicit_solver) example_fe_face example_fe_face_ext
                  2 [0, 1]
                  [2, 3] j).dx K
                = centred_difference
                    (face_residual_contribution_ext (example_dg true .implicit_solver)
                        example_fe_face example_fe_face_ext 2
                      [0, 1] [2, 3] j) (example_dg true .implicit_solver).solution
                    (([0, 1] ++ [2, 3]).getD K 0) (1 / 10)))) :=
  have hsplit : (example_dg true .implicit_solver).all_parameters.use_split_form = true →
      AffineSplitFluxes (example_dg true .implicit_solver) :=
    fun h isplit hlt => ⟨(example_affine true .implicit_solver).split_f h isplit hlt,
      (example_affine true .implicit_solver).split_g h isplit hlt⟩
  ⟨(example_affine true .implicit_solver).toAffinePhysics, hsplit, rfl,
    example_cell_checks_pass true .implicit_solver,
    example_boundary_checks_pass true .implicit_solver,
    example_face_checks_pass true .implicit_solver, by norm_num,
    jacobian_equals_centred_difference (example_dg true .implicit_solver) 0 example_fe
      example_fe example_fe_face example_fe_face example_fe_face_ext 2 [0, 1] [0, 1] [0, 1]
      [2, 3] (fun _ => 0) (fun _ => 0) (fun _ => 0) (1 / 10)
      (example_affine true .implicit_solver).toAffinePhysics hsplit rfl
      (example_cell_checks_pass true .implicit_solver)
      (example_boundary_checks_pass true .implicit_solver)
      (example_face_checks_pass true .implicit_solver) (by norm_num)⟩

theorem example_square_checks_pass (u : RealVector) :
    cell_checks_pass (example_dg_square.with_solution u) example_fe example_fe [0, 1] := by
  refine ⟨rfl, ?_, ?_, ?_, ?_⟩
  · intro _ _ _ _; exact Nat.zero_lt_one
  · intro _ _
    exact ⟨Nat.le_refl _, Nat.le_refl _, Nat.le_refl _, rfl, rfl⟩
  · intro _ itest hi
    exact ⟨rfl, rfl, hi⟩
  · intro _ iquad hq
    refine ⟨hq, ?_⟩
    show (1 / 2 : ℚ) - 1 / 2 < 1 / 10 ^ 14
    norm_num

theorem example_square_rhs_val (u : RealVector) :
    (cell_rhs (example_dg_square.with_solution u) example_fe example_fe [0, 1] 0).val
      = -((u 1 * u 1 - u 0 * u 0) * (u 0 * u 0)) + (u 1 - u 0) := by
  rw [cell_rhs_eq_split_form _ _ _ _ _ rfl Nat.zero_lt_one]
  simp [cell_split_pair_rhs, cell_diss_source_rhs, split_g_accumulation, square_pair,
    cell_soln_at_q, cell_soln_grad_at_q, DGStrong.with_solution, example_dg_square,
    interpolate_soln_eq_sum, interpolate_grad_eq_sum, dotAR_eq_sum, dotRA_eq_sum,
    Finset.sum_range_succ, example_dg, example_fe, example_physics, seed_soln_coeff,
    SplitForm.get, ADtype.val_sum]
  ring

theorem example_square_rhs_dx (k : ℕ) :
    (cell_rhs example_dg_square example_fe example_fe [0, 1] 0).dx k
      = if k = 0 then -5 else if k = 1 then -3 else 0 := by
  rw [cell_rhs_eq_split_form _ _ _ _ _ rfl Nat.zero_lt_one]
  simp [cell_split_pair_rhs, cell_diss_source_rhs, split_g_accumulation, square_pair,
    cell_soln_at_q, cell_soln_grad_at_q, example_dg_square,
    interpolate_soln_eq_sum, interpolate_grad_eq_sum, dotAR_eq_sum, dotRA_eq_sum,
    Finset.sum_range_succ, example_dg, example_fe, example_physics, seed_soln_coeff,
    SplitForm.get, ADtype.dx_sum]
  by_cases h0 : k = 0
  · subst h0; norm_num
  · by_cases h1 : k = 1
    · subst h1; norm_num
    · simp [h0, h1]

/-- C2, counterexample: on the one-dimensional example with affine physics and numerical
fluxes, the implicit solver and the split form enabled with the quadratic split-flux pairs
`f = g = u^2`, the cell assembler adds `-5` to the system-matrix entry of the global unknowns
`(0, 0)`, while the centred difference of its residual contribution with `eps = 1` is `-1`. -/
theorem jacobian_centred_difference_counterexample :
    AffinePhysics example_dg_square
      ∧ example_dg_square.all_parameters.ode_solver_type = ODESolverEnum.implicit_solver
      ∧ ∃ out, assemble_cell_terms_implicit example_dg_square example_fe example_fe [0, 1]
          (fun _ => 0) = .ok out
        ∧ out.2 0 0 - example_dg_square.system_matrix 0 0 = -5
        ∧ centred_difference
            (cell_residual_contribution example_dg_square example_fe example_fe [0, 1] 0)
            example_dg_square.solution 0 1 = -1
        ∧ out.2 0 0 - example_dg_square.system_matrix 0 0
          ≠ centred_difference
            (cell_residual_contribution example_dg_square example_fe example_fe [0, 1] 0)
            example_dg_square.solution 0 1 := by
  have haff := example_affine true .implicit_solver
  have hok : cell_checks_pass example_dg_square example_fe example_fe [0, 1] :=
    example_square_checks_pass example_dg_square.solution
  have hJ : (forLoop example_fe.dofs_per_cell
      ((fun _ => (0 : real)), example_dg_square.system_matrix)
      (fun acc itest => scatter example_dg_square.all_parameters [0, 1] itest
        (cell_rhs example_dg_square example_fe example_fe [0, 1] itest) acc)).2 0 0
      - example_dg_square.system_matrix 0 0 = -5 := by
    rw [scatter_loop_snd,
      if_pos (show example_dg_square.all_parameters.ode_solver_type
        = ODESolverEnum.implicit_solver from rfl)]
    rw [show example_fe.dofs_per_cell = 2 from rfl]
    simp [Finset.sum_range_succ, example_square_rhs_dx]
  have hC : centred_difference
      (cell_residual_contribution example_dg_square example_fe example_fe [0, 1] 0)
      example_dg_square.solution 0 1 = -1 := by
    unfold centred_difference
    rw [cell_residual_contribution_eq _ _ _ _ hok 0 (by decide),
      cell_residual_contribution_eq _ _ _ _ hok 0 (by decide),
      example_square_rhs_val, example_square_rhs_val]
    simp [perturb_solution, example_dg_square, example_dg]
  refine ⟨⟨haff.convective_flux, haff.dissipative_flux, haff.source_term,
    haff.boundary_state, haff.boundary_gradient, haff.evaluate_flux,
    haff.evaluate_solution_flux, haff.evaluate_auxiliary_flux⟩, rfl, _,
    assemble_cell_eq_ok _ _ _ _ _ hok, hJ, hC, ?_⟩
  rw [hJ, hC]
  norm_num

/-! ## C11: the four Jacobian blocks of the interior-face assembler -/

theorem getD_mem_of_lt (l : List ℕ) (i : ℕ) (h : i < l.length) : l.getD i 0 ∈ l := by
  rw [List.getD_eq_getElem l 0 h]
  exact List.getElem_mem h

/-- The total added to a row by one test function of the interior-face assembler, split into
the block of the interior columns and the block of the exterior columns. -/
theorem face_row_sum_blocks (dof_indices_int dof_indices_ext : List ℕ) (rows : ℕ → ℕ)
    (rhs : ℕ → ADtype) (n : ℕ) (r c : ℕ) :
    (∑ i in Finset.range n,
        if rows i = r then
          face_row_sum dof_indices_int dof_indices_ext dof_indices_int.length (rhs i) c
        else 0)
      = (∑ i in Finset.range n, ∑ k in Finset.range dof_indices_int.length,
          if rows i = r ∧ dof_indices_int.getD k 0 = c then (rhs i).dx k else 0)
        + ∑ i in Finset.range n, ∑ k in Finset.range dof_indices_ext.length,
          if rows i = r ∧ dof_indices_ext.getD k 0 = c
          then (rhs i).dx (dof_indices_int.length + k) else 0 := by
  rw [← Finset.sum_add_distrib]
  apply Finset.sum_congr rfl
  intro i _
  by_cases h : rows i = r
  · simp only [h, if_true, true_and, face_row_sum]
  · simp only [h, if_false, false_and, Finset.sum_const_zero, add_zero]

/-- C11: in the interior-face assembler with the Jacobian requested (and its checks passing)
the derivative vector of each residual is split by index range into four blocks. For
interior test `i`, derivative `k` (`k < n_int`) is added at
`(dof_indices_int[i], dof_indices_int[k])` and derivative `n_int + k` (`k < n_ext`) at
`(dof_indices_int[i], dof_indices_ext[k])`; for exterior test `j`, derivative `k` is added at
`(dof_indices_ext[j], dof_indices_int[k])` and derivative `n_int + k` at
`(dof_indices_ext[j], dof_indices_ext[k])`: every entry of the system matrix grows by the sum
of the derivatives so addressed to it, and an entry whose row or column is in neither index
list is not modified. -/
theorem face_jacobian_four_blocks (dg : DGStrong) (fe_values_int fe_values_ext : FEValues)
    (penalty : real) (dof_indices_int dof_indices_ext : List ℕ)
    (local_rhs_int_cell local_rhs_ext_cell : RealVector)
    (himp : dg.all_parameters.ode_solver_type = ODESolverEnum.implicit_solver)
    (hok : face_checks_pass dg fe_values_int fe_values_ext dof_indices_int dof_indices_ext) :
    ∃ out, assemble_face_term_implicit dg fe_values_int fe_values_ext penalty dof_indices_int
        dof_indices_ext local_rhs_int_cell local_rhs_ext_cell = .ok out
      ∧ (∀ r c, out.system_matrix r c = dg.system_matrix r c
          + (∑ i in Finset.range fe_values_int.dofs_per_cell,
              ∑ k in Finset.range fe_values_int.dofs_per_cell,
                if dof_indices_int.getD i 0 = r ∧ dof_indices_int.getD k 0 = c then
                  (face_rhs_int dg fe_values_int fe_values_ext penalty dof_indices_int
                    dof_indices_ext i).dx k
                else 0)
          + (∑ i in Finset.range fe_values_int.dofs_per_cell,
              ∑ k in Finset.range fe_values_ext.dofs_per_cell,
                if dof_indices_int.getD i 0 = r ∧ dof_indices_ext.getD k 0 = c then
                  (face_rhs_int dg fe_values_int fe_values_ext penalty dof_indices_int
                    dof_indices_ext i).dx (fe_values_int.dofs_per_cell + k)
                else 0)
          + (∑ j in Finset.range fe_values_ext.dofs_per_cell,
              ∑ k in Finset.range fe_values_int.dofs_per_cell,
                if dof_indices_ext.getD j 0 = r ∧ dof_indices_int.getD k 0 = c then
                  (face_rhs_ext dg fe_values_int fe_values_ext penalty dof_indices_int
                    dof_indices_ext j).dx k
                else 0)
          + (∑ j in Finset.range fe_values_ext.dofs_per_cell,
              ∑ k in Finset.range fe_values_ext.dofs_per_cell,
                if dof_indices_ext.getD j 0 = r ∧ dof_indices_ext.getD k 0 = c then
                  (face_rhs_ext dg fe_values_int fe_values_ext penalty dof_indices_int
                    dof_indices_ext j).dx (fe_values_int.dofs_per_cell + k)
                else 0))
      ∧ ∀ r c, ¬ ((r ∈ dof_indices_int ∨ r ∈ dof_indices_ext)
            ∧ (c ∈ dof_indices_int ∨ c ∈ dof_indices_ext)) →
          out.system_matrix r c = dg.system_matrix r c := by
  have hli := hok.1
  have hle := hok.2.1
  have hform : ∀ r c,
      (face_loops dg fe_values_int fe_values_ext penalty dof_indices_int dof_indices_ext
          ⟨local_rhs_int_cell, local_rhs_ext_cell, dg.system_matrix⟩).system_matrix r c
        = dg.system_matrix r c
          + (∑ i in Finset.range fe_values_int.dofs_per_cell,
              ∑ k in Finset.range fe_values_int.dofs_per_cell,
                if dof_indices_int.getD i 0 = r ∧ dof_indices_int.getD k 0 = c then
                  (face_rhs_int dg fe_values_int fe_values_ext penalty dof_indices_int
                    dof_indices_ext i).dx k
                else 0)
          + (∑ i in Finset.range fe_values_int.dofs_per_cell,
              ∑ k in Finset.range fe_values_ext.dofs_per_cell,
                if dof_indices_int.getD i 0 = r ∧ dof_indices_ext.getD k 0 = c then
                  (face_rhs_int dg fe_values_int fe_values_ext penalty dof_indices_int
                    dof_indices_ext i).dx (fe_values_int.dofs_per_cell + k)
                else 0)
          + (∑ j in Finset.range fe_values_ext.dofs_per_cell,
              ∑ k in Finset.range fe_values_int.dofs_per_cell,
                if dof_indices_ext.getD j 0 = r ∧ dof_indices_int.getD k 0 = c then
                  (face_rhs_ext dg fe_values_int fe_values_ext penalty dof_indices_int
                    dof_indices_ext j).dx k
                else 0)
          + (∑ j in Finset.range fe_values_ext.dofs_per_cell,
              ∑ k in Finset.range fe_values_ext.dofs_per_cell,
                if dof_indices_ext.getD j 0 = r ∧ dof_indices_ext.getD k 0 = c then
                  (face_rhs_ext dg fe_values_int fe_values_ext penalty dof_indices_int
                    dof_indices_ext j).dx (fe_values_int.dofs_per_cell + k)
                else 0) := by
    intro r c
    rw [face_loops_matrix, if_pos himp, if_pos himp]
    simp only [hli, hle]
    rw [face_row_sum_blocks, face_row_sum_blocks]
    ring
  refine ⟨_, assemble_face_eq_loops dg fe_values_int fe_values_ext penalty dof_indices_int
    dof_indices_ext local_rhs_int_cell local_rhs_ext_cell hok, hform, ?_⟩
  intro r c hrc
  rw [hform]
  have hz : ∀ (rows cols : List ℕ) (n m : ℕ) (v : ℕ → ℕ → real), n ≤ rows.length →
      m ≤ cols.length → ¬ (r ∈ rows ∧ c ∈ cols) →
      (∑ i in Finset.range n, ∑ k in Finset.range m,
        if rows.getD i 0 = r ∧ cols.getD k 0 = c then v i k else 0) = 0 := by
    intro rows cols n m v hn hm hne
    apply Finset.sum_eq_zero
    intro i hi
    apply Finset.sum_eq_zero
    intro k hk
    rw [if_neg]
    rintro ⟨h1, h2⟩
    apply hne
    constructor
    · rw [← h1]
      exact getD_mem_of_lt rows i (lt_of_lt_of_le (Finset.mem_range.mp hi) hn)
    · rw [← h2]
      exact getD_mem_of_lt cols k (lt_of_lt_of_le (Finset.mem_range.mp hk) hm)
  rw [hz dof_indices_int dof_indices_int _ _ _ (le_of_eq hli) (le_of_eq hli)
      (fun h => hrc ⟨Or.inl h.1, Or.inl h.2⟩),
    hz dof_indices_int dof_indices_ext _ _ _ (le_of_eq hli) (le_of_eq hle)
      (fun h => hrc ⟨Or.inl h.1, Or.inr h.2⟩),
    hz dof_indices_ext dof_indices_int _ _ _ (le_of_eq hle) (le_of_eq hli)
      (fun h => hrc ⟨Or.inr h.1, Or.inl h.2⟩),
    hz dof_indices_ext dof_indices_ext _ _ _ (le_of_eq hle) (le_of_eq hle)
      (fun h => hrc ⟨Or.inr h.1, Or.inr h.2⟩)]
  simp only [add_zero]

/-- The four Jacobian blocks on the one-dimensional two-cell example. -/
theorem face_jacobian_four_blocks_witness :
    (example_dg false .implicit_solver).all_parameters.ode_solver_type
        = ODESolverEnum.implicit_solver
      ∧ face_checks_pass (example_dg false .implicit_solver) example_fe_face example_fe_face_ext
          [0, 1] [2, 3]
      ∧ (
      ∃ out, assemble_face_term_implicit (example_dg false .implicit_solver) example_fe_face
          example_fe_face_ext 2 [0, 1]
          [2, 3] (fun _ => 0) (fun _ => 0) = .ok out
        ∧ (∀ r c, out.system_matrix r c = (example_dg false .implicit_solver).system_matrix r c
            + (∑ i in Finset.range example_fe_face.dofs_per_cell,
                ∑ k in Finset.range example_fe_face.dofs_per_cell,
                  if [0, 1].getD i 0 = r ∧ [0, 1].getD k 0 = c then
                    (face_rhs_int (example_dg false .implicit_solver) example_fe_face
                        example_fe_face_ext 2 [0, 1]
                      [2, 3] i).dx k
                  else 0)
            + (∑ i in Finset.range example_fe_face.dofs_per_cell,
                ∑ k in Finset.range example_fe_face_ext.dofs_per_cell,
                  if [0, 1].getD i 0 = r ∧ [2, 3].getD k 0 = c then
                    (face_rhs_int (example_dg false .implicit_solver) example_fe_face
                        example_fe_face_ext 2 [0, 1]
                      [2, 3] i).dx (example_fe_face.dofs_per_cell + k)
                  else 0)
            + (∑ j in Finset.range example_fe_face_ext.dofs_per_cell,
                ∑ k in Finset.range example_fe_face.dofs_per_cell,
                  if [2, 3].getD j 0 = r ∧ [0, 1].getD k 0 = c then
                    (face_rhs_ext (example_dg false .implicit_solver) example_fe_face
                        example_fe_face_ext 2 [0, 1]
                      [2, 3] j).dx k
                  else 0)
            + (∑ j in Finset.range example_fe_face_ext.dofs_per_cell,
                ∑ k in Finset.range example_fe_face_ext.dofs_per_cell,
                  if [2, 3].getD j 0 = r ∧ [2, 3].getD k 0 = c then
                    (face_rhs_ext (example_dg false .implicit_solver) example_fe_face
                        example_fe_face_ext 2 [0, 1]
                      [2, 3] j).dx (example_fe_face.dofs_per_cell + k)
                  else 0))
        ∧ ∀ r c, ¬ ((r ∈ [0, 1] ∨ r ∈ [2, 3])
              ∧ (c ∈ [0, 1] ∨ c ∈ [2, 3])) →
            out.system_matrix r c = (example_dg false .implicit_solver).system_matrix r c) :=
  ⟨rfl, example_face_checks_pass false .implicit_solver,
    face_jacobian_four_blocks (example_dg false .implicit_solver) example_fe_face
      example_fe_face_ext 2 [0, 1] [2, 3] (fun _ => 0) (fun _ => 0) rfl
      (example_face_checks_pass false .implicit_solver)⟩

/-! ## C12: the seeding of the local unknowns -/

/-- The seeding loop gives unknown `k` the one-hot seed of index `k + offset`. -/
theorem seed_soln_coeff_eq_one_hot (solution : RealVector) (dofs_indices : List ℕ)
    (offset n k : ℕ) (h : k + offset < n) :
    seed_soln_coeff solution dofs_indices offset n k
      = one_hot_seed (solution (dofs_indices.getD k 0)) (k + offset) n := by
  unfold seed_soln_coeff one_hot_seed
  ext j
  · rfl
  · show (if j = k + offset then (1 : real) else 0) = if j = k + offset ∧ j < n then 1 else 0
    by_cases hj : j = k + offset
    · rw [if_pos hj, if_pos ⟨hj, hj ▸ h⟩]
    · rw [if_neg hj, if_neg (fun hh => hj hh.1)]

/-- The interpolation loops read the coefficients of the local unknowns only. -/
theorem interpolate_soln_congr (fe : FEValues) (c1 c2 : ℕ → ADtype)
    (h : ∀ k, k < fe.dofs_per_cell → c1 k = c2 k) (iquad : ℕ) :
    interpolate_soln fe c1 iquad = interpolate_soln fe c2 iquad := by
  funext s
  rw [interpolate_soln_eq_sum, interpolate_soln_eq_sum]
  apply Finset.sum_congr rfl
  intro k hk
  rw [h k (Finset.mem_range.mp hk)]

theorem interpolate_grad_congr (fe : FEValues) (c1 c2 : ℕ → ADtype)
    (h : ∀ k, k < fe.dofs_per_cell → c1 k = c2 k) (iquad : ℕ) :
    interpolate_grad fe c1 iquad = interpolate_grad fe c2 iquad := by
  funext s d
  rw [interpolate_grad_eq_sum, interpolate_grad_eq_sum]
  apply Finset.sum_congr rfl
  intro k hk
  rw [h k (Finset.mem_range.mp hk)]

/-- C12: in all three assemblers every local unknown `k` is seeded as the AD scalar whose
value is the solution at its global unknown and whose derivative vector is the unit vector
of its index, of length the total number of local unknowns: `n_dofs_cell` with index `k` in
the cell and boundary assemblers, `n_int + n_ext` in the interior-face assembler with index
`i` for interior unknown `i` and `n_int + i` for exterior unknown `i`; and the states and
gradients the assemblers interpolate are built from these seeds. -/
theorem seeding_is_one_hot (dg : DGStrong) (boundary_id : ℕ)
    (fe_values_vol fe_values_boundary fe_values_int fe_values_ext : FEValues) (penalty : real)
    (cell_dofs_indices dof_indices_bnd dof_indices_int dof_indices_ext : List ℕ) :
    ((∀ k, k < fe_values_vol.dofs_per_cell →
          seed_soln_coeff dg.solution cell_dofs_indices 0 fe_values_vol.dofs_per_cell k
            = one_hot_seed (dg.solution (cell_dofs_indices.getD k 0)) k
                fe_values_vol.dofs_per_cell)
        ∧ ∀ q, cell_soln_at_q dg fe_values_vol cell_dofs_indices q
              = interpolate_soln fe_values_vol
                  (fun k => one_hot_seed (dg.solution (cell_dofs_indices.getD k 0)) k
                    fe_values_vol.dofs_per_cell) q
            ∧ cell_soln_grad_at_q dg fe_values_vol cell_dofs_indices q
              = interpolate_grad fe_values_vol
                  (fun k => one_hot_seed (dg.solution (cell_dofs_indices.getD k 0)) k
                    fe_values_vol.dofs_per_cell) q)
      ∧ ((∀ k, k < fe_values_boundary.dofs_per_cell →
          seed_soln_coeff dg.solution dof_indices_bnd 0 fe_values_boundary.dofs_per_cell k
            = one_hot_seed (dg.solution (dof_indices_bnd.getD k 0)) k
                fe_values_boundary.dofs_per_cell)
        ∧ ∀ q, (boundary_quad_values dg boundary_id fe_values_boundary penalty dof_indices_bnd
                q).soln_int
              = interpolate_soln fe_values_boundary
                  (fun k => one_hot_seed (dg.solution (dof_indices_bnd.getD k 0)) k
                    fe_values_boundary.dofs_per_cell) q
            ∧ (boundary_quad_values dg boundary_id fe_values_boundary penalty dof_indices_bnd
                q).soln_grad_int
              = interpolate_grad fe_values_boundary
                  (fun k => one_hot_seed (dg.solution (dof_indices_bnd.getD k 0)) k
                    fe_values_boundary.dofs_per_cell) q)
      ∧ ((∀ i, i < fe_values_int.dofs_per_cell →
          seed_soln_coeff dg.solution dof_indices_int 0
              (fe_values_int.dofs_per_cell + fe_values_ext.dofs_per_cell) i
            = one_hot_seed (dg.solution (dof_indices_int.getD i 0)) i
                (fe_values_int.dofs_per_cell + fe_values_ext.dofs_per_cell))
        ∧ (∀ i, i < fe_values_ext.dofs_per_cell →
          seed_soln_coeff dg.solution dof_indices_ext fe_values_int.dofs_per_cell
              (fe_values_int.dofs_per_cell + fe_values_ext.dofs_per_cell) i
            = one_hot_seed (dg.solution (dof_indices_ext.getD i 0))
                (fe_values_int.dofs_per_cell + i)
                (fe_values_int.dofs_per_cell + fe_values_ext.dofs_per_cell))
        ∧ ∀ q, (face_quad_values dg fe_values_int fe_values_ext penalty dof_indices_int
                dof_indices_ext q).soln_int
              = interpolate_soln fe_values_int
                  (fun i => one_hot_seed (dg.solution (dof_indices_int.getD i 0)) i
                    (fe_values_int.dofs_per_cell + fe_values_ext.dofs_per_cell)) q
            ∧ (face_quad_values dg fe_values_int fe_values_ext penalty dof_indices_int
                dof_indices_ext q).soln_grad_int
              = interpolate_grad fe_values_int
                  (fun i => one_hot_seed (dg.solution (dof_indices_int.getD i 0)) i
                    (fe_values_int.dofs_per_cell + fe_values_ext.dofs_per_cell)) q
            ∧ (face_quad_values dg fe_values_int fe_values_ext penalty dof_indices_int
                dof_indices_ext q).soln_ext
              = interpolate_soln fe_values_ext
                  (fun i => one_hot_seed (dg.solution (dof_indices_ext.getD i 0))
                    (fe_values_int.dofs_per_cell + i)
                    (fe_values_int.dofs_per_cell + fe_values_ext.dofs_per_cell)) q
            ∧ (face_quad_values dg fe_values_int fe_values_ext penalty dof_indices_int
                dof_indices_ext q).soln_grad_ext
              = interpolate_grad fe_values_ext
                  (fun i => one_hot_seed (dg.solution (dof_indices_ext.getD i 0))
                    (fe_values_int.dofs_per_cell + i)
                    (fe_values_int.dofs_per_cell + fe_values_ext.dofs_per_cell)) q) := by
  have hcell : ∀ (fe : FEValues) (dofs : List ℕ) k, k < fe.dofs_per_cell →
      seed_soln_coeff dg.solution dofs 0 fe.dofs_per_cell k
        = one_hot_seed (dg.solution (dofs.getD k 0)) k fe.dofs_per_cell :=
    fun fe dofs k hk => seed_soln_coeff_eq_one_hot dg.solution dofs 0 fe.dofs_per_cell k hk
  have hint : ∀ i, i < fe_values_int.dofs_per_cell →
      seed_soln_coeff dg.solution dof_indices_int 0
          (fe_values_int.dofs_per_cell + fe_values_ext.dofs_per_cell) i
        = one_hot_seed (dg.solution (dof_indices_int.getD i 0)) i
            (fe_values_int.dofs_per_cell + fe_values_ext.dofs_per_cell) :=
    fun i hi => seed_soln_coeff_eq_one_hot dg.solution dof_indices_int 0 _ i
      (Nat.lt_of_lt_of_le hi (Nat.le_add_right _ _))
  have hext : ∀ i, i < fe_values_ext.dofs_per_cell →
      seed_soln_coeff dg.solution dof_indices_ext fe_values_int.dofs_per_cell
          (fe_values_int.dofs_per_cell + fe_values_ext.dofs_per_cell) i
        = one_hot_seed (dg.solution (dof_indices_ext.getD i 0))
            (fe_values_int.dofs_per_cell + i)
            (fe_values_int.dofs_per_cell + fe_values_ext.dofs_per_cell) := by
    intro i hi
    rw [seed_soln_coeff_eq_one_hot dg.solution dof_indices_ext fe_values_int.dofs_per_cell _ i
      (by omega), Nat.add_comm i]
  exact ⟨⟨hcell _ _, fun q => ⟨interpolate_soln_congr _ _ _ (hcell _ _) q,
      interpolate_grad_congr _ _ _ (hcell _ _) q⟩⟩,
    ⟨hcell _ _, fun q => ⟨interpolate_soln_congr _ _ _ (hcell _ _) q,
      interpolate_grad_congr _ _ _ (hcell _ _) q⟩⟩,
    ⟨hint, hext, fun q => ⟨interpolate_soln_congr _ _ _ hint q,
      interpolate_grad_congr _ _ _ hint q, interpolate_soln_congr _ _ _ hext q,
      interpolate_grad_congr _ _ _ hext q⟩⟩⟩

/-- The seeding on the one-dimensional two-cell example: exterior unknown `1` of the shared
face gets the unit vector of index `n_int + 1 = 3` among `n_int + n_ext = 4` unknowns. -/
theorem seeding_is_one_hot_witness :
    (1 < example_fe_face_ext.dofs_per_cell)
      ∧ seed_soln_coeff (example_dg false .implicit_solver).solution [2, 3]
          example_fe_face.dofs_per_cell
          (example_fe_face.dofs_per_cell + example_fe_face_ext.dofs_per_cell) 1
        = one_hot_seed ((example_dg false .implicit_solver).solution ([2, 3].getD 1 0))
            (example_fe_face.dofs_per_cell + 1)
            (example_fe_face.dofs_per_cell + example_fe_face_ext.dofs_per_cell) :=
  ⟨by decide,
    (seeding_is_one_hot (example_dg false .implicit_solver) 0 example_fe example_fe_face
      example_fe_face example_fe_face_ext 2 [0, 1] [0, 1] [0, 1] [2, 3]).2.2.2.1 1
      (by decide)⟩

/-! ## C13: a dimension mismatch fails at entry -/

/-- When a loop of fallible iterations returns, the accumulators it leaves behind are its
result. -/
theorem loop_accumulators_of_ok {σ : Type} (step : σ → ℕ → Except AssemblyError σ)
    (l : List ℕ) (init out : σ) (h : l.foldlM step init = .ok out) :
    loop_accumulators step l init = out := by
  induction l generalizing init with
  | nil =>
    have h' : (Except.ok init : Except AssemblyError σ) = .ok out := h
    exact Except.ok.inj h'
  | cons i rest ih =>
    rw [List.foldlM_cons] at h
    unfold loop_accumulators
    cases hs : step init i with
    | error e =>
      rw [hs] at h
      exact absurd h (by intro hh; cases hh)
    | ok acc =>
      rw [hs] at h
      exact ih acc h

/-- When the cell assembler returns, the accumulators after the call are its result. -/
theorem cell_accumulators_of_ok (dg : DGStrong) (fe_values_vol fe_values_lagrange : FEValues)
    (cell_dofs_indices : List ℕ) (r0 : RealVector) (out : RealVector × SystemMatrix)
    (h : assemble_cell_terms_implicit dg fe_values_vol fe_values_lagrange cell_dofs_indices r0
      = .ok out) :
    assemble_cell_terms_implicit_accumulators dg fe_values_vol fe_values_lagrange
      cell_dofs_indices r0 = out := by
  unfold assemble_cell_terms_implicit at h
  unfold assemble_cell_terms_implicit_accumulators
  simp only [] at h ⊢
  by_cases h1 : fe_values_vol.dofs_per_cell ≠ cell_dofs_indices.length
  · rw [if_pos h1] at h; cases h
  rw [if_neg h1] at h ⊢
  by_cases h2 : ¬ interpolation_in_range dg.nstate fe_values_vol
      fe_values_vol.n_quadrature_points
  · rw [if_pos h2] at h; cases h
  rw [if_neg h2] at h ⊢
  by_cases h3 : ¬ cell_flux_loops_in_range dg fe_values_vol fe_values_lagrange
  · rw [if_pos h3] at h; cases h
  rw [if_neg h3] at h ⊢
  exact loop_accumulators_of_ok _ _ _ _ h

/-- When the boundary assembler returns, the accumulators after the call are its result. -/
theorem boundary_accumulators_of_ok (dg : DGStrong) (boundary_id : ℕ)
    (fe_values_boundary : FEValues) (penalty : real) (dof_indices_int : List ℕ)
    (r0 : RealVector) (out : RealVector × SystemMatrix)
    (h : assemble_boundary_term_implicit dg boundary_id fe_values_boundary penalty
      dof_indices_int r0 = .ok out) :
    assemble_boundary_term_implicit_accumulators dg boundary_id fe_values_boundary penalty
      dof_indices_int r0 = out := by
  unfold assemble_boundary_term_implicit at h
  unfold assemble_boundary_term_implicit_accumulators
  simp only [] at h ⊢
  by_cases h1 : fe_values_boundary.dofs_per_cell ≠ dof_indices_int.length
  · rw [if_pos h1] at h; cases h
  rw [if_neg h1] at h ⊢
  by_cases h2 : ¬ interpolation_in_range dg.nstate fe_values_boundary
      fe_values_boundary.n_quadrature_points
  · rw [if_pos h2] at h; cases h
  rw [if_neg h2] at h ⊢
  exact Except.ok.inj h

/-- When the interior-face assembler returns, the accumulators after the call are its
result. -/
theorem face_accumulators_of_ok (dg : DGStrong) (fe_values_int fe_values_ext : FEValues)
    (penalty : real) (dof_indices_int dof_indices_ext : List ℕ) (r_int r_ext : RealVector)
    (out : FaceOutput)
    (h : assemble_face_term_implicit dg fe_values_int fe_values_ext penalty dof_indices_int
      dof_indices_ext r_int r_ext = .ok out) :
    assemble_face_term_implicit_accumulators dg fe_values_int fe_values_ext penalty
      dof_indices_int dof_indices_ext r_int r_ext = out := by
  unfold assemble_face_term_implicit at h
  unfold assemble_face_term_implicit_accumulators
  simp only [] at h ⊢
  by_cases h1 : fe_values_int.dofs_per_cell ≠ dof_indices_int.length
  · rw [if_pos h1] at h; cases h
  rw [if_neg h1] at h ⊢
  by_cases h2 : fe_values_ext.dofs_per_cell ≠ dof_indices_ext.length
  · rw [if_pos h2] at h; cases h
  rw [if_neg h2] at h ⊢
  by_cases h3 : ¬ fe_values_ext.n_quadrature_points ≤ fe_values_int.n_quadrature_points
  · rw [if_pos h3] at h; cases h
  rw [if_neg h3] at h ⊢
  by_cases h4 : ¬ (interpolation_in_range dg.nstate fe_values_int
      fe_values_ext.n_quadrature_points
      ∧ interpolation_in_range dg.nstate fe_values_ext fe_values_ext.n_quadrature_points)
  · rw [if_pos h4] at h; cases h
  rw [if_neg h4] at h ⊢
  exact loop_accumulators_of_ok _ _ _ _ h

/-- C13: if the number of unknowns reported by the basis differs from the length of the
supplied index list (for the interior-face assembler: on either side), the assembler fails
with a dimension mismatch, and the residual vector(s) and the system matrix after the call
are the ones before it: the check precedes every write. -/
theorem dimension_mismatch_fails_at_entry (dg : DGStrong) (boundary_id : ℕ)
    (fe_values_vol fe_values_lagrange fe_values_boundary fe_values_int fe_values_ext : FEValues)
    (penalty : real) (cell_dofs_indices dof_indices_bnd dof_indices_int dof_indices_ext : List ℕ)
    (r0 r_int r_ext : RealVector) :
    (fe_values_vol.dofs_per_cell ≠ cell_dofs_indices.length →
        assemble_cell_terms_implicit dg fe_values_vol fe_values_lagrange cell_dofs_indices r0
            = .error .dimension_mismatch
          ∧ assemble_cell_terms_implicit_accumulators dg fe_values_vol fe_values_lagrange
              cell_dofs_indices r0 = (r0, dg.system_matrix))
      ∧ (fe_values_boundary.dofs_per_cell ≠ dof_indices_bnd.length →
        assemble_boundary_term_implicit dg boundary_id fe_values_boundary penalty
            dof_indices_bnd r0 = .error .dimension_mismatch
          ∧ assemble_boundary_term_implicit_accumulators dg boundary_id fe_values_boundary
              penalty dof_indices_bnd r0 = (r0, dg.system_matrix))
      ∧ (fe_values_int.dofs_per_cell ≠ dof_indices_int.length
          ∨ fe_values_ext.dofs_per_cell ≠ dof_indices_ext.length →
        assemble_face_term_implicit dg fe_values_int fe_values_ext penalty dof_indices_int
            dof_indices_ext r_int r_ext = .error .dimension_mismatch
          ∧ assemble_face_term_implicit_accumulators dg fe_values_int fe_values_ext penalty
              dof_indices_int dof_indices_ext r_int r_ext
            = ⟨r_int, r_ext, dg.system_matrix⟩) := by
  refine ⟨fun h => ⟨?_, ?_⟩, fun h => ⟨?_, ?_⟩, fun h => ⟨?_, ?_⟩⟩
  · unfold assemble_cell_terms_implicit
    simp only []
    rw [if_pos h]
  · unfold assemble_cell_terms_implicit_accumulators
    simp only []
    rw [if_pos h]
  · unfold assemble_boundary_term_implicit
    simp only []
    rw [if_pos h]
  · unfold assemble_boundary_term_implicit_accumulators
    simp only []
    rw [if_pos h]
  · unfold assemble_face_term_implicit
    simp only []
    by_cases h1 : fe_values_int.dofs_per_cell ≠ dof_indices_int.length
    · rw [if_pos h1]
    · rw [if_neg h1, if_pos (h.resolve_left h1)]
  · unfold assemble_face_term_implicit_accumulators
    simp only []
    by_cases h1 : fe_values_int.dofs_per_cell ≠ dof_indices_int.length
    · rw [if_pos h1]
    · rw [if_neg h1, if_pos (h.resolve_left h1)]

/-- The dimension mismatch on the one-dimensional example: the element reports two unknowns
and the index lists `[0]` (cell, boundary, interior side) and `[2, 3, 4]` (exterior side) are
supplied. -/
theorem dimension_mismatch_fails_at_entry_witness :
    example_fe.dofs_per_cell ≠ [0].length
      ∧ example_fe_face.dofs_per_cell ≠ [0].length
      ∧ example_fe_face_ext.dofs_per_cell ≠ [2, 3, 4].length
      ∧ assemble_cell_terms_implicit (example_dg false .implicit_solver) example_fe example_fe
          [0] (fun i => i) = .error .dimension_mismatch
      ∧ assemble_cell_terms_implicit_accumulators (example_dg false .implicit_solver) example_fe
          example_fe [0] (fun i => i)
        = ((fun (i : ℕ) => (i : real)), (example_dg false .implicit_solver).system_matrix)
      ∧ assemble_boundary_term_implicit (example_dg false .implicit_solver) 0 example_fe_face 2
          [0] (fun i => i) = .error .dimension_mismatch
      ∧ assemble_face_term_implicit (example_dg false .implicit_solver) example_fe_face
          example_fe_face_ext 2 [0, 1] [2, 3, 4] (fun i => i) (fun i => i)
        = .error .dimension_mismatch :=
  have h := dimension_mismatch_fails_at_entry (example_dg false .implicit_solver) 0 example_fe
    example_fe example_fe_face example_fe_face example_fe_face_ext 2 [0] [0] [0, 1] [2, 3, 4]
    (fun i => i) (fun i => i) (fun i => i)
  ⟨by decide, by decide, by decide, (h.1 (by decide)).1, (h.1 (by decide)).2,
    (h.2.1 (by decide)).1, (h.2.2 (Or.inr (by decide))).1⟩

/-! ## C14: the split form on a discretization that is not collocated -/

/-- The cell assembler never reads `use_collocated_nodes`: the only statement that did, the
`assert` of line 181, is commented out. -/
theorem cell_ignores_collocated_nodes (dg : DGStrong)
    (fe_values_vol fe_values_lagrange : FEValues) (cell_dofs_indices : List ℕ)
    (r0 : RealVector) (b : Bool) :
    assemble_cell_terms_implicit (dg.with_collocated_nodes b) fe_values_vol fe_values_lagrange
        cell_dofs_indices r0
      = assemble_cell_terms_implicit dg fe_values_vol fe_values_lagrange cell_dofs_indices
          r0 := rfl

theorem example_split_form_value_one :
    (-cell_split_pair_rhs (example_dg true .implicit_solver) example_fe [0, 1] identity_pair 1
      - cell_split_pair_rhs (example_dg true .implicit_solver) example_fe [0, 1] identity_pair 1
      + cell_diss_source_rhs (example_dg true .implicit_solver) example_fe [0, 1] 1).val
      = -3 := by
  simp [cell_split_pair_rhs, cell_diss_source_rhs, split_g_accumulation, identity_pair,
    cell_soln_at_q, cell_soln_grad_at_q,
    interpolate_soln_eq_sum, interpolate_grad_eq_sum, dotAR_eq_sum, dotRA_eq_sum,
    Finset.sum_range_succ, example_dg, example_fe, example_physics, seed_soln_coeff,
    ADtype.val_sum]
  norm_num

/-- C14, the code at the failing input: on the one-dimensional example with `use_split_form`
enabled and `use_collocated_nodes` disabled, the cell assembler does not fail: it returns
the residual entries `0` and `-3`, the same result as with `use_collocated_nodes` enabled. -/
theorem split_form_without_collocation_returns :
    ((example_dg true .implicit_solver).with_collocated_nodes false).all_parameters.use_split_form
        = true
      ∧ ((example_dg true .implicit_solver).with_collocated_nodes
          false).all_parameters.use_collocated_nodes = false
      ∧ ∃ out, assemble_cell_terms_implicit
            ((example_dg true .implicit_solver).with_collocated_nodes false) example_fe
            example_fe [0, 1] (fun _ => 0) = .ok out
          ∧ out.1 0 = 0 ∧ out.1 1 = -3
          ∧ assemble_cell_terms_implicit
              ((example_dg true .implicit_solver).with_collocated_nodes false) example_fe
              example_fe [0, 1] (fun _ => 0)
            = assemble_cell_terms_implicit
              ((example_dg true .implicit_solver).with_collocated_nodes true) example_fe
              example_fe [0, 1] (fun _ => 0) := by
  have hok : cell_checks_pass ((example_dg true .implicit_solver).with_collocated_nodes false)
      example_fe example_fe [0, 1] := example_cell_checks_pass true .implicit_solver
  refine ⟨rfl, rfl, _, assemble_cell_eq_ok _ _ _ _ _ hok, ?_, ?_,
    (cell_ignores_collocated_nodes (example_dg true .implicit_solver) example_fe example_fe
      [0, 1] (fun _ => 0) false).trans
    (cell_ignores_collocated_nodes (example_dg true .implicit_solver) example_fe example_fe
      [0, 1] (fun _ => 0) true).symm⟩
  · rw [scatter_loop_fst, if_pos (by decide),
      cell_rhs_eq_split_form _ _ _ _ _ rfl Nat.zero_lt_one]
    exact (zero_add _).trans example_split_form_value
  · rw [scatter_loop_fst, if_pos (by decide),
      cell_rhs_eq_split_form _ _ _ _ _ rfl Nat.zero_lt_one]
    exact (zero_add _).trans example_split_form_value_one

/-! ## C15: the check of the two sets of quadrature weights -/

theorem example_heavy_checks_pass :
    cell_checks_pass (example_dg false .implicit_solver) example_fe example_fe_heavy [0, 1] := by
  refine ⟨rfl, ?_, ?_, ?_, ?_⟩
  · intro _ _ _ _; exact Nat.zero_lt_one
  · intro _ _
    exact ⟨Nat.le_refl _, Nat.le_refl _, Nat.le_refl _, rfl, rfl⟩
  · intro h; exact absurd h (by decide)
  · intro _ iquad hq
    refine ⟨hq, ?_⟩
    show (1 / 2 : ℚ) - 1 < 1 / 10 ^ 14
    norm_num

theorem example_heavy_strong_form_value :
    (cell_strong_form_rhs (example_dg false .implicit_solver) example_fe example_fe_heavy
      [0, 1] 0).val = 1 / 2 := by
  simp [cell_strong_form_rhs, lagrange_divergence, cell_soln_at_q, cell_soln_grad_at_q,
    interpolate_soln_eq_sum, interpolate_grad_eq_sum, dotAR_eq_sum, dotRA_eq_sum,
    Finset.sum_range_succ, example_dg, example_fe, example_fe_heavy, example_physics,
    seed_soln_coeff, ADtype.val_sum]

theorem example_heavy_quad_checks_fail :
    cell_quad_checks example_fe_heavy example_fe = .error .assertion_failed := by
  unfold cell_quad_checks
  rw [show List.range example_fe_heavy.n_quadrature_points = [0, 1] from rfl,
    List.forM_cons']
  have h1 : ¬ ¬ 0 < example_fe.n_quadrature_points := not_not.mpr (by decide)
  have h2 : ¬ (example_fe_heavy.JxW 0 - example_fe.JxW 0 < 1 / 10 ^ 14) := by
    show ¬ ((1 : ℚ) - 1 / 2 < 1 / 10 ^ 14)
    norm_num
  rw [if_neg h1, if_pos h2]
  rfl

/-- C15, the code at the failing input: on the one-dimensional example the weights of the
solution basis are `1/2` and those of the Lagrange basis are `1`, so they disagree by `1/2`
in absolute value at every quadrature point, and yet the cell assembler returns a residual
(entry `0` is `1/2`); with the roles of the two sets of weights exchanged it aborts. The
`assert` of line 202 compares the signed difference, without an absolute value. -/
theorem weight_check_is_one_sided :
    (∀ q, q < example_fe.n_quadrature_points →
        1 / 10 ^ 14 ≤ |example_fe.JxW q - example_fe_heavy.JxW q|)
      ∧ (∃ out, assemble_cell_terms_implicit (example_dg false .implicit_solver) example_fe
            example_fe_heavy [0, 1] (fun _ => 0) = .ok out
          ∧ out.1 0 = 1 / 2)
      ∧ assemble_cell_terms_implicit (example_dg false .implicit_solver) example_fe_heavy
          example_fe [0, 1] (fun _ => 0) = .error .assertion_failed := by
  refine ⟨?_, ⟨_, assemble_cell_eq_ok _ _ _ _ _ example_heavy_checks_pass, ?_⟩, ?_⟩
  · intro q _
    show (1 / 10 ^ 14 : ℚ) ≤ |1 / 2 - 1|
    rw [abs_of_neg (by norm_num)]
    norm_num
  · rw [scatter_loop_fst, if_pos (by decide),
      cell_rhs_eq_strong_form _ _ _ _ _ rfl example_heavy_checks_pass.2.1 (by decide)]
    exact (zero_add _).trans example_heavy_strong_form_value
  · have hint : interpolation_in_range (example_dg false .implicit_solver).nstate
        example_fe_heavy example_fe_heavy.n_quadrature_points :=
      fun _ _ _ _ => Nat.zero_lt_one
    have hflux : cell_flux_loops_in_range (example_dg false .implicit_solver) example_fe_heavy
        example_fe :=
      fun _ _ => ⟨Nat.le_refl _, Nat.le_refl _, Nat.le_refl _, rfl, rfl⟩
    have hdim : example_fe_heavy.dofs_per_cell = [0, 1].length := rfl
    unfold assemble_cell_terms_implicit
    simp only []
    rw [if_neg (not_not.mpr hdim), if_neg (not_not.mpr hint), if_neg (not_not.mpr hflux)]
    rw [show List.range example_fe_heavy.dofs_per_cell = [0, 1] from rfl, List.foldlM_cons]
    have hstep : cell_test_step (example_dg false .implicit_solver) example_fe_heavy example_fe
        [0, 1] ((fun _ => 0), (example_dg false .implicit_solver).system_matrix) 0
        = .error .assertion_failed := by
      unfold cell_test_step
      rw [example_heavy_quad_checks_fail]
      rfl
    rw [hstep]
    rfl

/-! ## C16: the order of two assembler calls -/

theorem faceOutput_eq (a b : FaceOutput) (h1 : a.local_rhs_int_cell = b.local_rhs_int_cell)
    (h2 : a.local_rhs_ext_cell = b.local_rhs_ext_cell) (h3 : a.system_matrix = b.system_matrix) :
    a = b := by
  cases a; cases b
  simp only [FaceOutput.mk.injEq]
  exact ⟨h1, h2, h3⟩

/-- A call issued on any accumulators adds to them what it leaves in empty accumulators. -/
theorem assemblerCall_run_additive (dg : DGStrong) (call : AssemblerCall) (acc : FaceOutput) :
    call.run dg acc
      = (call.run dg FaceOutput.zero).map
          (add_face_accumulators acc.local_rhs_int_cell acc.local_rhs_ext_cell
            acc.system_matrix) := by
  cases call with
  | cell fe_values_vol fe_values_lagrange cell_dofs_indices ext_side =>
    unfold AssemblerCall.run
    simp only []
    rw [assemble_cell_additive (dg.with_system_matrix acc.system_matrix), except_map_map,
      except_map_map]
    have e : (dg.with_system_matrix acc.system_matrix).with_system_matrix (fun _ _ => 0)
        = dg.with_system_matrix FaceOutput.zero.system_matrix := rfl
    rw [e]
    cases ext_side
    · have hz : FaceOutput.zero.side false = fun _ => 0 := rfl
      rw [hz]
      congr 1
      funext out
      apply faceOutput_eq
      · rfl
      · funext i
        show acc.local_rhs_ext_cell i = acc.local_rhs_ext_cell i + 0
        rw [add_zero]
      · rfl
    · have hz : FaceOutput.zero.side true = fun _ => 0 := rfl
      rw [hz]
      congr 1
      funext out
      apply faceOutput_eq
      · funext i
        show acc.local_rhs_int_cell i = acc.local_rhs_int_cell i + 0
        rw [add_zero]
      · rfl
      · rfl
  | boundary boundary_id fe_values_boundary penalty dof_indices_int ext_side =>
    unfold AssemblerCall.run
    simp only []
    rw [assemble_boundary_additive (dg.with_system_matrix acc.system_matrix), except_map_map,
      except_map_map]
    have e : (dg.with_system_matrix acc.system_matrix).with_system_matrix (fun _ _ => 0)
        = dg.with_system_matrix FaceOutput.zero.system_matrix := rfl
    rw [e]
    cases ext_side
    · have hz : FaceOutput.zero.side false = fun _ => 0 := rfl
      rw [hz]
      congr 1
      funext out
      apply faceOutput_eq
      · rfl
      · funext i
        show acc.local_rhs_ext_cell i = acc.local_rhs_ext_cell i + 0
        rw [add_zero]
      · rfl
    · have hz : FaceOutput.zero.side true = fun _ => 0 := rfl
      rw [hz]
      congr 1
      funext out
      apply faceOutput_eq
      · funext i
        show acc.local_rhs_int_cell i = acc.local_rhs_int_cell i + 0
        rw [add_zero]
      · rfl
      · rfl
  | face fe_values_int fe_values_ext penalty dof_indices_int dof_indices_ext =>
    unfold AssemblerCall.run
    simp only []
    rw [assemble_face_additive (dg.with_system_matrix acc.system_matrix)]
    rfl

theorem add_face_accumulators_comm (acc d1 d2 : FaceOutput) :
    add_face_accumulators
        (add_face_accumulators acc.local_rhs_int_cell acc.local_rhs_ext_cell acc.system_matrix
          d1).local_rhs_int_cell
        (add_face_accumulators acc.local_rhs_int_cell acc.local_rhs_ext_cell acc.system_matrix
          d1).local_rhs_ext_cell
        (add_face_accumulators acc.local_rhs_int_cell acc.local_rhs_ext_cell acc.system_matrix
          d1).system_matrix d2
      = add_face_accumulators
        (add_face_accumulators acc.local_rhs_int_cell acc.local_rhs_ext_cell acc.system_matrix
          d2).local_rhs_int_cell
        (add_face_accumulators acc.local_rhs_int_cell acc.local_rhs_ext_cell acc.system_matrix
          d2).local_rhs_ext_cell
        (add_face_accumulators acc.local_rhs_int_cell acc.local_rhs_ext_cell acc.system_matrix
          d2).system_matrix d1 := by
  apply faceOutput_eq
  · funext i
    show acc.local_rhs_int_cell i + d1.local_rhs_int_cell i + d2.local_rhs_int_cell i
      = acc.local_rhs_int_cell i + d2.local_rhs_int_cell i + d1.local_rhs_int_cell i
    ring
  · funext i
    show acc.local_rhs_ext_cell i + d1.local_rhs_ext_cell i + d2.local_rhs_ext_cell i
      = acc.local_rhs_ext_cell i + d2.local_rhs_ext_cell i + d1.local_rhs_ext_cell i
    ring
  · funext r c
    show acc.system_matrix r c + d1.system_matrix r c + d2.system_matrix r c
      = acc.system_matrix r c + d2.system_matrix r c + d1.system_matrix r c
    ring

/-- Two calls issued one after the other, in terms of what each leaves in empty
accumulators. -/
theorem assemblerCall_run_two (dg : DGStrong) (c1 c2 : AssemblerCall) (acc : FaceOutput) :
    (c1.run dg acc).bind (c2.run dg)
      = match c1.run dg FaceOutput.zero, c2.run dg FaceOutput.zero with
        | .ok d1, .ok d2 =>
          .ok (add_face_accumulators
            (add_face_accumulators acc.local_rhs_int_cell acc.local_rhs_ext_cell
              acc.system_matrix d1).local_rhs_int_cell
            (add_face_accumulators acc.local_rhs_int_cell acc.local_rhs_ext_cell
              acc.system_matrix d1).local_rhs_ext_cell
            (add_face_accumulators acc.local_rhs_int_cell acc.local_rhs_ext_cell
              acc.system_matrix d1).system_matrix d2)
        | .ok _, .error e => .error e
        | .error e, _ => .error e := by
  rw [assemblerCall_run_additive dg c1 acc]
  cases h1 : c1.run dg FaceOutput.zero with
  | error e => rfl
  | ok d1 =>
    show c2.run dg _ = _
    rw [assemblerCall_run_additive dg c2]
    cases h2 : c2.run dg FaceOutput.zero with
    | error e => rfl
    | ok d2 => rfl

/-- C16: for any two assembler calls made against the same solution snapshot, issuing them
in either order on the same residual vectors and system matrix gives the same final
residual vectors and the same final system matrix: one order returns a result exactly when
the other returns the same result, and both do when each call returns on its own. -/
theorem assembly_order_independent (dg : DGStrong) (c1 c2 : AssemblerCall) (acc : FaceOutput) :
    (∀ out, (c1.run dg acc).bind (c2.run dg) = .ok out
        ↔ (c2.run dg acc).bind (c1.run dg) = .ok out)
      ∧ ((∃ a, c1.run dg acc = .ok a) → (∃ b, c2.run dg acc = .ok b) →
          ∃ out, (c1.run dg acc).bind (c2.run dg) = .ok out
            ∧ (c2.run dg acc).bind (c1.run dg) = .ok out) := by
  rw [assemblerCall_run_two dg c1 c2 acc, assemblerCall_run_two dg c2 c1 acc,
    assemblerCall_run_additive dg c1 acc, assemblerCall_run_additive dg c2 acc]
  cases h1 : c1.run dg FaceOutput.zero with
  | error e1 =>
    cases h2 : c2.run dg FaceOutput.zero with
    | error e2 =>
      refine ⟨fun out => ⟨fun h => ?_, fun h => ?_⟩, fun ⟨a, ha⟩ => ?_⟩
      · cases h
      · cases h
      · cases ha
    | ok d2 =>
      refine ⟨fun out => ⟨fun h => ?_, fun h => ?_⟩, fun ⟨a, ha⟩ => ?_⟩
      · cases h
      · cases h
      · cases ha
  | ok d1 =>
    cases h2 : c2.run dg FaceOutput.zero with
    | error e2 =>
      refine ⟨fun out => ⟨fun h => ?_, fun h => ?_⟩, fun _ ⟨b, hb⟩ => ?_⟩
      · cases h
      · cases h
      · cases hb
    | ok d2 =>
      refine ⟨fun out => ?_, fun _ _ => ⟨_, rfl, ?_⟩⟩
      · show Except.ok _ = Except.ok out ↔ Except.ok _ = Except.ok out
        rw [add_face_accumulators_comm acc d1 d2]
      · show Except.ok _ = Except.ok _
        rw [add_face_accumulators_comm acc d1 d2]

/-- The order of a cell call and of a face call on the one-dimensional two-cell example,
issued on empty accumulators. -/
theorem assembly_order_independent_witness :
    (∃ a, (AssemblerCall.cell example_fe example_fe [0, 1] false).run
        (example_dg false .implicit_solver) FaceOutput.zero = .ok a)
      ∧ (∃ b, (AssemblerCall.face example_fe_face example_fe_face_ext 2 [0, 1] [2, 3]).run
        (example_dg false .implicit_solver) FaceOutput.zero = .ok b)
      ∧ ∃ out,
        ((AssemblerCall.cell example_fe example_fe [0, 1] false).run
            (example_dg false .implicit_solver) FaceOutput.zero).bind
          ((AssemblerCall.face example_fe_face example_fe_face_ext 2 [0, 1] [2, 3]).run
            (example_dg false .implicit_solver)) = .ok out
        ∧ ((AssemblerCall.face example_fe_face example_fe_face_ext 2 [0, 1] [2, 3]).run
            (example_dg false .implicit_solver) FaceOutput.zero).bind
          ((AssemblerCall.cell example_fe example_fe [0, 1] false).run
            (example_dg false .implicit_solver)) = .ok out :=
  have hc : cell_checks_pass
      ((example_dg false .implicit_solver).with_system_matrix FaceOutput.zero.system_matrix)
      example_fe example_fe [0, 1] := example_cell_checks_pass false .implicit_solver
  have hf : face_checks_pass
      ((example_dg false .implicit_solver).with_system_matrix FaceOutput.zero.system_matrix)
      example_fe_face example_fe_face_ext [0, 1] [2, 3] :=
    example_face_checks_pass false .implicit_solver
  have h1 : ∃ a, (AssemblerCall.cell example_fe example_fe [0, 1] false).run
      (example_dg false .implicit_solver) FaceOutput.zero = .ok a :=
    ⟨_, congrArg (Except.map (FaceOutput.zero.put false))
      (assemble_cell_eq_ok _ _ _ _ (FaceOutput.zero.side false) hc)⟩
  have h2 : ∃ b, (AssemblerCall.face example_fe_face example_fe_face_ext 2 [0, 1] [2, 3]).run
      (example_dg false .implicit_solver) FaceOutput.zero = .ok b :=
    ⟨_, assemble_face_eq_ok _ _ _ _ _ _ _ _ hf⟩
  ⟨h1, h2, (assembly_order_independent (example_dg false .implicit_solver)
    (AssemblerCall.cell example_fe example_fe [0, 1] false)
    (AssemblerCall.face example_fe_face example_fe_face_ext 2 [0, 1] [2, 3])
    FaceOutput.zero).2 h1 h2⟩

/-! ## C17: the upwind flux on a one-dimensional two-cell mesh -/

theorem advection_face_checks_pass (a : real) (u : RealVector) :
    face_checks_pass (advection_dg a u) example_fe_face example_fe_face_ext [0, 1] [2, 3] :=
  ⟨rfl, rfl, Nat.le_refl _, fun _ _ _ _ => Nat.zero_lt_one, fun _ _ _ _ => Nat.zero_lt_one,
    Nat.le_refl _⟩

theorem upwind_face_rhs_values (a : real) (u : RealVector) (penalty : real) :
    (face_rhs_int (advection_dg a u) example_fe_face example_fe_face_ext penalty [0, 1] [2, 3]
        0).val = 0
      ∧ (face_rhs_int (advection_dg a u) example_fe_face example_fe_face_ext penalty [0, 1]
        [2, 3] 1).val = (if 0 ≤ a then 0 else a * (u 1 - u 2))
      ∧ (face_rhs_ext (advection_dg a u) example_fe_face example_fe_face_ext penalty [0, 1]
        [2, 3] 0).val = (if 0 ≤ a then a * (u 1 - u 2) else 0)
      ∧ (face_rhs_ext (advection_dg a u) example_fe_face example_fe_face_ext penalty [0, 1]
        [2, 3] 1).val = 0 := by
  refine ⟨?_, ?_, ?_, ?_⟩
  · rw [face_rhs_int_eq_terms]
    simp [face_num_flux_term_int, face_physical_term_int, face_num_flux_sum, face_quad_values,
      example_fe_face, example_fe_face_ext, advection_dg, advection_physics, upwind_flux,
      no_diss_num_flux, interpolate_soln_eq_sum, interpolate_grad_eq_sum, dotAR_eq_sum,
      dotRA_eq_sum, Finset.sum_range_succ, seed_soln_coeff, tensorOfReal, diss_soln_jump,
      ADtype.val_sum]
    split_ifs <;> simp
  · rw [face_rhs_int_eq_terms]
    simp [face_num_flux_term_int, face_physical_term_int, face_num_flux_sum, face_quad_values,
      example_fe_face, example_fe_face_ext, advection_dg, advection_physics, upwind_flux,
      no_diss_num_flux, interpolate_soln_eq_sum, interpolate_grad_eq_sum, dotAR_eq_sum,
      dotRA_eq_sum, Finset.sum_range_succ, seed_soln_coeff, tensorOfReal, diss_soln_jump,
      ADtype.val_sum]
    by_cases h : 0 ≤ a
    · simp [h]
      try ring
    · simp [h]
      try ring
  · rw [face_rhs_ext_eq_terms]
    simp [face_num_flux_term_ext, face_physical_term_ext, face_num_flux_sum, face_quad_values,
      example_fe_face, example_fe_face_ext, advection_dg, advection_physics, upwind_flux,
      no_diss_num_flux, interpolate_soln_eq_sum, interpolate_grad_eq_sum, dotAR_eq_sum,
      dotRA_eq_sum, Finset.sum_range_succ, seed_soln_coeff, tensorOfReal, diss_soln_jump,
      ADtype.val_sum]
    by_cases h : 0 ≤ a
    · simp [h]
      try ring
    · simp [h]
      try ring
  · rw [face_rhs_ext_eq_terms]
    simp [face_num_flux_term_ext, face_physical_term_ext, face_num_flux_sum, face_quad_values,
      example_fe_face, example_fe_face_ext, advection_dg, advection_physics, upwind_flux,
      no_diss_num_flux, interpolate_soln_eq_sum, interpolate_grad_eq_sum, dotAR_eq_sum,
      dotRA_eq_sum, Finset.sum_range_succ, seed_soln_coeff, tensorOfReal, diss_soln_jump,
      ADtype.val_sum]
    split_ifs <;> simp

/-- What the interior-face assembler adds, from zero residual vectors, for the shared face of
the two-cell mesh. -/
theorem upwind_face_output_values (a : real) (u : RealVector) (penalty : real) :
    ∃ out, assemble_face_term_implicit (advection_dg a u) example_fe_face example_fe_face_ext
        penalty [0, 1] [2, 3] (fun _ => 0) (fun _ => 0) = .ok out
      ∧ out.local_rhs_int_cell 0 = 0
      ∧ out.local_rhs_int_cell 1 = (if 0 ≤ a then 0 else a * (u 1 - u 2))
      ∧ out.local_rhs_ext_cell 0 = (if 0 ≤ a then a * (u 1 - u 2) else 0)
      ∧ out.local_rhs_ext_cell 1 = 0 := by
  obtain ⟨h0, h1, h2, h3⟩ := upwind_face_rhs_values a u penalty
  refine ⟨_, assemble_face_eq_loops _ _ _ _ _ _ _ _ (advection_face_checks_pass a u),
    ?_, ?_, ?_, ?_⟩
  · rw [face_loops_int, if_pos (by decide), h0]; exact zero_add _
  · rw [face_loops_int, if_pos (by decide), h1]; exact zero_add _
  · rw [face_loops_ext, if_pos (by decide), h2]; exact zero_add _
  · rw [face_loops_ext, if_pos (by decide), h3]; exact zero_add _

/-- C17, counterexample: on the two-cell mesh with the speed `1`, the upwind flux and the
solution `(1, 2 | 3, 4)`, which jumps from `2` to `3` across the shared face, the face
assembler adds `(0, 0)` to the residual of the first cell and `(-1, 0)` to the residual of the
second: neither the entries of the two face nodes nor the totals of the two cells are
negatives of each other. -/
theorem upwind_face_counterexample :
    ∃ out, assemble_face_term_implicit (advection_dg 1 (fun i => i + 1)) example_fe_face
        example_fe_face_ext 2 [0, 1] [2, 3] (fun _ => 0) (fun _ => 0) = .ok out
      ∧ out.local_rhs_int_cell 0 = 0 ∧ out.local_rhs_int_cell 1 = 0
      ∧ out.local_rhs_ext_cell 0 = -1 ∧ out.local_rhs_ext_cell 1 = 0
      ∧ out.local_rhs_int_cell 1 ≠ -out.local_rhs_ext_cell 0
      ∧ out.local_rhs_int_cell 0 + out.local_rhs_int_cell 1
        ≠ -(out.local_rhs_ext_cell 0 + out.local_rhs_ext_cell 1) := by
  obtain ⟨out, hout, h0, h1, h2, h3⟩ := upwind_face_output_values 1 (fun i => i + 1) 2
  have h1' : out.local_rhs_int_cell 1 = 0 := by
    rw [h1]; norm_num
  have h2' : out.local_rhs_ext_cell 0 = -1 := by
    rw [h2]; norm_num
  refine ⟨out, hout, h0, h1', h2', h3, ?_, ?_⟩
  · rw [h1', h2']; norm_num
  · rw [h0, h1', h2', h3]; norm_num

/-- C17, amended: on the one-dimensional mesh of two cells sharing one face, with a degree-1
basis, scalar linear advection of speed `a` and the upwind flux, the numerical-flux parts of
what the face assembler adds at the two face nodes are exact negatives of each other, and
the contributions themselves are `-(F* - a u_int)` at the interior face node and
`F* - a u_ext` at the exterior one (zero at the other two nodes): their sum is
`a (u_int - u_ext)`, so they are exact negatives of each other exactly when `a = 0` or the
solution is continuous across the face. -/
theorem upwind_face_contributions (a : real) (u : RealVector) (penalty : real) :
    ∃ out, assemble_face_term_implicit (advection_dg a u) example_fe_face example_fe_face_ext
        penalty [0, 1] [2, 3] (fun _ => 0) (fun _ => 0) = .ok out
      ∧ out.local_rhs_int_cell 0 = 0
      ∧ out.local_rhs_int_cell 1 = (if 0 ≤ a then 0 else a * (u 1 - u 2))
      ∧ out.local_rhs_ext_cell 0 = (if 0 ≤ a then a * (u 1 - u 2) else 0)
      ∧ out.local_rhs_ext_cell 1 = 0
      ∧ out.local_rhs_int_cell 1 + out.local_rhs_ext_cell 0 = a * (u 1 - u 2)
      ∧ (out.local_rhs_int_cell 1 = -out.local_rhs_ext_cell 0 ↔ a = 0 ∨ u 1 = u 2)
      ∧ face_num_flux_term_int (advection_dg a u) example_fe_face example_fe_face_ext penalty
          [0, 1] [2, 3] 1 0
        = -face_num_flux_term_ext (advection_dg a u) example_fe_face example_fe_face_ext
          penalty [0, 1] [2, 3] 0 0 := by
  obtain ⟨out, hout, h0, h1, h2, h3⟩ := upwind_face_output_values a u penalty
  have hsum : out.local_rhs_int_cell 1 + out.local_rhs_ext_cell 0 = a * (u 1 - u 2) := by
    rw [h1, h2]
    by_cases h : 0 ≤ a
    · rw [if_pos h, if_pos h, zero_add]
    · rw [if_neg h, if_neg h, add_zero]
  refine ⟨out, hout, h0, h1, h2, h3, hsum, ?_, ?_⟩
  · rw [eq_neg_iff_add_eq_zero, hsum, mul_eq_zero, sub_eq_zero]
  · unfold face_num_flux_term_int face_num_flux_term_ext
    simp only []
    have hphi : example_fe_face.shape_value_component 1 0
        (example_fe_face.system_to_component_index 1)
        = example_fe_face_ext.shape_value_component 0 0
          (example_fe_face.system_to_component_index 0) := rfl
    have hs : example_fe_face.system_to_component_index 1
        = example_fe_face.system_to_component_index 0 := rfl
    rw [hphi, hs]
    ring

/-! ## C18: the split form replaces the strong-form divergence -/

/-- With `use_split_form` enabled the AD residual of a test function does not depend on the
convective flux of the physics. -/
theorem cell_rhs_convective_flux (dg : DGStrong) (F1 F2 : ADArray → ADArrayTensor1)
    (fe_values_vol fe_values_lagrange : FEValues) (cell_dofs_indices : List ℕ) (itest : ℕ)
    (hsplit : dg.all_parameters.use_split_form = true) :
    cell_rhs (dg.with_convective_flux F1) fe_values_vol fe_values_lagrange cell_dofs_indices
        itest
      = cell_rhs (dg.with_convective_flux F2) fe_values_vol fe_values_lagrange
        cell_dofs_indices itest := by
  by_cases hns : 0 < dg.nstate
  · rw [cell_rhs_eq_split_form (dg.with_convective_flux F1) _ _ _ _ hsplit hns,
      cell_rhs_eq_split_form (dg.with_convective_flux F2) _ _ _ _ hsplit hns]
    rfl
  · have h0 : dg.nstate = 0 := Nat.eq_zero_of_not_pos hns
    have hst : ∀ F, cell_flux_state (dg.with_convective_flux F) fe_values_vol
        fe_values_lagrange cell_dofs_indices
        = ⟨fun _ _ => 0, fun _ => 0, fun _ => 0, fun _ => 0, fun _ => 0⟩ := by
      intro F
      unfold cell_flux_state cell_flux_loops
      simp only []
      rw [show (dg.with_convective_flux F).nstate = 0 from h0]
      exact forLoop_zero _ _
    unfold cell_rhs
    simp only []
    rw [hst F1, hst F2]
    rfl

/-- C18: with `use_split_form` enabled the strong-form divergence term is replaced, not
supplemented: the result of the cell assembler, residual vector and system matrix (or
failure), is the same for any two `convective_flux` functions of the physics when
everything else is equal; and the call returns a result when its checks pass. -/
theorem split_form_replaces_divergence (dg : DGStrong) (F1 F2 : ADArray → ADArrayTensor1)
    (fe_values_vol fe_values_lagrange : FEValues) (cell_dofs_indices : List ℕ)
    (local_rhs_int_cell : RealVector)
    (hsplit : dg.all_parameters.use_split_form = true) :
    assemble_cell_terms_implicit (dg.with_convective_flux F1) fe_values_vol fe_values_lagrange
        cell_dofs_indices local_rhs_int_cell
      = assemble_cell_terms_implicit (dg.with_convective_flux F2) fe_values_vol
        fe_values_lagrange cell_dofs_indices local_rhs_int_cell
    ∧ (cell_checks_pass dg fe_values_vol fe_values_lagrange cell_dofs_indices →
        ∃ out, assemble_cell_terms_implicit (dg.with_convective_flux F1) fe_values_vol
          fe_values_lagrange cell_dofs_indices local_rhs_int_cell = .ok out) := by
  constructor
  · have hstep : cell_test_step (dg.with_convective_flux F1) fe_values_vol fe_values_lagrange
        cell_dofs_indices
        = cell_test_step (dg.with_convective_flux F2) fe_values_vol fe_values_lagrange
          cell_dofs_indices := by
      funext acc itest
      unfold cell_test_step
      rw [cell_rhs_convective_flux dg F1 F2 _ _ _ _ hsplit]
      rfl
    unfold assemble_cell_terms_implicit
    simp only []
    rw [hstep]
    rfl
  · intro hok
    have hok' : cell_checks_pass (dg.with_convective_flux F1) fe_values_vol fe_values_lagrange
        cell_dofs_indices := hok
    exact ⟨_, assemble_cell_eq_ok _ _ _ _ _ hok'⟩

/-- The split form on the one-dimensional example with the convective fluxes `u` and
`5 u`. -/
theorem split_form_replaces_divergence_witness :
    (example_dg true .implicit_solver).all_parameters.use_split_form = true
      ∧ cell_checks_pass (example_dg true .implicit_solver) example_fe example_fe [0, 1]
      ∧ assemble_cell_terms_implicit
          ((example_dg true .implicit_solver).with_convective_flux (fun u s _ => u s))
          example_fe example_fe [0, 1] (fun _ => 0)
        = assemble_cell_terms_implicit
          ((example_dg true .implicit_solver).with_convective_flux (fun u s _ => 5 * u s))
          example_fe example_fe [0, 1] (fun _ => 0)
      ∧ ∃ out, assemble_cell_terms_implicit
          ((example_dg true .implicit_solver).with_convective_flux (fun u s _ => u s))
          example_fe example_fe [0, 1] (fun _ => 0) = .ok out :=
  have h := split_form_replaces_divergence (example_dg true .implicit_solver)
    (fun u s _ => u s) (fun u s _ => 5 * u s) example_fe example_fe [0, 1] (fun _ => 0) rfl
  ⟨rfl, example_cell_checks_pass true .implicit_solver, h.1,
    h.2 (example_cell_checks_pass true .implicit_solver)⟩

/-! ## C19: the pairs and dimensions the split form sums over -/

theorem example_three_pairs_checks_pass :
    cell_checks_pass example_dg_three_pairs example_fe example_fe [0, 1] := by
  refine ⟨rfl, ?_, ?_, ?_, ?_⟩
  · intro _ _ _ _; exact Nat.zero_lt_one
  · intro _ _
    exact ⟨Nat.le_refl _, Nat.le_refl _, Nat.le_refl _, rfl, rfl⟩
  · intro _ itest hi
    exact ⟨rfl, rfl, hi⟩
  · intro _ iquad hq
    refine ⟨hq, ?_⟩
    show (1 / 2 : ℚ) - 1 / 2 < 1 / 10 ^ 14
    norm_num

theorem example_three_pairs_claim_value :
    (split_claim_rhs example_dg_three_pairs example_fe [0, 1] 0
      + cell_diss_source_rhs example_dg_three_pairs example_fe [0, 1] 0).val = -(1 / 2) := by
  simp [split_claim_rhs, split_claim_pair_rhs, split_claim_g, cell_diss_source_rhs,
    example_dg_three_pairs, SplitForm.get, identity_pair,
    cell_soln_at_q, cell_soln_grad_at_q,
    interpolate_soln_eq_sum, interpolate_grad_eq_sum, dotAR_eq_sum, dotRA_eq_sum,
    Finset.sum_range_succ, example_dg, example_fe, example_physics, seed_soln_coeff,
    ADtype.val_sum]
  norm_num

/-- C19, counterexample: on the one-dimensional example with three pairs `f = g = identity`,
`alpha = 1` registered for the state component, the residual entry `0` the cell assembler
produces is `0`, while the sum over the three registered pairs named by the claim, together
with the dissipative term, is `-1/2`: the assembler adds the terms of two pairs only. -/
theorem split_form_pairs_counterexample :
    example_dg_three_pairs.all_parameters.use_split_form = true
      ∧ ((example_dg_three_pairs.split_fluxes.getD 0 []).getD 0 []).length = 3
      ∧ ∃ out, assemble_cell_terms_implicit example_dg_three_pairs example_fe example_fe [0, 1]
          (fun _ => 0) = .ok out
        ∧ out.1 0 = 0
        ∧ (split_claim_rhs example_dg_three_pairs example_fe [0, 1] 0
            + cell_diss_source_rhs example_dg_three_pairs example_fe [0, 1] 0).val = -(1 / 2)
        ∧ out.1 0 ≠ (split_claim_rhs example_dg_three_pairs example_fe [0, 1] 0
            + cell_diss_source_rhs example_dg_three_pairs example_fe [0, 1] 0).val := by
  have hv : (forLoop example_fe.dofs_per_cell
      ((fun _ => (0 : real)), example_dg_three_pairs.system_matrix)
      (fun acc itest => scatter example_dg_three_pairs.all_parameters [0, 1] itest
        (cell_rhs example_dg_three_pairs example_fe example_fe [0, 1] itest) acc)).1 0 = 0 := by
    rw [scatter_loop_fst, if_pos (by decide),
      cell_rhs_eq_split_form _ _ _ _ _ rfl Nat.zero_lt_one]
    exact (zero_add _).trans example_split_form_value
  refine ⟨rfl, rfl, _, assemble_cell_eq_ok _ _ _ _ _ example_three_pairs_checks_pass, hv,
    example_three_pairs_claim_value, ?_⟩
  rw [hv, example_three_pairs_claim_value]
  norm_num

/-- For one state component and one spatial dimension the term named by the claim is the
term the assembler forms for the pair. -/
theorem split_claim_pair_rhs_eq (dg : DGStrong) (fe_values_vol : FEValues)
    (cell_dofs_indices : List ℕ) (pair : SplitFluxPair) (itest : ℕ)
    (hns : dg.nstate = 1) (hs : fe_values_vol.system_to_component_index itest = 0) :
    split_claim_pair_rhs dg fe_values_vol cell_dofs_indices pair 0 itest
      = -cell_split_pair_rhs dg fe_values_vol cell_dofs_indices pair itest := by
  unfold split_claim_pair_rhs cell_split_pair_rhs
  simp only []
  rw [hs]
  have hg : ∀ q, split_claim_g dg fe_values_vol cell_dofs_indices pair.g 0 0 q
      = split_g_accumulation dg fe_values_vol cell_dofs_indices pair.g q := by
    intro q
    unfold split_claim_g split_g_accumulation
    rw [hns]
  simp only [hg]

/-- C19, amended: for `nstate = 1`, with `use_split_form` enabled (and the checks passing) the
convective contribution to the residual entry of each test function is the sum over the two
pairs `split_convective_fluxes[0][0][0]` and `split_convective_fluxes[0][0][1]` only, in the
spatial dimension `0` only, of `-alpha * f(State at the test node) * Sum_q phi_test(q) * G(q)
* JxW[q]` with `G(q) = Sum_j g(State at node j) * d(phi_j)/dx_0 (q)`, the basis gradients
being those of the test function's state component; it is the sum over every registered pair
in every spatial dimension named by the claim when `dim = 1` and exactly two pairs are
registered. -/
theorem split_form_two_pairs (dg : DGStrong) (fe_values_vol fe_values_lagrange : FEValues)
    (cell_dofs_indices : List ℕ) (local_rhs_int_cell : RealVector)
    (hsplit : dg.all_parameters.use_split_form = true)
    (hns : dg.nstate = 1)
    (hok : cell_checks_pass dg fe_values_vol fe_values_lagrange cell_dofs_indices) :
    ∃ out, assemble_cell_terms_implicit dg fe_values_vol fe_values_lagrange cell_dofs_indices
        local_rhs_int_cell = .ok out
      ∧ ∀ itest, itest < fe_values_vol.dofs_per_cell →
        out.1 itest = local_rhs_int_cell itest
            + (split_claim_pair_rhs dg fe_values_vol cell_dofs_indices
                  (dg.split_fluxes.get 0 0 0) 0 itest
                + split_claim_pair_rhs dg fe_values_vol cell_dofs_indices
                  (dg.split_fluxes.get 0 0 1) 0 itest
                + cell_diss_source_rhs dg fe_values_vol cell_dofs_indices itest).val
          ∧ (dg.dim = 1 →
              ((dg.split_fluxes.getD 0 []).getD 0 []).length = 2 →
              cell_rhs dg fe_values_vol fe_values_lagrange cell_dofs_indices itest
                  = split_claim_rhs dg fe_values_vol cell_dofs_indices itest
                    + cell_diss_source_rhs dg fe_values_vol cell_dofs_indices itest
                ∧ out.1 itest = local_rhs_int_cell itest
                  + (split_claim_rhs dg fe_values_vol cell_dofs_indices itest
                    + cell_diss_source_rhs dg fe_values_vol cell_dofs_indices itest).val) := by
  refine ⟨_, assemble_cell_eq_ok _ _ _ _ _ hok, ?_⟩
  intro itest hi
  have hq : itest < fe_values_vol.n_quadrature_points := (hok.2.2.2.1 hsplit itest hi).2.2
  have hcomp : fe_values_vol.system_to_component_index itest < dg.nstate :=
    hok.2.1 itest hq itest hi
  have hpos : 0 < dg.nstate := Nat.lt_of_le_of_lt (Nat.zero_le _) hcomp
  have hs : fe_values_vol.system_to_component_index itest = 0 := by
    rw [hns] at hcomp
    exact Nat.lt_one_iff.mp hcomp
  have hrhs : cell_rhs dg fe_values_vol fe_values_lagrange cell_dofs_indices itest
      = split_claim_pair_rhs dg fe_values_vol cell_dofs_indices (dg.split_fluxes.get 0 0 0) 0
          itest
        + split_claim_pair_rhs dg fe_values_vol cell_dofs_indices (dg.split_fluxes.get 0 0 1)
          0 itest
        + cell_diss_source_rhs dg fe_values_vol cell_dofs_indices itest := by
    rw [cell_rhs_eq_split_form dg fe_values_vol fe_values_lagrange cell_dofs_indices itest
        hsplit hpos,
      split_claim_pair_rhs_eq _ _ _ _ _ hns hs, split_claim_pair_rhs_eq _ _ _ _ _ hns hs]
    ring
  refine ⟨?_, ?_⟩
  · rw [scatter_loop_fst, if_pos hi, hrhs]
  · intro hdim hlen
    have hclaim : split_claim_rhs dg fe_values_vol cell_dofs_indices itest
        = split_claim_pair_rhs dg fe_values_vol cell_dofs_indices (dg.split_fluxes.get 0 0 0)
            0 itest
          + split_claim_pair_rhs dg fe_values_vol cell_dofs_indices
              (dg.split_fluxes.get 0 0 1) 0 itest := by
      unfold split_claim_rhs
      simp only []
      rw [hdim, Finset.sum_range_one, hs, hlen, Finset.sum_range_succ, Finset.sum_range_one]
    constructor
    · rw [hrhs, hclaim]
    · rw [scatter_loop_fst, if_pos hi, hrhs, hclaim]

/-- The two pairs of the split form on the one-dimensional example, where `dim = 1`,
`nstate = 1` and exactly two pairs are registered. -/
theorem split_form_two_pairs_witness :
    (example_dg true .implicit_solver).all_parameters.use_split_form = true
      ∧ (example_dg true .implicit_solver).nstate = 1
      ∧ cell_checks_pass (example_dg true .implicit_solver) example_fe example_fe [0, 1]
      ∧ (example_dg true .implicit_solver).dim = 1
      ∧ (((example_dg true .implicit_solver).split_fluxes.getD 0 []).getD 0 []).length = 2
      ∧ ∃ out, assemble_cell_terms_implicit (example_dg true .implicit_solver) example_fe
          example_fe [0, 1] (fun _ => 0) = .ok out
        ∧ ∀ itest, itest < example_fe.dofs_per_cell →
          out.1 itest = (fun _ => (0 : real)) itest
              + (split_claim_pair_rhs (example_dg true .implicit_solver) example_fe [0, 1]
                    ((example_dg true .implicit_solver).split_fluxes.get 0 0 0) 0 itest
                  + split_claim_pair_rhs (example_dg true .implicit_solver) example_fe [0, 1]
                    ((example_dg true .implicit_solver).split_fluxes.get 0 0 1) 0 itest
                  + cell_diss_source_rhs (example_dg true .implicit_solver) example_fe [0, 1]
                      itest).val
            ∧ cell_rhs (example_dg true .implicit_solver) example_fe example_fe [0, 1] itest
                = split_claim_rhs (example_dg true .implicit_solver) example_fe [0, 1] itest
                  + cell_diss_source_rhs (example_dg true .implicit_solver) example_fe [0, 1]
                      itest
            ∧ out.1 itest = (fun _ => (0 : real)) itest
                + (split_claim_rhs (example_dg true .implicit_solver) example_fe [0, 1] itest
                  + cell_diss_source_rhs (example_dg true .implicit_solver) example_fe [0, 1]
                      itest).val := by
  obtain ⟨out, hout, h⟩ := split_form_two_pairs (example_dg true .implicit_solver) example_fe
    example_fe [0, 1] (fun _ => 0) rfl rfl (example_cell_checks_pass true .implicit_solver)
  exact ⟨rfl, rfl, example_cell_checks_pass true .implicit_solver, rfl, rfl, out, hout,
    fun itest hi => ⟨(h itest hi).1, ((h itest hi).2 rfl rfl).1, ((h itest hi).2 rfl rfl).2⟩⟩

/-! ## C20: the source term -/

/-- Without a manufactured source term the AD residual of a test function does not depend
on the source term of the physics. -/
theorem cell_rhs_source_term (dg : DGStrong) (S1 S2 : Tensor1 real → ADArray → ADArray)
    (fe_values_vol fe_values_lagrange : FEValues) (cell_dofs_indices : List ℕ) (itest : ℕ)
    (hsrc : dg.all_parameters.use_manufactured_source_term = false) :
    cell_rhs (dg.with_source_term S1) fe_values_vol fe_values_lagrange cell_dofs_indices itest
      = cell_rhs (dg.with_source_term S2) fe_values_vol fe_values_lagrange cell_dofs_indices
        itest := by
  have hs : ∀ S, cell_source_at_q (dg.with_source_term S) fe_values_vol cell_dofs_indices
      = fun _ _ => 0 := by
    intro S
    funext iquad
    unfold cell_source_at_q
    rw [show (dg.with_source_term S).all_parameters.use_manufactured_source_term = false
      from hsrc]
    rfl
  unfold cell_rhs
  simp only []
  rw [hs S1, hs S2]
  rfl

/-- With a manufactured source term the AD residual of a test function is the one without it
plus the source contribution. -/
theorem cell_rhs_with_source (dg : DGStrong) (fe_values_vol fe_values_lagrange : FEValues)
    (cell_dofs_indices : List ℕ) (itest : ℕ)
    (hsrc : dg.all_parameters.use_manufactured_source_term = true) :
    cell_rhs dg fe_values_vol fe_values_lagrange cell_dofs_indices itest
      = cell_rhs (dg.with_manufactured_source_term false) fe_values_vol fe_values_lagrange
          cell_dofs_indices itest
        + cell_source_rhs dg fe_values_vol cell_dofs_indices itest := by
  unfold cell_rhs cell_source_rhs
  simp only []
  rw [cell_quad_loop_eq, cell_quad_loop_eq, add_assoc, ← Finset.sum_add_distrib]
  congr 1
  apply Finset.sum_congr rfl
  intro q _
  unfold cell_quad_term cell_source_at_q
  simp only []
  rw [show (dg.with_manufactured_source_term false).all_parameters.use_manufactured_source_term
      = false from rfl, hsrc]
  simp only [if_true, Bool.false_eq_true, if_false, add_zero]
  rfl

/-- C20: the source term enters the cell residual only when a manufactured source term is
configured. With `use_manufactured_source_term` false the result of the cell assembler
(residual vector and system matrix, or failure) is the same for any two `source_term`
functions of the physics, and the call returns when its checks pass; with it true (and the
checks passing) each test entry receives, in addition to what it receives with the flag
false, `Sum_q phi_test(q) * source_term(x_q, State_q)[s] * JxW[q]`, in the AD residual and so
in the residual vector. -/
theorem source_term_only_when_configured (dg : DGStrong)
    (S1 S2 : Tensor1 real → ADArray → ADArray) (fe_values_vol fe_values_lagrange : FEValues)
    (cell_dofs_indices : List ℕ) (local_rhs_int_cell : RealVector) :
    (dg.all_parameters.use_manufactured_source_term = false →
        assemble_cell_terms_implicit (dg.with_source_term S1) fe_values_vol fe_values_lagrange
            cell_dofs_indices local_rhs_int_cell
          = assemble_cell_terms_implicit (dg.with_source_term S2) fe_values_vol
            fe_values_lagrange cell_dofs_indices local_rhs_int_cell
        ∧ (cell_checks_pass dg fe_values_vol fe_values_lagrange cell_dofs_indices →
          ∃ out, assemble_cell_terms_implicit (dg.with_source_term S1) fe_values_vol
            fe_values_lagrange cell_dofs_indices local_rhs_int_cell = .ok out))
      ∧ (dg.all_parameters.use_manufactured_source_term = true →
        cell_checks_pass dg fe_values_vol fe_values_lagrange cell_dofs_indices →
        ∃ out out_off,
          assemble_cell_terms_implicit dg fe_values_vol fe_values_lagrange cell_dofs_indices
              local_rhs_int_cell = .ok out
            ∧ assemble_cell_terms_implicit (dg.with_manufactured_source_term false)
              fe_values_vol fe_values_lagrange cell_dofs_indices local_rhs_int_cell
              = .ok out_off
            ∧ ∀ itest, itest < fe_values_vol.dofs_per_cell →
              cell_rhs dg fe_values_vol fe_values_lagrange cell_dofs_indices itest
                  = cell_rhs (dg.with_manufactured_source_term false) fe_values_vol
                      fe_values_lagrange cell_dofs_indices itest
                    + cell_source_rhs dg fe_values_vol cell_dofs_indices itest
                ∧ out.1 itest
                  = out_off.1 itest
                    + (cell_source_rhs dg fe_values_vol cell_dofs_indices itest).val) := by
  constructor
  · intro hsrc
    constructor
    · have hstep : cell_test_step (dg.with_source_term S1) fe_values_vol fe_values_lagrange
          cell_dofs_indices
          = cell_test_step (dg.with_source_term S2) fe_values_vol fe_values_lagrange
            cell_dofs_indices := by
        funext acc itest
        unfold cell_test_step
        rw [cell_rhs_source_term dg S1 S2 _ _ _ _ hsrc]
        rfl
      unfold assemble_cell_terms_implicit
      simp only []
      rw [hstep]
      rfl
    · intro hok
      have hok' : cell_checks_pass (dg.with_source_term S1) fe_values_vol fe_values_lagrange
          cell_dofs_indices := hok
      exact ⟨_, assemble_cell_eq_ok _ _ _ _ _ hok'⟩
  · intro hsrc hok
    have hok' : cell_checks_pass (dg.with_manufactured_source_term false) fe_values_vol
        fe_values_lagrange cell_dofs_indices := hok
    refine ⟨_, _, assemble_cell_eq_ok _ _ _ _ _ hok, assemble_cell_eq_ok _ _ _ _ _ hok', ?_⟩
    intro itest hi
    have hrhs := cell_rhs_with_source dg fe_values_vol fe_values_lagrange cell_dofs_indices
      itest hsrc
    refine ⟨hrhs, ?_⟩
    rw [scatter_loop_fst, scatter_loop_fst, if_pos hi, if_pos hi, hrhs, ADtype.val_add]
    show _ = local_rhs_int_cell itest + _ + _
    ring

/-- The source term on the one-dimensional example: without a manufactured source term the
sources `0` and `u` give the same result; with it, the source `u` enters. -/
theorem source_term_only_when_configured_witness :
    (example_dg false .implicit_solver).all_parameters.use_manufactured_source_term = false
      ∧ assemble_cell_terms_implicit
          ((example_dg false .implicit_solver).with_source_term (fun _ _ _ => 0)) example_fe
          example_fe [0, 1] (fun _ => 0)
        = assemble_cell_terms_implicit
          ((example_dg false .implicit_solver).with_source_term (fun _ u => u)) example_fe
          example_fe [0, 1] (fun _ => 0)
      ∧ example_dg_source.all_parameters.use_manufactured_source_term = true
      ∧ cell_checks_pass example_dg_source example_fe example_fe [0, 1]
      ∧ (
        ∃ out out_off,
          assemble_cell_terms_implicit example_dg_source example_fe example_fe [0, 1]
              (fun _ => 0) = .ok out
            ∧ assemble_cell_terms_implicit (example_dg_source.with_manufactured_source_term false)
              example_fe example_fe [0, 1] (fun _ => 0)
              = .ok out_off
            ∧ ∀ itest, itest < example_fe.dofs_per_cell →
              cell_rhs example_dg_source example_fe example_fe [0, 1] itest
                  = cell_rhs (example_dg_source.with_manufactured_source_term false) example_fe
                      example_fe [0, 1] itest
                    + cell_source_rhs example_dg_source example_fe [0, 1] itest
                ∧ out.1 itest
                  = out_off.1 itest
                    + (cell_source_rhs example_dg_source example_fe [0, 1] itest).val) :=
  have hok : cell_checks_pass example_dg_source example_fe example_fe [0, 1] :=
    example_cell_checks_pass false .implicit_solver
  ⟨rfl,
    ((source_term_only_when_configured (example_dg false .implicit_solver) (fun _ _ _ => 0)
      (fun _ u => u) example_fe example_fe [0, 1] (fun _ => 0)).1 rfl).1,
    rfl, hok,
    (source_term_only_when_configured example_dg_source (fun _ _ _ => 0) (fun _ u => u)
      example_fe example_fe [0, 1] (fun _ => 0)).2 rfl hok⟩

/-! ## C21: the dissipative auxiliary trace at a boundary face -/

theorem example_solution_flux_consistent (u : ADArray) (n : Tensor1 ADtype) (s : ℕ) :
    example_diss_num_flux.evaluate_solution_flux u u n s = u s := by
  simp only [example_diss_num_flux]
  ext <;>
    simp only [ADtype.val_mul, ADtype.dx_mul, ADtype.val_add, ADtype.dx_add, ADtype.val_ofReal,
      ADtype.dx_ofReal] <;> ring

/-- C21: at every boundary quadrature point the dissipative auxiliary trace is
`u* = evaluate_solution_flux(State_ext, State_ext, n)`, built from the ghost state on both
sides, and it is this trace whose jump the dissipative flux receives; when the solution flux is
consistent, `evaluate_solution_flux(u, u, n) = u`, that jump is exactly
`(State_ext - State_int) * n` for every state component. The boundary call returns. -/
theorem boundary_auxiliary_trace_from_ghost (dg : DGStrong) (boundary_id : ℕ)
    (fe_values_boundary : FEValues) (penalty : real) (dof_indices_int : List ℕ)
    (local_rhs_int_cell : RealVector)
    (hok : boundary_checks_pass dg fe_values_boundary dof_indices_int)
    (hcons : ∀ (u : ADArray) (n : Tensor1 ADtype) (s : ℕ), s < dg.nstate →
      dg.diss_num_flux.evaluate_solution_flux u u n s = u s) :
    (∃ out, assemble_boundary_term_implicit dg boundary_id fe_values_boundary penalty
        dof_indices_int local_rhs_int_cell = .ok out)
      ∧ ∀ q,
        (boundary_quad_values dg boundary_id fe_values_boundary penalty dof_indices_int
            q).diss_soln_num_flux
          = dg.diss_num_flux.evaluate_solution_flux
              (boundary_quad_values dg boundary_id fe_values_boundary penalty dof_indices_int
                q).soln_ext
              (boundary_quad_values dg boundary_id fe_values_boundary penalty dof_indices_int
                q).soln_ext
              (tensorOfReal (fe_values_boundary.normal_vector q))
        ∧ (boundary_quad_values dg boundary_id fe_values_boundary penalty dof_indices_int
            q).diss_flux_jump_int
          = dg.pde_physics.dissipative_flux
              (boundary_quad_values dg boundary_id fe_values_boundary penalty dof_indices_int
                q).soln_int
              (boundary_diss_soln_jump_int dg boundary_id fe_values_boundary penalty
                dof_indices_int q)
        ∧ ∀ s, s < dg.nstate → ∀ d,
          boundary_diss_soln_jump_int dg boundary_id fe_values_boundary penalty dof_indices_int
              q s d
            = ((boundary_quad_values dg boundary_id fe_values_boundary penalty dof_indices_int
                  q).soln_ext s
                - (boundary_quad_values dg boundary_id fe_values_boundary penalty
                  dof_indices_int q).soln_int s)
              * ADtype.ofReal (fe_values_boundary.normal_vector q d) := by
  refine ⟨⟨_, assemble_boundary_eq_ok dg boundary_id fe_values_boundary penalty dof_indices_int
    local_rhs_int_cell hok⟩, ?_⟩
  intro q
  refine ⟨rfl, rfl, ?_⟩
  intro s hs d
  have hstar : (boundary_quad_values dg boundary_id fe_values_boundary penalty dof_indices_int
        q).diss_soln_num_flux s
      = (boundary_quad_values dg boundary_id fe_values_boundary penalty dof_indices_int
        q).soln_ext s :=
    hcons _ _ s hs
  unfold boundary_diss_soln_jump_int
  rw [diss_soln_jump_apply, if_pos hs, hstar]
  rfl

/-- The auxiliary trace on the one-dimensional example, whose solution flux is the mean of the
two traces and hence consistent. -/
theorem boundary_auxiliary_trace_from_ghost_witness :
    boundary_checks_pass (example_dg false .implicit_solver) example_fe_face [0, 1]
      ∧ (∀ (u : ADArray) (n : Tensor1 ADtype) (s : ℕ), s < (example_dg false
          .implicit_solver).nstate →
          (example_dg false .implicit_solver).diss_num_flux.evaluate_solution_flux u u n s = u s)
      ∧ (
      (∃ out, assemble_boundary_term_implicit (example_dg false .implicit_solver) 0 example_fe_face
          2 [0, 1] (fun _ => 0) = .ok out)
        ∧ ∀ q,
          (boundary_quad_values (example_dg false .implicit_solver) 0 example_fe_face 2 [0, 1]
              q).diss_soln_num_flux
            = (example_dg false .implicit_solver).diss_num_flux.evaluate_solution_flux
                (boundary_quad_values (example_dg false .implicit_solver) 0 example_fe_face 2 [0, 1]
                  q).soln_ext
                (boundary_quad_values (example_dg false .implicit_solver) 0 example_fe_face 2 [0, 1]
                  q).soln_ext
                (tensorOfReal (example_fe_face.normal_vector q))
          ∧ (boundary_quad_values (example_dg false .implicit_solver) 0 example_fe_face 2 [0, 1]
              q).diss_flux_jump_int
            = (example_dg false .implicit_solver).pde_physics.dissipative_flux
                (boundary_quad_values (example_dg false .implicit_solver) 0 example_fe_face 2 [0, 1]
                  q).soln_int
                (boundary_diss_soln_jump_int (example_dg false .implicit_solver) 0 example_fe_face 2
                  [0, 1] q)
          ∧ ∀ s, s < (example_dg false .implicit_solver).nstate → ∀ d,
            boundary_diss_soln_jump_int (example_dg false .implicit_solver) 0 example_fe_face 2
                [0, 1]
                q s d
              = ((boundary_quad_values (example_dg false .implicit_solver) 0 example_fe_face 2
                  [0, 1]
                    q).soln_ext s
                  - (boundary_quad_values (example_dg false .implicit_solver) 0 example_fe_face 2
                    [0, 1] q).soln_int s)
                * ADtype.ofReal (example_fe_face.normal_vector q d)) :=
  ⟨example_boundary_checks_pass false .implicit_solver,
    fun u n s _ => example_solution_flux_consistent u n s,
    boundary_auxiliary_trace_from_ghost (example_dg false .implicit_solver) 0 example_fe_face 2
        [0, 1]
      (fun _ => 0) (example_boundary_checks_pass false .implicit_solver)
      (fun u n s _ => example_solution_flux_consistent u n s)⟩

/-! ## C22: the free-stream velocity set by the Euler constructor -/

theorem norm_eq_one_iff_sq {R : Type} [LinearOrderedField R] (x : R) (hx : 0 ≤ x) :
    x = 1 ↔ x ^ 2 = 1 := by
  constructor
  · intro h
    rw [h, one_pow]
  · intro h
    have h0 : (x - 1) * (x + 1) = 0 := by
      have : (x - 1) * (x + 1) = x ^ 2 - 1 := by ring
      rw [this, h, sub_self]
    rcases mul_eq_zero.mp h0 with h1 | h1
    · exact sub_eq_zero.mp h1
    · exfalso
      have : 0 < x + 1 := by linarith
      exact (ne_of_gt this) h1

theorem euler_constructor_ok {R : Type} [LinearOrderedField R] (lib : EulerLibrary R) (dim : ℕ)
    (ref_length mach_inf angle_of_attack side_slip_angle : R)
    (h : lib.norm dim (Euler.set_velocities_inf lib dim angle_of_attack side_slip_angle) = 1) :
    ∃ e, Euler.Euler lib dim ref_length mach_inf angle_of_attack side_slip_angle = .ok e := by
  unfold Euler.Euler
  simp only []
  rw [h, sub_self, abs_zero, if_neg (not_not.mpr (by positivity))]
  exact ⟨_, rfl⟩

theorem euler_constructor_error {R : Type} [LinearOrderedField R] (lib : EulerLibrary R)
    (dim : ℕ) (ref_length mach_inf angle_of_attack side_slip_angle : R)
    (h : ¬ (|lib.norm dim (Euler.set_velocities_inf lib dim angle_of_attack side_slip_angle) - 1|
      < 1 / 10 ^ 14)) :
    Euler.Euler lib dim ref_length mach_inf angle_of_attack side_slip_angle
      = .error .assertion_failed := by
  unfold Euler.Euler
  exact if_pos h

theorem euler_norm_sq_two {R : Type} [LinearOrderedField R] (lib : EulerLibrary R)
    (hlib : lib.IsEuclidean) (angle_of_attack side_slip_angle : R) :
    lib.norm 2 (Euler.set_velocities_inf lib 2 angle_of_attack side_slip_angle) ^ 2
      = 1 - lib.cos angle_of_attack ^ 2 * lib.sin side_slip_angle ^ 2 := by
  rw [(hlib.2 2 _).2]
  have ha := hlib.1 angle_of_attack
  have hb := hlib.1 side_slip_angle
  simp [Euler.set_velocities_inf, Finset.sum_range_succ, Function.update]
  have hs : lib.sin angle_of_attack ^ 2 = 1 - lib.cos angle_of_attack ^ 2 := by
    rw [← ha]; ring
  have hc : lib.cos side_slip_angle ^ 2 = 1 - lib.sin side_slip_angle ^ 2 := by
    rw [← hb]; ring
  rw [mul_pow, hs, hc]
  ring

theorem euler_norm_one_or_three {R : Type} [LinearOrderedField R] (lib : EulerLibrary R)
    (hlib : lib.IsEuclidean) (angle_of_attack side_slip_angle : R) :
    lib.norm 1 (Euler.set_velocities_inf lib 1 angle_of_attack side_slip_angle) = 1
      ∧ lib.norm 3 (Euler.set_velocities_inf lib 3 angle_of_attack side_slip_angle) = 1 := by
  constructor
  · rw [norm_eq_one_iff_sq _ (hlib.2 1 _).1, (hlib.2 1 _).2]
    simp [Euler.set_velocities_inf, Finset.sum_range_succ, Function.update]
  · rw [norm_eq_one_iff_sq _ (hlib.2 3 _).1, (hlib.2 3 _).2]
    have ha := hlib.1 angle_of_attack
    simp [Euler.set_velocities_inf, Finset.sum_range_succ, Function.update]
    exact ha

/-- C22, as amended: over the reals (`cos^2 + sin^2 = 1`, Euclidean norm) the free-stream
velocity set by the Euler constructor has norm 1 for `dim = 1` and `dim = 3` for every angle
of attack and side-slip angle, so the constructor's assertion holds and it returns. For
`dim = 2` the squared norm is `1 - cos(angle_of_attack)^2 * sin(side_slip_angle)^2`: the norm
is 1 exactly when `cos(angle_of_attack) = 0` or `sin(side_slip_angle) = 0`, and then (in
particular for a zero side-slip angle) the constructor returns. -/
theorem euler_free_stream_norm {R : Type} [LinearOrderedField R] (lib : EulerLibrary R)
    (hlib : lib.IsEuclidean) (ref_length mach_inf angle_of_attack side_slip_angle : R) :
    (lib.norm 1 (Euler.set_velocities_inf lib 1 angle_of_attack side_slip_angle) = 1
        ∧ ∃ e, Euler.Euler lib 1 ref_length mach_inf angle_of_attack side_slip_angle = .ok e)
      ∧ (lib.norm 3 (Euler.set_velocities_inf lib 3 angle_of_attack side_slip_angle) = 1
        ∧ ∃ e, Euler.Euler lib 3 ref_length mach_inf angle_of_attack side_slip_angle = .ok e)
      ∧ lib.norm 2 (Euler.set_velocities_inf lib 2 angle_of_attack side_slip_angle) ^ 2
          = 1 - lib.cos angle_of_attack ^ 2 * lib.sin side_slip_angle ^ 2
      ∧ (lib.norm 2 (Euler.set_velocities_inf lib 2 angle_of_attack side_slip_angle) = 1
          ↔ lib.cos angle_of_attack = 0 ∨ lib.sin side_slip_angle = 0)
      ∧ (lib.cos angle_of_attack = 0 ∨ lib.sin side_slip_angle = 0 →
          ∃ e, Euler.Euler lib 2 ref_length mach_inf angle_of_attack side_slip_angle = .ok e) := by
  have h13 := euler_norm_one_or_three lib hlib angle_of_attack side_slip_angle
  have h2 := euler_norm_sq_two lib hlib angle_of_attack side_slip_angle
  have hiff : lib.norm 2 (Euler.set_velocities_inf lib 2 angle_of_attack side_slip_angle) = 1
      ↔ lib.cos angle_of_attack = 0 ∨ lib.sin side_slip_angle = 0 := by
    rw [norm_eq_one_iff_sq _ (hlib.2 2 _).1, h2]
    constructor
    · intro h
      have h0 : lib.cos angle_of_attack ^ 2 * lib.sin side_slip_angle ^ 2 = 0 := by linarith
      rcases mul_eq_zero.mp h0 with h1 | h1
      · exact Or.inl ((pow_eq_zero_iff (two_ne_zero)).mp h1)
      · exact Or.inr ((pow_eq_zero_iff (two_ne_zero)).mp h1)
    · rintro (h | h) <;> rw [h] <;> ring
  exact ⟨⟨h13.1, euler_constructor_ok lib 1 ref_length mach_inf angle_of_attack side_slip_angle
      h13.1⟩,
    ⟨h13.2, euler_constructor_ok lib 3 ref_length mach_inf angle_of_attack side_slip_angle
      h13.2⟩,
    h2, hiff,
    fun h => euler_constructor_ok lib 2 ref_length mach_inf angle_of_attack side_slip_angle
      (hiff.mpr h)⟩

theorem real_library_euclidean :
    (EulerLibrary.mk Real.cos Real.sin
      (fun dim v => Real.sqrt (∑ d in Finset.range dim, v d ^ 2))).IsEuclidean :=
  ⟨fun x => Real.cos_sq_add_sin_sq x,
    fun _ v => ⟨Real.sqrt_nonneg _,
      Real.sq_sqrt (Finset.sum_nonneg (fun d _ => sq_nonneg (v d)))⟩⟩

/-- C22, counterexample: in 2D with angle of attack `0` and side-slip angle `pi/2` the
free-stream velocity is the zero vector, its Euclidean norm is `0`, and the constructor's
assertion fails. -/
theorem euler_side_slip_counterexample :
    (EulerLibrary.mk Real.cos Real.sin
        (fun dim v => Real.sqrt (∑ d in Finset.range dim, v d ^ 2))).norm 2
        (Euler.set_velocities_inf (EulerLibrary.mk Real.cos Real.sin
          (fun dim v => Real.sqrt (∑ d in Finset.range dim, v d ^ 2))) 2 0 (Real.pi / 2)) = 0
      ∧ Euler.Euler (EulerLibrary.mk Real.cos Real.sin
          (fun dim v => Real.sqrt (∑ d in Finset.range dim, v d ^ 2))) 2 1 1 0 (Real.pi / 2)
        = .error .assertion_failed := by
  have hn : (EulerLibrary.mk Real.cos Real.sin
        (fun dim v => Real.sqrt (∑ d in Finset.range dim, v d ^ 2))).norm 2
        (Euler.set_velocities_inf (EulerLibrary.mk Real.cos Real.sin
          (fun dim v => Real.sqrt (∑ d in Finset.range dim, v d ^ 2))) 2 0 (Real.pi / 2)) = 0 := by
    simp [Euler.set_velocities_inf, Finset.sum_range_succ, Function.update]
  refine ⟨hn, euler_constructor_error _ 2 1 1 0 (Real.pi / 2) ?_⟩
  rw [hn]
  norm_num

/-- The Euler constructor over the reals at angle of attack `1` and side-slip angle `0`: the
real `cos`, `sin` and Euclidean norm satisfy the hypothesis, `sin 0 = 0`, and the constructor
returns in one, two and three dimensions. -/
theorem euler_free_stream_norm_witness :
    (EulerLibrary.mk Real.cos Real.sin
        (fun dim v => Real.sqrt (∑ d in Finset.range dim, v d ^ 2))).IsEuclidean
      ∧ Real.sin 0 = 0
      ∧ (∃ e, Euler.Euler (EulerLibrary.mk Real.cos Real.sin
          (fun dim v => Real.sqrt (∑ d in Finset.range dim, v d ^ 2))) 1 1 (1 / 2) 1 0 = .ok e)
      ∧ (∃ e, Euler.Euler (EulerLibrary.mk Real.cos Real.sin
          (fun dim v => Real.sqrt (∑ d in Finset.range dim, v d ^ 2))) 3 1 (1 / 2) 1 0 = .ok e)
      ∧ (EulerLibrary.mk Real.cos Real.sin
          (fun dim v => Real.sqrt (∑ d in Finset.range dim, v d ^ 2))).norm 2
          (Euler.set_velocities_inf (EulerLibrary.mk Real.cos Real.sin
            (fun dim v => Real.sqrt (∑ d in Finset.range dim, v d ^ 2))) 2 1 0) = 1
      ∧ ∃ e, Euler.Euler (EulerLibrary.mk Real.cos Real.sin
          (fun dim v => Real.sqrt (∑ d in Finset.range dim, v d ^ 2))) 2 1 (1 / 2) 1 0 = .ok e :=
  ⟨real_library_euclidean, Real.sin_zero,
    (euler_free_stream_norm _ real_library_euclidean 1 (1 / 2) 1 0).1.2,
    (euler_free_stream_norm _ real_library_euclidean 1 (1 / 2) 1 0).2.1.2,
    (euler_free_stream_norm _ real_library_euclidean 1 (1 / 2) 1 0).2.2.2.1.mpr
      (Or.inr Real.sin_zero),
    (euler_free_stream_norm _ real_library_euclidean 1 (1 / 2) 1 0).2.2.2.2
      (Or.inr Real.sin_zero)⟩

/-! ## C23: the state component of an exterior test function -/

theorem example_p0_face_fails :
    assemble_face_term_implicit (example_dg false .implicit_solver) example_fe_face_p0
        example_fe_face_ext 2 [0] [1, 2] (fun _ => 0) (fun _ => 0)
      = .error .index_out_of_range := rfl

theorem example_system_face_checks_pass :
    face_checks_pass example_dg_two_states example_fe_face_system example_fe_face_ext_system_p0
      [0, 1, 2, 3] [4, 5] := by
  refine ⟨rfl, rfl, Nat.le_refl _, ?_, ?_, by decide⟩
  · intro _ _ idof hidof
    have h : idof < 4 := hidof
    show idof / 2 < 2
    omega
  · intro _ _ idof hidof
    exact hidof

theorem example_system_face_values :
    (face_rhs_ext example_dg_two_states example_fe_face_system example_fe_face_ext_system_p0 2
        [0, 1, 2, 3] [4, 5] 1).val = 0
      ∧ (face_ext_claim_rhs example_dg_two_states example_fe_face_system
        example_fe_face_ext_system_p0 2 [0, 1, 2, 3] [4, 5] 1).val = -5 := by
  constructor
  · rw [face_rhs_ext_eq_terms]
    simp [face_num_flux_term_ext, face_physical_term_ext, face_num_flux_sum, face_quad_values,
      example_fe_face_system, example_fe_face_ext_system_p0, example_dg_two_states, example_dg,
      example_physics, example_conv_num_flux, example_diss_num_flux, dotAR_eq_sum,
      dotRA_eq_sum, Finset.sum_range_succ, tensorOfReal, ADtype.val_sum]
  · simp [face_ext_claim_rhs, example_fe_face_system, example_fe_face_ext_system_p0,
      example_dg_two_states, example_dg, example_physics, example_conv_num_flux,
      example_diss_num_flux, interpolate_soln_eq_sum, interpolate_grad_eq_sum, dotAR_eq_sum,
      dotRA_eq_sum, Finset.sum_range_succ, seed_soln_coeff, tensorOfReal, ADtype.val_sum]
    norm_num

/-- C23: the interior-face assembler takes the state component of the exterior test index
`itest_ext` from the interior element (`fe_values_int.get_fe()`, line 508), not from the
exterior one. Between a degree-0 interior cell (1 DOF) and a degree-1 exterior cell (2 DOFs)
the lookup for `itest_ext = 1` is out of range and the call fails. Between a two-component
degree-1 interior cell and a two-component degree-0 exterior cell the exterior element tags
test index `1` with component `1`, the interior element tags index `1` with component `0`, the
call returns, and the exterior residual entry `1` it writes is `0`, where the residual formed
with the exterior element's tag is `-5`. -/
theorem face_exterior_component_from_interior :
    assemble_face_term_implicit (example_dg false .implicit_solver) example_fe_face_p0
        example_fe_face_ext 2 [0] [1, 2] (fun _ => 0) (fun _ => 0)
      = .error .index_out_of_range
    ∧ example_fe_face_ext_system_p0.system_to_component_index 1 = 1
    ∧ example_fe_face_system.system_to_component_index 1 = 0
    ∧ (∃ out, assemble_face_term_implicit example_dg_two_states example_fe_face_system
          example_fe_face_ext_system_p0 2 [0, 1, 2, 3] [4, 5] (fun _ => 0) (fun _ => 0) = .ok out
        ∧ out.local_rhs_ext_cell 1 = 0)
    ∧ (face_ext_claim_rhs example_dg_two_states example_fe_face_system
        example_fe_face_ext_system_p0 2 [0, 1, 2, 3] [4, 5] 1).val = -5 := by
  refine ⟨example_p0_face_fails, rfl, rfl, ⟨_, assemble_face_eq_loops _ _ _ _ _ _ _ _
    example_system_face_checks_pass, ?_⟩, example_system_face_values.2⟩
  rw [face_loops_ext, if_pos (show 1 < example_fe_face_ext_system_p0.dofs_per_cell by decide),
    example_system_face_values.1]
  norm_num

/-! ## C24: the component of the split-form accumulations -/

theorem example_split_two_states_checks_pass :
    cell_checks_pass example_dg_split_two_states example_fe_system example_fe_lagrange_cubic
      [0, 1, 2, 3] := by
  refine ⟨rfl, ?_, ?_, ?_, ?_⟩
  · intro _ _ idof hidof
    have h : idof < 4 := hidof
    show idof / 2 < 2
    omega
  · intro _ _
    exact ⟨Nat.le_refl _, Nat.le_refl _, Nat.le_refl _, rfl, rfl⟩
  · intro _ itest hi
    exact ⟨rfl, rfl, hi⟩
  · intro _ iquad hq
    refine ⟨hq, ?_⟩
    show example_fe_system.JxW iquad - example_fe_system.JxW iquad < 1 / 10 ^ 14
    rw [sub_self]
    norm_num

theorem example_split_two_states_values :
    (-cell_split_pair_rhs example_dg_split_two_states example_fe_system [0, 1, 2, 3]
          square_pair 0
        - cell_split_pair_rhs example_dg_split_two_states example_fe_system [0, 1, 2, 3]
          square_pair 0
        + cell_diss_source_rhs example_dg_split_two_states example_fe_system [0, 1, 2, 3] 0).val
      = -(2 / 9)
    ∧ (split_claim_pair_rhs example_dg_split_two_states example_fe_system [0, 1, 2, 3]
          square_pair 0 0
        + split_claim_pair_rhs example_dg_split_two_states example_fe_system [0, 1, 2, 3]
          square_pair 0 0
        + cell_diss_source_rhs example_dg_split_two_states example_fe_system [0, 1, 2, 3] 0).val
      = 2 / 9 := by
  constructor
  · simp [cell_split_pair_rhs, cell_diss_source_rhs, split_g_accumulation, square_pair,
      cell_soln_at_q, cell_soln_grad_at_q, interpolate_soln_eq_sum, interpolate_grad_eq_sum,
      dotAR_eq_sum, dotRA_eq_sum, Finset.sum_range_succ, example_dg_split_two_states,
      example_dg, example_fe_system, example_physics, seed_soln_coeff, ADtype.val_sum]
    norm_num
  · simp [split_claim_pair_rhs, split_claim_g, cell_diss_source_rhs, square_pair,
      cell_soln_at_q, cell_soln_grad_at_q, interpolate_soln_eq_sum, interpolate_grad_eq_sum,
      dotAR_eq_sum, dotRA_eq_sum, Finset.sum_range_succ, example_dg_split_two_states,
      example_dg, example_fe_system, example_physics, seed_soln_coeff, ADtype.val_sum]
    norm_num

theorem example_split_two_states_accumulations :
    (cell_flux_state example_dg_split_two_states example_fe_system example_fe_lagrange_cubic
        [0, 1, 2, 3]).g1 0
      = split_claim_g example_dg_split_two_states example_fe_system [0, 1, 2, 3] square_pair.g
          1 0 0
    ∧ (split_claim_g example_dg_split_two_states example_fe_system [0, 1, 2, 3] square_pair.g
        1 0 0).val = 11 / 9
    ∧ (split_claim_g example_dg_split_two_states example_fe_system [0, 1, 2, 3] square_pair.g
        0 0 0).val = 7 / 9 := by
  refine ⟨?_, ?_, ?_⟩
  · unfold cell_flux_state
    rw [cell_flux_loops_eq]
    simp only []
    rw [if_pos (by decide)]
    rfl
  · simp [split_claim_g, square_pair, cell_soln_at_q, interpolate_soln_eq_sum,
      Finset.sum_range_succ, example_dg_split_two_states, example_dg, example_fe_system,
      seed_soln_coeff, ADtype.val_sum]
    norm_num
  · simp [split_claim_g, square_pair, cell_soln_at_q, interpolate_soln_eq_sum,
      Finset.sum_range_succ, example_dg_split_two_states, example_dg, example_fe_system,
      seed_soln_coeff, ADtype.val_sum]
    norm_num

/-- C24: in split-form cell assembly with `nstate = 2` the accumulations `g1`, `g2` read by
the residual loop are those of the last pass of the `istate` loop, computed with the basis
gradients of component `1`. On the two-component degree-1 element with four quadrature
points, nodal values `u = (1, 2)` in component `0` and two pairs `f = g = u^2`, `alpha = 1`:
the call returns; `g1[0]` is the accumulation with the gradients of component `1`, of value
`11/9`, where the gradients of component `0` give `7/9`; and the residual entry of test
function `0`, which belongs to component `0`, is `-2/9`, where the accumulations of its own
component give `2/9`. -/
theorem split_form_uses_last_component :
    (∃ out, assemble_cell_terms_implicit example_dg_split_two_states example_fe_system
          example_fe_lagrange_cubic [0, 1, 2, 3] (fun _ => 0) = .ok out
        ∧ out.1 0 = -(2 / 9))
    ∧ example_fe_system.system_to_component_index 0 = 0
    ∧ (cell_flux_state example_dg_split_two_states example_fe_system example_fe_lagrange_cubic
          [0, 1, 2, 3]).g1 0
        = split_claim_g example_dg_split_two_states example_fe_system [0, 1, 2, 3]
            square_pair.g 1 0 0
    ∧ (split_claim_g example_dg_split_two_states example_fe_system [0, 1, 2, 3] square_pair.g
        1 0 0).val = 11 / 9
    ∧ (split_claim_g example_dg_split_two_states example_fe_system [0, 1, 2, 3] square_pair.g
        0 0 0).val = 7 / 9
    ∧ (split_claim_pair_rhs example_dg_split_two_states example_fe_system [0, 1, 2, 3]
          square_pair 0 0
        + split_claim_pair_rhs example_dg_split_two_states example_fe_system [0, 1, 2, 3]
          square_pair 0 0
        + cell_diss_source_rhs example_dg_split_two_states example_fe_system [0, 1, 2, 3] 0).val
      = 2 / 9 := by
  refine ⟨⟨_, assemble_cell_eq_ok _ _ _ _ _ example_split_two_states_checks_pass, ?_⟩, rfl,
    example_split_two_states_accumulations.1, example_split_two_states_accumulations.2.1,
    example_split_two_states_accumulations.2.2, example_split_two_states_values.2⟩
  rw [scatter_loop_fst, if_pos (show 0 < example_fe_system.dofs_per_cell by decide),
    cell_rhs_eq_split_form _ _ _ _ _ rfl (by decide)]
  have h := example_split_two_states_values.1
  simp only [zero_add]
  exact h

/-! ## C25: the split-flux registry when the split form is disabled -/

theorem cell_rhs_split_fluxes (dg : DGStrong) (sf1 sf2 : SplitForm)
    (fe_values_vol fe_values_lagrange : FEValues) (cell_dofs_indices : List ℕ) (itest : ℕ)
    (hsplit : dg.all_parameters.use_split_form = false) :
    cell_rhs (dg.with_split_fluxes sf1) fe_values_vol fe_values_lagrange cell_dofs_indices itest
      = cell_rhs (dg.with_split_fluxes sf2) fe_values_vol fe_values_lagrange cell_dofs_indices
          itest := by
  have h1 : (dg.with_split_fluxes sf1).all_parameters.use_split_form = false := hsplit
  have h2 : (dg.with_split_fluxes sf2).all_parameters.use_split_form = false := hsplit
  unfold cell_rhs
  simp only [h1, h2, Bool.false_eq_true, if_false]
  rw [cell_quad_loop_eq, cell_quad_loop_eq]
  congr 1
  apply Finset.sum_congr rfl
  intro q _
  unfold cell_quad_term cell_flux_state
  rw [cell_flux_loops_eq, cell_flux_loops_eq]
  rfl

/-- With the split form disabled and the two registry entries read by lines 137-140 present,
the cell assembler returns the same result whatever the registry holds. -/
theorem cell_result_split_fluxes (dg : DGStrong) (sf1 sf2 : SplitForm)
    (fe_values_vol fe_values_lagrange : FEValues) (cell_dofs_indices : List ℕ)
    (local_rhs_int_cell : RealVector)
    (hsplit : dg.all_parameters.use_split_form = false)
    (h1 : sf1.has 0 0 0 = true ∧ sf1.has 0 0 1 = true)
    (h2 : sf2.has 0 0 0 = true ∧ sf2.has 0 0 1 = true) :
    assemble_cell_terms_implicit (dg.with_split_fluxes sf1) fe_values_vol fe_values_lagrange
        cell_dofs_indices local_rhs_int_cell
      = assemble_cell_terms_implicit (dg.with_split_fluxes sf2) fe_values_vol
          fe_values_lagrange cell_dofs_indices local_rhs_int_cell := by
  have hrange : cell_flux_loops_in_range (dg.with_split_fluxes sf1) fe_values_vol
        fe_values_lagrange
      ↔ cell_flux_loops_in_range (dg.with_split_fluxes sf2) fe_values_vol
        fe_values_lagrange := by
    unfold cell_flux_loops_in_range
    have e1 : (dg.with_split_fluxes sf1).split_fluxes = sf1 := rfl
    have e2 : (dg.with_split_fluxes sf2).split_fluxes = sf2 := rfl
    have n1 : (dg.with_split_fluxes sf1).nstate = dg.nstate := rfl
    have n2 : (dg.with_split_fluxes sf2).nstate = dg.nstate := rfl
    rw [e1, e2, n1, n2, h1.1, h1.2, h2.1, h2.2]
  have hstep : cell_test_step (dg.with_split_fluxes sf1) fe_values_vol fe_values_lagrange
        cell_dofs_indices
      = cell_test_step (dg.with_split_fluxes sf2) fe_values_vol fe_values_lagrange
        cell_dofs_indices := by
    funext acc itest
    unfold cell_test_step cell_split_checks
    have p1 : (dg.with_split_fluxes sf1).all_parameters.use_split_form = false := hsplit
    have p2 : (dg.with_split_fluxes sf2).all_parameters.use_split_form = false := hsplit
    rw [cell_rhs_split_fluxes dg sf1 sf2 _ _ _ _ hsplit]
    simp only [p1, p2, Bool.false_eq_true, false_and, if_false]
    rfl
  unfold assemble_cell_terms_implicit
  simp only []
  rw [hstep]
  by_cases hr : cell_flux_loops_in_range (dg.with_split_fluxes sf2) fe_values_vol
      fe_values_lagrange
  · rw [if_neg (not_not.mpr (hrange.mpr hr)), if_neg (not_not.mpr hr)]
    rfl
  · rw [if_pos (fun h => hr (hrange.mp h)), if_pos hr]
    rfl

/-- C25: with `use_split_form` disabled the cell assembler still reads the registry entries
`split_convective_fluxes[0][0][0]` and `[0][0][1]` (lines 137-140). On the one-dimensional
example with the split form off, an empty registry and a registry with a single pair make
that read out of range and the call fails, where the same call with two pairs registered
returns. -/
theorem split_registry_read_when_disabled :
    (example_dg false .implicit_solver).all_parameters.use_split_form = false
    ∧ assemble_cell_terms_implicit ((example_dg false .implicit_solver).with_split_fluxes [])
        example_fe example_fe [0, 1] (fun _ => 0) = .error .index_out_of_range
    ∧ assemble_cell_terms_implicit
        ((example_dg false .implicit_solver).with_split_fluxes [[[identity_pair]]])
        example_fe example_fe [0, 1] (fun _ => 0) = .error .index_out_of_range
    ∧ ∃ out, assemble_cell_terms_implicit
        ((example_dg false .implicit_solver).with_split_fluxes
          [[[identity_pair, identity_pair]]])
        example_fe example_fe [0, 1] (fun _ => 0) = .ok out :=
  ⟨rfl, rfl, rfl, _, assemble_cell_eq_ok _ _ _ _ _ (example_cell_checks_pass false
    .implicit_solver)⟩

/-! ## C26: the ranges of the reads of the cell assembler -/

theorem except_ok_bind {ε α β : Type} (x : α) (f : α → Except ε β) :
    (Except.ok x >>= f) = f x := rfl

theorem except_error_bind {ε α β : Type} (e : ε) (f : α → Except ε β) :
    (Except.error e >>= f) = Except.error e := rfl

theorem cell_test_step_of_checks (dg : DGStrong) (fe_values_vol fe_values_lagrange : FEValues)
    (cell_dofs_indices : List ℕ) (acc : RealVector × SystemMatrix) (itest : ℕ)
    (hs : cell_split_checks dg fe_values_vol itest = .ok ())
    (hq : cell_quad_checks fe_values_vol fe_values_lagrange = .ok ()) :
    cell_test_step dg fe_values_vol fe_values_lagrange cell_dofs_indices acc itest
      = .ok (scatter dg.all_parameters cell_dofs_indices itest
          (cell_rhs dg fe_values_vol fe_values_lagrange cell_dofs_indices itest) acc) := by
  unfold cell_test_step
  rw [hs, hq]
  rfl

theorem cell_test_step_of_split_error (dg : DGStrong)
    (fe_values_vol fe_values_lagrange : FEValues) (cell_dofs_indices : List ℕ)
    (acc : RealVector × SystemMatrix) (itest : ℕ) (e : AssemblyError)
    (hs : cell_split_checks dg fe_values_vol itest = .error e) :
    cell_test_step dg fe_values_vol fe_values_lagrange cell_dofs_indices acc itest
      = .error e := by
  unfold cell_test_step
  rw [hs]
  rfl

theorem example_collocated_quad_checks :
    cell_quad_checks example_fe_system_collocated example_fe = .ok () := by
  apply forM_eq_ok
  intro i hi
  have h : i < 2 := List.mem_range.mp hi
  have h2 : i < example_fe.n_quadrature_points := h
  rw [if_neg (not_not.mpr h2), if_neg]
  show ¬ ¬ ((1 / 2 : ℚ) - 1 / 2 < 1 / 10 ^ 14)
  norm_num

theorem example_collocated_dofs :
    ¬ example_fe_system_collocated.dofs_per_cell ≠ [0, 1, 2, 3].length := by
  decide

theorem example_collocated_interpolation :
    ¬ ¬ interpolation_in_range example_dg_split_two_states.nstate
        example_fe_system_collocated example_fe_system_collocated.n_quadrature_points := by
  decide

theorem example_collocated_flux_loops :
    ¬ ¬ cell_flux_loops_in_range example_dg_split_two_states example_fe_system_collocated
        example_fe := by
  decide

theorem example_collocated_split_checks :
    cell_split_checks example_dg_split_two_states example_fe_system_collocated 0 = .ok ()
    ∧ cell_split_checks example_dg_split_two_states example_fe_system_collocated 1 = .ok ()
    ∧ cell_split_checks example_dg_split_two_states example_fe_system_collocated 2
        = .error .index_out_of_range :=
  ⟨rfl, rfl, rfl⟩

theorem example_collocated_system_fails :
    assemble_cell_terms_implicit example_dg_split_two_states example_fe_system_collocated
      example_fe [0, 1, 2, 3] (fun _ => 0) = .error .index_out_of_range := by
  have h0 : ∀ acc, cell_test_step example_dg_split_two_states example_fe_system_collocated
      example_fe [0, 1, 2, 3] acc 0 = .ok _ := fun acc =>
    cell_test_step_of_checks example_dg_split_two_states example_fe_system_collocated
      example_fe [0, 1, 2, 3] acc 0 example_collocated_split_checks.1
      example_collocated_quad_checks
  have h1 : ∀ acc, cell_test_step example_dg_split_two_states example_fe_system_collocated
      example_fe [0, 1, 2, 3] acc 1 = .ok _ := fun acc =>
    cell_test_step_of_checks example_dg_split_two_states example_fe_system_collocated
      example_fe [0, 1, 2, 3] acc 1 example_collocated_split_checks.2.1
      example_collocated_quad_checks
  have h2 : ∀ acc, cell_test_step example_dg_split_two_states example_fe_system_collocated
      example_fe [0, 1, 2, 3] acc 2 = .error .index_out_of_range := fun acc =>
    cell_test_step_of_split_error example_dg_split_two_states example_fe_system_collocated
      example_fe [0, 1, 2, 3] acc 2 _ example_collocated_split_checks.2.2
  have hr : List.range example_fe_system_collocated.dofs_per_cell = [0, 1, 2, 3] := rfl
  unfold assemble_cell_terms_implicit
  simp only []
  rw [if_neg example_collocated_dofs, if_neg example_collocated_interpolation,
    if_neg example_collocated_flux_loops, hr]
  rw [List.foldlM_cons, h0, except_ok_bind, List.foldlM_cons, h1, except_ok_bind,
    List.foldlM_cons, h2, except_error_bind]

theorem example_three_points_dofs :
    ¬ example_fe_three_points.dofs_per_cell ≠ [0, 1].length := by
  decide

theorem example_three_points_interpolation :
    ¬ ¬ interpolation_in_range (example_dg false .implicit_solver).nstate
        example_fe_three_points example_fe_three_points.n_quadrature_points := by
  decide

theorem example_three_points_flux_loops :
    ¬ cell_flux_loops_in_range (example_dg false .implicit_solver) example_fe_three_points
        example_fe_lagrange_quadratic := by
  decide

theorem example_three_points_fails :
    assemble_cell_terms_implicit (example_dg false .implicit_solver) example_fe_three_points
      example_fe_lagrange_quadratic [0, 1] (fun _ => 0) = .error .index_out_of_range := by
  unfold assemble_cell_terms_implicit
  simp only []
  rw [if_neg example_three_points_dofs, if_neg example_three_points_interpolation,
    if_pos example_three_points_flux_loops]

/-- C26: two cells whose DOF count equals the length of the index list and on which the cell
assembler reads out of range. With the split form on and `nstate = 2`, on the two-component
degree-1 element with its two nodes as quadrature points (4 DOFs, 2 quadrature points), line
178 reads `soln_at_q[2]` in a vector of `n_quad_pts = 2` entries. With the split form off and
`nstate = 1`, on the degree-1 element with a three-point quadrature (2 DOFs, 3 quadrature
points), line 137 reads `shape_grad_component(2, iquad, 0)` of an element with 2 basis
functions. -/
theorem cell_reads_out_of_range :
    example_fe_system_collocated.dofs_per_cell = [0, 1, 2, 3].length
    ∧ example_dg_split_two_states.nstate = 2
    ∧ cell_split_checks example_dg_split_two_states example_fe_system_collocated 2
        = .error .index_out_of_range
    ∧ assemble_cell_terms_implicit example_dg_split_two_states example_fe_system_collocated
        example_fe [0, 1, 2, 3] (fun _ => 0) = .error .index_out_of_range
    ∧ example_fe_three_points.dofs_per_cell = [0, 1].length
    ∧ (example_dg false .implicit_solver).nstate = 1
    ∧ ¬ cell_flux_loops_in_range (example_dg false .implicit_solver) example_fe_three_points
        example_fe_lagrange_quadratic
    ∧ assemble_cell_terms_implicit (example_dg false .implicit_solver) example_fe_three_points
        example_fe_lagrange_quadratic [0, 1] (fun _ => 0) = .error .index_out_of_range := by
  exact ⟨rfl, rfl, example_collocated_split_checks.2.2, example_collocated_system_fails, rfl,
    rfl, example_three_points_flux_loops, example_three_points_fails⟩

/-! ## C27: free-stream preservation of the volume term -/

/-- The value of the Lagrange divergence when the gradients of the flux basis sum to zero and
the nodal convective fluxes have one common value. -/
theorem lagrange_divergence_val_zero (dg : DGStrong) (fe_values_vol fe_values_lagrange : FEValues)
    (cell_dofs_indices : List ℕ) (q s : ℕ)
    (hpu : ∀ d, d < dg.dim →
      ∑ j in Finset.range fe_values_vol.n_quadrature_points,
        fe_values_lagrange.shape_grad j q d = 0)
    (hconst : ∀ j, j < fe_values_vol.n_quadrature_points →
      ∀ k, k < fe_values_vol.n_quadrature_points → ∀ d, d < dg.dim →
        (cell_conv_phys_flux_at_q dg fe_values_vol cell_dofs_indices j s d).val
          = (cell_conv_phys_flux_at_q dg fe_values_vol cell_dofs_indices k s d).val) :
    (lagrange_divergence dg fe_values_vol fe_values_lagrange cell_dofs_indices q s).val = 0 := by
  unfold lagrange_divergence
  rw [ADtype.val_sum]
  simp only [dotAR_eq_sum, ADtype.val_sum, ADtype.val_mul, ADtype.val_ofReal]
  rw [Finset.sum_comm]
  apply Finset.sum_eq_zero
  intro d hd
  have hd' : d < dg.dim := Finset.mem_range.mp hd
  have hterm : ∀ j, j ∈ Finset.range fe_values_vol.n_quadrature_points →
      (dg.pde_physics.convective_flux
          (cell_soln_at_q dg fe_values_vol cell_dofs_indices j) s d).val
        * fe_values_lagrange.shape_grad j q d
      = (cell_conv_phys_flux_at_q dg fe_values_vol cell_dofs_indices 0 s d).val
        * fe_values_lagrange.shape_grad j q d := by
    intro j hj
    have hj' : j < fe_values_vol.n_quadrature_points := Finset.mem_range.mp hj
    have h0 : 0 < fe_values_vol.n_quadrature_points := Nat.lt_of_le_of_lt (Nat.zero_le _) hj'
    have h := hconst j hj' 0 h0 d hd'
    unfold cell_conv_phys_flux_at_q at h
    rw [h]
    rfl
  rw [Finset.sum_congr rfl hterm, ← Finset.mul_sum, hpu d hd', mul_zero]

/-- C27: free-stream preservation of the volume term. If the gradients of the Lagrange flux
basis sum to zero at every quadrature point and the convective flux takes the same value at
every node of the cell, then the value of `flux_divergence` is zero at every quadrature point
and state; and with `use_split_form` disabled the cell assembler returns, the convective term
`Sum_q phi(q) * div(Fconv)[q][s] * JxW[q]` is zero for every test function, and every
residual entry is made of the dissipative and source terms alone. -/
theorem free_stream_preservation (dg : DGStrong) (fe_values_vol fe_values_lagrange : FEValues)
    (cell_dofs_indices : List ℕ) (local_rhs_int_cell : RealVector)
    (hsplit : dg.all_parameters.use_split_form = false)
    (hok : cell_checks_pass dg fe_values_vol fe_values_lagrange cell_dofs_indices)
    (hpu : ∀ q, q < fe_values_vol.n_quadrature_points → ∀ d, d < dg.dim →
      ∑ j in Finset.range fe_values_vol.n_quadrature_points,
        fe_values_lagrange.shape_grad j q d = 0)
    (hconst : ∀ j, j < fe_values_vol.n_quadrature_points →
      ∀ k, k < fe_values_vol.n_quadrature_points → ∀ s, s < dg.nstate → ∀ d, d < dg.dim →
        (cell_conv_phys_flux_at_q dg fe_values_vol cell_dofs_indices j s d).val
          = (cell_conv_phys_flux_at_q dg fe_values_vol cell_dofs_indices k s d).val) :
    (∀ q, q < fe_values_vol.n_quadrature_points → ∀ s, s < dg.nstate →
        ((cell_flux_state dg fe_values_vol fe_values_lagrange cell_dofs_indices).flux_divergence
          q s).val = 0)
      ∧ ∃ out, assemble_cell_terms_implicit dg fe_values_vol fe_values_lagrange
          cell_dofs_indices local_rhs_int_cell = .ok out
        ∧ ∀ itest, itest < fe_values_vol.dofs_per_cell →
          (cell_divergence_rhs dg fe_values_vol fe_values_lagrange cell_dofs_indices
              itest).val = 0
            ∧ out.1 itest = local_rhs_int_cell itest
              + (cell_diss_source_rhs dg fe_values_vol cell_dofs_indices itest).val := by
  have hdiv : ∀ q, q < fe_values_vol.n_quadrature_points → ∀ s, s < dg.nstate →
      (lagrange_divergence dg fe_values_vol fe_values_lagrange cell_dofs_indices q s).val
        = 0 := fun q hq s hs =>
    lagrange_divergence_val_zero dg fe_values_vol fe_values_lagrange cell_dofs_indices q s
      (hpu q hq) (fun j hj k hk d hd => hconst j hj k hk s hs d hd)
  refine ⟨?_, _, assemble_cell_eq_ok _ _ _ _ _ hok, ?_⟩
  · intro q hq s hs
    rw [cell_flux_divergence_eq dg fe_values_vol fe_values_lagrange cell_dofs_indices q s hq hs]
    exact hdiv q hq s hs
  · intro itest hi
    have hzero : (cell_divergence_rhs dg fe_values_vol fe_values_lagrange cell_dofs_indices
        itest).val = 0 := by
      unfold cell_divergence_rhs
      simp only []
      rw [ADtype.val_sum]
      apply Finset.sum_eq_zero
      intro q hq
      rw [ADtype.val_mul, ADtype.val_mul,
        hdiv q (Finset.mem_range.mp hq) _ (hok.2.1 q (Finset.mem_range.mp hq) itest hi),
        mul_zero, zero_mul]
    refine ⟨hzero, ?_⟩
    rw [scatter_loop_fst, if_pos hi,
      cell_rhs_eq_strong_form dg fe_values_vol fe_values_lagrange cell_dofs_indices itest
        hsplit hok.2.1 hi,
      cell_strong_form_rhs_split, ADtype.val_add, ADtype.val_neg, hzero, neg_zero, zero_add]

theorem example_constant_checks_pass :
    cell_checks_pass example_dg_constant example_fe example_fe [0, 1] :=
  example_cell_checks_pass false .implicit_solver

theorem example_constant_flux_val (j : ℕ) (hj : j < 2) (d : ℕ) :
    (cell_conv_phys_flux_at_q example_dg_constant example_fe [0, 1] j 0 d).val = 3 := by
  interval_cases j <;>
    simp [cell_conv_phys_flux_at_q, cell_soln_at_q, interpolate_soln_eq_sum,
      Finset.sum_range_succ, example_dg_constant, DGStrong.with_solution, example_dg,
      example_fe, example_physics, seed_soln_coeff, ADtype.val_sum]

theorem example_lagrange_gradients_sum (q d : ℕ) :
    ∑ j in Finset.range example_fe.n_quadrature_points, example_fe.shape_grad j q d = 0 := by
  simp [example_fe, Finset.sum_range_succ]

/-- Free-stream preservation on the one-dimensional example with the constant solution
`u = 3`: the two Lagrange gradients `-1`, `+1` sum to zero and the convective flux `u` has the
value `3` at both nodes. -/
theorem free_stream_preservation_witness :
    example_dg_constant.all_parameters.use_split_form = false
      ∧ cell_checks_pass example_dg_constant example_fe example_fe [0, 1]
      ∧ (∀ q, q < example_fe.n_quadrature_points → ∀ d, d < example_dg_constant.dim →
      ∑ j in Finset.range example_fe.n_quadrature_points,
        example_fe.shape_grad j q d = 0)
      ∧ (∀ j, j < example_fe.n_quadrature_points →
      ∀ k, k < example_fe.n_quadrature_points → ∀ s, s < example_dg_constant.nstate → ∀ d, d <
          example_dg_constant.dim →
        (cell_conv_phys_flux_at_q example_dg_constant example_fe [0, 1] j s d).val
          = (cell_conv_phys_flux_at_q example_dg_constant example_fe [0, 1] k s d).val)
      ∧ (
      (∀ q, q < example_fe.n_quadrature_points → ∀ s, s < example_dg_constant.nstate →
          ((cell_flux_state example_dg_constant example_fe example_fe [0, 1]).flux_divergence
            q s).val = 0)
        ∧ ∃ out, assemble_cell_terms_implicit example_dg_constant example_fe example_fe
            [0, 1] (fun _ => 0) = .ok out
          ∧ ∀ itest, itest < example_fe.dofs_per_cell →
            (cell_divergence_rhs example_dg_constant example_fe example_fe [0, 1]
                itest).val = 0
              ∧ out.1 itest = (fun _ => 0) itest
                + (cell_diss_source_rhs example_dg_constant example_fe [0, 1] itest).val) :=
  have hpu : ∀ q, q < example_fe.n_quadrature_points → ∀ d, d < example_dg_constant.dim →
      ∑ j in Finset.range example_fe.n_quadrature_points,
        example_fe.shape_grad j q d = 0 :=
    fun q _ d _ => example_lagrange_gradients_sum q d
  have hconst : ∀ j, j < example_fe.n_quadrature_points →
      ∀ k, k < example_fe.n_quadrature_points → ∀ s, s < example_dg_constant.nstate → ∀ d, d <
          example_dg_constant.dim →
        (cell_conv_phys_flux_at_q example_dg_constant example_fe [0, 1] j s d).val
          = (cell_conv_phys_flux_at_q example_dg_constant example_fe [0, 1] k s d).val := by
    intro j hj k hk s hs d _
    have hs0 : s = 0 := Nat.lt_one_iff.mp hs
    rw [hs0, example_constant_flux_val j hj d, example_constant_flux_val k hk d]
  ⟨rfl, example_constant_checks_pass, hpu, hconst,
    free_stream_preservation example_dg_constant example_fe example_fe [0, 1] (fun _ => 0) rfl
      example_constant_checks_pass hpu hconst⟩

/-! ## C28: an interior face whose two traces coincide -/

theorem dotAR_val (dim : ℕ) (a : Tensor1 ADtype) (b : Tensor1 real) :
    (dotAR dim a b).val = ∑ d in Finset.range dim, (a d).val * b d := by
  rw [dotAR_eq_sum, ADtype.val_sum]
  rfl

theorem dotRA_val (dim : ℕ) (a : Tensor1 real) (b : Tensor1 ADtype) :
    (dotRA dim a b).val = ∑ d in Finset.range dim, a d * (b d).val := by
  rw [dotRA_eq_sum, ADtype.val_sum]
  rfl

theorem interpolate_soln_out_of_range (nstate : ℕ) (fe : FEValues) (soln_coeff : ℕ → ADtype)
    (iquad s : ℕ)
    (h : ∀ idof, idof < fe.dofs_per_cell → fe.system_to_component_index idof < nstate)
    (hs : nstate ≤ s) : interpolate_soln fe soln_coeff iquad s = 0 := by
  rw [interpolate_soln_eq_sum]
  apply Finset.sum_eq_zero
  intro idof hidof
  rw [if_neg]
  intro heq
  have := h idof (Finset.mem_range.mp hidof)
  omega

/-- The values formed at a face quadrature point where the two traces have the same values,
for consistent collaborators. -/
theorem face_values_of_equal_traces (dg : DGStrong) (fe_values_int fe_values_ext : FEValues)
    (penalty : real) (dof_indices_int dof_indices_ext : List ℕ) (q : ℕ)
    (hq : q < fe_values_ext.n_quadrature_points)
    (hok : face_checks_pass dg fe_values_int fe_values_ext dof_indices_int dof_indices_ext)
    (hval : ValueRespecting dg)
    (htrace : ∀ s, s < dg.nstate →
      ((face_quad_values dg fe_values_int fe_values_ext penalty dof_indices_int
          dof_indices_ext q).soln_int s).val
        = ((face_quad_values dg fe_values_int fe_values_ext penalty dof_indices_int
          dof_indices_ext q).soln_ext s).val)
    (hflux : ∀ (u : ADArray) (n : Tensor1 real) (s : ℕ), s < dg.nstate →
      (dg.conv_num_flux.evaluate_flux u u (tensorOfReal n) s).val
        = (dotAR dg.dim (dg.pde_physics.convective_flux u s) n).val)
    (hsoln : ∀ (u : ADArray) (n : Tensor1 ADtype) (s : ℕ), s < dg.nstate →
      (dg.diss_num_flux.evaluate_solution_flux u u n s).val = (u s).val)
    (hdiss : ∀ (u : ADArray) (s d : ℕ), s < dg.nstate → d < dg.dim →
      (dg.pde_physics.dissipative_flux u (fun _ _ => 0) s d).val = 0) :
    ∀ s, s < dg.nstate →
      ((face_quad_values dg fe_values_int fe_values_ext penalty dof_indices_int
          dof_indices_ext q).conv_num_flux_dot_n s).val
        = (dotAR dg.dim
            ((face_quad_values dg fe_values_int fe_values_ext penalty dof_indices_int
              dof_indices_ext q).conv_phys_flux_int s) (fe_values_int.normal_vector q)).val
      ∧ ((face_quad_values dg fe_values_int fe_values_ext penalty dof_indices_int
          dof_indices_ext q).conv_num_flux_dot_n s).val
        = (dotAR dg.dim
            ((face_quad_values dg fe_values_int fe_values_ext penalty dof_indices_int
              dof_indices_ext q).conv_phys_flux_ext s) (fe_values_int.normal_vector q)).val
      ∧ ∀ d, d < dg.dim →
        ((face_quad_values dg fe_values_int fe_values_ext penalty dof_indices_int
            dof_indices_ext q).diss_flux_jump_int s d).val = 0
        ∧ ((face_quad_values dg fe_values_int fe_values_ext penalty dof_indices_int
            dof_indices_ext q).diss_flux_jump_ext s d).val = 0 := by
  intro s hs
  -- the two traces have the same values in every slot
  have hall : ∀ s', ((face_quad_values dg fe_values_int fe_values_ext penalty dof_indices_int
        dof_indices_ext q).soln_int s').val
      = ((face_quad_values dg fe_values_int fe_values_ext penalty dof_indices_int
        dof_indices_ext q).soln_ext s').val := by
    intro s'
    by_cases hs' : s' < dg.nstate
    · exact htrace s' hs'
    · have h1 : (face_quad_values dg fe_values_int fe_values_ext penalty dof_indices_int
          dof_indices_ext q).soln_int s' = 0 :=
        interpolate_soln_out_of_range dg.nstate fe_values_int _ q s'
          (fun idof hidof => hok.2.2.2.1 q hq idof hidof) (Nat.le_of_not_lt hs')
      have h2 : (face_quad_values dg fe_values_int fe_values_ext penalty dof_indices_int
          dof_indices_ext q).soln_ext s' = 0 :=
        interpolate_soln_out_of_range dg.nstate fe_values_ext _ q s'
          (fun idof hidof => hok.2.2.2.2.1 q hq idof hidof) (Nat.le_of_not_lt hs')
      rw [h1, h2]
  -- the numerical flux
  have hF : ((face_quad_values dg fe_values_int fe_values_ext penalty dof_indices_int
        dof_indices_ext q).conv_num_flux_dot_n s).val
      = (dotAR dg.dim
          ((face_quad_values dg fe_values_int fe_values_ext penalty dof_indices_int
            dof_indices_ext q).conv_phys_flux_int s) (fe_values_int.normal_vector q)).val := by
    have h := hval.evaluate_flux
      (face_quad_values dg fe_values_int fe_values_ext penalty dof_indices_int
        dof_indices_ext q).soln_int
      (face_quad_values dg fe_values_int fe_values_ext penalty dof_indices_int
        dof_indices_ext q).soln_ext
      (face_quad_values dg fe_values_int fe_values_ext penalty dof_indices_int
        dof_indices_ext q).soln_int
      (face_quad_values dg fe_values_int fe_values_ext penalty dof_indices_int
        dof_indices_ext q).soln_int
      (tensorOfReal (fe_values_int.normal_vector q)) (fun _ => rfl) (fun s' => (hall s').symm) s
    exact h.trans (hflux _ _ s hs)
  have hFext : (dotAR dg.dim
        ((face_quad_values dg fe_values_int fe_values_ext penalty dof_indices_int
          dof_indices_ext q).conv_phys_flux_int s) (fe_values_int.normal_vector q)).val
      = (dotAR dg.dim
        ((face_quad_values dg fe_values_int fe_values_ext penalty dof_indices_int
          dof_indices_ext q).conv_phys_flux_ext s) (fe_values_int.normal_vector q)).val := by
    rw [dotAR_val, dotAR_val]
    apply Finset.sum_congr rfl
    intro d _
    have h := hval.convective_flux _ _ hall s d
    exact congrArg (fun x => x * fe_values_int.normal_vector q d) h
  -- the auxiliary trace has the value of the common trace
  have hstar : ∀ s', s' < dg.nstate →
      ((face_quad_values dg fe_values_int fe_values_ext penalty dof_indices_int
        dof_indices_ext q).diss_soln_num_flux s').val
      = ((face_quad_values dg fe_values_int fe_values_ext penalty dof_indices_int
        dof_indices_ext q).soln_int s').val := by
    intro s' hs'
    have h := hval.evaluate_solution_flux
      (face_quad_values dg fe_values_int fe_values_ext penalty dof_indices_int
        dof_indices_ext q).soln_int
      (face_quad_values dg fe_values_int fe_values_ext penalty dof_indices_int
        dof_indices_ext q).soln_ext
      (face_quad_values dg fe_values_int fe_values_ext penalty dof_indices_int
        dof_indices_ext q).soln_int
      (face_quad_values dg fe_values_int fe_values_ext penalty dof_indices_int
        dof_indices_ext q).soln_int
      (tensorOfReal (fe_values_int.normal_vector q)) (fun _ => rfl) (fun s' => (hall s').symm)
      s'
    exact h.trans (hsoln _ _ s' hs')
  refine ⟨hF, hF.trans hFext, ?_⟩
  intro d hd
  constructor
  · have hj : ∀ s' d', (diss_soln_jump dg.nstate
          (face_quad_values dg fe_values_int fe_values_ext penalty dof_indices_int
            dof_indices_ext q).diss_soln_num_flux
          (face_quad_values dg fe_values_int fe_values_ext penalty dof_indices_int
            dof_indices_ext q).soln_int
          (tensorOfReal (fe_values_int.normal_vector q)) s' d').val
        = ((fun _ _ => 0 : ADArrayTensor1) s' d').val := by
      intro s' d'
      rw [diss_soln_jump_apply]
      by_cases hs' : s' < dg.nstate
      · rw [if_pos hs', ADtype.val_mul, ADtype.val_sub, hstar s' hs', sub_self, zero_mul]
        rfl
      · rw [if_neg hs']
    have h := hval.dissipative_flux
      (face_quad_values dg fe_values_int fe_values_ext penalty dof_indices_int
        dof_indices_ext q).soln_int
      (face_quad_values dg fe_values_int fe_values_ext penalty dof_indices_int
        dof_indices_ext q).soln_int _ (fun _ _ => 0) (fun _ => rfl) hj s d
    exact h.trans (hdiss _ s d hs hd)
  · have hj : ∀ s' d', (diss_soln_jump dg.nstate
          (face_quad_values dg fe_values_int fe_values_ext penalty dof_indices_int
            dof_indices_ext q).diss_soln_num_flux
          (face_quad_values dg fe_values_int fe_values_ext penalty dof_indices_int
            dof_indices_ext q).soln_ext
          (fun d => -tensorOfReal (fe_values_int.normal_vector q) d) s' d').val
        = ((fun _ _ => 0 : ADArrayTensor1) s' d').val := by
      intro s' d'
      rw [diss_soln_jump_apply]
      by_cases hs' : s' < dg.nstate
      · rw [if_pos hs', ADtype.val_mul, ADtype.val_sub, hstar s' hs', hall s', sub_self,
          zero_mul]
        rfl
      · rw [if_neg hs']
    have h := hval.dissipative_flux
      (face_quad_values dg fe_values_int fe_values_ext penalty dof_indices_int
        dof_indices_ext q).soln_ext
      (face_quad_values dg fe_values_int fe_values_ext penalty dof_indices_int
        dof_indices_ext q).soln_ext _ (fun _ _ => 0) (fun _ => rfl) hj s d
    exact h.trans (hdiss _ s d hs hd)

/-- C28: if at every quadrature point of an interior face the two traces have the same
values, the convective numerical flux is consistent, the solution flux is consistent and
`dissipative_flux(u, 0) = 0` (for collaborators whose values depend on values only), then the
call returns; at every quadrature point the convective flux differences of both sides and the
dissipative fluxes of both jumps have value zero; and every interior-side and exterior-side
residual entry receives the auxiliary-flux term alone. -/
theorem face_equal_traces_only_auxiliary (dg : DGStrong) (fe_values_int fe_values_ext : FEValues)
    (penalty : real) (dof_indices_int dof_indices_ext : List ℕ)
    (local_rhs_int_cell local_rhs_ext_cell : RealVector)
    (hok : face_checks_pass dg fe_values_int fe_values_ext dof_indices_int dof_indices_ext)
    (hval : ValueRespecting dg)
    (htrace : ∀ q, q < fe_values_ext.n_quadrature_points → ∀ s, s < dg.nstate →
      ((face_quad_values dg fe_values_int fe_values_ext penalty dof_indices_int
          dof_indices_ext q).soln_int s).val
        = ((face_quad_values dg fe_values_int fe_values_ext penalty dof_indices_int
          dof_indices_ext q).soln_ext s).val)
    (hflux : ∀ (u : ADArray) (n : Tensor1 real) (s : ℕ), s < dg.nstate →
      (dg.conv_num_flux.evaluate_flux u u (tensorOfReal n) s).val
        = (dotAR dg.dim (dg.pde_physics.convective_flux u s) n).val)
    (hsoln : ∀ (u : ADArray) (n : Tensor1 ADtype) (s : ℕ), s < dg.nstate →
      (dg.diss_num_flux.evaluate_solution_flux u u n s).val = (u s).val)
    (hdiss : ∀ (u : ADArray) (s d : ℕ), s < dg.nstate → d < dg.dim →
      (dg.pde_physics.dissipative_flux u (fun _ _ => 0) s d).val = 0) :
    ∃ out, assemble_face_term_implicit dg fe_values_int fe_values_ext penalty dof_indices_int
        dof_indices_ext local_rhs_int_cell local_rhs_ext_cell = .ok out
      ∧ (∀ q, q < fe_values_ext.n_quadrature_points → ∀ s, s < dg.nstate →
          ((face_quad_values dg fe_values_int fe_values_ext penalty dof_indices_int
                dof_indices_ext q).conv_num_flux_dot_n s
              - dotAR dg.dim
                  ((face_quad_values dg fe_values_int fe_values_ext penalty dof_indices_int
                    dof_indices_ext q).conv_phys_flux_int s)
                  (fe_values_int.normal_vector q)).val = 0
            ∧ ((-(face_quad_values dg fe_values_int fe_values_ext penalty dof_indices_int
                dof_indices_ext q).conv_num_flux_dot_n s)
              - dotAR dg.dim
                  ((face_quad_values dg fe_values_int fe_values_ext penalty dof_indices_int
                    dof_indices_ext q).conv_phys_flux_ext s)
                  (fun d => -fe_values_int.normal_vector q d)).val = 0
            ∧ ∀ d, d < dg.dim →
              ((face_quad_values dg fe_values_int fe_values_ext penalty dof_indices_int
                  dof_indices_ext q).diss_flux_jump_int s d).val = 0
              ∧ ((face_quad_values dg fe_values_int fe_values_ext penalty dof_indices_int
                  dof_indices_ext q).diss_flux_jump_ext s d).val = 0)
      ∧ (∀ i, i < fe_values_int.dofs_per_cell →
          out.local_rhs_int_cell i = local_rhs_int_cell i
            + (face_auxiliary_rhs_int dg fe_values_int fe_values_ext penalty dof_indices_int
                dof_indices_ext i).val)
      ∧ ∀ j, j < fe_values_ext.dofs_per_cell →
          out.local_rhs_ext_cell j = local_rhs_ext_cell j
            + (face_auxiliary_rhs_ext dg fe_values_int fe_values_ext penalty dof_indices_int
                dof_indices_ext j).val := by
  have hpt := fun q hq => face_values_of_equal_traces dg fe_values_int fe_values_ext penalty
    dof_indices_int dof_indices_ext q hq hok hval (htrace q hq) hflux hsoln hdiss
  refine ⟨_, assemble_face_eq_loops dg fe_values_int fe_values_ext penalty dof_indices_int
    dof_indices_ext local_rhs_int_cell local_rhs_ext_cell hok, ?_, ?_, ?_⟩
  · intro q hq s hs
    obtain ⟨h1, h2, h3⟩ := hpt q hq s hs
    refine ⟨?_, ?_, h3⟩
    · rw [ADtype.val_sub, h1, sub_self]
    · rw [dotAR_neg_right, ADtype.val_sub, ADtype.val_neg, ADtype.val_neg, h2]
      ring
  · intro i hi
    rw [face_loops_int, if_pos hi, face_rhs_int_eq_terms]
    unfold face_auxiliary_rhs_int
    simp only []
    rw [ADtype.val_sum, ADtype.val_sum]
    congr 1
    apply Finset.sum_congr rfl
    intro q hq
    have hq' : q < fe_values_ext.n_quadrature_points := Finset.mem_range.mp hq
    have hs : fe_values_int.system_to_component_index i < dg.nstate :=
      hok.2.2.2.1 q hq' i hi
    obtain ⟨h1, _, h3⟩ := hpt q hq' _ hs
    have hJ : (dotRA dg.dim
        (fe_values_int.shape_grad_component i q (fe_values_int.system_to_component_index i))
        ((face_quad_values dg fe_values_int fe_values_ext penalty dof_indices_int
          dof_indices_ext q).diss_flux_jump_int
            (fe_values_int.system_to_component_index i))).val = 0 := by
      rw [dotRA_val]
      apply Finset.sum_eq_zero
      intro d hd
      rw [(h3 d (Finset.mem_range.mp hd)).1, mul_zero]
    unfold face_num_flux_term_int face_physical_term_int face_num_flux_sum
    simp only [ADtype.val_add, ADtype.val_mul, ADtype.val_neg, ADtype.val_ofReal]
    rw [hJ, ← h1]
    ring
  · intro j hj
    rw [face_loops_ext, if_pos hj, face_rhs_ext_eq_terms]
    unfold face_auxiliary_rhs_ext
    simp only []
    rw [ADtype.val_sum, ADtype.val_sum]
    congr 1
    apply Finset.sum_congr rfl
    intro q hq
    have hq' : q < fe_values_ext.n_quadrature_points := Finset.mem_range.mp hq
    have hs : fe_values_int.system_to_component_index j < dg.nstate :=
      hok.2.2.2.1 q hq' j (Nat.lt_of_lt_of_le hj hok.2.2.2.2.2)
    obtain ⟨_, h2, h3⟩ := hpt q hq' _ hs
    have hJ : (dotRA dg.dim
        (fe_values_ext.shape_grad_component j q (fe_values_int.system_to_component_index j))
        ((face_quad_values dg fe_values_int fe_values_ext penalty dof_indices_int
          dof_indices_ext q).diss_flux_jump_ext
            (fe_values_int.system_to_component_index j))).val = 0 := by
      rw [dotRA_val]
      apply Finset.sum_eq_zero
      intro d hd
      rw [(h3 d (Finset.mem_range.mp hd)).2, mul_zero]
    unfold face_num_flux_term_ext face_physical_term_ext face_num_flux_sum
    simp only [ADtype.val_add, ADtype.val_mul, ADtype.val_neg, ADtype.val_ofReal]
    rw [hJ, ← h2]
    ring

theorem example_constant_face_checks_pass :
    face_checks_pass example_dg_constant example_fe_face example_fe_face_ext [0, 1] [2, 3] :=
  example_face_checks_pass false .implicit_solver

theorem example_value_respecting : ValueRespecting example_dg_constant where
  convective_flux := fun _ _ h s _ => h s
  dissipative_flux := fun _ _ g g' _ hg s d => by
    show (-(g s d)).val = (-(g' s d)).val
    rw [ADtype.val_neg, ADtype.val_neg, hg s d]
  evaluate_flux := fun ui ue ui' ue' n hi he s => by
    show (ADtype.ofReal (1 / 2) * (ui s + ue s) * n 0).val
      = (ADtype.ofReal (1 / 2) * (ui' s + ue' s) * n 0).val
    simp only [ADtype.val_mul, ADtype.val_add, hi s, he s]
  evaluate_solution_flux := fun ui ue ui' ue' _ hi he s => by
    show (ADtype.ofReal (1 / 2) * (ui s + ue s)).val
      = (ADtype.ofReal (1 / 2) * (ui' s + ue' s)).val
    simp only [ADtype.val_mul, ADtype.val_add, hi s, he s]

theorem example_constant_traces (q s : ℕ) :
    ((face_quad_values example_dg_constant example_fe_face example_fe_face_ext 2 [0, 1] [2, 3]
        q).soln_int s).val
      = ((face_quad_values example_dg_constant example_fe_face example_fe_face_ext 2 [0, 1]
        [2, 3] q).soln_ext s).val := by
  simp [face_quad_values, interpolate_soln_eq_sum, Finset.sum_range_succ, example_dg_constant,
    DGStrong.with_solution, example_dg, example_fe_face, example_fe_face_ext, seed_soln_coeff,
    ADtype.val_sum]
  split_ifs <;> simp

/-- The interior face of the one-dimensional example with the constant solution `u = 3`: both
traces have the value `3`, the central fluxes are consistent and `Fdiss(u, 0) = -0 = 0`. -/
theorem face_equal_traces_only_auxiliary_witness :
    face_checks_pass example_dg_constant example_fe_face example_fe_face_ext [0, 1] [2, 3]
      ∧ ValueRespecting example_dg_constant
      ∧ (∀ q, q < example_fe_face_ext.n_quadrature_points → ∀ s, s < example_dg_constant.nstate →
      ((face_quad_values example_dg_constant example_fe_face example_fe_face_ext 2 [0, 1]
          [2, 3] q).soln_int s).val
        = ((face_quad_values example_dg_constant example_fe_face example_fe_face_ext 2 [0, 1]
          [2, 3] q).soln_ext s).val)
      ∧ (∀ (u : ADArray) (n : Tensor1 real) (s : ℕ), s < example_dg_constant.nstate →
      (example_dg_constant.conv_num_flux.evaluate_flux u u (tensorOfReal n) s).val
        = (dotAR example_dg_constant.dim (example_dg_constant.pde_physics.convective_flux u s)
            n).val)
      ∧ (∀ (u : ADArray) (n : Tensor1 ADtype) (s : ℕ), s < example_dg_constant.nstate →
      (example_dg_constant.diss_num_flux.evaluate_solution_flux u u n s).val = (u s).val)
      ∧ (∀ (u : ADArray) (s d : ℕ), s < example_dg_constant.nstate → d < example_dg_constant.dim →
      (example_dg_constant.pde_physics.dissipative_flux u (fun _ _ => 0) s d).val = 0)
      ∧ (
      ∃ out, assemble_face_term_implicit example_dg_constant example_fe_face example_fe_face_ext 2
          [0, 1]
          [2, 3] (fun _ => 0) (fun _ => 0) = .ok out
        ∧ (∀ q, q < example_fe_face_ext.n_quadrature_points → ∀ s, s < example_dg_constant.nstate →
            ((face_quad_values example_dg_constant example_fe_face example_fe_face_ext 2 [0, 1]
                  [2, 3] q).conv_num_flux_dot_n s
                - dotAR example_dg_constant.dim
                    ((face_quad_values example_dg_constant example_fe_face example_fe_face_ext 2
                        [0, 1]
                      [2, 3] q).conv_phys_flux_int s)
                    (example_fe_face.normal_vector q)).val = 0
              ∧ ((-(face_quad_values example_dg_constant example_fe_face example_fe_face_ext 2
                  [0, 1]
                  [2, 3] q).conv_num_flux_dot_n s)
                - dotAR example_dg_constant.dim
                    ((face_quad_values example_dg_constant example_fe_face example_fe_face_ext 2
                        [0, 1]
                      [2, 3] q).conv_phys_flux_ext s)
                    (fun d => -example_fe_face.normal_vector q d)).val = 0
              ∧ ∀ d, d < example_dg_constant.dim →
                ((face_quad_values example_dg_constant example_fe_face example_fe_face_ext 2 [0, 1]
                    [2, 3] q).diss_flux_jump_int s d).val = 0
                ∧ ((face_quad_values example_dg_constant example_fe_face example_fe_face_ext 2
                    [0, 1]
                    [2, 3] q).diss_flux_jump_ext s d).val = 0)
        ∧ (∀ i, i < example_fe_face.dofs_per_cell →
            out.local_rhs_int_cell i = (fun _ => 0) i
              + (face_auxiliary_rhs_int example_dg_constant example_fe_face example_fe_face_ext 2
                  [0, 1]
                  [2, 3] i).val)
        ∧ ∀ j, j < example_fe_face_ext.dofs_per_cell →
            out.local_rhs_ext_cell j = (fun _ => 0) j
              + (face_auxiliary_rhs_ext example_dg_constant example_fe_face example_fe_face_ext 2
                  [0, 1]
                  [2, 3] j).val) :=
  have htrace : ∀ q, q < example_fe_face_ext.n_quadrature_points → ∀ s, s <
      example_dg_constant.nstate →
      ((face_quad_values example_dg_constant example_fe_face example_fe_face_ext 2 [0, 1]
          [2, 3] q).soln_int s).val
        = ((face_quad_values example_dg_constant example_fe_face example_fe_face_ext 2 [0, 1]
          [2, 3] q).soln_ext s).val :=
    fun q _ s _ => example_constant_traces q s
  have hflux : ∀ (u : ADArray) (n : Tensor1 real) (s : ℕ), s < example_dg_constant.nstate →
      (example_dg_constant.conv_num_flux.evaluate_flux u u (tensorOfReal n) s).val
        = (dotAR example_dg_constant.dim (example_dg_constant.pde_physics.convective_flux u s)
            n).val :=
    fun u n s _ => congrArg ADtype.val (example_flux_consistent u n s)
  have hsoln : ∀ (u : ADArray) (n : Tensor1 ADtype) (s : ℕ), s < example_dg_constant.nstate →
      (example_dg_constant.diss_num_flux.evaluate_solution_flux u u n s).val = (u s).val :=
    fun u n s _ => congrArg ADtype.val (example_solution_flux_consistent u n s)
  have hdiss : ∀ (u : ADArray) (s d : ℕ), s < example_dg_constant.nstate → d <
      example_dg_constant.dim →
      (example_dg_constant.pde_physics.dissipative_flux u (fun _ _ => 0) s d).val = 0 :=
    fun _ _ _ _ _ => neg_zero
  ⟨example_constant_face_checks_pass, example_value_respecting, htrace, hflux, hsoln, hdiss,
    face_equal_traces_only_auxiliary example_dg_constant example_fe_face example_fe_face_ext 2
      [0, 1] [2, 3] (fun _ => 0) (fun _ => 0) example_constant_face_checks_pass
      example_value_respecting htrace hflux hsoln hdiss⟩

/-! ## C29: the two solution jumps of an interior face -/

theorem mean_minus_left (a b n : ADtype) :
    (ADtype.ofReal (1 / 2) * (a + b) - a) * n = ADtype.ofReal (1 / 2) * (b - a) * n := by
  ext <;>
    simp only [ADtype.val_mul, ADtype.dx_mul, ADtype.val_add, ADtype.dx_add, ADtype.val_sub,
      ADtype.dx_sub, ADtype.val_ofReal, ADtype.dx_ofReal] <;> ring

theorem mean_minus_right (a b n : ADtype) :
    (ADtype.ofReal (1 / 2) * (a + b) - b) * -n = ADtype.ofReal (1 / 2) * (b - a) * n := by
  ext <;>
    simp only [ADtype.val_mul, ADtype.dx_mul, ADtype.val_add, ADtype.dx_add, ADtype.val_sub,
      ADtype.dx_sub, ADtype.val_neg, ADtype.dx_neg, ADtype.val_ofReal, ADtype.dx_ofReal]
      <;> ring

/-- C29: if `evaluate_solution_flux` returns the arithmetic mean of the two traces, then at
every interior-face quadrature point and for every state component the interior solution jump
`(u* - u_int) * n` and the exterior solution jump `(u* - u_ext) * (-n)` formed by the
interior-face assembler (and handed to `dissipative_flux` for the two sides) are the same
vector, both equal to `(u_ext - u_int)/2 * n`. The call returns when its checks pass. -/
theorem face_solution_jumps_coincide (dg : DGStrong) (fe_values_int fe_values_ext : FEValues)
    (penalty : real) (dof_indices_int dof_indices_ext : List ℕ)
    (local_rhs_int_cell local_rhs_ext_cell : RealVector)
    (hok : face_checks_pass dg fe_values_int fe_values_ext dof_indices_int dof_indices_ext)
    (hmean : ∀ (ui ue : ADArray) (n : Tensor1 ADtype) (s : ℕ), s < dg.nstate →
      dg.diss_num_flux.evaluate_solution_flux ui ue n s
        = ADtype.ofReal (1 / 2) * (ui s + ue s)) :
    (∃ out, assemble_face_term_implicit dg fe_values_int fe_values_ext penalty dof_indices_int
        dof_indices_ext local_rhs_int_cell local_rhs_ext_cell = .ok out)
    ∧ ∀ q,
      (face_quad_values dg fe_values_int fe_values_ext penalty dof_indices_int dof_indices_ext
          q).diss_flux_jump_int
        = dg.pde_physics.dissipative_flux
            (face_quad_values dg fe_values_int fe_values_ext penalty dof_indices_int
              dof_indices_ext q).soln_int
            (face_diss_soln_jump_int dg fe_values_int fe_values_ext penalty dof_indices_int
              dof_indices_ext q)
      ∧ (face_quad_values dg fe_values_int fe_values_ext penalty dof_indices_int
          dof_indices_ext q).diss_flux_jump_ext
        = dg.pde_physics.dissipative_flux
            (face_quad_values dg fe_values_int fe_values_ext penalty dof_indices_int
              dof_indices_ext q).soln_ext
            (face_diss_soln_jump_ext dg fe_values_int fe_values_ext penalty dof_indices_int
              dof_indices_ext q)
      ∧ ∀ s, s < dg.nstate → ∀ d,
        face_diss_soln_jump_int dg fe_values_int fe_values_ext penalty dof_indices_int
            dof_indices_ext q s d
          = face_diss_soln_jump_ext dg fe_values_int fe_values_ext penalty dof_indices_int
            dof_indices_ext q s d
        ∧ face_diss_soln_jump_int dg fe_values_int fe_values_ext penalty dof_indices_int
            dof_indices_ext q s d
          = ADtype.ofReal (1 / 2)
            * ((face_quad_values dg fe_values_int fe_values_ext penalty dof_indices_int
                  dof_indices_ext q).soln_ext s
                - (face_quad_values dg fe_values_int fe_values_ext penalty dof_indices_int
                  dof_indices_ext q).soln_int s)
            * ADtype.ofReal (fe_values_int.normal_vector q d) := by
  refine ⟨⟨_, assemble_face_eq_loops dg fe_values_int fe_values_ext penalty dof_indices_int
    dof_indices_ext local_rhs_int_cell local_rhs_ext_cell hok⟩, ?_⟩
  intro q
  refine ⟨rfl, rfl, ?_⟩
  intro s hs d
  have hstar : (face_quad_values dg fe_values_int fe_values_ext penalty dof_indices_int
        dof_indices_ext q).diss_soln_num_flux s
      = ADtype.ofReal (1 / 2)
        * ((face_quad_values dg fe_values_int fe_values_ext penalty dof_indices_int
            dof_indices_ext q).soln_int s
          + (face_quad_values dg fe_values_int fe_values_ext penalty dof_indices_int
            dof_indices_ext q).soln_ext s) :=
    hmean _ _ _ s hs
  have hint : face_diss_soln_jump_int dg fe_values_int fe_values_ext penalty dof_indices_int
        dof_indices_ext q s d
      = ADtype.ofReal (1 / 2)
        * ((face_quad_values dg fe_values_int fe_values_ext penalty dof_indices_int
              dof_indices_ext q).soln_ext s
            - (face_quad_values dg fe_values_int fe_values_ext penalty dof_indices_int
              dof_indices_ext q).soln_int s)
        * ADtype.ofReal (fe_values_int.normal_vector q d) := by
    unfold face_diss_soln_jump_int
    rw [diss_soln_jump_apply, if_pos hs, hstar, mean_minus_left]
    rfl
  have hext : face_diss_soln_jump_ext dg fe_values_int fe_values_ext penalty dof_indices_int
        dof_indices_ext q s d
      = ADtype.ofReal (1 / 2)
        * ((face_quad_values dg fe_values_int fe_values_ext penalty dof_indices_int
              dof_indices_ext q).soln_ext s
            - (face_quad_values dg fe_values_int fe_values_ext penalty dof_indices_int
              dof_indices_ext q).soln_int s)
        * ADtype.ofReal (fe_values_int.normal_vector q d) := by
    unfold face_diss_soln_jump_ext
    rw [diss_soln_jump_apply, if_pos hs, hstar, mean_minus_right]
    rfl
  exact ⟨hint.trans hext.symm, hint⟩

/-- The two solution jumps on the interior face of the one-dimensional example, whose
solution flux is the mean `(u_int + u_ext)/2`. -/
theorem face_solution_jumps_coincide_witness :
    face_checks_pass (example_dg false .implicit_solver) example_fe_face example_fe_face_ext [0, 1]
        [2, 3]
      ∧ (∀ (ui ue : ADArray) (n : Tensor1 ADtype) (s : ℕ), s < (example_dg false
          .implicit_solver).nstate →
          (example_dg false .implicit_solver).diss_num_flux.evaluate_solution_flux ui ue n s
            = ADtype.ofReal (1 / 2) * (ui s + ue s))
      ∧ (
      (∃ out, assemble_face_term_implicit (example_dg false .implicit_solver) example_fe_face
          example_fe_face_ext 2 [0, 1]
          [2, 3] (fun _ => 0) (fun _ => 0) = .ok out)
      ∧ ∀ q,
        (face_quad_values (example_dg false .implicit_solver) example_fe_face example_fe_face_ext 2
            [0, 1] [2, 3]
            q).diss_flux_jump_int
          = (example_dg false .implicit_solver).pde_physics.dissipative_flux
              (face_quad_values (example_dg false .implicit_solver) example_fe_face
                  example_fe_face_ext 2 [0, 1]
                [2, 3] q).soln_int
              (face_diss_soln_jump_int (example_dg false .implicit_solver) example_fe_face
                  example_fe_face_ext 2 [0, 1]
                [2, 3] q)
        ∧ (face_quad_values (example_dg false .implicit_solver) example_fe_face example_fe_face_ext
            2 [0, 1]
            [2, 3] q).diss_flux_jump_ext
          = (example_dg false .implicit_solver).pde_physics.dissipative_flux
              (face_quad_values (example_dg false .implicit_solver) example_fe_face
                  example_fe_face_ext 2 [0, 1]
                [2, 3] q).soln_ext
              (face_diss_soln_jump_ext (example_dg false .implicit_solver) example_fe_face
                  example_fe_face_ext 2 [0, 1]
                [2, 3] q)
        ∧ ∀ s, s < (example_dg false .implicit_solver).nstate → ∀ d,
          face_diss_soln_jump_int (example_dg false .implicit_solver) example_fe_face
              example_fe_face_ext 2 [0, 1]
              [2, 3] q s d
            = face_diss_soln_jump_ext (example_dg false .implicit_solver) example_fe_face
                example_fe_face_ext 2 [0, 1]
              [2, 3] q s d
          ∧ face_diss_soln_jump_int (example_dg false .implicit_solver) example_fe_face
              example_fe_face_ext 2 [0, 1]
              [2, 3] q s d
            = ADtype.ofReal (1 / 2)
              * ((face_quad_values (example_dg false .implicit_solver) example_fe_face
                  example_fe_face_ext 2 [0, 1]
                    [2, 3] q).soln_ext s
                  - (face_quad_values (example_dg false .implicit_solver) example_fe_face
                      example_fe_face_ext 2 [0, 1]
                    [2, 3] q).soln_int s)
              * ADtype.ofReal (example_fe_face.normal_vector q d)) :=
  ⟨example_face_checks_pass false .implicit_solver, fun _ _ _ _ _ => rfl,
    face_solution_jumps_coincide (example_dg false .implicit_solver) example_fe_face
        example_fe_face_ext 2 [0, 1] [2, 3]
      (fun _ => 0) (fun _ => 0) (example_face_checks_pass false .implicit_solver)
      (fun _ _ _ _ _ => rfl)⟩

/-! ## C30: the finite-difference stencil of the sensitivity test -/

/-- The entry of `perturbed_dual_dot_residual` stored for the sample `(i, j)`. -/
theorem perturbed_dual_dot_residual_apply (R : real → real → real)
    (old_iw old_jnode EPS : real) (i j : ℤ) (hi : -2 ≤ i ∧ i ≤ 2) (hj : -2 ≤ j ∧ j ≤ 2) :
    perturbed_dual_dot_residual R old_iw old_jnode EPS (stencil_index i j)
      = R (old_iw + i * EPS) (old_jnode + j * EPS) := by
  obtain ⟨hi1, hi2⟩ := hi
  obtain ⟨hj1, hj2⟩ := hj
  interval_cases i <;> interval_cases j <;>
    simp [perturbed_dual_dot_residual, forLoop, List.range_succ, stencil_index,
      Function.update] <;>
    norm_num

/-- The value `fd_entry` of the sensitivity test is the weighted sum of the sixteen samples
divided by `600 * EPS^2`. -/
theorem fd_entry_eq_stencil_sum (R : real → real → real) (old_iw old_jnode EPS : real) :
    fd_entry (perturbed_dual_dot_residual R old_iw old_jnode EPS) EPS
      = stencil_sum (fun i j => R (old_iw + i * EPS) (old_jnode + j * EPS))
          / (600 * EPS * EPS) := by
  have h := fun i j hi hj =>
    perturbed_dual_dot_residual_apply R old_iw old_jnode EPS i j hi hj
  unfold fd_entry stencil_sum
  simp only []
  rw [h 1 (-2) (by decide) (by decide), h 2 (-1) (by decide) (by decide),
    h (-2) 1 (by decide) (by decide), h (-1) 2 (by decide) (by decide),
    h (-1) (-2) (by decide) (by decide), h (-2) (-1) (by decide) (by decide),
    h 2 1 (by decide) (by decide), h 1 2 (by decide) (by decide),
    h 2 (-2) (by decide) (by decide), h (-2) 2 (by decide) (by decide),
    h (-2) (-2) (by decide) (by decide), h 2 2 (by decide) (by decide),
    h (-1) (-1) (by decide) (by decide), h 1 1 (by decide) (by decide),
    h 1 (-1) (by decide) (by decide), h (-1) 1 (by decide) (by decide)]
  ring

/-- The stencil is exact on every monomial `c * x^a * y^b` of total degree at most 5. -/
theorem stencil_sum_monomial (a b : ℕ) (hab : a + b ≤ 5) (c x0 y0 h : real) (hh : h ≠ 0) :
    stencil_sum (fun i j => c * (x0 + i * h) ^ a * (y0 + j * h) ^ b) / (600 * h * h)
      = c * a * b * x0 ^ (a - 1) * y0 ^ (b - 1) := by
  have ha : a ≤ 5 := by omega
  have hb : b ≤ 5 := by omega
  interval_cases a <;> interval_cases b <;>
    first
    | omega
    | (simp only [stencil_sum, Int.cast_neg, Int.cast_one, Int.cast_ofNat, pow_zero, pow_one,
        Nat.cast_zero, Nat.cast_one, Nat.cast_ofNat, Nat.sub_self, Nat.zero_sub,
        Nat.reduceSub]
       field_simp
       ring)
    | (simp only [stencil_sum, Int.cast_neg, Int.cast_one, Int.cast_ofNat, pow_zero, pow_one,
        Nat.cast_zero, Nat.cast_one, Nat.cast_ofNat, Nat.sub_self, Nat.zero_sub,
        Nat.reduceSub]
       field_simp)

theorem stencil_sum_finset_sum {ι : Type} (s : Finset ι) (f : ι → ℤ → ℤ → real) :
    stencil_sum (fun i j => ∑ m in s, f m i j) = ∑ m in s, stencil_sum (f m) := by
  unfold stencil_sum
  simp only [Finset.sum_add_distrib, Finset.sum_sub_distrib, ← Finset.mul_sum]

theorem eval_monomial_two (m : Fin 2 →₀ ℕ) (c x y : ℚ) :
    MvPolynomial.eval ![x, y] (MvPolynomial.monomial m c) = c * x ^ m 0 * y ^ m 1 := by
  rw [MvPolynomial.eval_monomial, Finsupp.prod_fintype _ _ (fun _ => pow_zero _),
    Fin.prod_univ_two]
  simp only [Matrix.cons_val_zero, Matrix.cons_val_one, Matrix.head_cons]
  ring

theorem eval_pderiv_monomial_two (m : Fin 2 →₀ ℕ) (c x y : ℚ) :
    MvPolynomial.eval ![x, y]
        (MvPolynomial.pderiv 0 (MvPolynomial.pderiv 1 (MvPolynomial.monomial m c)))
      = c * m 0 * m 1 * x ^ (m 0 - 1) * y ^ (m 1 - 1) := by
  rw [MvPolynomial.pderiv_monomial, MvPolynomial.pderiv_monomial, eval_monomial_two]
  simp only [Finsupp.coe_tsub, Pi.sub_apply, Finsupp.single_apply]
  simp only [Fin.isValue, one_ne_zero, zero_ne_one, if_true, if_false, tsub_zero]
  ring

theorem degree_two (m : Fin 2 →₀ ℕ) : (m.sum fun _ e => e) = m 0 + m 1 := by
  rw [Finsupp.sum_fintype _ _ (fun _ => rfl), Fin.sum_univ_two]

/-- C30: the 16-point stencil of the sensitivity test is exact in rational arithmetic on every
bivariate polynomial `P` of total degree at most 5: applied to the samples
`P(x0 + i*h, y0 + j*h)`, stored at the index `(i+2)*5 + (j+2)`, it returns the mixed second
derivative `d2P/dxdy` at `(x0, y0)`, for every `h != 0`. -/
theorem fd_stencil_exact (P : MvPolynomial (Fin 2) ℚ) (hdeg : P.totalDegree ≤ 5)
    (x0 y0 h : real) (hh : h ≠ 0) :
    fd_entry (perturbed_dual_dot_residual (fun x y => MvPolynomial.eval ![x, y] P) x0 y0 h) h
      = MvPolynomial.eval ![x0, y0] (MvPolynomial.pderiv 0 (MvPolynomial.pderiv 1 P)) := by
  rw [fd_entry_eq_stencil_sum]
  have hP := MvPolynomial.support_sum_monomial_coeff P
  have hev : ∀ x y : ℚ, MvPolynomial.eval ![x, y] P
      = ∑ m in P.support,
          MvPolynomial.eval ![x, y] (MvPolynomial.monomial m (MvPolynomial.coeff m P)) := by
    intro x y
    conv_lhs => rw [← hP]
    rw [map_sum]
  have hder : MvPolynomial.eval ![x0, y0] (MvPolynomial.pderiv 0 (MvPolynomial.pderiv 1 P))
      = ∑ m in P.support,
          MvPolynomial.eval ![x0, y0] (MvPolynomial.pderiv 0 (MvPolynomial.pderiv 1
            (MvPolynomial.monomial m (MvPolynomial.coeff m P)))) := by
    conv_lhs => rw [← hP]
    rw [map_sum, map_sum, map_sum]
  rw [hder]
  simp only [hev]
  rw [stencil_sum_finset_sum, Finset.sum_div]
  apply Finset.sum_congr rfl
  intro m hm
  have hm5 : m 0 + m 1 ≤ 5 := by
    rw [← degree_two]
    exact (MvPolynomial.le_totalDegree hm).trans hdeg
  rw [eval_pderiv_monomial_two]
  simp only [eval_monomial_two]
  exact stencil_sum_monomial (m 0) (m 1) hm5 (MvPolynomial.coeff m P) x0 y0 h hh

theorem example_polynomial_degree :
    (MvPolynomial.X 0 ^ 2 * MvPolynomial.X 1 ^ 3 : MvPolynomial (Fin 2) ℚ).totalDegree ≤ 5 :=
  (MvPolynomial.totalDegree_mul _ _).trans
    (add_le_add
      ((MvPolynomial.totalDegree_pow _ _).trans (by rw [MvPolynomial.totalDegree_X]))
      ((MvPolynomial.totalDegree_pow _ _).trans (by rw [MvPolynomial.totalDegree_X])))

theorem example_polynomial_fd_value :
    fd_entry (perturbed_dual_dot_residual
        (fun x y => MvPolynomial.eval ![x, y]
          (MvPolynomial.X 0 ^ 2 * MvPolynomial.X 1 ^ 3 : MvPolynomial (Fin 2) ℚ))
        1 2 (1 / 10)) (1 / 10) = 24 := by
  rw [fd_entry_eq_stencil_sum]
  simp only [stencil_sum, map_mul, map_pow, MvPolynomial.eval_X, Matrix.cons_val_zero,
    Matrix.cons_val_one, Matrix.head_cons]
  norm_num

/-- The stencil on the polynomial `x^2 * y^3`, of total degree 5, at `(x0, y0) = (1, 2)` with
`h = 1/10`: it returns `d2/dxdy (x^2 y^3) = 6 x y^2 = 24`. -/
theorem fd_stencil_exact_witness :
    (MvPolynomial.X 0 ^ 2 * MvPolynomial.X 1 ^ 3 : MvPolynomial (Fin 2) ℚ).totalDegree ≤ 5
      ∧ (1 / 10 : real) ≠ 0
      ∧ fd_entry (perturbed_dual_dot_residual
          (fun x y => MvPolynomial.eval ![x, y]
            (MvPolynomial.X 0 ^ 2 * MvPolynomial.X 1 ^ 3 : MvPolynomial (Fin 2) ℚ))
          1 2 (1 / 10)) (1 / 10)
        = MvPolynomial.eval ![1, 2] (MvPolynomial.pderiv 0 (MvPolynomial.pderiv 1
            (MvPolynomial.X 0 ^ 2 * MvPolynomial.X 1 ^ 3 : MvPolynomial (Fin 2) ℚ)))
      ∧ fd_entry (perturbed_dual_dot_residual
          (fun x y => MvPolynomial.eval ![x, y]
            (MvPolynomial.X 0 ^ 2 * MvPolynomial.X 1 ^ 3 : MvPolynomial (Fin 2) ℚ))
          1 2 (1 / 10)) (1 / 10) = 24 :=
  ⟨example_polynomial_degree, by norm_num,
    fd_stencil_exact _ example_polynomial_degree 1 2 (1 / 10) (by norm_num),
    example_polynomial_fd_value⟩

/-! ## C1: the numerical fluxes in the two residuals of an interior face -/

/-- On a face whose two elements give every exterior test index the same state component, the
numerical fluxes enter the two residuals with opposite sign: the interior entry receives
`-phi_int(q) * (F*[q][s] + sigma*[q][s]) * JxW[q]`, the exterior entry
`+phi_ext(q) * (F*[q][s] + sigma*[q][s]) * JxW[q]`, and for test functions of the same
component and the same value at `q` the one is the negation of the other. -/
theorem face_numerical_flux_same_element (dg : DGStrong) (fe_values_int fe_values_ext : FEValues)
    (penalty : real) (dof_indices_int dof_indices_ext : List ℕ)
    (local_rhs_int_cell local_rhs_ext_cell : RealVector)
    (hok : face_checks_pass dg fe_values_int fe_values_ext dof_indices_int dof_indices_ext)
    (hfe : ∀ j, j < fe_values_ext.dofs_per_cell →
      fe_values_int.system_to_component_index j = fe_values_ext.system_to_component_index j) :
    ∃ out, assemble_face_term_implicit dg fe_values_int fe_values_ext penalty dof_indices_int
        dof_indices_ext local_rhs_int_cell local_rhs_ext_cell = .ok out
      ∧ (∀ i, i < fe_values_int.dofs_per_cell →
          out.local_rhs_int_cell i = local_rhs_int_cell i
            + (∑ q in Finset.range fe_values_ext.n_quadrature_points,
                (face_num_flux_term_int dg fe_values_int fe_values_ext penalty dof_indices_int
                    dof_indices_ext i q
                  + face_physical_term_int dg fe_values_int fe_values_ext penalty
                    dof_indices_int dof_indices_ext i q)).val)
      ∧ (∀ j, j < fe_values_ext.dofs_per_cell →
          out.local_rhs_ext_cell j = local_rhs_ext_cell j
            + (∑ q in Finset.range fe_values_ext.n_quadrature_points,
                (face_num_flux_claim_term_ext dg fe_values_int fe_values_ext penalty
                    dof_indices_int dof_indices_ext j q
                  + face_physical_term_ext dg fe_values_int fe_values_ext penalty
                    dof_indices_int dof_indices_ext j q)).val)
      ∧ ∀ i j q,
          fe_values_int.system_to_component_index i = fe_values_ext.system_to_component_index j →
          fe_values_int.shape_value_component i q (fe_values_int.system_to_component_index i)
            = fe_values_ext.shape_value_component j q
                (fe_values_ext.system_to_component_index j) →
          face_num_flux_term_int dg fe_values_int fe_values_ext penalty dof_indices_int
              dof_indices_ext i q
            = -face_num_flux_claim_term_ext dg fe_values_int fe_values_ext penalty
              dof_indices_int dof_indices_ext j q := by
  refine ⟨_, assemble_face_eq_loops dg fe_values_int fe_values_ext penalty dof_indices_int
    dof_indices_ext local_rhs_int_cell local_rhs_ext_cell hok, ?_, ?_, ?_⟩
  · intro i hi
    rw [face_loops_int, if_pos hi, face_rhs_int_eq_terms]
  · intro j hj
    rw [face_loops_ext, if_pos hj, face_rhs_ext_eq_terms]
    have hterm : ∀ q, face_num_flux_term_ext dg fe_values_int fe_values_ext penalty
          dof_indices_int dof_indices_ext j q
        = face_num_flux_claim_term_ext dg fe_values_int fe_values_ext penalty
          dof_indices_int dof_indices_ext j q := by
      intro q
      unfold face_num_flux_term_ext face_num_flux_claim_term_ext
      rw [hfe j hj]
    simp only [hterm]
  · intro i j q hs hphi
    unfold face_num_flux_term_int face_num_flux_claim_term_ext
    simp only []
    rw [hphi, hs]
    ring

theorem example_system_flux_terms :
    (face_num_flux_sum example_dg_two_states example_fe_face_system
        example_fe_face_ext_system_p0 2 [0, 1, 2, 3] [4, 5] 0 1).val = 1
    ∧ (face_num_flux_term_int example_dg_two_states example_fe_face_system
        example_fe_face_ext_system_p0 2 [0, 1, 2, 3] [4, 5] 3 0).val = -1
    ∧ (face_num_flux_claim_term_ext example_dg_two_states example_fe_face_system
        example_fe_face_ext_system_p0 2 [0, 1, 2, 3] [4, 5] 1 0).val = 1
    ∧ (face_num_flux_term_ext example_dg_two_states example_fe_face_system
        example_fe_face_ext_system_p0 2 [0, 1, 2, 3] [4, 5] 1 0).val = 0 := by
  refine ⟨?_, ?_, ?_, ?_⟩
  · simp [face_num_flux_sum, face_quad_values, example_fe_face_system,
      example_fe_face_ext_system_p0, example_dg_two_states, example_dg, example_conv_num_flux,
      example_diss_num_flux, interpolate_soln_eq_sum, Finset.sum_range_succ, seed_soln_coeff,
      tensorOfReal, ADtype.val_sum]
    norm_num
  · simp [face_num_flux_term_int, face_num_flux_sum, face_quad_values, example_fe_face_system,
      example_fe_face_ext_system_p0, example_dg_two_states, example_dg, example_conv_num_flux,
      example_diss_num_flux, interpolate_soln_eq_sum, Finset.sum_range_succ, seed_soln_coeff,
      tensorOfReal, ADtype.val_sum]
    norm_num
  · simp [face_num_flux_claim_term_ext, face_num_flux_sum, face_quad_values,
      example_fe_face_system, example_fe_face_ext_system_p0, example_dg_two_states, example_dg,
      example_conv_num_flux, example_diss_num_flux, interpolate_soln_eq_sum,
      Finset.sum_range_succ, seed_soln_coeff, tensorOfReal, ADtype.val_sum]
    norm_num
  · simp [face_num_flux_term_ext, example_fe_face_system, example_fe_face_ext_system_p0]

theorem example_system_face_entries :
    (face_rhs_int example_dg_two_states example_fe_face_system example_fe_face_ext_system_p0 2
        [0, 1, 2, 3] [4, 5] 3).val = 2
    ∧ (face_rhs_ext example_dg_two_states example_fe_face_system
        example_fe_face_ext_system_p0 2 [0, 1, 2, 3] [4, 5] 0).val = -(15 / 2) := by
  constructor
  · rw [face_rhs_int_eq_terms]
    simp [face_num_flux_term_int, face_physical_term_int, face_num_flux_sum, face_quad_values,
      example_fe_face_system, example_fe_face_ext_system_p0, example_dg_two_states, example_dg,
      example_physics, example_conv_num_flux, example_diss_num_flux, interpolate_soln_eq_sum,
      interpolate_grad_eq_sum, dotAR_eq_sum, dotRA_eq_sum, Finset.sum_range_succ,
      seed_soln_coeff, tensorOfReal, diss_soln_jump, forLoop, List.range_succ, scaleT,
      ADtype.val_sum]
    norm_num
  · rw [face_rhs_ext_eq_terms]
    simp [face_num_flux_term_ext, face_physical_term_ext, face_num_flux_sum, face_quad_values,
      example_fe_face_system, example_fe_face_ext_system_p0, example_dg_two_states, example_dg,
      example_physics, example_conv_num_flux, example_diss_num_flux, interpolate_soln_eq_sum,
      interpolate_grad_eq_sum, dotAR_eq_sum, dotRA_eq_sum, Finset.sum_range_succ,
      seed_soln_coeff, tensorOfReal, diss_soln_jump, forLoop, List.range_succ, scaleT,
      ADtype.val_sum]
    norm_num

/-- C1: the numerical fluxes do not enter the two residuals with opposite sign when the two
cells of the face carry different elements, because the exterior test loop takes the state
component from the interior element (line 508). On the face between a two-component degree-1
interior cell and a two-component degree-0 exterior cell, interior test function `3` and
exterior test function `1` both belong to component `1` and both have the value `1` at the
quadrature point, where `F* + sigma* = 1` for component `1`: the interior entry receives the
numerical-flux term `-1`, the exterior entry should receive `+1`, and the term the code forms
for it is `0`; the call returns, with the exterior residual `(-15/2, 0)`. -/
theorem face_numerical_flux_lost_on_exterior :
    example_fe_face_system.system_to_component_index 3 = 1
    ∧ example_fe_face_ext_system_p0.system_to_component_index 1 = 1
    ∧ example_fe_face_system.shape_value_component 3 0 1 = 1
    ∧ example_fe_face_ext_system_p0.shape_value_component 1 0 1 = 1
    ∧ (face_num_flux_sum example_dg_two_states example_fe_face_system
        example_fe_face_ext_system_p0 2 [0, 1, 2, 3] [4, 5] 0 1).val = 1
    ∧ (face_num_flux_term_int example_dg_two_states example_fe_face_system
        example_fe_face_ext_system_p0 2 [0, 1, 2, 3] [4, 5] 3 0).val = -1
    ∧ (face_num_flux_claim_term_ext example_dg_two_states example_fe_face_system
        example_fe_face_ext_system_p0 2 [0, 1, 2, 3] [4, 5] 1 0).val = 1
    ∧ (face_num_flux_term_ext example_dg_two_states example_fe_face_system
        example_fe_face_ext_system_p0 2 [0, 1, 2, 3] [4, 5] 1 0).val = 0
    ∧ ∃ out, assemble_face_term_implicit example_dg_two_states example_fe_face_system
          example_fe_face_ext_system_p0 2 [0, 1, 2, 3] [4, 5] (fun _ => 0) (fun _ => 0) = .ok out
        ∧ out.local_rhs_int_cell 3 = 2
        ∧ out.local_rhs_ext_cell 0 = -(15 / 2)
        ∧ out.local_rhs_ext_cell 1 = 0 := by
  refine ⟨rfl, rfl, by simp [example_fe_face_system],
    by simp [example_fe_face_ext_system_p0], example_system_flux_terms.1,
    example_system_flux_terms.2.1, example_system_flux_terms.2.2.1,
    example_system_flux_terms.2.2.2, _,
    assemble_face_eq_loops _ _ _ _ _ _ _ _ example_system_face_checks_pass, ?_, ?_, ?_⟩
  · rw [face_loops_int, if_pos (show 3 < example_fe_face_system.dofs_per_cell by decide),
      example_system_face_entries.1]
    norm_num
  · rw [face_loops_ext,
      if_pos (show 0 < example_fe_face_ext_system_p0.dofs_per_cell by decide),
      example_system_face_entries.2]
    norm_num
  · rw [face_loops_ext,
      if_pos (show 1 < example_fe_face_ext_system_p0.dofs_per_cell by decide),
      example_system_face_values.1]
    norm_num

end PHiLiP
